import Mathlib

/-!
GAMP II - GOOD (Gnss Observations and prOducts Downloader): FtpUtil.cpp

A shallow embedding of the retrieval procedures of `src/GOOD_src/FtpUtil.cpp`.

Conventions of the embedding.

* The process environment (file system, current directory, the external tools run
  through `std::system`) is an abstract world `W` with the operations of `Env W`.
  Nothing is assumed about what a command does to the world: every theorem that does
  not say otherwise holds for every behaviour of the transfer agent, the decompression
  utility, the converter and the shell.
* Every procedure is a state transformer on `St W`: the world together with the trace
  of observable effects (`Event`) in program order.
* The `#else` (Linux or Mac) branch of every `#ifdef _WIN32` is the one embedded, so the
  path separator `FILEPATHSEP` is `/`, renaming is `mv` and directory creation is
  `mkdir -p`.
* A `String` stands for the C string with its UTF-8 bytes: `strcmp(a, b) == 0` is string
  equality and `strlen` counts bytes (`strlen` below), not characters.
* The epoch fields that `TimeUtil`/`StringUtil` (not part of the sources at hand) derive
  from the time stamp are passed in already formatted, as an `EpochStr`.
-/

namespace GOOD

/-! ## Constants (lines 35-51) -/

def IDX_OBSD : Nat := 0
def IDX_OBSH : Nat := 1
def IDX_OBSHR : Nat := 2
def IDX_OBMD : Nat := 3
def IDX_OBMH : Nat := 4
def IDX_OBMHR : Nat := 5
def IDX_NAV : Nat := 6
def IDX_SP3 : Nat := 7
def IDX_CLK : Nat := 8
def IDX_EOP : Nat := 9
def IDX_SNX : Nat := 10
def IDX_SP3M : Nat := 11
def IDX_CLKM : Nat := 12
def IDX_DCBM : Nat := 13
def IDX_ION : Nat := 14
def IDX_ROTI : Nat := 15
def IDX_ZTD : Nat := 16

/-! ## Data model -/

/-- The member `_ftpArchive`: one vector of base URLs per archive. -/
structure FtpArchive where
  CDDIS : List String
  IGN : List String
  WHU : List String
deriving DecidableEq, Repr

/-- The fields of `ftpopt_t` read by the procedures embedded here. -/
structure ftpopt_t where
  ftpFrom : String
  getObs : Bool
  obsTyp : String
  obsOpt : String
  hhObs : List Nat
  getObm : Bool
  obmTyp : String
  obmOpt : String
  hhObm : List Nat
  getNav : Bool
  navTyp : String
  navOpt : String
  hhNav : List Nat
  getOrbClk : Bool
  orbClkOpt : String
  hhOrbClk : List Nat
  getEop : Bool
  eopOpt : String
  hhEop : List Nat
  getSnx : Bool
  getDcb : Bool
  getIon : Bool
  ionOpt : String
  getRoti : Bool
  getTrp : Bool
  trpOpt : String
  minusAdd1day : Bool
  wgetFull : String
  gzipFull : String
  crx2rnxFull : String
  qr : String
deriving DecidableEq, Repr

/-- The strings the procedures derive from the time stamp `ts` through `TimeUtil`
(`time2yrdoy`, `yyyy2yy`, `time2gpst`, `time2ymdhms`) and `StringUtil` (`yyyy2str`,
`yy2str`, `doy2str`, `wwww2str`, `mm2str`) and `to_string(dow)`. -/
structure EpochStr where
  sYyyy : String
  sYy : String
  sDoy : String
  sWwww : String
  sDow : String
  sMm : String
deriving DecidableEq, Repr

/-- A command line handed to `std::system`, tagged by the tool it starts. -/
inductive Cmd where
  | mkdir (dir : String)
  | wget (pattern : String) (cutDirs : String) (url : String)
  | wgetUrl (cutDirs : String) (url : String)
  | gzip (file : String)
  | gzip2 (file : String)
  | crx2rnx (dFile : String) (oFile : String)
  | mv (src : String) (dst : String)
  | rmrf (path : String)
deriving DecidableEq, Repr

/-- The exact string passed to `std::system` for a command. -/
def Cmd.render (fopt : ftpopt_t) : Cmd → String
  | Cmd.mkdir dir => "mkdir -p " ++ dir
  | Cmd.wget pattern cutDirs url =>
      fopt.wgetFull ++ " " ++ fopt.qr ++ " -nH -A " ++ pattern ++ cutDirs ++ url
  | Cmd.wgetUrl cutDirs url => fopt.wgetFull ++ " " ++ fopt.qr ++ " -nH" ++ cutDirs ++ url
  | Cmd.gzip file => fopt.gzipFull ++ " -d -f " ++ file
  | Cmd.gzip2 file => fopt.gzipFull ++ "  -d -f " ++ file
  | Cmd.crx2rnx dFile oFile => "cat " ++ dFile ++ " | " ++ fopt.crx2rnxFull ++ " -f - > " ++ oFile
  | Cmd.mv src dst => "mv" ++ " " ++ src ++ " " ++ dst
  | Cmd.rmrf path => "rm -rf " ++ path

/-- Observable effects, in program order. -/
inductive Event where
  | sys (c : Cmd)
  | out (line : String)
  | err (line : String)
  | rm (path : String)
  | cd (dir : String)
deriving DecidableEq, Repr

/-- The environment of the process. `access w p` is `access(p, 0) == 0`; `system`
is `std::system` on the rendered command line; `remove` and `chdir` are the C library
calls; `openLines w p` is `ifstream(p)` followed by `getline` until end of file
(`none` when `is_open()` fails); `getFilesAll` is `StringUtil::GetFilesAll`. -/
structure Env (W : Type) where
  access : W → String → Bool
  system : String → W → W
  remove : String → W → W
  chdir : String → W → W
  openLines : W → String → Option (List String)
  getFilesAll : W → String → String → List String

/-- World and trace. -/
structure St (W : Type) where
  world : W
  trace : List Event

variable {W : Type}

/-- The call `std::system(cmd.c_str())`. -/
def sysCmd (E : Env W) (fopt : ftpopt_t) (c : Cmd) (s : St W) : St W :=
  ⟨E.system (c.render fopt) s.world, s.trace ++ [Event.sys c]⟩

/-- The statement `cout << line << endl`. -/
def say (line : String) (s : St W) : St W :=
  ⟨s.world, s.trace ++ [Event.out line]⟩

/-- The statement `cerr << line << endl`. -/
def sayErr (line : String) (s : St W) : St W :=
  ⟨s.world, s.trace ++ [Event.err line]⟩

/-- The call `remove(path)`. -/
def removeFile (E : Env W) (path : String) (s : St W) : St W :=
  ⟨E.remove path s.world, s.trace ++ [Event.rm path]⟩

/-- The call `chdir(dir)`. -/
def chdir (E : Env W) (dir : String) (s : St W) : St W :=
  ⟨E.chdir dir s.world, s.trace ++ [Event.cd dir]⟩

/-- The test `access(p, 0) == 0` in state `s`. -/
def fileExists (E : Env W) (s : St W) (p : String) : Bool :=
  E.access s.world p

/-- The C library function `strlen` on a string of the program: the number of bytes of
its UTF-8 encoding. A character outside ASCII counts for two to four bytes, so the
result can exceed the number of characters. -/
def strlen (s : String) : Nat :=
  s.utf8ByteSize

/-- Modelled from the spec: `StringUtil::ToLower` is not part of the sources at hand;
it lower-cases every character (`tolower` in the C locale: only `A`..`Z` change). -/
def ToLower (s : String) : String :=
  String.mk (s.data.map Char.toLower)

/-- Modelled from the spec: `StringUtil::ToUpper` is not part of the sources at hand;
it upper-cases every character (`toupper` in the C locale: only `a`..`z` change). -/
def ToUpper (s : String) : String :=
  String.mk (s.data.map Char.toUpper)

/-- Modelled from the spec: `StringUtil::hh2str` is not part of the sources at hand;
the two-digit, zero-padded hour used in directory names and long file names. -/
def hh2str (hh : Nat) : String :=
  String.mk [Char.ofNat (48 + hh / 10 % 10), Char.ofNat (48 + hh % 10)]

/-- The hour letter, lines 485-489 (and the seven other places with the same three
statements): `int ii = hh + 97; char ch = ii; sch.push_back(ch);`. The conversion to
`char` keeps the low eight bits. -/
def hourLetter (hh : Nat) : String :=
  String.mk [Char.ofNat ((hh + 97) % 256)]

/-! ## `FtpUtil::init` (lines 63-121) -/

/-- The seventeen `push_back` calls on each of the three archive vectors. -/
def init (a : FtpArchive) : FtpArchive :=
  { CDDIS := a.CDDIS ++
      [ "ftps://gdc.cddis.eosdis.nasa.gov/pub/gnss/data/daily",
        "ftps://gdc.cddis.eosdis.nasa.gov/pub/gnss/data/hourly",
        "ftps://gdc.cddis.eosdis.nasa.gov/pub/gnss/data/highrate",
        "ftps://gdc.cddis.eosdis.nasa.gov/pub/gnss/data/daily",
        "ftps://gdc.cddis.eosdis.nasa.gov/pub/gnss/data/hourly",
        "ftps://gdc.cddis.eosdis.nasa.gov/pub/gnss/data/highrate",
        "ftps://gdc.cddis.eosdis.nasa.gov/pub/gnss/data/daily",
        "ftps://gdc.cddis.eosdis.nasa.gov/pub/gnss/products",
        "ftps://gdc.cddis.eosdis.nasa.gov/pub/gnss/products",
        "ftps://gdc.cddis.eosdis.nasa.gov/pub/gnss/products",
        "ftps://gdc.cddis.eosdis.nasa.gov/pub/gnss/products",
        "ftps://gdc.cddis.eosdis.nasa.gov/pub/gnss/products/mgex",
        "ftps://gdc.cddis.eosdis.nasa.gov/pub/gnss/products/mgex",
        "ftps://gdc.cddis.eosdis.nasa.gov/pub/gnss/products/bias",
        "ftps://gdc.cddis.eosdis.nasa.gov/pub/gnss/products/ionex",
        "ftps://gdc.cddis.eosdis.nasa.gov/pub/gnss/products/ionex",
        "ftps://gdc.cddis.eosdis.nasa.gov/pub/gnss/products/troposphere/zpd" ],
    IGN := a.IGN ++
      [ "ftp://igs.ign.fr/pub/igs/data",
        "ftp://igs.ign.fr/pub/igs/data/hourly",
        "ftp://igs.ign.fr/pub/igs/data/highrate",
        "ftp://igs.ign.fr/pub/igs/data",
        "ftp://igs.ign.fr/pub/igs/data/hourly",
        "ftp://igs.ign.fr/pub/igs/data/highrate",
        "ftp://igs.ign.fr/pub/igs/data",
        "ftp://igs.ign.fr/pub/igs/products",
        "ftp://igs.ign.fr/pub/igs/products",
        "ftp://igs.ign.fr/pub/igs/products",
        "ftp://igs.ign.fr/pub/igs/products",
        "ftp://igs.ign.fr/pub/igs/products/mgex",
        "ftp://igs.ign.fr/pub/igs/products/mgex",
        "ftp://igs.ign.fr/pub/igs/products/mgex/dcb",
        "ftp://igs.ign.fr/pub/igs/products/ionosphere",
        "ftp://igs.ign.fr/pub/igs/products/ionosphere",
        "ftp://igs.ign.fr/pub/igs/products/troposphere" ],
    WHU := a.WHU ++
      [ "ftp://igs.gnsswhu.cn/pub/gps/data/daily",
        "ftp://igs.gnsswhu.cn/pub/gps/data/hourly",
        "ftp://igs.gnsswhu.cn/pub/gps/data",
        "ftp://igs.gnsswhu.cn/pub/gps/data/daily",
        "ftp://igs.gnsswhu.cn/pub/gps/data/hourly",
        "ftp://igs.gnsswhu.cn/pub/gps/data",
        "ftp://igs.gnsswhu.cn/pub/gps/data/daily",
        "ftp://igs.gnsswhu.cn/pub/gps/products",
        "ftp://igs.gnsswhu.cn/pub/gps/products",
        "ftp://igs.gnsswhu.cn/pub/gps/products",
        "ftp://igs.gnsswhu.cn/pub/gps/products",
        "ftp://igs.gnsswhu.cn/pub/gps/products/mgex",
        "ftp://igs.gnsswhu.cn/pub/gps/products/mgex",
        "ftp://igs.gnsswhu.cn/pub/gps/products/mgex/dcb",
        "ftp://igs.gnsswhu.cn/pub/gps/products/ionex",
        "ftp://igs.gnsswhu.cn/pub/gps/products/ionex",
        "ftp://igs.gnsswhu.cn/pub/gps/products/troposphere/new" ] }

/-- The member `_ftpArchive` of a fresh `FtpUtil` after `init()`. -/
def ftpArchive0 : FtpArchive :=
  init ⟨[], [], []⟩

/-- The element access `v[i]` on an archive vector. -/
def at_ (v : List String) (i : Nat) : String :=
  v.getD i ""

/-- The sub-directory creation that opens every observation procedure (for example lines
134-148): `sprintf(tmpDir, "%s%c%s", dir, sep, name)` and `mkdir -p` when absent. The
result is the pair of the sub-directory name and the new state. -/
def makeSubDir (E : Env W) (fopt : ftpopt_t) (dir : String) (name : String) (s : St W) :
    String × St W :=
  let subDir := dir ++ "/" ++ name
  if fileExists E s subDir = false then (subDir, sysCmd E fopt (Cmd.mkdir subDir) s)
  else (subDir, s)

/-! ## `FtpUtil::GetDailyObsIgs` (lines 132-311) -/

/-- Lines 283: the failure line. -/
def GetDailyObsIgs_failed (oFile : String) : String :=
  "*** WARNING(FtpUtil::GetDailyObsIgs): failed to download IGS daily observation file " ++ oFile

/-- Line 297: the success line. -/
def GetDailyObsIgs_success (oFile : String) : String :=
  "*** INFO(FtpUtil::GetDailyObsIgs): successfully download IGS daily observation file " ++ oFile

/-- Lines 303-304: the line for a unit that is already there. -/
def GetDailyObsIgs_existed (oFile dFile : String) : String :=
  "*** INFO(FtpUtil::GetDailyObsIgs): IGS daily observation file " ++ oFile ++ " or " ++ dFile ++
    " has existed!"

/-- The canonical local name of a unit of `GetDailyObsIgs`, line 247 (after the
`ToLower` of line 246). -/
def GetDailyObsIgs_oFile (ep : EpochStr) (sitName : String) : String :=
  ToLower sitName ++ ep.sDoy ++ "0." ++ ep.sYy ++ "o"

/-- The compact intermediate of a unit of `GetDailyObsIgs`, line 248. -/
def GetDailyObsIgs_dFile (ep : EpochStr) (sitName : String) : String :=
  ToLower sitName ++ ep.sDoy ++ "0." ++ ep.sYy ++ "d"

/-- Lines 251-261: URL and `--cut-dirs` option of the site-list mode. -/
def GetDailyObsIgs_url (ar : FtpArchive) (ep : EpochStr) (ftpName : String) : String × String :=
  if ftpName = "CDDIS" then
    (at_ ar.CDDIS IDX_OBSD ++ "/" ++ ep.sYyyy ++ "/" ++ ep.sDoy ++ "/" ++ ep.sYy ++ "d",
      " --cut-dirs=7 ")
  else if ftpName = "IGN" then
    (at_ ar.IGN IDX_OBSD ++ "/" ++ ep.sYyyy ++ "/" ++ ep.sDoy, " --cut-dirs=5 ")
  else if ftpName = "WHU" then
    (at_ ar.WHU IDX_OBSD ++ "/" ++ ep.sYyyy ++ "/" ++ ep.sDoy ++ "/" ++ ep.sYy ++ "d",
      " --cut-dirs=7 ")
  else
    (at_ ar.CDDIS IDX_OBSD ++ "/" ++ ep.sYyyy ++ "/" ++ ep.sDoy ++ "/" ++ ep.sYy ++ "d",
      " --cut-dirs=7 ")

/-- One iteration of the `while (getline(sitLst, sitName))` loop, lines 245-305. -/
def GetDailyObsIgs_unit (E : Env W) (ar : FtpArchive) (ep : EpochStr) (fopt : ftpopt_t)
    (ftpName : String) (sitName : String) (s : St W) : St W :=
  let sitName := ToLower sitName
  let oFile := sitName ++ ep.sDoy ++ "0." ++ ep.sYy ++ "o"
  let dFile := sitName ++ ep.sDoy ++ "0." ++ ep.sYy ++ "d"
  if fileExists E s oFile = false ∧ fileExists E s dFile = false then
    let uc := GetDailyObsIgs_url ar ep ftpName
    let dxFile := dFile ++ ".*"
    let s := sysCmd E fopt (Cmd.wget dxFile uc.2 uc.1) s
    let dgzFile := dFile ++ ".gz"
    let dzFile := dFile ++ ".Z"
    let s :=
      if fileExists E s dgzFile then sysCmd E fopt (Cmd.gzip dgzFile) s
      else if fileExists E s dzFile then sysCmd E fopt (Cmd.gzip dzFile) s
      else s
    if fileExists E s dFile = false then
      say (GetDailyObsIgs_failed oFile) s
    else
      let s := sysCmd E fopt (Cmd.crx2rnx dFile oFile) s
      if fileExists E s oFile then
        removeFile E dFile (say (GetDailyObsIgs_success oFile) s)
      else s
  else say (GetDailyObsIgs_existed oFile dFile) s

/-- Modelled from the spec: `StringUtil::StrMid(dst, src, pos, n)` is not part of the
sources at hand; it copies the `n` characters of `src` that start at `pos`. -/
def StrMid (src : String) (pos n : Nat) : String :=
  String.mk ((src.data.drop pos).take n)

/-- One iteration of the loop over the fetched files in all-stations mode, lines
199-226. -/
def GetDailyObsIgs_allFile (E : Env W) (ep : EpochStr) (fopt : ftpopt_t) (f : String)
    (s : St W) : St W :=
  if fileExists E s f then
    let s := sysCmd E fopt (Cmd.gzip f) s
    let site := ToLower (StrMid f 0 4)
    let dFile := site ++ ep.sDoy ++ "0." ++ ep.sYy ++ "d"
    if fileExists E s dFile = false then s
    else
      let oFile := site ++ ep.sDoy ++ "0." ++ ep.sYy ++ "o"
      let s := sysCmd E fopt (Cmd.crx2rnx dFile oFile) s
      sysCmd E fopt (Cmd.rmrf dFile) s
  else s

/-- The procedure `GetDailyObsIgs(ts, dir, fopt)`. -/
def GetDailyObsIgs (E : Env W) (ar : FtpArchive) (ep : EpochStr) (dir : String)
    (fopt : ftpopt_t) (s : St W) : St W :=
  let ds := makeSubDir E fopt dir "daily" s
  let subDir := ds.1
  let s := chdir E subDir ds.2
  let ftpName := ToUpper fopt.ftpFrom
  if strlen fopt.obsOpt < 9 then
    let uc : String × String :=
      if ftpName = "CDDIS" then
        (at_ ar.CDDIS IDX_OBSD ++ "/" ++ ep.sYyyy ++ "/" ++ ep.sDoy ++ "/" ++ ep.sYy ++ "d",
          " --cut-dirs=7 ")
      else if ftpName = "IGN" then
        (at_ ar.IGN IDX_OBSD ++ "/" ++ ep.sYyyy ++ "/" ++ ep.sDoy, " --cut-dirs=5 ")
      else if ftpName = "WHU" then
        (at_ ar.WHU IDX_OBSD ++ "/" ++ ep.sYyyy ++ "/" ++ ep.sDoy ++ "/" ++ ep.sYy ++ "d",
          " --cut-dirs=7 ")
      else
        (at_ ar.CDDIS IDX_OBSD ++ "/" ++ ep.sYyyy ++ "/" ++ ep.sDoy ++ "/" ++ ep.sYy ++ "d",
          " --cut-dirs=7 ")
    let dFile := "*" ++ ep.sDoy ++ "0." ++ ep.sYy ++ "d"
    let dxFile := dFile ++ ".*"
    let s := sysCmd E fopt (Cmd.wget dxFile uc.2 uc.1) s
    let suffix := "." ++ ep.sYy ++ "d"
    let dFiles := E.getFilesAll s.world subDir suffix
    dFiles.foldl (fun s f => GetDailyObsIgs_allFile E ep fopt f s) s
  else
    if fileExists E s fopt.obsOpt then
      match E.openLines s.world fopt.obsOpt with
      | none =>
          sayErr ("*** ERROR(FtpUtil::GetDailyObsIgs): open site.list = " ++ fopt.obsOpt ++
            " file failed, please check it") s
      | some sites =>
          sites.foldl (fun s sitName => GetDailyObsIgs_unit E ar ep fopt ftpName sitName s) s
    else s

/-- The hour sub-directory block that opens every hourly and high-rate iteration (for
example lines 462-483): `sprintf(tmpDir, "%s%c%s", subDir, sep, sHh)`, `mkdir -p` when
absent, then `chdir`. The result is the directory name and the new state. -/
def enterHourDir (E : Env W) (fopt : ftpopt_t) (subDir : String) (sHh : String) (s : St W) :
    String × St W :=
  let sHhDir := subDir ++ "/" ++ sHh
  let s := if fileExists E s sHhDir = false then sysCmd E fopt (Cmd.mkdir sHhDir) s else s
  (sHhDir, chdir E sHhDir s)

/-! ## `FtpUtil::GetHourlyObsIgs` (lines 322-556) -/

/-- Line 527: the failure line. -/
def GetHourlyObsIgs_failed (oFile : String) : String :=
  "*** WARNING(FtpUtil::GetHourlyObsIgs): failed to download IGS Hourly observation file " ++ oFile

/-- Line 541: the success line. -/
def GetHourlyObsIgs_success (oFile : String) : String :=
  "*** INFO(FtpUtil::GetHourlyObsIgs): successfully download IGS hourly observation file " ++ oFile

/-- Lines 547-548: the line for a unit that is already there. -/
def GetHourlyObsIgs_existed (oFile dFile : String) : String :=
  "*** INFO(FtpUtil::GetHourlyObsIgs): IGS hourly observation file " ++ oFile ++ " or " ++ dFile ++
    " has existed!"

/-- Lines 485-549: the part of one (site line, hour) iteration that follows the `chdir`
into the hour directory. `sitName` is the loop variable of the enclosing `getline` loop;
the result carries its new value. -/
def GetHourlyObsIgs_unit (E : Env W) (ar : FtpArchive) (ep : EpochStr) (fopt : ftpopt_t)
    (ftpName : String) (hh : Nat) (sitName : String) (s : St W) : String × St W :=
  let sHh := hh2str hh
  let sch := hourLetter hh
  let sitName := ToLower sitName
  let oFile := sitName ++ ep.sDoy ++ sch ++ "." ++ ep.sYy ++ "o"
  let dFile := sitName ++ ep.sDoy ++ sch ++ "." ++ ep.sYy ++ "d"
  if fileExists E s oFile = false ∧ fileExists E s dFile = false then
    let uc : String × String :=
      if ftpName = "CDDIS" then
        (at_ ar.CDDIS IDX_OBSH ++ "/" ++ ep.sYyyy ++ "/" ++ ep.sDoy ++ "/" ++ sHh, " --cut-dirs=7 ")
      else if ftpName = "IGN" then
        (at_ ar.IGN IDX_OBSH ++ "/" ++ ep.sYyyy ++ "/" ++ ep.sDoy, " --cut-dirs=6 ")
      else if ftpName = "WHU" then
        (at_ ar.WHU IDX_OBSH ++ "/" ++ ep.sYyyy ++ "/" ++ ep.sDoy ++ "/" ++ sHh, " --cut-dirs=7 ")
      else
        (at_ ar.CDDIS IDX_OBSH ++ "/" ++ ep.sYyyy ++ "/" ++ ep.sDoy ++ "/" ++ sHh, " --cut-dirs=7 ")
    let dxFile := dFile ++ ".*"
    let s := sysCmd E fopt (Cmd.wget dxFile uc.2 uc.1) s
    let dgzFile := dFile ++ ".gz"
    let dzFile := dFile ++ ".Z"
    let s :=
      if fileExists E s dgzFile then sysCmd E fopt (Cmd.gzip dgzFile) s
      else if fileExists E s dzFile then sysCmd E fopt (Cmd.gzip dzFile) s
      else s
    if fileExists E s dFile = false then
      (sitName, say (GetHourlyObsIgs_failed oFile) s)
    else
      let s := sysCmd E fopt (Cmd.crx2rnx dFile oFile) s
      if fileExists E s oFile then
        (sitName, removeFile E dFile (say (GetHourlyObsIgs_success oFile) s))
      else (sitName, s)
  else (sitName, say (GetHourlyObsIgs_existed oFile dFile) s)

/-- Lines 460-549: one (site line, hour) iteration of the site-list mode. -/
def GetHourlyObsIgs_iter (E : Env W) (ar : FtpArchive) (ep : EpochStr) (fopt : ftpopt_t)
    (ftpName subDir : String) (hh : Nat) (sitName : String) (s : St W) : String × St W :=
  let ds := enterHourDir E fopt subDir (hh2str hh) s
  GetHourlyObsIgs_unit E ar ep fopt ftpName hh sitName ds.2

/-- Lines 410-440: one iteration of the loop over the fetched files in all-stations mode. -/
def GetHourlyObsIgs_allFile (E : Env W) (ep : EpochStr) (fopt : ftpopt_t) (sch : String)
    (f : String) (s : St W) : St W :=
  if fileExists E s f then
    let s := sysCmd E fopt (Cmd.gzip f) s
    let site := ToLower (StrMid f 0 4)
    let dFile := site ++ ep.sDoy ++ sch ++ "." ++ ep.sYy ++ "d"
    if fileExists E s dFile = false then s
    else
      let oFile := site ++ ep.sDoy ++ sch ++ "." ++ ep.sYy ++ "o"
      let s := sysCmd E fopt (Cmd.crx2rnx dFile oFile) s
      sysCmd E fopt (Cmd.rmrf dFile) s
  else s

/-- Lines 357-441: one hour of the all-stations mode. -/
def GetHourlyObsIgs_allHour (E : Env W) (ar : FtpArchive) (ep : EpochStr) (fopt : ftpopt_t)
    (ftpName subDir : String) (hh : Nat) (s : St W) : St W :=
  let sHh := hh2str hh
  let ds := enterHourDir E fopt subDir sHh s
  let sHhDir := ds.1
  let s := ds.2
  let uc : String × String :=
    if ftpName = "CDDIS" then
      (at_ ar.CDDIS IDX_OBSH ++ "/" ++ ep.sYyyy ++ "/" ++ ep.sDoy ++ "/" ++ sHh, " --cut-dirs=7 ")
    else if ftpName = "IGN" then
      (at_ ar.IGN IDX_OBSH ++ "/" ++ ep.sYyyy ++ "/" ++ ep.sDoy, " --cut-dirs=6 ")
    else if ftpName = "WHU" then
      (at_ ar.WHU IDX_OBSH ++ "/" ++ ep.sYyyy ++ "/" ++ ep.sDoy ++ "/" ++ sHh, " --cut-dirs=7 ")
    else
      (at_ ar.CDDIS IDX_OBSH ++ "/" ++ ep.sYyyy ++ "/" ++ ep.sDoy ++ "/" ++ sHh, " --cut-dirs=7 ")
  let sch := hourLetter hh
  let dFile := "*" ++ ep.sDoy ++ sch ++ "." ++ ep.sYy ++ "d"
  let dxFile := dFile ++ ".*"
  let s := sysCmd E fopt (Cmd.wget dxFile uc.2 uc.1) s
  let suffix := "." ++ ep.sYy ++ "d"
  let dFiles := E.getFilesAll s.world sHhDir suffix
  dFiles.foldl (fun s f => GetHourlyObsIgs_allFile E ep fopt sch f s) s

/-- The procedure `GetHourlyObsIgs(ts, dir, fopt)`. -/
def GetHourlyObsIgs (E : Env W) (ar : FtpArchive) (ep : EpochStr) (dir : String)
    (fopt : ftpopt_t) (s : St W) : St W :=
  let ds := makeSubDir E fopt dir "hourly" s
  let subDir := ds.1
  let s := ds.2
  let ftpName := ToUpper fopt.ftpFrom
  if strlen fopt.obsOpt < 9 then
    fopt.hhObs.foldl (fun s hh => GetHourlyObsIgs_allHour E ar ep fopt ftpName subDir hh s) s
  else
    if fileExists E s fopt.obsOpt then
      match E.openLines s.world fopt.obsOpt with
      | none =>
          sayErr ("*** ERROR(FtpUtil::GetHourlyObsIgs): open site.list = " ++ fopt.obsOpt ++
            " file failed, please check it") s
      | some sites =>
          sites.foldl (fun s line =>
            (fopt.hhObs.foldl (fun (p : String × St W) hh =>
              GetHourlyObsIgs_iter E ar ep fopt ftpName subDir hh p.1 p.2) (line, s)).2) s
    else s

/-! ## `FtpUtil::GetHrObsIgs` (lines 567-806) -/

/-- Line 776: the failure line. -/
def GetHrObsIgs_failed (oFile : String) : String :=
  "*** WARNING(FtpUtil::GetHrObsIgs): failed to download IGS high-rate observation file " ++ oFile

/-- Line 790: the success line. -/
def GetHrObsIgs_success (oFile : String) : String :=
  "*** INFO(FtpUtil::GetHrObsIgs): successfully download IGS high-rate observation file " ++ oFile

/-- Lines 796-797: the line for a unit that is already there. -/
def GetHrObsIgs_existed (oFile dFile : String) : String :=
  "*** INFO(FtpUtil::GetHrObsIgs): IGS high-rate observation file " ++ oFile ++ " or " ++ dFile ++
    " has existed!"

/-- Lines 648, 738, 1355, 1445: `minuStr = { "00", "15", "30", "45" }`. -/
def minuStr : List String :=
  ["00", "15", "30", "45"]

/-- Lines 741-797: one quarter-hour iteration of the site-list mode. -/
def GetHrObsIgs_unit (E : Env W) (ar : FtpArchive) (ep : EpochStr) (fopt : ftpopt_t)
    (ftpName : String) (hh : Nat) (minu : String) (sitName : String) (s : St W) :
    String × St W :=
  let sHh := hh2str hh
  let sch := hourLetter hh
  let sitName := ToLower sitName
  let oFile := sitName ++ ep.sDoy ++ sch ++ minu ++ "." ++ ep.sYy ++ "o"
  let dFile := sitName ++ ep.sDoy ++ sch ++ minu ++ "." ++ ep.sYy ++ "d"
  if fileExists E s oFile = false ∧ fileExists E s dFile = false then
    let uc : String × String :=
      if ftpName = "CDDIS" then
        (at_ ar.CDDIS IDX_OBSHR ++ "/" ++ ep.sYyyy ++ "/" ++ ep.sDoy ++ "/" ++ ep.sYy ++ "d" ++ "/" ++
          sHh, " --cut-dirs=8 ")
      else if ftpName = "IGN" then
        (at_ ar.IGN IDX_OBSHR ++ "/" ++ ep.sYyyy ++ "/" ++ ep.sDoy, " --cut-dirs=6 ")
      else
        (at_ ar.CDDIS IDX_OBSHR ++ "/" ++ ep.sYyyy ++ "/" ++ ep.sDoy ++ "/" ++ ep.sYy ++ "d" ++ "/" ++
          sHh, " --cut-dirs=8 ")
    let dxFile := dFile ++ ".*"
    let s := sysCmd E fopt (Cmd.wget dxFile uc.2 uc.1) s
    let dgzFile := dFile ++ ".gz"
    let dzFile := dFile ++ ".Z"
    let s :=
      if fileExists E s dgzFile then sysCmd E fopt (Cmd.gzip dgzFile) s
      else if fileExists E s dzFile then sysCmd E fopt (Cmd.gzip dzFile) s
      else s
    if fileExists E s dFile = false then
      (sitName, say (GetHrObsIgs_failed oFile) s)
    else
      let s := sysCmd E fopt (Cmd.crx2rnx dFile oFile) s
      if fileExists E s oFile then
        (sitName, removeFile E dFile (say (GetHrObsIgs_success oFile) s))
      else (sitName, s)
  else (sitName, say (GetHrObsIgs_existed oFile dFile) s)

/-- Lines 707-799: one (site line, hour) iteration of the site-list mode: the hour
directory block, then the four quarter-hour units. -/
def GetHrObsIgs_iter (E : Env W) (ar : FtpArchive) (ep : EpochStr) (fopt : ftpopt_t)
    (ftpName subDir : String) (hh : Nat) (sitName : String) (s : St W) : String × St W :=
  let ds := enterHourDir E fopt subDir (hh2str hh) s
  minuStr.foldl (fun (p : String × St W) minu =>
    GetHrObsIgs_unit E ar ep fopt ftpName hh minu p.1 p.2) (sitName, ds.2)

/-- Lines 656-686: one iteration of the loop over the fetched files in all-stations mode. -/
def GetHrObsIgs_allFile (E : Env W) (ep : EpochStr) (fopt : ftpopt_t) (sch minu : String)
    (f : String) (s : St W) : St W :=
  if fileExists E s f then
    let s := sysCmd E fopt (Cmd.gzip f) s
    let site := ToLower (StrMid f 0 4)
    let dFile := site ++ ep.sDoy ++ sch ++ minu ++ "." ++ ep.sYy ++ "d"
    if fileExists E s dFile = false then s
    else
      let oFile := site ++ ep.sDoy ++ sch ++ minu ++ "." ++ ep.sYy ++ "o"
      let s := sysCmd E fopt (Cmd.crx2rnx dFile oFile) s
      sysCmd E fopt (Cmd.rmrf dFile) s
  else s

/-- Lines 602-688: one hour of the all-stations mode. -/
def GetHrObsIgs_allHour (E : Env W) (ar : FtpArchive) (ep : EpochStr) (fopt : ftpopt_t)
    (ftpName subDir : String) (hh : Nat) (s : St W) : St W :=
  let sHh := hh2str hh
  let ds := enterHourDir E fopt subDir sHh s
  let sHhDir := ds.1
  let s := ds.2
  let uc : String × String :=
    if ftpName = "CDDIS" then
      (at_ ar.CDDIS IDX_OBSHR ++ "/" ++ ep.sYyyy ++ "/" ++ ep.sDoy ++ "/" ++ ep.sYy ++ "d" ++ "/" ++
        sHh, " --cut-dirs=8 ")
    else if ftpName = "IGN" then
      (at_ ar.IGN IDX_OBSHR ++ "/" ++ ep.sYyyy ++ "/" ++ ep.sDoy, " --cut-dirs=6 ")
    else
      (at_ ar.CDDIS IDX_OBSHR ++ "/" ++ ep.sYyyy ++ "/" ++ ep.sDoy ++ "/" ++ ep.sYy ++ "d" ++ "/" ++
        sHh, " --cut-dirs=8 ")
  let sch := hourLetter hh
  let dFile := "*" ++ ep.sDoy ++ sch ++ "*." ++ ep.sYy ++ "d"
  let dxFile := dFile ++ ".*"
  let s := sysCmd E fopt (Cmd.wget dxFile uc.2 uc.1) s
  minuStr.foldl (fun s minu =>
    let suffix := minu ++ "." ++ ep.sYy ++ "d"
    let dFiles := E.getFilesAll s.world sHhDir suffix
    dFiles.foldl (fun s f => GetHrObsIgs_allFile E ep fopt sch minu f s) s) s

/-- The procedure `GetHrObsIgs(ts, dir, fopt)`. -/
def GetHrObsIgs (E : Env W) (ar : FtpArchive) (ep : EpochStr) (dir : String)
    (fopt : ftpopt_t) (s : St W) : St W :=
  let ds := makeSubDir E fopt dir "highrate" s
  let subDir := ds.1
  let s := ds.2
  let ftpName := ToUpper fopt.ftpFrom
  if strlen fopt.obsOpt < 9 then
    fopt.hhObs.foldl (fun s hh => GetHrObsIgs_allHour E ar ep fopt ftpName subDir hh s) s
  else
    if fileExists E s fopt.obsOpt then
      match E.openLines s.world fopt.obsOpt with
      | none =>
          sayErr ("*** ERROR(FtpUtil::GetHrObsIgs): open site.list = " ++ fopt.obsOpt ++
            " file failed, please check it") s
      | some sites =>
          sites.foldl (fun s line =>
            (fopt.hhObs.foldl (fun (p : String × St W) hh =>
              GetHrObsIgs_iter E ar ep fopt ftpName subDir hh p.1 p.2) (line, s)).2) s
    else s

/-- Modelled from the spec: `std::string::find_last_of(c)` cast to `int`, as used at lines
893, 1118 and 1374: the index of the last occurrence of `c`, and `-1` when there is none. -/
def findLastOf (src : String) (c : Char) : Int :=
  match (src.data.reverse.indexOf? c) with
  | some i => (src.data.length : Int) - 1 - (i : Int)
  | none => -1

/-- The long name without its compression suffix, lines 893-894:
`StrMid(sitName, f, 0, (int)f.find_last_of('.'))`. -/
def stripSuffix (f : String) : String :=
  StrMid f 0 (findLastOf f '.').toNat

/-! ## `FtpUtil::GetDailyObsMgex` (lines 817-1007) -/

/-- Line 978: the failure line. -/
def GetDailyObsMgex_failed (oFile : String) : String :=
  "*** WARNING(FtpUtil::GetDailyObsMgex): failed to download MGEX daily observation file " ++ oFile

/-- Line 993: the success line. -/
def GetDailyObsMgex_success (oFile : String) : String :=
  "*** INFO(FtpUtil::GetDailyObsMgex): successfully download MGEX daily observation file " ++ oFile

/-- Lines 999-1000: the line for a unit that is already there. -/
def GetDailyObsMgex_existed (oFile dFile : String) : String :=
  "*** INFO(FtpUtil::GetDailyObsMgex): MGEX daily observation file " ++ oFile ++ " or " ++ dFile ++
    " has existed!"

/-- Lines 931-1000: one iteration of the `getline` loop of the site-list mode. The result
carries the new value of the loop variable `sitName`. -/
def GetDailyObsMgex_unit (E : Env W) (ar : FtpArchive) (ep : EpochStr) (fopt : ftpopt_t)
    (ftpName : String) (sitName : String) (s : St W) : String × St W :=
  let sitName := ToLower sitName
  let oFile := sitName ++ ep.sDoy ++ "0." ++ ep.sYy ++ "o"
  let dFile := sitName ++ ep.sDoy ++ "0." ++ ep.sYy ++ "d"
  if fileExists E s oFile = false ∧ fileExists E s dFile = false then
    let uc : String × String :=
      if ftpName = "CDDIS" then
        (at_ ar.CDDIS IDX_OBMD ++ "/" ++ ep.sYyyy ++ "/" ++ ep.sDoy ++ "/" ++ ep.sYy ++ "d",
          " --cut-dirs=7 ")
      else if ftpName = "IGN" then
        (at_ ar.IGN IDX_OBMD ++ "/" ++ ep.sYyyy ++ "/" ++ ep.sDoy, " --cut-dirs=5 ")
      else if ftpName = "WHU" then
        (at_ ar.WHU IDX_OBMD ++ "/" ++ ep.sYyyy ++ "/" ++ ep.sDoy ++ "/" ++ ep.sYy ++ "d",
          " --cut-dirs=7 ")
      else
        (at_ ar.CDDIS IDX_OBMD ++ "/" ++ ep.sYyyy ++ "/" ++ ep.sDoy ++ "/" ++ ep.sYy ++ "d",
          " --cut-dirs=7 ")
    let sitName := ToUpper sitName
    let crxFile := sitName ++ "*_R_" ++ ep.sYyyy ++ ep.sDoy ++ "0000_01D_30S_MO.crx"
    let crxxFile := crxFile ++ ".*"
    let s := sysCmd E fopt (Cmd.wget crxxFile uc.2 uc.1) s
    let crxgzFile := crxFile ++ ".gz"
    let s := sysCmd E fopt (Cmd.gzip crxgzFile) s
    let s := sysCmd E fopt (Cmd.mv crxFile dFile) s
    if fileExists E s dFile = false then
      let crxzFile := crxFile ++ ".Z"
      let s := sysCmd E fopt (Cmd.gzip crxzFile) s
      let s := sysCmd E fopt (Cmd.mv crxFile dFile) s
      if fileExists E s dFile = false then
        (sitName, say (GetDailyObsMgex_failed oFile) s)
      else
        let s := sysCmd E fopt (Cmd.crx2rnx dFile oFile) s
        if fileExists E s oFile then
          (sitName, removeFile E dFile (say (GetDailyObsMgex_success oFile) s))
        else (sitName, s)
    else
      let s := sysCmd E fopt (Cmd.crx2rnx dFile oFile) s
      if fileExists E s oFile then
        (sitName, removeFile E dFile (say (GetDailyObsMgex_success oFile) s))
      else (sitName, s)
  else (sitName, say (GetDailyObsMgex_existed oFile dFile) s)

/-- Lines 884-912: one iteration of the loop over the fetched files in all-stations mode. -/
def GetDailyObsMgex_allFile (E : Env W) (ep : EpochStr) (fopt : ftpopt_t) (f : String)
    (s : St W) : St W :=
  if fileExists E s f then
    let s := sysCmd E fopt (Cmd.gzip2 f) s
    let site := ToLower (StrMid f 0 4)
    let crxFile := stripSuffix f
    if fileExists E s crxFile = false then s
    else
      let oFile := site ++ ep.sDoy ++ "0." ++ ep.sYy ++ "o"
      let s := sysCmd E fopt (Cmd.crx2rnx crxFile oFile) s
      sysCmd E fopt (Cmd.rmrf crxFile) s
  else s

/-- The procedure `GetDailyObsMgex(ts, dir, fopt)`. -/
def GetDailyObsMgex (E : Env W) (ar : FtpArchive) (ep : EpochStr) (dir : String)
    (fopt : ftpopt_t) (s : St W) : St W :=
  let ds := makeSubDir E fopt dir "daily" s
  let subDir := ds.1
  let s := chdir E subDir ds.2
  let ftpName := ToUpper fopt.ftpFrom
  if strlen fopt.obmOpt < 9 then
    let uc : String × String :=
      if ftpName = "CDDIS" then
        (at_ ar.CDDIS IDX_OBMD ++ "/" ++ ep.sYyyy ++ "/" ++ ep.sDoy ++ "/" ++ ep.sYy ++ "d",
          " --cut-dirs=7 ")
      else if ftpName = "IGN" then
        (at_ ar.IGN IDX_OBMD ++ "/" ++ ep.sYyyy ++ "/" ++ ep.sDoy, " --cut-dirs=5 ")
      else if ftpName = "WHU" then
        (at_ ar.WHU IDX_OBMD ++ "/" ++ ep.sYyyy ++ "/" ++ ep.sDoy ++ "/" ++ ep.sYy ++ "d",
          " --cut-dirs=7 ")
      else
        (at_ ar.CDDIS IDX_OBMD ++ "/" ++ ep.sYyyy ++ "/" ++ ep.sDoy ++ "/" ++ ep.sYy ++ "d",
          " --cut-dirs=7 ")
    let crxFile := "*_R_" ++ ep.sYyyy ++ ep.sDoy ++ "0000_01D_30S_MO.crx"
    let crxxFile := crxFile ++ ".*"
    let s := sysCmd E fopt (Cmd.wget crxxFile uc.2 uc.1) s
    let suffix := ".crx"
    let crxFiles := E.getFilesAll s.world subDir suffix
    crxFiles.foldl (fun s f => GetDailyObsMgex_allFile E ep fopt f s) s
  else
    if fileExists E s fopt.obmOpt then
      match E.openLines s.world fopt.obmOpt with
      | none =>
          sayErr ("*** ERROR(FtpUtil::GetDailyObsMgex): open site.list = " ++ fopt.obmOpt ++
            " file failed, please check it") s
      | some sites =>
          sites.foldl (fun s line => (GetDailyObsMgex_unit E ar ep fopt ftpName line s).2) s
    else s

/-! ## `FtpUtil::GetHourlyObsMgex` (lines 1018-1262) -/

/-- Line 1232: the failure line (it names `GetDailyObsMgex`). -/
def GetHourlyObsMgex_failed (oFile : String) : String :=
  "*** WARNING(FtpUtil::GetDailyObsMgex): failed to download MGEX daily observation file " ++ oFile

/-- Line 1247: the success line. -/
def GetHourlyObsMgex_success (oFile : String) : String :=
  "*** INFO(FtpUtil::GetHourlyObsMgex): successfully download MGEX hourly observation file " ++
    oFile

/-- Lines 1253-1254: the line for a unit that is already there. -/
def GetHourlyObsMgex_existed (oFile dFile : String) : String :=
  "*** INFO(FtpUtil::GetHourlyObsMgex): MGEX hourly observation file " ++ oFile ++ " or " ++
    dFile ++ " has existed!"

/-- Lines 1182-1254: the part of one (site line, hour) iteration that follows the `chdir`
into the hour directory. The result carries the new value of `sitName`. -/
def GetHourlyObsMgex_unit (E : Env W) (ar : FtpArchive) (ep : EpochStr) (fopt : ftpopt_t)
    (ftpName : String) (hh : Nat) (sitName : String) (s : St W) : String × St W :=
  let sHh := hh2str hh
  let sch := hourLetter hh
  let sitName := ToLower sitName
  let oFile := sitName ++ ep.sDoy ++ sch ++ "." ++ ep.sYy ++ "o"
  let dFile := sitName ++ ep.sDoy ++ sch ++ "." ++ ep.sYy ++ "d"
  if fileExists E s oFile = false ∧ fileExists E s dFile = false then
    let uc : String × String :=
      if ftpName = "CDDIS" then
        (at_ ar.CDDIS IDX_OBMH ++ "/" ++ ep.sYyyy ++ "/" ++ ep.sDoy ++ "/" ++ sHh, " --cut-dirs=7 ")
      else if ftpName = "IGN" then
        (at_ ar.IGN IDX_OBMH ++ "/" ++ ep.sYyyy ++ "/" ++ ep.sDoy, " --cut-dirs=6 ")
      else
        (at_ ar.CDDIS IDX_OBMH ++ "/" ++ ep.sYyyy ++ "/" ++ ep.sDoy ++ "/" ++ sHh, " --cut-dirs=7 ")
    let sitName := ToUpper sitName
    let crxFile := sitName ++ "*_R_" ++ ep.sYyyy ++ ep.sDoy ++ sHh ++ "00_01H_30S_MO.crx"
    let crxxFile := crxFile ++ ".*"
    let s := sysCmd E fopt (Cmd.wget crxxFile uc.2 uc.1) s
    let crxgzFile := crxFile ++ ".gz"
    let s := sysCmd E fopt (Cmd.gzip crxgzFile) s
    let s := sysCmd E fopt (Cmd.mv crxFile dFile) s
    if fileExists E s dFile = false then
      let crxzFile := crxFile ++ ".Z"
      let s := sysCmd E fopt (Cmd.gzip crxzFile) s
      let s := sysCmd E fopt (Cmd.mv crxFile dFile) s
      if fileExists E s dFile = false then
        (sitName, say (GetHourlyObsMgex_failed oFile) s)
      else
        let s := sysCmd E fopt (Cmd.crx2rnx dFile oFile) s
        if fileExists E s oFile then
          (sitName, removeFile E dFile (say (GetHourlyObsMgex_success oFile) s))
        else (sitName, s)
    else
      let s := sysCmd E fopt (Cmd.crx2rnx dFile oFile) s
      if fileExists E s oFile then
        (sitName, removeFile E dFile (say (GetHourlyObsMgex_success oFile) s))
      else (sitName, s)
  else (sitName, say (GetHourlyObsMgex_existed oFile dFile) s)

/-- Lines 1157-1254: one (site line, hour) iteration of the site-list mode. -/
def GetHourlyObsMgex_iter (E : Env W) (ar : FtpArchive) (ep : EpochStr) (fopt : ftpopt_t)
    (ftpName subDir : String) (hh : Nat) (sitName : String) (s : St W) : String × St W :=
  let ds := enterHourDir E fopt subDir (hh2str hh) s
  GetHourlyObsMgex_unit E ar ep fopt ftpName hh sitName ds.2

/-- Lines 1107-1138: one iteration of the loop over the fetched files in all-stations
mode. -/
def GetHourlyObsMgex_allFile (E : Env W) (ep : EpochStr) (fopt : ftpopt_t) (sch : String)
    (f : String) (s : St W) : St W :=
  if fileExists E s f then
    let s := sysCmd E fopt (Cmd.gzip2 f) s
    let site := ToLower (StrMid f 0 4)
    let crxFile := stripSuffix f
    if fileExists E s crxFile = false then s
    else
      let oFile := site ++ ep.sDoy ++ sch ++ "." ++ ep.sYy ++ "o"
      let s := sysCmd E fopt (Cmd.crx2rnx crxFile oFile) s
      sysCmd E fopt (Cmd.rmrf crxFile) s
  else s

/-- Lines 1053-1139: one hour of the all-stations mode. -/
def GetHourlyObsMgex_allHour (E : Env W) (ar : FtpArchive) (ep : EpochStr) (fopt : ftpopt_t)
    (ftpName subDir : String) (hh : Nat) (s : St W) : St W :=
  let sHh := hh2str hh
  let ds := enterHourDir E fopt subDir sHh s
  let sHhDir := ds.1
  let s := ds.2
  let uc : String × String :=
    if ftpName = "CDDIS" then
      (at_ ar.CDDIS IDX_OBMH ++ "/" ++ ep.sYyyy ++ "/" ++ ep.sDoy ++ "/" ++ sHh, " --cut-dirs=7 ")
    else if ftpName = "IGN" then
      (at_ ar.IGN IDX_OBMH ++ "/" ++ ep.sYyyy ++ "/" ++ ep.sDoy, " --cut-dirs=6 ")
    else if ftpName = "WHU" then
      (at_ ar.WHU IDX_OBMH ++ "/" ++ ep.sYyyy ++ "/" ++ ep.sDoy ++ "/" ++ sHh, " --cut-dirs=7 ")
    else
      (at_ ar.CDDIS IDX_OBMH ++ "/" ++ ep.sYyyy ++ "/" ++ ep.sDoy ++ "/" ++ sHh, " --cut-dirs=7 ")
  let crxFile := "*_R_" ++ ep.sYyyy ++ ep.sDoy ++ sHh ++ "00_01H_30S_MO.crx"
  let crxxFile := crxFile ++ ".*"
  let s := sysCmd E fopt (Cmd.wget crxxFile uc.2 uc.1) s
  let sch := hourLetter hh
  let suffix := ".crx"
  let crxFiles := E.getFilesAll s.world sHhDir suffix
  crxFiles.foldl (fun s f => GetHourlyObsMgex_allFile E ep fopt sch f s) s

/-- The procedure `GetHourlyObsMgex(ts, dir, fopt)`. -/
def GetHourlyObsMgex (E : Env W) (ar : FtpArchive) (ep : EpochStr) (dir : String)
    (fopt : ftpopt_t) (s : St W) : St W :=
  let ds := makeSubDir E fopt dir "hourly" s
  let subDir := ds.1
  let s := ds.2
  let ftpName := ToUpper fopt.ftpFrom
  if strlen fopt.obmOpt < 9 then
    fopt.hhObm.foldl (fun s hh => GetHourlyObsMgex_allHour E ar ep fopt ftpName subDir hh s) s
  else
    if fileExists E s fopt.obmOpt then
      match E.openLines s.world fopt.obmOpt with
      | none =>
          sayErr ("*** ERROR(FtpUtil::GetHourlyObsMgex): open site.list = " ++ fopt.obmOpt ++
            " file failed, please check it") s
      | some sites =>
          sites.foldl (fun s line =>
            (fopt.hhObm.foldl (fun (p : String × St W) hh =>
              GetHourlyObsMgex_iter E ar ep fopt ftpName subDir hh p.1 p.2) (line, s)).2) s
    else s

/-! ## `FtpUtil::GetHrObsMgex` (lines 1273-1525) -/

/-- Line 1494: the failure line (it names `GetDailyObsMgex`). -/
def GetHrObsMgex_failed (oFile : String) : String :=
  "*** WARNING(FtpUtil::GetDailyObsMgex): failed to download MGEX daily observation file " ++ oFile

/-- Line 1509: the success line. -/
def GetHrObsMgex_success (oFile : String) : String :=
  "*** INFO(FtpUtil::GetHrObsMgex): successfully download MGEX high-rate observation file " ++
    oFile

/-- Lines 1515-1516: the line for a unit that is already there. -/
def GetHrObsMgex_existed (oFile dFile : String) : String :=
  "*** INFO(FtpUtil::GetHrObsMgex): MGEX high-rate observation file " ++ oFile ++ " or " ++
    dFile ++ " has existed!"

/-- Lines 1448-1516: one quarter-hour iteration of the site-list mode. The result carries
the new value of `sitName`. -/
def GetHrObsMgex_unit (E : Env W) (ar : FtpArchive) (ep : EpochStr) (fopt : ftpopt_t)
    (ftpName : String) (hh : Nat) (minu : String) (sitName : String) (s : St W) :
    String × St W :=
  let sHh := hh2str hh
  let sch := hourLetter hh
  let sitName := ToLower sitName
  let oFile := sitName ++ ep.sDoy ++ sch ++ minu ++ "." ++ ep.sYy ++ "o"
  let dFile := sitName ++ ep.sDoy ++ sch ++ minu ++ "." ++ ep.sYy ++ "d"
  if fileExists E s oFile = false ∧ fileExists E s dFile = false then
    let uc : String × String :=
      if ftpName = "CDDIS" then
        (at_ ar.CDDIS IDX_OBMHR ++ "/" ++ ep.sYyyy ++ "/" ++ ep.sDoy ++ "/" ++ ep.sYy ++ "d" ++ "/" ++
          sHh, " --cut-dirs=8 ")
      else if ftpName = "IGN" then
        (at_ ar.IGN IDX_OBMHR ++ "/" ++ ep.sYyyy ++ "/" ++ ep.sDoy, " --cut-dirs=6 ")
      else
        (at_ ar.CDDIS IDX_OBMHR ++ "/" ++ ep.sYyyy ++ "/" ++ ep.sDoy ++ "/" ++ ep.sYy ++ "d" ++ "/" ++
          sHh, " --cut-dirs=8 ")
    let sitName := ToUpper sitName
    let crxFile := sitName ++ "*_R_" ++ ep.sYyyy ++ ep.sDoy ++ sHh ++ minu ++ "_15M_01S_MO.crx"
    let crxxFile := crxFile ++ ".*"
    let s := sysCmd E fopt (Cmd.wget crxxFile uc.2 uc.1) s
    let crxgzFile := crxFile ++ ".gz"
    let s := sysCmd E fopt (Cmd.gzip crxgzFile) s
    let s := sysCmd E fopt (Cmd.mv crxFile dFile) s
    if fileExists E s dFile = false then
      let crxzFile := crxFile ++ ".Z"
      let s := sysCmd E fopt (Cmd.gzip crxzFile) s
      let s := sysCmd E fopt (Cmd.mv crxFile dFile) s
      if fileExists E s dFile = false then
        (sitName, say (GetHrObsMgex_failed oFile) s)
      else
        let s := sysCmd E fopt (Cmd.crx2rnx dFile oFile) s
        if fileExists E s oFile then
          (sitName, removeFile E dFile (say (GetHrObsMgex_success oFile) s))
        else (sitName, s)
    else
      let s := sysCmd E fopt (Cmd.crx2rnx dFile oFile) s
      if fileExists E s oFile then
        (sitName, removeFile E dFile (say (GetHrObsMgex_success oFile) s))
      else (sitName, s)
  else (sitName, say (GetHrObsMgex_existed oFile dFile) s)

/-- Lines 1414-1517: one (site line, hour) iteration of the site-list mode: the hour
directory block, then the four quarter-hour units. -/
def GetHrObsMgex_iter (E : Env W) (ar : FtpArchive) (ep : EpochStr) (fopt : ftpopt_t)
    (ftpName subDir : String) (hh : Nat) (sitName : String) (s : St W) : String × St W :=
  let ds := enterHourDir E fopt subDir (hh2str hh) s
  minuStr.foldl (fun (p : String × St W) minu =>
    GetHrObsMgex_unit E ar ep fopt ftpName hh minu p.1 p.2) (sitName, ds.2)

/-- Lines 1363-1394: one iteration of the loop over the local files in all-stations mode. -/
def GetHrObsMgex_allFile (E : Env W) (ep : EpochStr) (fopt : ftpopt_t) (sch minu : String)
    (f : String) (s : St W) : St W :=
  if fileExists E s f then
    let s := sysCmd E fopt (Cmd.gzip2 f) s
    let site := ToLower (StrMid f 0 4)
    let crxFile := stripSuffix f
    if fileExists E s crxFile = false then s
    else
      let oFile := site ++ ep.sDoy ++ sch ++ minu ++ "." ++ ep.sYy ++ "o"
      let s := sysCmd E fopt (Cmd.crx2rnx crxFile oFile) s
      sysCmd E fopt (Cmd.rmrf crxFile) s
  else s

/-- Lines 1308-1396: one hour of the all-stations mode. The command line of lines
1344-1346 is built but the `std::system` call of line 1347 is commented out. -/
def GetHrObsMgex_allHour (E : Env W) (ep : EpochStr) (fopt : ftpopt_t)
    (subDir : String) (hh : Nat) (s : St W) : St W :=
  let sHh := hh2str hh
  let ds := enterHourDir E fopt subDir sHh s
  let sHhDir := ds.1
  let s := ds.2
  let sch := hourLetter hh
  minuStr.foldl (fun s minu =>
    let suffix := minu ++ "_15M_01S_MO.crx"
    let crxFiles := E.getFilesAll s.world sHhDir suffix
    crxFiles.foldl (fun s f => GetHrObsMgex_allFile E ep fopt sch minu f s) s) s

/-- The procedure `GetHrObsMgex(ts, dir, fopt)`. -/
def GetHrObsMgex (E : Env W) (ar : FtpArchive) (ep : EpochStr) (dir : String)
    (fopt : ftpopt_t) (s : St W) : St W :=
  let ds := makeSubDir E fopt dir "highrate" s
  let subDir := ds.1
  let s := ds.2
  let ftpName := ToUpper fopt.ftpFrom
  if strlen fopt.obmOpt < 9 then
    fopt.hhObm.foldl (fun s hh => GetHrObsMgex_allHour E ep fopt subDir hh s) s
  else
    if fileExists E s fopt.obmOpt then
      match E.openLines s.world fopt.obmOpt with
      | none =>
          sayErr ("*** ERROR(FtpUtil::GetHrObsMgex): open site.list = " ++ fopt.obmOpt ++
            " file failed, please check it") s
      | some sites =>
          sites.foldl (fun s line =>
            (fopt.hhObm.foldl (fun (p : String × St W) hh =>
              GetHrObsMgex_iter E ar ep fopt ftpName subDir hh p.1 p.2) (line, s)).2) s
    else s

/-! ## `FtpUtil::GetNav` (lines 1536-1954) -/

/-- Lines 1579-1598: the remote name `navFile` and the canonical local name `nav0File`
of the daily mode. Both stay empty for an option other than `gps`, `glo`, `mixed`. -/
def GetNav_dailyNames (ep : EpochStr) (ftpName nOpt : String) : String × String :=
  if nOpt = "gps" then
    ("brdc" ++ ep.sDoy ++ "0." ++ ep.sYy ++ "n", "brdc" ++ ep.sDoy ++ "0." ++ ep.sYy ++ "n")
  else if nOpt = "glo" then
    ("brdc" ++ ep.sDoy ++ "0." ++ ep.sYy ++ "g", "brdc" ++ ep.sDoy ++ "0." ++ ep.sYy ++ "g")
  else if nOpt = "mixed" then
    (if ftpName = "IGN" then "BRDC00IGN_R_" ++ ep.sYyyy ++ ep.sDoy ++ "0000_01D_MN.rnx"
      else "BRDC00IGS_R_" ++ ep.sYyyy ++ ep.sDoy ++ "0000_01D_MN.rnx",
      "brdm" ++ ep.sDoy ++ "0." ++ ep.sYy ++ "p")
  else ("", "")

/-- Lines 1633-1634: the failure line of the daily mode. -/
def GetNav_failed (nav0File : String) : String :=
  "*** INFO(FtpUtil::GetNav): failed to download broadcast ephemeris file " ++ nav0File

/-- Line 1648: the success line of the daily mode. -/
def GetNav_success (nav0File : String) : String :=
  "*** INFO(FtpUtil::GetNav): successfully download broadcast ephemeris file " ++ nav0File

/-- Lines 1650-1651: the line of the daily mode for a file that is already there. -/
def GetNav_existed (nav0File navFile : String) : String :=
  "*** INFO(FtpUtil::GetNav): broadcast ephemeris file " ++ nav0File ++ " or " ++ navFile ++
    " has existed!"

/-- Lines 1603-1613: URL and `--cut-dirs` option of the daily mode. -/
def GetNav_dailyUrl (ar : FtpArchive) (ep : EpochStr) (ftpName : String) : String × String :=
  if ftpName = "CDDIS" then (at_ ar.CDDIS IDX_NAV ++ "/" ++ ep.sYyyy ++ "/brdc", " --cut-dirs=6 ")
  else if ftpName = "IGN" then
    (at_ ar.IGN IDX_NAV ++ "/" ++ ep.sYyyy ++ "/" ++ ep.sDoy, " --cut-dirs=5 ")
  else if ftpName = "WHU" then (at_ ar.WHU IDX_NAV ++ "/" ++ ep.sYyyy ++ "/brdc", " --cut-dirs=6 ")
  else (at_ ar.CDDIS IDX_NAV ++ "/" ++ ep.sYyyy ++ "/brdc", " --cut-dirs=6 ")

/-- Lines 1600-1651: the daily mode after the names are built. -/
def GetNav_dailyFetch (E : Env W) (ar : FtpArchive) (ep : EpochStr) (fopt : ftpopt_t)
    (ftpName nOpt : String) (navFile nav0File : String) (s : St W) : St W :=
  if fileExists E s navFile = false ∧ fileExists E s nav0File = false then
    let uc := GetNav_dailyUrl ar ep ftpName
    let navxFile := navFile ++ ".*"
    let s := sysCmd E fopt (Cmd.wget navxFile uc.2 uc.1) s
    let navgzFile := navFile ++ ".gz"
    let navzFile := navFile ++ ".Z"
    let s :=
      if fileExists E s navgzFile then sysCmd E fopt (Cmd.gzip navgzFile) s
      else if fileExists E s navzFile then sysCmd E fopt (Cmd.gzip navzFile) s
      else s
    let s := if fileExists E s navFile = false then say (GetNav_failed nav0File) s else s
    let s := if nOpt = "mixed" then sysCmd E fopt (Cmd.mv navFile nav0File) s else s
    if fileExists E s nav0File then say (GetNav_success nav0File) s else s
  else say (GetNav_existed nav0File navFile) s

/-- Lines 1555-1652: the daily mode. -/
def GetNav_daily (E : Env W) (ar : FtpArchive) (ep : EpochStr) (dir : String)
    (fopt : ftpopt_t) (ftpName nOpt : String) (s : St W) : St W :=
  let ds := makeSubDir E fopt dir "daily" s
  let s := chdir E ds.1 ds.2
  let names := GetNav_dailyNames ep ftpName nOpt
  GetNav_dailyFetch E ar ep fopt ftpName nOpt names.1 names.2 s

/-- Lines 1719-1772: the remote names `navFiles` of one (site line, hour) iteration of the
hourly mode; `lo` and `up` are the lower-cased and the upper-cased site. -/
def GetNav_hourlyRemote (ep : EpochStr) (sHh sch nOpt lo up : String) : List String :=
  let navnsFile := lo ++ ep.sDoy ++ sch ++ "." ++ ep.sYy ++ "n"
  let navgsFile := lo ++ ep.sDoy ++ sch ++ "." ++ ep.sYy ++ "g"
  let navnlFile := up ++ "*_R_" ++ ep.sYyyy ++ ep.sDoy ++ sHh ++ "00_01H_GN.rnx"
  let navglFile := up ++ "*_R_" ++ ep.sYyyy ++ ep.sDoy ++ sHh ++ "00_01H_RN.rnx"
  let navclFile := up ++ "*_R_" ++ ep.sYyyy ++ ep.sDoy ++ sHh ++ "00_01H_CN.rnx"
  let navelFile := up ++ "*_R_" ++ ep.sYyyy ++ ep.sDoy ++ sHh ++ "00_01H_EN.rnx"
  let navjlFile := up ++ "*_R_" ++ ep.sYyyy ++ ep.sDoy ++ sHh ++ "00_01H_JN.rnx"
  let navilFile := up ++ "*_R_" ++ ep.sYyyy ++ ep.sDoy ++ sHh ++ "00_01H_IN.rnx"
  let navmlFile := up ++ "*_R_" ++ ep.sYyyy ++ ep.sDoy ++ sHh ++ "00_01H_MN.rnx"
  if nOpt = "gps" then [navnsFile, navnlFile]
  else if nOpt = "glo" then [navgsFile, navglFile]
  else if nOpt = "bds" then [navclFile]
  else if nOpt = "gal" then [navelFile]
  else if nOpt = "qzs" then [navjlFile]
  else if nOpt = "irn" then [navilFile]
  else if nOpt = "mixed" then [navmlFile]
  else if nOpt = "all" then
    [navnsFile, navnlFile, navgsFile, navglFile, navclFile, navelFile, navjlFile, navilFile,
      navmlFile]
  else []

/-- Lines 1774-1826: the local names `nav0Files` of one (site line, hour) iteration of the
hourly mode; `lo` is the lower-cased site. -/
def GetNav_hourlyLocal (ep : EpochStr) (sch nOpt lo : String) : List String :=
  let navns0File := lo ++ ep.sDoy ++ sch ++ "." ++ ep.sYy ++ "n"
  let navgs0File := lo ++ ep.sDoy ++ sch ++ "." ++ ep.sYy ++ "g"
  let navnl0File := lo ++ ep.sDoy ++ sch ++ "." ++ ep.sYy ++ "gn"
  let navgl0File := lo ++ ep.sDoy ++ sch ++ "." ++ ep.sYy ++ "rn"
  let navcl0File := lo ++ ep.sDoy ++ sch ++ "." ++ ep.sYy ++ "cn"
  let navel0File := lo ++ ep.sDoy ++ sch ++ "." ++ ep.sYy ++ "en"
  let navjl0File := lo ++ ep.sDoy ++ sch ++ "." ++ ep.sYy ++ "jn"
  let navil0File := lo ++ ep.sDoy ++ sch ++ "." ++ ep.sYy ++ "in"
  let navml0File := lo ++ ep.sDoy ++ sch ++ "." ++ ep.sYy ++ "mn"
  if nOpt = "gps" then [navns0File, navnl0File]
  else if nOpt = "glo" then [navgs0File, navgl0File]
  else if nOpt = "bds" then [navcl0File]
  else if nOpt = "gal" then [navel0File]
  else if nOpt = "qzs" then [navjl0File]
  else if nOpt = "irn" then [navil0File]
  else if nOpt = "mixed" then [navml0File]
  else if nOpt = "all" then
    [navns0File, navnl0File, navgs0File, navgl0File, navcl0File, navel0File, navjl0File,
      navil0File, navml0File]
  else []

/-- Lines 1869-1870: the failure line of the hourly mode. -/
def GetNav_hourlyFailed (navFile : String) : String :=
  "*** WARNING(FtpUtil::GetNav): failed to download hourly broadcast ephemeris file " ++ navFile

/-- Lines 1874-1875 and 1882-1883: the success line of the hourly mode. -/
def GetNav_hourlySuccess (navFile : String) : String :=
  "*** INFO(FtpUtil::GetNav): successfully download hourly broadcast ephemeris file " ++ navFile

/-- Lines 1830-1886: one iteration of the loop over `navFiles` in the hourly mode. -/
def GetNav_hourlyUnit (E : Env W) (ar : FtpArchive) (ep : EpochStr) (fopt : ftpopt_t)
    (ftpName sHh : String) (navFile nav0File : String) (s : St W) : St W :=
  let uc : String × String :=
    if ftpName = "CDDIS" then
      (at_ ar.CDDIS IDX_OBMH ++ "/" ++ ep.sYyyy ++ "/" ++ ep.sDoy ++ "/" ++ sHh, " --cut-dirs=7 ")
    else if ftpName = "IGN" then
      (at_ ar.IGN IDX_OBMH ++ "/" ++ ep.sYyyy ++ "/" ++ ep.sDoy, " --cut-dirs=6 ")
    else
      (at_ ar.CDDIS IDX_OBMH ++ "/" ++ ep.sYyyy ++ "/" ++ ep.sDoy ++ "/" ++ sHh, " --cut-dirs=7 ")
  let navxFile := navFile ++ ".*"
  let s := sysCmd E fopt (Cmd.wget navxFile uc.2 uc.1) s
  let navgzFile := navFile ++ ".gz"
  let s := sysCmd E fopt (Cmd.gzip navgzFile) s
  let s := sysCmd E fopt (Cmd.mv navFile nav0File) s
  if fileExists E s nav0File = false then
    let navzFile := navFile ++ ".Z"
    let s := sysCmd E fopt (Cmd.gzip navzFile) s
    let s := sysCmd E fopt (Cmd.mv navFile nav0File) s
    if fileExists E s nav0File = false then say (GetNav_hourlyFailed navFile) s
    else say (GetNav_hourlySuccess navFile) s
  else say (GetNav_hourlySuccess navFile) s

/-- Lines 1688-1887: one (site line, hour) iteration of the hourly mode. The result
carries the new value of the loop variable `sitName`. -/
def GetNav_hourlyIter (E : Env W) (ar : FtpArchive) (ep : EpochStr) (fopt : ftpopt_t)
    (ftpName nOpt subDir : String) (hh : Nat) (sitName : String) (s : St W) : String × St W :=
  let sHh := hh2str hh
  let ds := enterHourDir E fopt subDir sHh s
  let s := ds.2
  let sch := hourLetter hh
  let lo := ToLower sitName
  let up := ToUpper lo
  let navFiles := GetNav_hourlyRemote ep sHh sch nOpt lo up
  let lo0 := ToLower up
  let nav0Files := GetNav_hourlyLocal ep sch nOpt lo0
  (lo0, (navFiles.zip nav0Files).foldl (fun s nf =>
    GetNav_hourlyUnit E ar ep fopt ftpName sHh nf.1 nf.2 s) s)

/-- Lines 1653-1894: the hourly mode. -/
def GetNav_hourly (E : Env W) (ar : FtpArchive) (ep : EpochStr) (dir : String)
    (fopt : ftpopt_t) (ftpName nOpt : String) (s : St W) : St W :=
  let ds := makeSubDir E fopt dir "hourly" s
  let subDir := ds.1
  let s := ds.2
  let sitFile := if fopt.getObs then fopt.obsOpt else if fopt.getObm then fopt.obmOpt
    else fopt.obsOpt
  if fileExists E s sitFile then
    match E.openLines s.world sitFile with
    | none =>
        sayErr ("*** ERROR(FtpUtil::GetHourlyObsMgex): open site.list = " ++ sitFile ++
          " file failed, please check it") s
    | some sites =>
        sites.foldl (fun s line =>
          (fopt.hhNav.foldl (fun (p : String × St W) hh =>
            GetNav_hourlyIter E ar ep fopt ftpName nOpt subDir hh p.1 p.2) (line, s)).2) s
  else s

/-- Lines 1895-1953: the real-time branch. -/
def GetNav_rt (E : Env W) (ep : EpochStr) (dir : String) (fopt : ftpopt_t) (s : St W) : St W :=
  let ds := makeSubDir E fopt dir "daily" s
  let s := chdir E ds.1 ds.2
  let navFile := "brdm" ++ ep.sDoy ++ "z." ++ ep.sYy ++ "p"
  if fileExists E s navFile = false then
    let url := "ftp://ftp.lrz.de/transfer/steigenb/brdm"
    let navxFile := navFile ++ ".*"
    let s := sysCmd E fopt (Cmd.wget navxFile " --cut-dirs=3 " url) s
    let navgzFile := navFile ++ ".gz"
    let navzFile := navFile ++ ".Z"
    let s :=
      if fileExists E s navgzFile then sysCmd E fopt (Cmd.gzip navgzFile) s
      else if fileExists E s navzFile then sysCmd E fopt (Cmd.gzip navzFile) s
      else s
    if fileExists E s navFile = false then
      say ("*** INFO(FtpUtil::GetNav): failed to download real-time broadcast ephemeris file " ++
        navFile) s
    else if fileExists E s navFile then
      say ("*** INFO(FtpUtil::GetNav): successfully download real-time broadcast ephemeris file " ++
        navFile) s
    else s
  else
    say ("*** INFO(FtpUtil::GetNav): real-time broadcast ephemeris file " ++ navFile ++
      " has existed!") s

/-- The procedure `GetNav(ts, dir, fopt)`. -/
def GetNav (E : Env W) (ar : FtpArchive) (ep : EpochStr) (dir : String)
    (fopt : ftpopt_t) (s : St W) : St W :=
  let ftpName := ToUpper fopt.ftpFrom
  let nTyp := ToLower fopt.navTyp
  let nOpt := ToLower fopt.navOpt
  if nTyp = "daily" then GetNav_daily E ar ep dir fopt ftpName nOpt s
  else if nTyp = "hourly" then GetNav_hourly E ar ep dir fopt ftpName nOpt s
  else if nTyp = "RTNAV" then GetNav_rt E ep dir fopt s
  else s

/-! ## `FtpUtil::GetOrbClk` (lines 1966-2368) -/

/-- Lines 1989 and 2398: `acIGS`. -/
def acIGS : List String :=
  ["igs", "igr", "igu", "cod", "esa", "gfz", "gfu", "grg", "jpl"]

/-- Line 1995: `acMGEX`. -/
def acMGEX : List String :=
  ["com", "gbm", "grm", "wum", "wuu"]

/-- Lines 2045-2054 (and the same block in `GetEop` and `GetSnx`): removal of the
temporary directory `repro3`. -/
def cleanRepro3 (E : Env W) (fopt : ftpopt_t) (s : St W) : St W :=
  let tmpDir := "repro3"
  if fileExists E s tmpDir then sysCmd E fopt (Cmd.rmrf tmpDir) s else s

/-- Lines 2009-2013 and 2117-2121: URL and `--cut-dirs` option of the IGS products. -/
def GetOrbClk_igsUrl (ar : FtpArchive) (ep : EpochStr) (ftpName : String) : String × String :=
  if ftpName = "CDDIS" then (at_ ar.CDDIS IDX_SP3 ++ "/" ++ ep.sWwww, " --cut-dirs=4 ")
  else if ftpName = "IGN" then (at_ ar.IGN IDX_SP3 ++ "/" ++ ep.sWwww, " --cut-dirs=4 ")
  else if ftpName = "WHU" then (at_ ar.WHU IDX_SP3 ++ "/" ++ ep.sWwww, " --cut-dirs=4 ")
  else (at_ ar.CDDIS IDX_SP3 ++ "/" ++ ep.sWwww, " --cut-dirs=4 ")

/-- Lines 2016-2057: one hour of the IGS ultra-rapid orbit branch. -/
def GetOrbClk_iguUnit (E : Env W) (ep : EpochStr) (fopt : ftpopt_t) (ac : String)
    (uc : String × String) (hh : Nat) (s : St W) : St W :=
  let sHh := hh2str hh
  let sp3File := ac ++ ep.sWwww ++ ep.sDow ++ "_" ++ sHh ++ ".sp3"
  if fileExists E s sp3File = false then
    let sp3xFile := sp3File ++ ".*"
    let s := sysCmd E fopt (Cmd.wget sp3xFile uc.2 uc.1) s
    let sp3gzFile := sp3File ++ ".gz"
    let sp3zFile := sp3File ++ ".Z"
    let s :=
      if fileExists E s sp3gzFile then sysCmd E fopt (Cmd.gzip sp3gzFile) s
      else if fileExists E s sp3zFile then sysCmd E fopt (Cmd.gzip sp3zFile) s
      else s
    let s :=
      if fileExists E s sp3File = false then
        say ("*** INFO(FtpUtil::GetOrbClk): failed to download IGS ultra-rapid orbit file " ++
          sp3File) s
      else if fileExists E s sp3File then
        say ("*** INFO(FtpUtil::GetOrbClk): successfully download IGS ultra-rapid orbit file " ++
          sp3File) s
      else s
    cleanRepro3 E fopt s
  else
    say ("*** INFO(FtpUtil::GetOrbClk): IGS ultra-rapid orbit file " ++ sp3File ++
      " has existed!") s

/-- Lines 2066-2095: one hour of the GFZ ultra-rapid orbit branch. -/
def GetOrbClk_gfuUnit (E : Env W) (ep : EpochStr) (fopt : ftpopt_t) (ac : String)
    (uc : String × String) (hh : Nat) (s : St W) : St W :=
  let sHh := hh2str hh
  let sp3File := ac ++ ep.sWwww ++ ep.sDow ++ "_" ++ sHh ++ ".sp3"
  if fileExists E s sp3File = false then
    let sp3xFile := sp3File ++ ".*"
    let s := sysCmd E fopt (Cmd.wget sp3xFile uc.2 uc.1) s
    let sp3gzFile := sp3File ++ ".gz"
    let sp3zFile := sp3File ++ ".Z"
    let s :=
      if fileExists E s sp3gzFile then sysCmd E fopt (Cmd.gzip sp3gzFile) s
      else if fileExists E s sp3zFile then sysCmd E fopt (Cmd.gzip sp3zFile) s
      else s
    if fileExists E s sp3File = false then
      say ("*** INFO(FtpUtil::GetOrbClk): failed to download GFZ ultra-rapid orbit file " ++
        sp3File) s
    else if fileExists E s sp3File then
      say ("*** INFO(FtpUtil::GetOrbClk): successfully download GFZ ultra-rapid orbit file " ++
        sp3File) s
    else s
  else
    say ("*** INFO(FtpUtil::GetOrbClk): GFZ ultra-rapid orbit file " ++ sp3File ++
      " has existed!") s

/-- Lines 2100-2115: orbit and clock names of the other IGS analysis centres. -/
def GetOrbClk_igsNames (ep : EpochStr) (ac : String) : String × String :=
  if ac = "cod" then
    (ac ++ ep.sWwww ++ ep.sDow ++ ".eph", ac ++ ep.sWwww ++ ep.sDow ++ ".clk_05s")
  else if ac = "igs" then
    (ac ++ ep.sWwww ++ ep.sDow ++ ".sp3", ac ++ ep.sWwww ++ ep.sDow ++ ".clk_30s")
  else
    (ac ++ ep.sWwww ++ ep.sDow ++ ".sp3", ac ++ ep.sWwww ++ ep.sDow ++ ".clk")

/-- Lines 2124-2163: the orbit file of an IGS analysis centre (`mode == 1`). -/
def GetOrbClk_igsSp3 (E : Env W) (fopt : ftpopt_t) (uc : String × String) (sp3File : String)
    (s : St W) : St W :=
  if fileExists E s sp3File = false then
    let sp3xFile := sp3File ++ ".*"
    let s := sysCmd E fopt (Cmd.wget sp3xFile uc.2 uc.1) s
    let sp3gzFile := sp3File ++ ".gz"
    let sp3zFile := sp3File ++ ".Z"
    let s :=
      if fileExists E s sp3gzFile then sysCmd E fopt (Cmd.gzip sp3gzFile) s
      else if fileExists E s sp3zFile then sysCmd E fopt (Cmd.gzip sp3zFile) s
      else s
    let s :=
      if fileExists E s sp3File = false then
        say ("*** INFO(FtpUtil::GetOrbClk): failed to download IGS precise orbit file " ++
          sp3File) s
      else if fileExists E s sp3File then
        say ("*** INFO(FtpUtil::GetOrbClk): successfully download IGS precise orbit file " ++
          sp3File) s
      else s
    cleanRepro3 E fopt s
  else
    say ("*** INFO(FtpUtil::GetOrbClk): IGS precise orbit file " ++ sp3File ++ " has existed!") s

/-- Lines 2167-2206: the clock file of an IGS analysis centre (`mode == 2`). -/
def GetOrbClk_igsClk (E : Env W) (fopt : ftpopt_t) (uc : String × String) (clkFile : String)
    (s : St W) : St W :=
  if fileExists E s clkFile = false then
    let clkxFile := clkFile ++ ".*"
    let s := sysCmd E fopt (Cmd.wget clkxFile uc.2 uc.1) s
    let clkgzFile := clkFile ++ ".gz"
    let clkzFile := clkFile ++ ".Z"
    let s :=
      if fileExists E s clkgzFile then sysCmd E fopt (Cmd.gzip clkgzFile) s
      else if fileExists E s clkzFile then sysCmd E fopt (Cmd.gzip clkzFile) s
      else s
    let s :=
      if fileExists E s clkFile = false then
        say ("*** INFO(FtpUtil::GetOrbClk): failed to download IGS precise clock file " ++
          clkFile) s
      else if fileExists E s clkFile then
        say ("*** INFO(FtpUtil::GetOrbClk): successfully download IGS precise clock file " ++
          clkFile) s
      else s
    cleanRepro3 E fopt s
  else
    say ("*** INFO(FtpUtil::GetOrbClk): IGS precise clock file " ++ clkFile ++ " has existed!") s

/-- Lines 2221-2250: one hour of the WHU multi-GNSS ultra-rapid orbit branch. -/
def GetOrbClk_wuuUnit (E : Env W) (ep : EpochStr) (fopt : ftpopt_t)
    (uc : String × String) (hh : Nat) (s : St W) : St W :=
  let sHh := hh2str hh
  let sp3File := "WUM0MGXULA_" ++ ep.sYyyy ++ ep.sDoy ++ sHh ++ "00_01D_05M_ORB.SP3"
  if fileExists E s sp3File = false then
    let sp3xFile := sp3File ++ ".*"
    let s := sysCmd E fopt (Cmd.wget sp3xFile uc.2 uc.1) s
    let sp3gzFile := sp3File ++ ".gz"
    let sp3zFile := sp3File ++ ".Z"
    let s :=
      if fileExists E s sp3gzFile then sysCmd E fopt (Cmd.gzip sp3gzFile) s
      else if fileExists E s sp3zFile then sysCmd E fopt (Cmd.gzip sp3zFile) s
      else s
    if fileExists E s sp3File = false then
      say ("*** INFO(FtpUtil::GetOrbClk): failed to download WHU multi-GNSS ultra-rapid orbit file " ++
        sp3File) s
    else if fileExists E s sp3File then
      say ("*** INFO(FtpUtil::GetOrbClk): successfully download WHU multi-GNSS ultra-rapid orbit file " ++
        sp3File) s
    else s
  else
    say ("*** INFO(FtpUtil::GetOrbClk): WHU multi-GNSS ultra-rapid orbit file " ++ sp3File ++
      " has existed!") s

/-- The four names of lines 2255-2283. -/
structure MgexNames where
  sp3File : String
  clkFile : String
  sp30File : String
  clk0File : String

/-- Lines 2255-2283: remote patterns and canonical local names of the MGEX products. -/
def GetOrbClk_mgexNames (ep : EpochStr) (ac : String) : MgexNames :=
  if ac = "com" then
    ⟨"COD0MGXFIN_" ++ ep.sYyyy ++ ep.sDoy ++ "0000_01D_" ++ "*_ORB.SP3",
      "COD0MGXFIN_" ++ ep.sYyyy ++ ep.sDoy ++ "0000_01D_" ++ "*_CLK.CLK",
      "com" ++ ep.sWwww ++ ep.sDow ++ ".sp3", "com" ++ ep.sWwww ++ ep.sDow ++ ".clk"⟩
  else if ac = "gbm" then
    ⟨"GFZ0MGXRAP_" ++ ep.sYyyy ++ ep.sDoy ++ "0000_01D_" ++ "*_ORB.SP3",
      "GFZ0MGXRAP_" ++ ep.sYyyy ++ ep.sDoy ++ "0000_01D_" ++ "*_CLK.CLK",
      "gbm" ++ ep.sWwww ++ ep.sDow ++ ".sp3", "gbm" ++ ep.sWwww ++ ep.sDow ++ ".clk"⟩
  else if ac = "grm" then
    ⟨"GRG0MGXFIN_" ++ ep.sYyyy ++ ep.sDoy ++ "0000_01D_" ++ "*_ORB.SP3",
      "GRG0MGXFIN_" ++ ep.sYyyy ++ ep.sDoy ++ "0000_01D_" ++ "*_CLK.CLK",
      "grm" ++ ep.sWwww ++ ep.sDow ++ ".sp3", "grm" ++ ep.sWwww ++ ep.sDow ++ ".clk"⟩
  else if ac = "wum" then
    ⟨"WUM0MGXFIN_" ++ ep.sYyyy ++ ep.sDoy ++ "0000_01D_" ++ "*_ORB.SP3",
      "WUM0MGXFIN_" ++ ep.sYyyy ++ ep.sDoy ++ "0000_01D_" ++ "*_CLK.CLK",
      "wum" ++ ep.sWwww ++ ep.sDow ++ ".sp3", "wum" ++ ep.sWwww ++ ep.sDow ++ ".clk"⟩
  else ⟨"", "", "", ""⟩

/-- Lines 2287-2323: the orbit file of an MGEX analysis centre (`mode == 1`). -/
def GetOrbClk_mgexSp3 (E : Env W) (fopt : ftpopt_t) (uc : String × String)
    (sp3File sp30File : String) (s : St W) : St W :=
  if fileExists E s sp30File = false then
    let sp3xFile := sp3File ++ ".*"
    let s := sysCmd E fopt (Cmd.wget sp3xFile uc.2 uc.1) s
    let sp3gzFile := sp3File ++ ".gz"
    let s := sysCmd E fopt (Cmd.gzip sp3gzFile) s
    let s := sysCmd E fopt (Cmd.mv sp3File sp30File) s
    let s :=
      if fileExists E s sp30File = false then
        let sp3zFile := sp3File ++ ".Z"
        let s := sysCmd E fopt (Cmd.gzip sp3zFile) s
        let s := sysCmd E fopt (Cmd.mv sp3File sp30File) s
        if fileExists E s sp30File = false then
          say ("*** INFO(FtpUtil::GetOrbClk): failed to download MGEX precise orbit file " ++
            sp30File) s
        else s
      else s
    if fileExists E s sp30File then
      say ("*** INFO(FtpUtil::GetOrbClk): successfully download MGEX precise orbit file " ++
        sp30File) s
    else s
  else
    say ("*** INFO(FtpUtil::GetOrbClk): MGEX precise orbit file " ++ sp30File ++ " has existed!") s

/-- Lines 2327-2364: the clock file of an MGEX analysis centre (`mode == 2`). The test
of line 2356 is on `clkFile`. -/
def GetOrbClk_mgexClk (E : Env W) (fopt : ftpopt_t) (uc : String × String)
    (clkFile clk0File : String) (s : St W) : St W :=
  if fileExists E s clk0File = false then
    let clkxFile := clkFile ++ ".*"
    let s := sysCmd E fopt (Cmd.wget clkxFile uc.2 uc.1) s
    let clkgzFile := clkFile ++ ".gz"
    let s := sysCmd E fopt (Cmd.gzip clkgzFile) s
    let s := sysCmd E fopt (Cmd.mv clkFile clk0File) s
    let s :=
      if fileExists E s clk0File = false then
        let clkzFile := clkFile ++ ".Z"
        let s := sysCmd E fopt (Cmd.gzip clkzFile) s
        let s := sysCmd E fopt (Cmd.mv clkFile clk0File) s
        if fileExists E s clkFile = false then
          say ("*** INFO(FtpUtil::GetOrbClk): failed to download MGEX precise clock file " ++
            clk0File) s
        else s
      else s
    if fileExists E s clk0File then
      say ("*** INFO(FtpUtil::GetOrbClk): successfully download MGEX precise clock file " ++
        clk0File) s
    else s
  else
    say ("*** INFO(FtpUtil::GetOrbClk): MGEX precise clock file " ++ clk0File ++ " has existed!") s

/-- The procedure `GetOrbClk(ts, dir, mode, fopt)`. -/
def GetOrbClk (E : Env W) (ar : FtpArchive) (ep : EpochStr) (dir : String) (mode : Nat)
    (fopt : ftpopt_t) (s : St W) : St W :=
  let s := chdir E dir s
  let ac := ToLower fopt.orbClkOpt
  let isIGS := acIGS.any fun a => ac == a
  let isMGEX := acMGEX.any fun a => ac == a
  let ftpName := ToUpper fopt.ftpFrom
  if isIGS then
    if ac = "igu" then
      let uc := GetOrbClk_igsUrl ar ep ftpName
      fopt.hhOrbClk.foldl (fun s hh => GetOrbClk_iguUnit E ep fopt ac uc hh s) s
    else if ac = "gfu" then
      let uc : String × String :=
        ("ftp://ftp.gfz-potsdam.de/pub/GNSS/products/ultra/w" ++ ep.sWwww, " --cut-dirs=5 ")
      fopt.hhOrbClk.foldl (fun s hh => GetOrbClk_gfuUnit E ep fopt ac uc hh s) s
    else
      let names := GetOrbClk_igsNames ep ac
      let uc := GetOrbClk_igsUrl ar ep ftpName
      if mode = 1 then GetOrbClk_igsSp3 E fopt uc names.1 s
      else if mode = 2 then GetOrbClk_igsClk E fopt uc names.2 s
      else s
  else if isMGEX then
    let uc : String × String :=
      if ftpName = "CDDIS" then (at_ ar.CDDIS IDX_SP3M ++ "/" ++ ep.sWwww, " --cut-dirs=5 ")
      else if ftpName = "IGN" then (at_ ar.IGN IDX_SP3M ++ "/" ++ ep.sWwww, " --cut-dirs=5 ")
      else if ftpName = "WHU" then (at_ ar.WHU IDX_SP3M ++ "/" ++ ep.sWwww, " --cut-dirs=5 ")
      else (at_ ar.CDDIS IDX_SP3M ++ "/" ++ ep.sWwww, " --cut-dirs=5 ")
    if ac = "wuu" then
      fopt.hhOrbClk.foldl (fun s hh => GetOrbClk_wuuUnit E ep fopt uc hh s) s
    else
      let names := GetOrbClk_mgexNames ep ac
      if mode = 1 then GetOrbClk_mgexSp3 E fopt uc names.sp3File names.sp30File s
      else if mode = 2 then GetOrbClk_mgexClk E fopt uc names.clkFile names.clk0File s
      else s
  else s

/-! ## `FtpUtil::GetEop` (lines 2379-2554) -/

/-- Lines 2419-2423 and 2509-2513: URL and `--cut-dirs` option of the EOP files. -/
def GetEop_url (ar : FtpArchive) (ep : EpochStr) (ftpName : String) : String × String :=
  if ftpName = "CDDIS" then (at_ ar.CDDIS IDX_EOP ++ "/" ++ ep.sWwww, " --cut-dirs=4 ")
  else if ftpName = "IGN" then (at_ ar.IGN IDX_EOP ++ "/" ++ ep.sWwww, " --cut-dirs=4 ")
  else if ftpName = "WHU" then (at_ ar.WHU IDX_EOP ++ "/" ++ ep.sWwww, " --cut-dirs=4 ")
  else (at_ ar.CDDIS IDX_EOP ++ "/" ++ ep.sWwww, " --cut-dirs=4 ")

/-- Lines 2414-2461: one hour of the IGS ultra-rapid branch. -/
def GetEop_iguUnit (E : Env W) (ar : FtpArchive) (ep : EpochStr) (fopt : ftpopt_t)
    (ftpName ac : String) (hh : Nat) (s : St W) : St W :=
  let sHh := hh2str hh
  let eopFile := ac ++ ep.sWwww ++ ep.sDow ++ "_" ++ sHh ++ ".erp"
  if fileExists E s eopFile = false then
    let uc := GetEop_url ar ep ftpName
    let eopxFile := eopFile ++ ".*"
    let s := sysCmd E fopt (Cmd.wget eopxFile uc.2 uc.1) s
    let eopgzFile := eopFile ++ ".gz"
    let eopzFile := eopFile ++ ".Z"
    let s :=
      if fileExists E s eopgzFile then sysCmd E fopt (Cmd.gzip eopgzFile) s
      else if fileExists E s eopzFile then sysCmd E fopt (Cmd.gzip eopzFile) s
      else s
    let s :=
      if fileExists E s eopFile = false then
        say ("*** INFO(FtpUtil::GetEop): failed to download IGU EOP file " ++ eopFile) s
      else if fileExists E s eopFile then
        say ("*** INFO(FtpUtil::GetEop): successfully download IGU EOP file " ++ eopFile) s
      else s
    cleanRepro3 E fopt s
  else say ("*** INFO(FtpUtil::GetEop): IGU EOP file " ++ eopFile ++ " has existed!") s

/-- Lines 2470-2498: one hour of the GFZ ultra-rapid branch. -/
def GetEop_gfuUnit (E : Env W) (ep : EpochStr) (fopt : ftpopt_t) (ac : String)
    (uc : String × String) (hh : Nat) (s : St W) : St W :=
  let sHh := hh2str hh
  let eopFile := ac ++ ep.sWwww ++ ep.sDow ++ "_" ++ sHh ++ ".erp"
  if fileExists E s eopFile = false then
    let eopxFile := eopFile ++ ".*"
    let s := sysCmd E fopt (Cmd.wget eopxFile uc.2 uc.1) s
    let eopgzFile := eopFile ++ ".gz"
    let eopzFile := eopFile ++ ".Z"
    let s :=
      if fileExists E s eopgzFile then sysCmd E fopt (Cmd.gzip eopgzFile) s
      else if fileExists E s eopzFile then sysCmd E fopt (Cmd.gzip eopzFile) s
      else s
    if fileExists E s eopFile = false then
      say ("*** INFO(FtpUtil::GetEop): failed to download GFU EOP file " ++ eopFile) s
    else if fileExists E s eopFile then
      say ("*** INFO(FtpUtil::GetEop): successfully download GFU EOP file " ++ eopFile) s
    else s
  else say ("*** INFO(FtpUtil::GetEop): GFU EOP file " ++ eopFile ++ " has existed!") s

/-- Lines 2506-2551: the EOP file of the other IGS analysis centres. -/
def GetEop_igsFetch (E : Env W) (ar : FtpArchive) (ep : EpochStr) (fopt : ftpopt_t)
    (ftpName eopFile : String) (s : St W) : St W :=
  if fileExists E s eopFile = false then
    let uc := GetEop_url ar ep ftpName
    let eopxFile := eopFile ++ ".*"
    let s := sysCmd E fopt (Cmd.wget eopxFile uc.2 uc.1) s
    let eopgzFile := eopFile ++ ".gz"
    let eopzFile := eopFile ++ ".Z"
    let s :=
      if fileExists E s eopgzFile then sysCmd E fopt (Cmd.gzip eopgzFile) s
      else if fileExists E s eopzFile then sysCmd E fopt (Cmd.gzip eopzFile) s
      else s
    let s :=
      if fileExists E s eopFile = false then
        say ("*** INFO(FtpUtil::GetEop): failed to download IGS EOP file " ++ eopFile) s
      else if fileExists E s eopFile then
        say ("*** INFO(FtpUtil::GetEop): successfully download IGS EOP file " ++ eopFile) s
      else s
    cleanRepro3 E fopt s
  else say ("*** INFO(FtpUtil::GetEop): IGS EOP file " ++ eopFile ++ " has existed!") s

/-- The procedure `GetEop(ts, dir, fopt)`. -/
def GetEop (E : Env W) (ar : FtpArchive) (ep : EpochStr) (dir : String)
    (fopt : ftpopt_t) (s : St W) : St W :=
  let s := chdir E dir s
  let ac := ToLower fopt.eopOpt
  let isIGS := acIGS.any fun a => ac == a
  let ftpName := ToUpper fopt.ftpFrom
  if isIGS then
    if ac = "igu" then
      fopt.hhEop.foldl (fun s hh => GetEop_iguUnit E ar ep fopt ftpName ac hh s) s
    else if ac = "gfu" then
      let uc : String × String :=
        ("ftp://ftp.gfz-potsdam.de/pub/GNSS/products/ultra/w" ++ ep.sWwww, " --cut-dirs=5 ")
      fopt.hhEop.foldl (fun s hh => GetEop_gfuUnit E ep fopt ac uc hh s) s
    else
      let eopFile :=
        if ac = "igr" then ac ++ ep.sWwww ++ ep.sDow ++ ".erp" else ac ++ ep.sWwww ++ "7.erp"
      GetEop_igsFetch E ar ep fopt ftpName eopFile s
  else s

/-! ## `FtpUtil::GetSnx` (lines 2565-2682) -/

/-- Lines 2588-2592 (weekly attempt): URL and `--cut-dirs` option. -/
def GetSnx_url (ar : FtpArchive) (ep : EpochStr) (ftpName : String) : String × String :=
  if ftpName = "CDDIS" then (at_ ar.CDDIS IDX_SNX ++ "/" ++ ep.sWwww, " --cut-dirs=4 ")
  else if ftpName = "IGN" then (at_ ar.IGN IDX_SNX ++ "/" ++ ep.sWwww, " --cut-dirs=4 ")
  else if ftpName = "WHU" then (at_ ar.WHU IDX_SNX ++ "/" ++ ep.sWwww, " --cut-dirs=4 ")
  else (at_ ar.CDDIS IDX_SNX ++ "/" ++ ep.sWwww, " --cut-dirs=4 ")

/-- Lines 2628-2632 (daily attempt): URL and `--cut-dirs` option. -/
def GetSnx_urlDaily (ar : FtpArchive) (ep : EpochStr) (ftpName : String) : String × String :=
  if ftpName = "CDDIS" then (at_ ar.CDDIS IDX_SNX ++ "/" ++ ep.sWwww, " --cut-dirs=4 ")
  else if ftpName = "IGN" then (at_ ar.IGN IDX_SNX ++ "/" ++ ep.sWwww, " --cut-dirs=4 ")
  else if ftpName = "WHU" then (at_ ar.WHU IDX_SNX ++ "/" ++ ep.sWwww, " --cut-dirs=4 ")
  else (at_ ar.CDDIS IDX_SNX ++ "/" ++ ep.sWwww, " --cut-dirs=4 ")

/-- Lines 2621-2622 and 2661-2662: the failure line. -/
def GetSnx_failed (snx0File : String) : String :=
  "*** INFO(FtpUtil::GetSnx): failed to download IGS weekly SINEX file " ++ snx0File

/-- Lines 2666-2667: the success line. -/
def GetSnx_success (snx0File : String) : String :=
  "*** INFO(FtpUtil::GetSnx): successfully download IGS weekly SINEX file " ++ snx0File

/-- Line 2681: the line for a file that is already there. -/
def GetSnx_existed (snx0File : String) : String :=
  "*** INFO(FtpUtil::GetSnx): IGS weekly SINEX file " ++ snx0File ++ " has existed!"

/-- Lines 2594-2623: the weekly attempt. -/
def GetSnx_weekly (E : Env W) (ar : FtpArchive) (ep : EpochStr) (fopt : ftpopt_t)
    (ftpName snx0File : String) (s : St W) : St W :=
  let uc := GetSnx_url ar ep ftpName
  let snxFile := "igs*P" ++ ep.sWwww ++ ".snx"
  let snxxFile := snxFile ++ ".*"
  let s := sysCmd E fopt (Cmd.wget snxxFile uc.2 uc.1) s
  let snxzFile := snxFile ++ ".Z"
  let s := sysCmd E fopt (Cmd.gzip snxzFile) s
  let s := sysCmd E fopt (Cmd.mv snxFile snx0File) s
  if fileExists E s snx0File = false then
    let snxgzFile := snxFile ++ ".gz"
    let s := sysCmd E fopt (Cmd.gzip snxgzFile) s
    let s := sysCmd E fopt (Cmd.mv snxFile snx0File) s
    if fileExists E s snx0File = false then say (GetSnx_failed snx0File) s else s
  else s

/-- Lines 2626-2664: the fall-back on the daily file. -/
def GetSnx_dailyFallback (E : Env W) (ar : FtpArchive) (ep : EpochStr) (fopt : ftpopt_t)
    (ftpName snx0File : String) (s : St W) : St W :=
  if fileExists E s snx0File = false then
    let uc := GetSnx_urlDaily ar ep ftpName
    let snxFile := "igs*P" ++ ep.sWwww ++ ep.sDow ++ ".snx"
    let snxxFile := snxFile ++ ".*"
    let s := sysCmd E fopt (Cmd.wget snxxFile uc.2 uc.1) s
    let snxzFile := snxFile ++ ".Z"
    let s := sysCmd E fopt (Cmd.gzip snxzFile) s
    let s := sysCmd E fopt (Cmd.mv snxFile snx0File) s
    if fileExists E s snx0File = false then
      let snxgzFile := snxFile ++ ".gz"
      let s := sysCmd E fopt (Cmd.gzip snxgzFile) s
      let s := sysCmd E fopt (Cmd.mv snxFile snx0File) s
      if fileExists E s snx0File = false then say (GetSnx_failed snx0File) s else s
    else s
  else s

/-- The procedure `GetSnx(ts, dir, fopt)`. -/
def GetSnx (E : Env W) (ar : FtpArchive) (ep : EpochStr) (dir : String)
    (fopt : ftpopt_t) (s : St W) : St W :=
  let s := chdir E dir s
  let ftpName := ToUpper fopt.ftpFrom
  let snx0File := "igs" ++ ep.sWwww ++ ".snx"
  if fileExists E s snx0File = false then
    let s := GetSnx_weekly E ar ep fopt ftpName snx0File s
    let s := GetSnx_dailyFallback E ar ep fopt ftpName snx0File s
    let s := if fileExists E s snx0File then say (GetSnx_success snx0File) s else s
    cleanRepro3 E fopt s
  else say (GetSnx_existed snx0File) s

/-! ## `FtpUtil::GetDcbMgex` (lines 2693-2756) -/

/-- Lines 2717-2729: URL and `--cut-dirs` option. -/
def GetDcbMgex_url (ar : FtpArchive) (ep : EpochStr) (ftpName : String) : String × String :=
  if ftpName = "CDDIS" then (at_ ar.CDDIS IDX_DCBM ++ "/" ++ ep.sYyyy, " --cut-dirs=5 ")
  else if ftpName = "IGN" then (at_ ar.IGN IDX_DCBM ++ "/" ++ ep.sYyyy, " --cut-dirs=6 ")
  else if ftpName = "WHU" then (at_ ar.WHU IDX_DCBM ++ "/" ++ ep.sYyyy, " --cut-dirs=6 ")
  else (at_ ar.CDDIS IDX_DCBM ++ "/" ++ ep.sYyyy, " --cut-dirs=5 ")

/-- Lines 2750-2751: the failure line. -/
def GetDcbMgex_failed (dcbFile : String) : String :=
  "*** INFO(FtpUtil::GetDcbMgex): failed to download multi-GNSS DCB file " ++ dcbFile

/-- Lines 2752-2753: the success line. -/
def GetDcbMgex_success (dcbFile : String) : String :=
  "*** INFO(FtpUtil::GetDcbMgex): successfully download multi-GNSS DCB file " ++ dcbFile

/-- Lines 2714-2755: the fetch after the name is built. -/
def GetDcbMgex_fetch (E : Env W) (ar : FtpArchive) (ep : EpochStr) (fopt : ftpopt_t)
    (ftpName dcbFile : String) (s : St W) : St W :=
  if fileExists E s dcbFile = false then
    let uc := GetDcbMgex_url ar ep ftpName
    let dcbxFile := dcbFile ++ ".*"
    let s := sysCmd E fopt (Cmd.wget dcbxFile uc.2 uc.1) s
    let dcbgzFile := dcbFile ++ ".gz"
    let dcbzFile := dcbFile ++ ".Z"
    let s :=
      if fileExists E s dcbgzFile then sysCmd E fopt (Cmd.gzip dcbgzFile) s
      else if fileExists E s dcbzFile then sysCmd E fopt (Cmd.gzip dcbzFile) s
      else s
    if fileExists E s dcbFile = false then say (GetDcbMgex_failed dcbFile) s
    else if fileExists E s dcbFile then say (GetDcbMgex_success dcbFile) s
    else s
  else
    say ("*** INFO(FtpUtil::GetDcbMgex): multi-GNSS DCB file " ++ dcbFile ++ " has existed!") s

/-- The procedure `GetDcbMgex(ts, dir, fopt)`. -/
def GetDcbMgex (E : Env W) (ar : FtpArchive) (ep : EpochStr) (dir : String)
    (fopt : ftpopt_t) (s : St W) : St W :=
  let s := chdir E dir s
  let ftpName := ToUpper fopt.ftpFrom
  let dcbFile := "CAS0MGXRAP_" ++ ep.sYyyy ++ ep.sDoy ++ "0000_01D_01D_DCB.BSX"
  GetDcbMgex_fetch E ar ep fopt ftpName dcbFile s

/-! ## `FtpUtil::GetDcbCode` (lines 2768-2853) -/

/-- Lines 2790-2807: the remote name `dcbFile` and the local name `dcb0File`. Both stay
empty for a type other than `P1P2`, `P1C1`, `P2C2`. -/
def GetDcbCode_names (ep : EpochStr) (type : String) : String × String :=
  if type = "P1P2" then ("P1P2" ++ ep.sYy ++ ep.sMm ++ ".DCB", "P1P2" ++ ep.sYy ++ ep.sMm ++ ".DCB")
  else if type = "P1C1" then
    ("P1C1" ++ ep.sYy ++ ep.sMm ++ ".DCB", "P1C1" ++ ep.sYy ++ ep.sMm ++ ".DCB")
  else if type = "P2C2" then
    ("P2C2" ++ ep.sYy ++ ep.sMm ++ "_RINEX.DCB", "P2C2" ++ ep.sYy ++ ep.sMm ++ ".DCB")
  else ("", "")

/-- Lines 2834-2835: the failure line. -/
def GetDcbCode_failed (dcbFile : String) : String :=
  "*** INFO(FtpUtil::GetDcbCode): failed to download CODE DCB file " ++ dcbFile

/-- Line 2849: the success line. -/
def GetDcbCode_success (dcb0File : String) : String :=
  "*** INFO(FtpUtil::GetDcbCode): successfully download CODE DCB file " ++ dcb0File

/-- Lines 2809-2852: the fetch after the names are built. -/
def GetDcbCode_fetch (E : Env W) (ep : EpochStr) (fopt : ftpopt_t) (type : String)
    (dcbFile dcb0File : String) (s : St W) : St W :=
  if fileExists E s dcbFile = false ∧ fileExists E s dcb0File = false then
    let url := "ftp://ftp.aiub.unibe.ch/CODE/" ++ ep.sYyyy
    let dcbxFile := dcbFile ++ ".*"
    let s := sysCmd E fopt (Cmd.wget dcbxFile " --cut-dirs=2 " url) s
    let dcbgzFile := dcbFile ++ ".gz"
    let dcbzFile := dcbFile ++ ".Z"
    let s :=
      if fileExists E s dcbgzFile then sysCmd E fopt (Cmd.gzip dcbgzFile) s
      else if fileExists E s dcbzFile then sysCmd E fopt (Cmd.gzip dcbzFile) s
      else s
    let s := if fileExists E s dcbFile = false then say (GetDcbCode_failed dcbFile) s else s
    let s := if type = "P2C2" then sysCmd E fopt (Cmd.mv dcbFile dcb0File) s else s
    if fileExists E s dcb0File then say (GetDcbCode_success dcb0File) s else s
  else
    say ("*** INFO(FtpUtil::GetDcbCode): CODE DCB file " ++ dcb0File ++ " or " ++ dcbFile ++
      " has existed!") s

/-- The procedure `GetDcbCode(ts, dir, dType, fopt)`. -/
def GetDcbCode (E : Env W) (ep : EpochStr) (dir : String) (dType : String)
    (fopt : ftpopt_t) (s : St W) : St W :=
  let s := chdir E dir s
  let type := ToUpper dType
  let names := GetDcbCode_names ep type
  GetDcbCode_fetch E ep fopt type names.1 names.2 s

/-! ## `FtpUtil::GetIono` (lines 2864-2937) -/

/-- Lines 2891-2898: URL and `--cut-dirs` option. -/
def GetIono_url (ar : FtpArchive) (ep : EpochStr) (ftpName : String) : String × String :=
  if ftpName = "CDDIS" then
    (at_ ar.CDDIS IDX_ION ++ "/" ++ ep.sYyyy ++ "/" ++ ep.sDoy, " --cut-dirs=6 ")
  else if ftpName = "IGN" then
    (at_ ar.IGN IDX_ION ++ "/" ++ ep.sYyyy ++ "/" ++ ep.sDoy, " --cut-dirs=6 ")
  else if ftpName = "WHU" then
    (at_ ar.WHU IDX_ION ++ "/" ++ ep.sYyyy ++ "/" ++ ep.sDoy, " --cut-dirs=6 ")
  else (at_ ar.CDDIS IDX_ION ++ "/" ++ ep.sYyyy ++ "/" ++ ep.sDoy, " --cut-dirs=6 ")

/-- Lines 2919-2920: the failure line. -/
def GetIono_failed (ionFile : String) : String :=
  "*** INFO(FtpUtil::GetIono): failed to download GIM file " ++ ionFile

/-- Lines 2921-2922: the success line. -/
def GetIono_success (ionFile : String) : String :=
  "*** INFO(FtpUtil::GetIono): successfully download GIM file " ++ ionFile

/-- Lines 2925-2934 and 3007-3016: removal of the temporary directory `topex`. -/
def cleanTopex (E : Env W) (fopt : ftpopt_t) (s : St W) : St W :=
  let tmpDir := "topex"
  if fileExists E s tmpDir then sysCmd E fopt (Cmd.rmrf tmpDir) s else s

/-- Lines 2888-2936: the fetch after the name is built. -/
def GetIono_fetch (E : Env W) (ar : FtpArchive) (ep : EpochStr) (fopt : ftpopt_t)
    (ftpName ionFile : String) (s : St W) : St W :=
  if fileExists E s ionFile = false then
    let uc := GetIono_url ar ep ftpName
    let ionxFile := ionFile ++ ".*"
    let s := sysCmd E fopt (Cmd.wget ionxFile uc.2 uc.1) s
    let iongzFile := ionFile ++ ".gz"
    let ionzFile := ionFile ++ ".Z"
    let s :=
      if fileExists E s iongzFile then sysCmd E fopt (Cmd.gzip iongzFile) s
      else if fileExists E s ionzFile then sysCmd E fopt (Cmd.gzip ionzFile) s
      else s
    let s :=
      if fileExists E s ionFile = false then say (GetIono_failed ionFile) s
      else if fileExists E s ionFile then say (GetIono_success ionFile) s
      else s
    cleanTopex E fopt s
  else say ("*** INFO(FtpUtil::GetIono): GIM file " ++ ionFile ++ " has existed!") s

/-- The procedure `GetIono(ts, dir, fopt)`. -/
def GetIono (E : Env W) (ar : FtpArchive) (ep : EpochStr) (dir : String)
    (fopt : ftpopt_t) (s : St W) : St W :=
  let s := chdir E dir s
  let ftpName := ToUpper fopt.ftpFrom
  let ac := ToLower fopt.ionOpt
  let ionFile := ac ++ "g" ++ ep.sDoy ++ "0." ++ ep.sYy ++ "i"
  GetIono_fetch E ar ep fopt ftpName ionFile s

/-! ## `FtpUtil::GetRoti` (lines 2948-3019) -/

/-- Lines 2973-2980: URL and `--cut-dirs` option. -/
def GetRoti_url (ar : FtpArchive) (ep : EpochStr) (ftpName : String) : String × String :=
  if ftpName = "CDDIS" then
    (at_ ar.CDDIS IDX_ROTI ++ "/" ++ ep.sYyyy ++ "/" ++ ep.sDoy, " --cut-dirs=6 ")
  else if ftpName = "IGN" then
    (at_ ar.IGN IDX_ROTI ++ "/" ++ ep.sYyyy ++ "/" ++ ep.sDoy, " --cut-dirs=6 ")
  else if ftpName = "WHU" then
    (at_ ar.WHU IDX_ROTI ++ "/" ++ ep.sYyyy ++ "/" ++ ep.sDoy, " --cut-dirs=6 ")
  else (at_ ar.CDDIS IDX_ROTI ++ "/" ++ ep.sYyyy ++ "/" ++ ep.sDoy, " --cut-dirs=6 ")

/-- Lines 3001-3002: the failure line. -/
def GetRoti_failed (rotFile : String) : String :=
  "*** INFO(FtpUtil::GetRoti): failed to download ROTI file " ++ rotFile

/-- Lines 3003-3004: the success line. -/
def GetRoti_success (rotFile : String) : String :=
  "*** INFO(FtpUtil::GetRoti): successfully download ROTI file " ++ rotFile

/-- Lines 2970-3018: the fetch after the name is built. -/
def GetRoti_fetch (E : Env W) (ar : FtpArchive) (ep : EpochStr) (fopt : ftpopt_t)
    (ftpName rotFile : String) (s : St W) : St W :=
  if fileExists E s rotFile = false then
    let uc := GetRoti_url ar ep ftpName
    let rotxFile := rotFile ++ ".*"
    let s := sysCmd E fopt (Cmd.wget rotxFile uc.2 uc.1) s
    let rotgzFile := rotFile ++ ".gz"
    let rotzFile := rotFile ++ ".Z"
    let s :=
      if fileExists E s rotgzFile then sysCmd E fopt (Cmd.gzip rotgzFile) s
      else if fileExists E s rotzFile then sysCmd E fopt (Cmd.gzip rotzFile) s
      else s
    let s :=
      if fileExists E s rotFile = false then say (GetRoti_failed rotFile) s
      else if fileExists E s rotFile then say (GetRoti_success rotFile) s
      else s
    cleanTopex E fopt s
  else say ("*** INFO(FtpUtil::GetRoti): ROTI file " ++ rotFile ++ " has existed!") s

/-- The procedure `GetRoti(ts, dir, fopt)`. -/
def GetRoti (E : Env W) (ar : FtpArchive) (ep : EpochStr) (dir : String)
    (fopt : ftpopt_t) (s : St W) : St W :=
  let s := chdir E dir s
  let ftpName := ToUpper fopt.ftpFrom
  let rotFile := "roti" ++ ep.sDoy ++ "0." ++ ep.sYy ++ "f"
  GetRoti_fetch E ar ep fopt ftpName rotFile s

/-! ## `FtpUtil::GetTrop` (lines 3030-3197) -/

/-- Lines 3118-3127: URL and `--cut-dirs` option of the site-list mode. The URL stays
empty for an archive other than CDDIS, IGN, WHU. -/
def GetTrop_url (ar : FtpArchive) (ep : EpochStr) (ftpName : String) : String × String :=
  if ftpName = "CDDIS" then
    (at_ ar.CDDIS IDX_ZTD ++ "/" ++ ep.sYyyy ++ "/" ++ ep.sDoy, " --cut-dirs=7 ")
  else if ftpName = "IGN" then
    (at_ ar.IGN IDX_ZTD ++ "/" ++ ep.sYyyy ++ "/" ++ ep.sDoy, " --cut-dirs=6 ")
  else if ftpName = "WHU" then
    (at_ ar.WHU IDX_ZTD ++ "/" ++ ep.sYyyy ++ "/" ++ ep.sDoy, " --cut-dirs=7 ")
  else ("", " --cut-dirs=7 ")

/-- Lines 3148-3149: the failure line of the site-list mode. -/
def GetTrop_failed (zpdFile : String) : String :=
  "*** INFO(FtpUtil::GetTrop): failed to download IGS tropospheric product file " ++ zpdFile

/-- Lines 3150-3151: the success line of the site-list mode. -/
def GetTrop_success (zpdFile : String) : String :=
  "*** INFO(FtpUtil::GetTrop): successfully download IGS tropospheric product file " ++ zpdFile

/-- Lines 3114-3154: one iteration of the `getline` loop of the site-list mode. -/
def GetTrop_unit (E : Env W) (ar : FtpArchive) (ep : EpochStr) (fopt : ftpopt_t)
    (ftpName : String) (sitName : String) (s : St W) : St W :=
  let sitName := ToLower sitName
  let zpdFile := sitName ++ ep.sDoy ++ "0." ++ ep.sYy ++ "zpd"
  if fileExists E s zpdFile = false then
    let uc := GetTrop_url ar ep ftpName
    let zpdxFile := zpdFile ++ ".*"
    let s := sysCmd E fopt (Cmd.wget zpdxFile uc.2 uc.1) s
    let zpdgzFile := zpdFile ++ ".gz"
    let zpdzFile := zpdFile ++ ".Z"
    let s :=
      if fileExists E s zpdgzFile then sysCmd E fopt (Cmd.gzip zpdgzFile) s
      else if fileExists E s zpdzFile then sysCmd E fopt (Cmd.gzip zpdzFile) s
      else s
    if fileExists E s zpdFile = false then say (GetTrop_failed zpdFile) s
    else if fileExists E s zpdFile then say (GetTrop_success zpdFile) s
    else s
  else
    say ("*** INFO(FtpUtil::GetTrop): IGS tropospheric product file " ++ zpdFile ++
      " has existed!") s

/-- Lines 3090-3095: one iteration of the loop over the fetched files in all-stations
mode. -/
def GetTrop_allFile (E : Env W) (fopt : ftpopt_t) (f : String) (s : St W) : St W :=
  if fileExists E s f then sysCmd E fopt (Cmd.gzip f) s else s

/-- Lines 3189-3190: the failure line of the CODE branch. -/
def GetTrop_codFailed (trpFile : String) : String :=
  "*** INFO(FtpUtil::GetTrop): failed to download CODE tropospheric product file " ++ trpFile

/-- Lines 3191-3192: the success line of the CODE branch. -/
def GetTrop_codSuccess (trpFile : String) : String :=
  "*** INFO(FtpUtil::GetTrop): successfully download CODE tropospheric product file " ++ trpFile

/-- Lines 3164-3195: the CODE branch. -/
def GetTrop_cod (E : Env W) (ep : EpochStr) (fopt : ftpopt_t) (s : St W) : St W :=
  let trpFile := "COD" ++ ep.sWwww ++ ep.sDow ++ ".TRO"
  if fileExists E s trpFile = false then
    let url := "ftp://ftp.aiub.unibe.ch/CODE/" ++ ep.sYyyy
    let cutDirs := " --cut-dirs=2 "
    let trpxFile := trpFile ++ ".*"
    let s := sysCmd E fopt (Cmd.wget trpxFile cutDirs url) s
    let trpgzFile := trpFile ++ ".gz"
    let trpzFile := trpFile ++ ".Z"
    let s :=
      if fileExists E s trpgzFile then sysCmd E fopt (Cmd.gzip trpgzFile) s
      else if fileExists E s trpzFile then sysCmd E fopt (Cmd.gzip trpzFile) s
      else s
    if fileExists E s trpFile = false then say (GetTrop_codFailed trpFile) s
    else if fileExists E s trpFile then say (GetTrop_codSuccess trpFile) s
    else s
  else
    say ("*** INFO(FtpUtil::GetTrop): CODE tropospheric product file " ++ trpFile ++
      " has existed!") s

/-- The procedure `GetTrop(ts, dir, fopt)`. -/
def GetTrop (E : Env W) (ar : FtpArchive) (ep : EpochStr) (dir : String)
    (fopt : ftpopt_t) (s : St W) : St W :=
  let s := chdir E dir s
  let ac := ToLower fopt.trpOpt
  if ac = "igs" then
    let ftpName := ToUpper fopt.ftpFrom
    let sitFile := if fopt.getObs then fopt.obsOpt else if fopt.getObm then fopt.obmOpt
      else fopt.obsOpt
    if strlen sitFile < 9 then
      let uc : String × String :=
        if ftpName = "CDDIS" then
          (at_ ar.CDDIS IDX_ZTD ++ "/" ++ ep.sYyyy ++ "/" ++ ep.sDoy, " --cut-dirs=7 ")
        else if ftpName = "IGN" then
          (at_ ar.IGN IDX_ZTD ++ "/" ++ ep.sYyyy ++ "/" ++ ep.sDoy, " --cut-dirs=6 ")
        else if ftpName = "WHU" then
          (at_ ar.WHU IDX_ZTD ++ "/" ++ ep.sYyyy ++ "/" ++ ep.sDoy, " --cut-dirs=7 ")
        else (at_ ar.CDDIS IDX_ZTD ++ "/" ++ ep.sYyyy ++ "/" ++ ep.sDoy, " --cut-dirs=7 ")
      let zpdFile := "*" ++ ep.sDoy ++ "0." ++ ep.sYy ++ "zpd"
      let zpdxFile := zpdFile ++ ".*"
      let s := sysCmd E fopt (Cmd.wget zpdxFile uc.2 uc.1) s
      let suffix := "." ++ ep.sYy ++ "zpd"
      let zpdFiles := E.getFilesAll s.world dir suffix
      zpdFiles.foldl (fun s f => GetTrop_allFile E fopt f s) s
    else
      if fileExists E s sitFile then
        match E.openLines s.world sitFile with
        | none =>
            sayErr ("*** ERROR(FtpUtil::GetTrop): open site.list = " ++ sitFile ++
              " file failed, please check it") s
        | some sites => sites.foldl (fun s line => GetTrop_unit E ar ep fopt ftpName line s) s
      else s
  else if ac = "cod" then GetTrop_cod E ep fopt s
  else s

/-! ## `FtpUtil::FtpDownload`, orbit and clock products (lines 3505-3553) -/

/-- Time stamps are whole seconds. Modelled from the spec: `TimeUtil::TimeAdd` is not part
of the sources at hand; it shifts the epoch by the given number of seconds. -/
def TimeAdd (ts : Int) (sec : Int) : Int :=
  ts + sec

/-- The fields of `prcopt_t` read by the orbit and clock block. -/
structure prcopt_t where
  ts : Int
  sp3Dir : String
  clkDir : String
deriving DecidableEq, Repr

/-- A step of the orbit and clock block of `FtpDownload`. -/
inductive Step where
  | ensureDir (dir : String)
  | getOrbClk (ts : Int) (dir : String) (mode : Nat)
deriving DecidableEq, Repr

/-- Lines 3506-3553: the steps the block takes, in order. -/
def FtpDownload_orbClk (popt : prcopt_t) (fopt : ftpopt_t) : List Step :=
  if fopt.getOrbClk then
    [Step.ensureDir popt.sp3Dir, Step.getOrbClk popt.ts popt.sp3Dir 1] ++
    (if fopt.orbClkOpt ≠ "igu" ∧ fopt.orbClkOpt ≠ "gfu" ∧ fopt.orbClkOpt ≠ "wuu" then
      [Step.ensureDir popt.clkDir, Step.getOrbClk popt.ts popt.clkDir 2]
    else []) ++
    (if fopt.minusAdd1day = true ∧
        (fopt.orbClkOpt ≠ "igu" ∧ fopt.orbClkOpt ≠ "gfu" ∧ fopt.orbClkOpt ≠ "wuu") then
      [Step.getOrbClk (TimeAdd popt.ts (-86400)) popt.sp3Dir 1,
        Step.getOrbClk (TimeAdd popt.ts (-86400)) popt.clkDir 2,
        Step.getOrbClk (TimeAdd popt.ts 86400) popt.sp3Dir 1,
        Step.getOrbClk (TimeAdd popt.ts 86400) popt.clkDir 2]
    else [])
  else []

/-- Execution of a step: lines 3509-3518 (and 3524-3533) for `ensureDir`, the call of
`GetOrbClk` for `getOrbClk`; `cal` stands for the epoch derivation of `TimeUtil`. -/
def Step.run (E : Env W) (ar : FtpArchive) (cal : Int → EpochStr) (fopt : ftpopt_t) :
    Step → St W → St W
  | Step.ensureDir dir, s =>
      if fileExists E s dir = false then sysCmd E fopt (Cmd.mkdir dir) s else s
  | Step.getOrbClk ts dir mode, s => GetOrbClk E ar (cal ts) dir mode fopt s

/-- The orbit and clock block of `FtpDownload`, executed. -/
def FtpDownload_orbClkRun (E : Env W) (ar : FtpArchive) (cal : Int → EpochStr)
    (popt : prcopt_t) (fopt : ftpopt_t) (s : St W) : St W :=
  (FtpDownload_orbClk popt fopt).foldl (fun s st => st.run E ar cal fopt s) s

/-- The `GetOrbClk` invocations among the steps, in order. -/
def orbClkCalls (steps : List Step) : List (Int × String × Nat) :=
  steps.filterMap fun st =>
    match st with
    | Step.getOrbClk ts dir mode => some (ts, dir, mode)
    | _ => none

/-! ## Observers on traces -/

/-- The transfer-agent commands of a trace, in order. -/
def wgetCmds (tr : List Event) : List Cmd :=
  tr.filterMap fun e =>
    match e with
    | Event.sys (Cmd.wget p c u) => some (Cmd.wget p c u)
    | Event.sys (Cmd.wgetUrl c u) => some (Cmd.wgetUrl c u)
    | _ => none

/-- The files handed to the decompression utility in a trace, in order. -/
def gzipFiles (tr : List Event) : List String :=
  tr.filterMap fun e =>
    match e with
    | Event.sys (Cmd.gzip f) => some f
    | Event.sys (Cmd.gzip2 f) => some f
    | _ => none

/-- The lines written to `cout` in a trace, in order. -/
def outLines (tr : List Event) : List String :=
  tr.filterMap fun e =>
    match e with
    | Event.out l => some l
    | _ => none

/-- The commands of a trace, in order. -/
def sysCmds (tr : List Event) : List Cmd :=
  tr.filterMap fun e =>
    match e with
    | Event.sys c => some c
    | _ => none

/-! ## A concrete environment for evaluation -/

/-- One row of a tool table: a command line, the paths it creates and the paths it
deletes. -/
structure ToolRow where
  cmdLine : String
  creates : List String
  deletes : List String

/-- A world that is the list of existing paths; a command acts as its row of the tool
table says (and does nothing when it has no row); `lists` gives the readable text files. -/
def simEnv (tools : List ToolRow) (lists : List (String × List String)) : Env (List String) :=
  { access := fun w p => decide (p ∈ w)
    system := fun c w =>
      match tools.find? (fun r => r.cmdLine == c) with
      | some r => (w.filter fun p => !(r.deletes.contains p)) ++ r.creates
      | none => w
    remove := fun p w => w.filter fun q => !(q == p)
    chdir := fun _ w => w
    openLines := fun _ p => (lists.find? (fun r => r.1 == p)).map (fun r => r.2)
    getFilesAll := fun _ _ _ => [] }

/-- Options used in the evaluations: tools on the search path, quiet transfer agent. -/
def fopt0 : ftpopt_t :=
  { ftpFrom := "CDDIS", getObs := true, obsTyp := "daily", obsOpt := "site.list", hhObs := [0],
    getObm := false, obmTyp := "daily", obmOpt := "site.list", hhObm := [0],
    getNav := false, navTyp := "daily", navOpt := "gps", hhNav := [0],
    getOrbClk := true, orbClkOpt := "igs", hhOrbClk := [0],
    getEop := false, eopOpt := "igs", hhEop := [0],
    getSnx := false, getDcb := false, getIon := false, ionOpt := "igs",
    getRoti := false, getTrp := false, trpOpt := "igs", minusAdd1day := false,
    wgetFull := "wget", gzipFull := "gzip", crx2rnxFull := "crx2rnx", qr := "-qr" }

/-- The epoch of day 045 of 2021 (GPS week 2145, day of week 0, February). -/
def ep2021_045 : EpochStr :=
  { sYyyy := "2021", sYy := "21", sDoy := "045", sWwww := "2145", sDow := "0", sMm := "02" }

/-! ## Properties stated in the theorems below -/

/-- The world of the C1 evaluation: the three canonical files of site `zimm` for day 045
of 2021 (daily, hour 0, first quarter of hour 0). -/
def worldC1 : St (List String) :=
  ⟨["zimm0450.21o", "zimm045a.21o", "zimm045a00.21o"], []⟩


/-- The transfer commands expected of the site-list loop of `GetDailyObsIgs`: going through
the lines in order, one command for each line whose `.o` and `.d` files are both absent
in the state in which the line is reached, with the accept pattern of that line. -/
def GetDailyObsIgs_expectedWget (E : Env W) (ar : FtpArchive) (ep : EpochStr) (fopt : ftpopt_t)
    (ftpName : String) : List String → St W → List Cmd
  | [], _ => []
  | x :: xs, s =>
      (if fileExists E s (ToLower x ++ ep.sDoy ++ "0." ++ ep.sYy ++ "o") = false ∧
          fileExists E s (ToLower x ++ ep.sDoy ++ "0." ++ ep.sYy ++ "d") = false then
        [Cmd.wget (ToLower x ++ ep.sDoy ++ "0." ++ ep.sYy ++ "d.*")
          (GetDailyObsIgs_url ar ep ftpName).2 (GetDailyObsIgs_url ar ep ftpName).1]
      else []) ++
      GetDailyObsIgs_expectedWget E ar ep fopt ftpName xs
        (GetDailyObsIgs_unit E ar ep fopt ftpName x s)

/-- Tools for which the transfer and the decompression of `zimm0450.21d` succeed (from a
`.gz` file) and the converter leaves nothing. -/
def toolsGzNoConv : List ToolRow :=
  [ ⟨"wget -qr -nH -A zimm0450.21d.* --cut-dirs=7 ftps://gdc.cddis.eosdis.nasa.gov/pub/gnss/data/daily/2021/045/21d",
      ["zimm0450.21d.gz"], []⟩,
    ⟨"gzip -d -f zimm0450.21d.gz", ["zimm0450.21d"], ["zimm0450.21d.gz"]⟩ ]

/-- A data directory `obs` with its `daily` sub-directory and the site list. -/
def worldObs : St (List String) :=
  ⟨["obs", "obs/daily", "site.list"], []⟩

/-- Options for the daily multi-GNSS broadcast ephemeris. -/
def foptNavMixed : ftpopt_t :=
  { fopt0 with getNav := true, navTyp := "Daily", navOpt := "Mixed" }

/-- Options for the daily GPS broadcast ephemeris. -/
def foptNavGps : ftpopt_t :=
  { fopt0 with getNav := true, navTyp := "daily", navOpt := "gps" }

/-- Tools that deliver and decompress the `.gz` files of the daily broadcast ephemeris of
day 045 of 2021 and rename the multi-GNSS file. -/
def toolsNav : List ToolRow :=
  [ ⟨"wget -qr -nH -A BRDC00IGS_R_20210450000_01D_MN.rnx.* --cut-dirs=6 ftps://gdc.cddis.eosdis.nasa.gov/pub/gnss/data/daily/2021/brdc",
      ["BRDC00IGS_R_20210450000_01D_MN.rnx.gz"], []⟩,
    ⟨"gzip -d -f BRDC00IGS_R_20210450000_01D_MN.rnx.gz", ["BRDC00IGS_R_20210450000_01D_MN.rnx"],
      ["BRDC00IGS_R_20210450000_01D_MN.rnx.gz"]⟩,
    ⟨"mv BRDC00IGS_R_20210450000_01D_MN.rnx brdm0450.21p", ["brdm0450.21p"],
      ["BRDC00IGS_R_20210450000_01D_MN.rnx"]⟩,
    ⟨"wget -qr -nH -A brdc0450.21n.* --cut-dirs=6 ftps://gdc.cddis.eosdis.nasa.gov/pub/gnss/data/daily/2021/brdc",
      ["brdc0450.21n.gz"], []⟩,
    ⟨"gzip -d -f brdc0450.21n.gz", ["brdc0450.21n"], ["brdc0450.21n.gz"]⟩ ]

/-- A data directory `nav` with its `daily` sub-directory. -/
def worldNav : St (List String) :=
  ⟨["nav", "nav/daily"], []⟩

/-- Tools for which the weekly SINEX file of week 2145 is not on the server and the daily
file of day 0 is: the daily transfer delivers `igs21P21450.snx.Z`, which is decompressed
and renamed. -/
def toolsSnxDaily : List ToolRow :=
  [ ⟨"wget -qr -nH -A igs*P21450.snx.* --cut-dirs=4 ftps://gdc.cddis.eosdis.nasa.gov/pub/gnss/products/2145",
      ["igs21P21450.snx.Z"], []⟩,
    ⟨"gzip -d -f igs*P21450.snx.Z", ["igs21P21450.snx"], ["igs21P21450.snx.Z"]⟩,
    ⟨"mv igs*P21450.snx igs2145.snx", ["igs2145.snx"], ["igs21P21450.snx"]⟩ ]

/-- Tools for which the weekly SINEX file of week 2145 is on the server. -/
def toolsSnxWeekly : List ToolRow :=
  [ ⟨"wget -qr -nH -A igs*P2145.snx.* --cut-dirs=4 ftps://gdc.cddis.eosdis.nasa.gov/pub/gnss/products/2145",
      ["igs21P2145.snx.Z"], []⟩,
    ⟨"gzip -d -f igs*P2145.snx.Z", ["igs21P2145.snx"], ["igs21P2145.snx.Z"]⟩,
    ⟨"mv igs*P2145.snx igs2145.snx", ["igs2145.snx"], ["igs21P2145.snx"]⟩ ]

/-- A data directory `snx`. -/
def worldSnx : St (List String) :=
  ⟨["snx"], []⟩

/-- The string `str` is `a ++ b` followed by something. -/
def Starts2 (a b str : String) : Prop :=
  ∃ r, str = a ++ (b ++ r)

/-- The naming rule of the MGEX observation units for the site line `line`: the accept
pattern of a transfer command, the argument of a decompression command and the source of
a rename start with the upper-cased site followed by `*_R_`; the target of a rename, both
files of a conversion command and a removed file start with the lower-cased site followed
by the day string. -/
def MgexNamed (ep : EpochStr) (line : String) : Event → Prop
  | Event.sys (Cmd.wget p _ _) => Starts2 (ToUpper line) "*_R_" p
  | Event.sys (Cmd.gzip f) => Starts2 (ToUpper line) "*_R_" f
  | Event.sys (Cmd.mv a b) => Starts2 (ToUpper line) "*_R_" a ∧ Starts2 (ToLower line) ep.sDoy b
  | Event.sys (Cmd.crx2rnx d o) =>
      Starts2 (ToLower line) ep.sDoy d ∧ Starts2 (ToLower line) ep.sDoy o
  | Event.rm d => Starts2 (ToLower line) ep.sDoy d
  | _ => True

/-- An empty working directory. -/
def worldEmpty : St (List String) :=
  ⟨[], []⟩

/-- Options for the hourly MGEX observations of hours 0 and 1. -/
def foptObmHourly : ftpopt_t :=
  { fopt0 with getObm := true, obmTyp := "hourly", hhObm := [0, 1] }

/-! ## Further tools, inputs and properties -/

/-- One rule of a conditional tool table: a command line, the paths that must exist for
the command to act, the paths it then creates and the paths it then deletes. -/
structure ToolRule where
  cmdLine : String
  needs : List String
  creates : List String
  deletes : List String

/-- A world that is the list of existing paths; a command acts as the first rule with its
command line whose needed paths all exist says, and does nothing when there is none. -/
def ruleEnv (rules : List ToolRule) (lists : List (String × List String)) : Env (List String) :=
  { access := fun w p => decide (p ∈ w)
    system := fun c w =>
      match rules.find? (fun r => r.cmdLine == c && r.needs.all (fun p => w.contains p)) with
      | some r => (w.filter fun p => !(r.deletes.contains p)) ++ r.creates
      | none => w
    remove := fun p w => w.filter fun q => !(q == p)
    chdir := fun _ w => w
    openLines := fun _ p => (lists.find? (fun r => r.1 == p)).map (fun r => r.2)
    getFilesAll := fun _ _ _ => [] }

/-- Tools for which the MGEX clock file of CODE for day 045 of 2021 is delivered as `.Z`:
the decompression of the `.Z` file gives the file, and the rename acts once the file is
there. -/
def toolsClkZ : List ToolRule :=
  [ ⟨"wget -qr -nH -A COD0MGXFIN_20210450000_01D_*_CLK.CLK.* --cut-dirs=5 ftps://gdc.cddis.eosdis.nasa.gov/pub/gnss/products/mgex/2145",
      [], ["COD0MGXFIN_20210450000_01D_30S_CLK.CLK.Z"], []⟩,
    ⟨"gzip -d -f COD0MGXFIN_20210450000_01D_*_CLK.CLK.Z",
      ["COD0MGXFIN_20210450000_01D_30S_CLK.CLK.Z"],
      ["COD0MGXFIN_20210450000_01D_30S_CLK.CLK"], ["COD0MGXFIN_20210450000_01D_30S_CLK.CLK.Z"]⟩,
    ⟨"mv COD0MGXFIN_20210450000_01D_*_CLK.CLK com21450.clk",
      ["COD0MGXFIN_20210450000_01D_30S_CLK.CLK"],
      ["com21450.clk"], ["COD0MGXFIN_20210450000_01D_30S_CLK.CLK"]⟩ ]

/-- Options for the final MGEX products of CODE. -/
def foptCom : ftpopt_t :=
  { fopt0 with orbClkOpt := "com" }

/-- Options for the hourly GPS broadcast ephemeris of hour 0. -/
def foptNavHourly : ftpopt_t :=
  { fopt0 with getNav := true, navTyp := "hourly", navOpt := "gps", hhNav := [0] }

/-- A data directory `nav` with the sub-directory of hour 0, the site list, and both
canonical hourly GPS navigation files of site `zimm` for hour 0 of day 045 of 2021. -/
def worldNavHourly : St (List String) :=
  ⟨["nav", "nav/hourly", "nav/hourly/00", "site.list", "zimm045a.21n", "zimm045a.21gn"], []⟩

/-- A data directory `obs` with its `daily` sub-directory and no site list. -/
def worldNoList : St (List String) :=
  ⟨["obs", "obs/daily"], []⟩

/-- None of the events `pre` is the line `L`, a removal of a file or a conversion
command. -/
def Unmarked (L : String) (pre : List Event) : Prop :=
  ∀ e ∈ pre, e ≠ Event.out L ∧ (∀ p, e ≠ Event.rm p) ∧ (∀ a b, e ≠ Event.sys (Cmd.crx2rnx a b))

/-- The outcome of a unit that goes from state `s` to state `r`, with compact
intermediate `d`, canonical file `o` and success line `L`. Either the unit adds events
among which there is no conversion command, no removal and no line `L`; or it reaches,
through such events, a state `s0` in which it issues the conversion command of `d` to `o`,
and then: if `o` exists after the command, it prints `L`, removes `d` and ends; if `o`
does not exist after the command, it ends right after the command. -/
def ConvOutcome (E : Env W) (fopt : ftpopt_t) (d o L : String) (s r : St W) : Prop :=
  (∃ pre, r.trace = s.trace ++ pre ∧ Unmarked L pre) ∨
  (∃ s0 pre, s0.trace = s.trace ++ pre ∧ Unmarked L pre ∧
    ((fileExists E (sysCmd E fopt (Cmd.crx2rnx d o) s0) o = true ∧
        r = removeFile E d (say L (sysCmd E fopt (Cmd.crx2rnx d o) s0))) ∨
     (fileExists E (sysCmd E fopt (Cmd.crx2rnx d o) s0) o = false ∧
        r = sysCmd E fopt (Cmd.crx2rnx d o) s0)))

/-- The URL and `--cut-dirs` pair `uc` chosen by a URL block for the archive name
`ftpName`: `c` for `CDDIS`, `i` for `IGN`, `w` for `WHU`, and `e` for any other name. -/
def UrlCases (ftpName : String) (uc c i w e : String × String) : Prop :=
  (ftpName = "CDDIS" → uc = c) ∧ (ftpName = "IGN" → uc = i) ∧ (ftpName = "WHU" → uc = w) ∧
  (ftpName ≠ "CDDIS" → ftpName ≠ "IGN" → ftpName ≠ "WHU" → uc = e)

/-- The registry table of the archive named `ftpName` (after upper-casing): lines 66-120
fill one table for each of `CDDIS`, `IGN` and `WHU`. -/
def requestedTable (ar : FtpArchive) (ftpName : String) : List String :=
  if ftpName = "CDDIS" then ar.CDDIS
  else if ftpName = "IGN" then ar.IGN
  else if ftpName = "WHU" then ar.WHU
  else []

/-- The command `c` is a transfer command whose URL is `base`, followed by `/yyyy/ddd`
and by some rest. -/
def UrlFrom (base : String) (ep : EpochStr) (c : Cmd) : Prop :=
  ∃ p cut r, c = Cmd.wget p cut (base ++ "/" ++ ep.sYyyy ++ "/" ++ ep.sDoy ++ r)

/-- Going from state `s` to state `r` adds transfer commands only, all of which satisfy
`P`, to the transfer commands of the trace. -/
def AddsWget (P : Cmd → Prop) (s r : St W) : Prop :=
  ∃ new, wgetCmds r.trace = wgetCmds s.trace ++ new ∧ ∀ c ∈ new, P c

/-- Options for the high-rate observations of hour 0 from `WHU`, with a site list. -/
def foptWhuHr : ftpopt_t :=
  { fopt0 with ftpFrom := "whu", obsTyp := "highrate", hhObs := [0] }

/-- Options with an archive name that is none of `CDDIS`, `IGN`, `WHU`. -/
def foptXyz : ftpopt_t :=
  { fopt0 with ftpFrom := "xyz" }

/-- A data directory `obs` with the sub-directories of the evaluations and the site
list. -/
def worldObsHr : St (List String) :=
  ⟨["obs", "obs/daily", "obs/highrate", "obs/highrate/00", "site.list"], []⟩

/-- Options for the all-stations mode of the observation procedures, hours 0 and 1. -/
def foptAll : ftpopt_t :=
  { fopt0 with obsOpt := "all", obmOpt := "all", getObm := true, hhObs := [0, 1], hhObm := [0, 1] }

/-- The changes of directory and the transfer commands of a trace, in order. -/
def cdWget (tr : List Event) : List Event :=
  tr.filter fun e =>
    match e with
    | Event.cd _ => true
    | Event.sys (Cmd.wget _ _ _) => true
    | Event.sys (Cmd.wgetUrl _ _) => true
    | _ => false

/-- For the quarter-hour units `ms` of one (site line, hour) iteration of the site-list
mode of `GetHrObsIgs`, run from the loop variable and state `p`: whether the `.o` and the
`.d` file of each unit are both absent in the state in which the unit tests them (line
745), in order. -/
def GetHrObsIgs_absentMinu (E : Env W) (ar : FtpArchive) (ep : EpochStr) (fopt : ftpopt_t)
    (ftpName : String) (hh : Nat) : List String → String × St W → List Bool
  | [], _ => []
  | minu :: ms, p =>
      decide (fileExists E p.2
          (ToLower p.1 ++ ep.sDoy ++ hourLetter hh ++ minu ++ "." ++ ep.sYy ++ "o") = false ∧
        fileExists E p.2
          (ToLower p.1 ++ ep.sDoy ++ hourLetter hh ++ minu ++ "." ++ ep.sYy ++ "d") = false) ::
      GetHrObsIgs_absentMinu E ar ep fopt ftpName hh ms
        (GetHrObsIgs_unit E ar ep fopt ftpName hh minu p.1 p.2)

/-- The same for the hours `hs` of one site line, each with its four units. -/
def GetHrObsIgs_absentHour (E : Env W) (ar : FtpArchive) (ep : EpochStr) (fopt : ftpopt_t)
    (ftpName subDir : String) : List Nat → String × St W → List Bool
  | [], _ => []
  | hh :: hs, p =>
      GetHrObsIgs_absentMinu E ar ep fopt ftpName hh minuStr
        (p.1, (enterHourDir E fopt subDir (hh2str hh) p.2).2) ++
      GetHrObsIgs_absentHour E ar ep fopt ftpName subDir hs
        (GetHrObsIgs_iter E ar ep fopt ftpName subDir hh p.1 p.2)

/-- The same for the site lines `sites`, each with the configured hours. -/
def GetHrObsIgs_absent (E : Env W) (ar : FtpArchive) (ep : EpochStr) (fopt : ftpopt_t)
    (ftpName subDir : String) : List String → St W → List Bool
  | [], _ => []
  | line :: ls, s =>
      GetHrObsIgs_absentHour E ar ep fopt ftpName subDir fopt.hhObs (line, s) ++
      GetHrObsIgs_absent E ar ep fopt ftpName subDir ls
        (fopt.hhObs.foldl (fun (p : String × St W) hh =>
          GetHrObsIgs_iter E ar ep fopt ftpName subDir hh p.1 p.2) (line, s)).2

/-- The four transfer commands of one (site, hour) pair, for the quarter-hour labels in
the order `00`, `15`, `30`, `45`: the accept pattern is the `.d` name
`lower(site) + ddd + letter + label + "." + yy + "d"` followed by `.*`. -/
def hrUnits (ep : EpochStr) (uc : String × String) (site : String) (hh : Nat) : List Event :=
  minuStr.map fun minu =>
    Event.sys (Cmd.wget (ToLower site ++ ep.sDoy ++ hourLetter hh ++ minu ++ "." ++ ep.sYy ++ "d" ++
      ".*") uc.2 uc.1)

/-- The changes of directory and transfer commands of a whole site-list run: for each
site in list order and each hour in configured order, the change to `subDir/hh` and then
the four transfer commands of the pair; `url hh` is the URL and `--cut-dirs` pair of the
hour. -/
def hrPlan (ep : EpochStr) (subDir : String) (url : Nat → String × String) (hhs : List Nat)
    (sites : List String) : List Event :=
  sites.flatMap fun site =>
    hhs.flatMap fun hh =>
      Event.cd (subDir ++ "/" ++ hh2str hh) :: hrUnits ep (url hh) site hh

/-- Options for the high-rate observations of hours 0 and 1 from `CDDIS`, with a site
list. -/
def foptHr : ftpopt_t :=
  { fopt0 with obsTyp := "highrate", hhObs := [0, 1] }

/-! ## `main` (`run_GOOD.cpp`, lines 12-48) -/

/-- Observable effects of `main`, in program order: a line on `cout`, and the call
`preProc.run(cfgFile)`. -/
inductive MainEvent where
  | out (line : String)
  | run (cfgFile : String)
deriving DecidableEq, Repr

/-- Line 28: the message for a missing command-line parameter. -/
def main_lost : String :=
  " * The input command-line parameter indicating configure file is lost, please check it!"

/-- The function `main(argc, argv)`, lines 12-48; `argv` holds the `argc` arguments. The
result is the return value, the world and the effects. Modelled from the spec:
`PreProcess::run` is not part of the sources at hand; `run` stands for it, an arbitrary
function of the configuration file name and the world (a call that returns). -/
def main (run : String → W → W) (argv : List String) (w : W) : Int × W × List MainEvent :=
  if argv.length = 1 then (0, w, [MainEvent.out main_lost])
  else
    let cfgFile := argv.getD 1 ""
    (0, run cfgFile w, [MainEvent.run cfgFile])

/-! ## Inputs and properties of the orbit and clock claims -/

/-- Options with the ultra-rapid IGS products requested in upper case. -/
def foptIGU : ftpopt_t :=
  { fopt0 with orbClkOpt := "IGU" }

/-- Options with the ultra-rapid IGS products requested in lower case. -/
def foptIgu : ftpopt_t :=
  { fopt0 with orbClkOpt := "igu" }

/-- The test of lines 3521 and 3538 of `FtpDownload`: the option string, as it is, is none
of `igu`, `gfu`, `wuu`. -/
def FtpDownload_notUltra (fopt : ftpopt_t) : Bool :=
  decide (fopt.orbClkOpt ≠ "igu" ∧ fopt.orbClkOpt ≠ "gfu" ∧ fopt.orbClkOpt ≠ "wuu")

/-- The branch selection of `GetOrbClk` (lines 2005, 2058 and 2217): the lower-cased
option string is one of `igu`, `gfu`, `wuu`. -/
def GetOrbClk_ultra (fopt : ftpopt_t) : Bool :=
  decide (ToLower fopt.orbClkOpt = "igu" ∨ ToLower fopt.orbClkOpt = "gfu" ∨
    ToLower fopt.orbClkOpt = "wuu")

/-- The string `p` ends with `suf`. -/
def endsWith (p suf : String) : Bool :=
  suf.data.isSuffixOf p.data

/-- A transfer pattern for an orbit name: `.sp3`, `.SP3` or `.eph`, followed by the `.*`
that every transfer pattern ends with. -/
def isOrbitPattern (p : String) : Bool :=
  endsWith p ".sp3.*" || endsWith p ".SP3.*" || endsWith p ".eph.*"

/-- A transfer pattern for a clock name: `.clk`, `.clk_05s`, `.clk_30s` or `.CLK`, followed
by `.*`. -/
def isClockPattern (p : String) : Bool :=
  endsWith p ".clk.*" || endsWith p ".clk_05s.*" || endsWith p ".clk_30s.*" ||
    endsWith p ".CLK.*"

/-- A transfer command that requests an orbit file and no clock file. -/
def OrbitRequest (c : Cmd) : Prop :=
  ∃ p cut url, c = Cmd.wget p cut url ∧ isOrbitPattern p = true ∧ isClockPattern p = false

/-- A transfer command that requests a clock file and no orbit file. -/
def ClockRequest (c : Cmd) : Prop :=
  ∃ p cut url, c = Cmd.wget p cut url ∧ isClockPattern p = true ∧ isOrbitPattern p = false

/-! ## Inputs and properties of the mode selection -/

/-- The environment `E` with the reading of text files replaced by `f`. -/
def withOpenLines (E : Env W) (f : W → String → Option (List String)) : Env W :=
  { E with openLines := f }

/-- A transfer command with an accept pattern that starts with `*`: the bulk transfer of
the all-stations mode. -/
def isBulkRequest : Cmd → Bool
  | Cmd.wget p _ _ => p.data.head? == some '*'
  | _ => false

/-- Options with the site-list path `s.lst` (five bytes) for both observation
families, hour 0. -/
def foptShort : ftpopt_t :=
  { fopt0 with obsOpt := "s.lst", obmOpt := "s.lst", hhObs := [0], hhObm := [0] }

/-- A data directory `obs` with its sub-directories and the site list `s.lst`. -/
def worldShort : St (List String) :=
  ⟨["obs", "obs/daily", "obs/hourly", "obs/hourly/00", "obs/highrate", "obs/highrate/00",
    "s.lst"], []⟩

/-! ## Inputs of the comparison of the two modes -/

/-- Options for the hourly MGEX observations of hour 0 from WHU, site-list mode. -/
def foptWhuObmList : ftpopt_t :=
  { fopt0 with ftpFrom := "WHU", getObm := true, obmTyp := "hourly", hhObm := [0] }

/-- Options for the hourly MGEX observations of hour 0 from WHU, all-stations mode. -/
def foptWhuObmAll : ftpopt_t :=
  { foptWhuObmList with obmOpt := "all" }

/-- Options for the IGS tropospheric products with an archive name that is none of
`CDDIS`, `IGN`, `WHU`, site-list mode. -/
def foptXyzTrpList : ftpopt_t :=
  { fopt0 with ftpFrom := "XYZ", getTrp := true, trpOpt := "igs", obsOpt := "site.list" }

/-- Options for the IGS tropospheric products with an archive name that is none of
`CDDIS`, `IGN`, `WHU`, all-stations mode. -/
def foptXyzTrpAll : ftpopt_t :=
  { foptXyzTrpList with obsOpt := "all" }

/-- The data directories `obs` (with the hourly sub-directories) and `trp`, and the site
list. -/
def worldModes : St (List String) :=
  ⟨["obs", "obs/hourly", "obs/hourly/00", "trp", "site.list"], []⟩

/-! ## Canonical local names of the hourly and high-rate IGS units -/

/-- Line 490: the canonical local name `oFile` of a unit of `GetHourlyObsIgs`. -/
def GetHourlyObsIgs_oFile (ep : EpochStr) (hh : Nat) (sitName : String) : String :=
  ToLower sitName ++ ep.sDoy ++ hourLetter hh ++ "." ++ ep.sYy ++ "o"

/-- Line 742: the canonical local name `oFile` of a unit of `GetHrObsIgs`; `minu` is the
quarter-hour label. -/
def GetHrObsIgs_oFile (ep : EpochStr) (hh : Nat) (minu : String) (sitName : String) : String :=
  ToLower sitName ++ ep.sDoy ++ hourLetter hh ++ minu ++ "." ++ ep.sYy ++ "o"

/-! ## `FtpUtil::GetRtOrbClkCNT`, `FtpUtil::GetRtBiasCNT`, `FtpUtil::GetAntexIGS` (lines 3209-3396) -/

/-- Lines 3242-3254 (and the same block at lines 3278-3290 and 3340-3352): removal of the
temporary directories. -/
def cleanCnt (E : Env W) (fopt : ftpopt_t) (s : St W) : St W :=
  ["FORMAT_BIAIS_OFFI1", "FORMATBIAS_OFF_v1"].foldl
    (fun s tmpDir => if fileExists E s tmpDir then sysCmd E fopt (Cmd.rmrf tmpDir) s else s) s

/-- Lines 3229-3257 (`kind` is `orbit`, `ext` is `.sp3`) and lines 3265-3293 (`kind` is
`clock`, `ext` is `.clk`): one file of the CNES real-time products. -/
def GetRtOrbClkCNT_fetch (E : Env W) (ep : EpochStr) (fopt : ftpopt_t) (kind ext : String)
    (s : St W) : St W :=
  let file := "cnt" ++ ep.sWwww ++ ep.sDow ++ ext
  if fileExists E s file = false then
    let gzFile := file ++ ".gz"
    let url := "http://www.ppp-wizard.net/products/REAL_TIME/" ++ gzFile
    let s := sysCmd E fopt (Cmd.wgetUrl " --cut-dirs=2 " url) s
    let s := sysCmd E fopt (Cmd.gzip gzFile) s
    let s :=
      if fileExists E s file then
        say ("*** INFO(FtpUtil::GetRtOrbClkCNT): successfully download CNES real-time precise " ++
          kind ++ " file " ++ file) s
      else
        say ("*** INFO(FtpUtil::GetRtOrbClkCNT): failed to download CNES real-time precise " ++
          kind ++ " file " ++ file) s
    cleanCnt E fopt s
  else
    say ("*** INFO(FtpUtil::GetRtOrbClkCNT): CNES real-time precise " ++ kind ++ " file " ++
      file ++ " has existed!") s

/-- The procedure `GetRtOrbClkCNT(ts, dir, mode, fopt)`. -/
def GetRtOrbClkCNT (E : Env W) (ep : EpochStr) (dir : String) (mode : Nat)
    (fopt : ftpopt_t) (s : St W) : St W :=
  let s := chdir E dir s
  if mode = 1 then GetRtOrbClkCNT_fetch E ep fopt "orbit" ".sp3" s
  else if mode = 2 then GetRtOrbClkCNT_fetch E ep fopt "clock" ".clk" s
  else s

/-- The procedure `GetRtBiasCNT(ts, dir, fopt)`. -/
def GetRtBiasCNT (E : Env W) (ep : EpochStr) (dir : String) (fopt : ftpopt_t) (s : St W) :
    St W :=
  let s := chdir E dir s
  let biaFile := "cnt" ++ ep.sWwww ++ ep.sDow ++ ".bia"
  if fileExists E s biaFile = false then
    let biagzFile := biaFile ++ ".gz"
    let url := "http://www.ppp-wizard.net/products/REAL_TIME/" ++ biagzFile
    let s := sysCmd E fopt (Cmd.wgetUrl " --cut-dirs=2 " url) s
    let s := sysCmd E fopt (Cmd.gzip biagzFile) s
    let s :=
      if fileExists E s biaFile then
        say ("*** INFO(GetRtBiasCNT): successfully download CNES real-time code and phase bias file " ++
          biaFile) s
      else
        say ("*** INFO(FtpUtil::GetRtBiasCNT): failed to download CNES real-time code and phase bias file " ++
          biaFile) s
    cleanCnt E fopt s
  else
    say ("*** INFO(FtpUtil::GetRtBiasCNT): CNES real-time code and phase bias file " ++ biaFile ++
      " has existed!") s

/-- The procedure `GetAntexIGS(ts, dir, fopt)`. -/
def GetAntexIGS (E : Env W) (dir : String) (fopt : ftpopt_t) (s : St W) : St W :=
  let s := chdir E dir s
  let atxFile := "igs14.atx"
  if fileExists E s atxFile = false then
    let url := "https://files.igs.org/pub/station/general/" ++ atxFile
    let s := sysCmd E fopt (Cmd.wgetUrl " --cut-dirs=3 " url) s
    if fileExists E s atxFile then
      say ("*** INFO(FtpUtil::GetAntexIGS): successfully download IGS ANTEX file " ++ atxFile) s
    else s
  else say ("*** INFO(FtpUtil::GetAntexIGS): IGS ANTEX file " ++ atxFile ++ " has existed!") s

/-! ## The path of a URL and the `--cut-dirs` option -/

/-- What follows the first `://` of a URL, host and path (empty when there is none). -/
def afterScheme : List Char → List Char
  | [] => []
  | c :: r => if [':', '/', '/'].isPrefixOf (c :: r) then r.drop 2 else afterScheme r

/-- The list of characters has a `://`. -/
def hasScheme : List Char → Bool
  | [] => false
  | c :: r => [':', '/', '/'].isPrefixOf (c :: r) || hasScheme r

/-- The number of components of the path of a URL after the host: each component is
preceded by one `/`, so this is the number of `/` after the scheme separator. -/
def urlComponents (url : String) : Nat :=
  (afterScheme url.data).count '/'

/-- The `--cut-dirs` option of a transfer command agrees with its URL. The URL of a
command with an accept pattern names a directory, so every component of its path is a
directory component; the URL of a command without one names a file, so every component
but the last is. Other commands have no such option. -/
def cutDirsOk : Cmd → Bool
  | Cmd.wget _ cutDirs url => cutDirs == " --cut-dirs=" ++ toString (urlComponents url) ++ " "
  | Cmd.wgetUrl cutDirs url =>
      cutDirs == " --cut-dirs=" ++ toString (urlComponents url - 1) ++ " "
  | _ => true

/-- The year, day, week and hour strings of the epoch (and the day of week that goes into
the file names) contain no `/`. -/
def NoSlash (ep : EpochStr) : Prop :=
  ep.sYyyy.data.count '/' = 0 ∧ ep.sYy.data.count '/' = 0 ∧ ep.sDoy.data.count '/' = 0 ∧
  ep.sWwww.data.count '/' = 0 ∧ ep.sDow.data.count '/' = 0

/-- The archive option is one of CDDIS, IGN, WHU, in any letter case. -/
def KnownArchive (fopt : ftpopt_t) : Prop :=
  ToUpper fopt.ftpFrom = "CDDIS" ∨ ToUpper fopt.ftpFrom = "IGN" ∨ ToUpper fopt.ftpFrom = "WHU"

/-! ## Properties of the canonical local names -/

/-- The line `l` names the file `N`: the characters of `N` occur in `l` as one block. -/
def names (N l : String) : Prop :=
  N.data <:+: l.data

/-- Every line that the step from `s` to `r` writes to `cout` has the property `P`. -/
def SaysOnly (P : String → Prop) (s r : St W) : Prop :=
  ∃ new, outLines r.trace = outLines s.trace ++ new ∧ ∀ l ∈ new, P l

/-- The unit `U` tests and reports the file `N`: when `N` exists in the state in which the
unit makes its test (the start state after `pre`) it issues no transfer command, and in
every state each line it writes to `cout` names `N` or one of `others`. -/
def TestsAndReports (E : Env W) (N : String) (others : List String) (pre U : St W → St W) :
    Prop :=
  ∀ s : St W, (fileExists E (pre s) N = true → wgetCmds (U s).trace = wgetCmds s.trace) ∧
    SaysOnly (fun l => ∃ n ∈ N :: others, names n l) s (U s)

/-- Every rename that the step from `s` to `r` issues has the destination `N`. -/
def RenamesTo (N : String) (s r : St W) : Prop :=
  ∃ new, sysCmds r.trace = sysCmds s.trace ++ new ∧
    ∀ src dst, Cmd.mv src dst ∈ new → dst = N

/-! ## Auxiliary lemmas -/

/-- Every character has at least one byte. -/
theorem utf8ByteSize_go_ge (l : List Char) : l.length ≤ String.utf8ByteSize.go l := by
  induction l with
  | nil => simp [String.utf8ByteSize.go]
  | cons c cs ih =>
      have := Char.utf8Size_pos c
      simp only [String.utf8ByteSize.go, List.length_cons]
      omega

/-- A string has at least as many bytes as characters. -/
theorem length_le_strlen (s : String) : s.length ≤ strlen s := by
  cases s with
  | mk l => exact utf8ByteSize_go_ge l

theorem wgetCmds_append (a b : List Event) : wgetCmds (a ++ b) = wgetCmds a ++ wgetCmds b := by
  simp [wgetCmds, List.filterMap_append]

theorem gzipFiles_append (a b : List Event) : gzipFiles (a ++ b) = gzipFiles a ++ gzipFiles b := by
  simp [gzipFiles, List.filterMap_append]

theorem outLines_append (a b : List Event) : outLines (a ++ b) = outLines a ++ outLines b := by
  simp [outLines, List.filterMap_append]

theorem sysCmds_append (a b : List Event) : sysCmds (a ++ b) = sysCmds a ++ sysCmds b := by
  simp [sysCmds, List.filterMap_append]

theorem toLower_toUpper_char (c : Char) : Char.toLower (Char.toUpper c) = Char.toLower c := by
  by_cases h : 97 ≤ c.toNat ∧ c.toNat ≤ 122
  · have h1 : Char.toUpper c = Char.ofNat (c.toNat - 32) := by
      simp [Char.toUpper, h]
    have h2 : (Char.ofNat (c.toNat - 32)).toNat = c.toNat - 32 := by
      obtain ⟨ha, hb⟩ := h
      generalize c.toNat = n at ha hb
      interval_cases n <;> rfl
    have h3 : Char.toLower c = c := by
      have : ¬ (65 ≤ c.toNat ∧ c.toNat ≤ 90) := by omega
      simp [Char.toLower, this]
    rw [h1, h3]
    have h4 : 65 ≤ c.toNat - 32 ∧ c.toNat - 32 ≤ 90 := by omega
    simp only [Char.toLower, h2]
    rw [if_pos (by simpa using h4)]
    have : c.toNat - 32 + 32 = c.toNat := by omega
    rw [this, Char.ofNat_toNat]
  · have h1 : Char.toUpper c = c := by
      simp [Char.toUpper, h]
    rw [h1]

theorem toUpper_toLower_char (c : Char) : Char.toUpper (Char.toLower c) = Char.toUpper c := by
  by_cases h : 65 ≤ c.toNat ∧ c.toNat ≤ 90
  · have h1 : Char.toLower c = Char.ofNat (c.toNat + 32) := by
      simp [Char.toLower, h]
    have h2 : (Char.ofNat (c.toNat + 32)).toNat = c.toNat + 32 := by
      obtain ⟨ha, hb⟩ := h
      generalize c.toNat = n at ha hb
      interval_cases n <;> rfl
    have h3 : Char.toUpper c = c := by
      have : ¬ (97 ≤ c.toNat ∧ c.toNat ≤ 122) := by omega
      simp [Char.toUpper, this]
    rw [h1, h3]
    have h4 : 97 ≤ c.toNat + 32 ∧ c.toNat + 32 ≤ 122 := by omega
    simp only [Char.toUpper, h2]
    rw [if_pos (by simpa using h4)]
    have : c.toNat + 32 - 32 = c.toNat := by omega
    rw [this, Char.ofNat_toNat]
  · have h1 : Char.toLower c = c := by
      simp [Char.toLower, h]
    rw [h1]

theorem ToLower_ToUpper (x : String) : ToLower (ToUpper x) = ToLower x := by
  simp [ToLower, ToUpper, List.map_map, Function.comp_def, toLower_toUpper_char]

theorem ToUpper_ToLower (x : String) : ToUpper (ToLower x) = ToUpper x := by
  simp [ToLower, ToUpper, List.map_map, Function.comp_def, toUpper_toLower_char]

theorem ToLower_ToLower (x : String) : ToLower (ToLower x) = ToLower x := by
  rw [← ToLower_ToUpper (ToLower x), ToUpper_ToLower, ToLower_ToUpper]

/-! ## C10: the hour letter -/

/-- C10. For every hour index `h` with `0 ≤ h ≤ 23` the hour letter is the character with
code `97 + h`; hour 0 gives `a` and hour 23 gives `x`; the letter lies in `a`..`x`; and
distinct hours in that range give distinct letters. -/
theorem C10_hourLetter (h : Nat) (hh : h ≤ 23) :
    hourLetter h = String.mk [Char.ofNat (97 + h)] ∧
    (Char.ofNat (97 + h)).toNat = 97 + h ∧
    'a' ≤ Char.ofNat (97 + h) ∧ Char.ofNat (97 + h) ≤ 'x' ∧
    hourLetter 0 = "a" ∧ hourLetter 23 = "x" ∧
    ∀ k : Nat, k ≤ 23 → hourLetter h = hourLetter k → h = k := by
  refine ⟨?_, ?_, ?_, ?_, by decide, by decide, ?_⟩
  · interval_cases h <;> rfl
  · interval_cases h <;> rfl
  · interval_cases h <;> decide
  · interval_cases h <;> decide
  · intro k hk
    interval_cases h <;> interval_cases k <;> first | (intro; rfl) | (intro hc; exact absurd hc (by decide))

/-- C10 at hour 5: the letter is `f`. -/
theorem C10_hourLetter_witness :
    (5 : Nat) ≤ 23 ∧ hourLetter 5 = "f" ∧ (Char.ofNat (97 + 5)).toNat = 102 := by
  have h := C10_hourLetter 5 (by decide)
  exact ⟨by decide, h.1.trans (by decide), h.2.1⟩


/-! ## C2: names of a unit of `GetDailyObsIgs` -/

theorem append_d_star (x : String) : x ++ "d" ++ ".*" = x ++ "d.*" := by
  rw [String.append_assoc]; rfl

/-- C2. In site-list mode of `GetDailyObsIgs`, for every site `s`, day string `ddd` and
year string `yy`, when neither `lower(s)+ddd+"0."+yy+"o"` nor `lower(s)+ddd+"0."+yy+"d"`
exists, the first thing the unit does is a transfer command whose accept pattern is
`lower(s)+ddd+"0."+yy+"d.*"`; the converter writes to, and every status line of the unit
reports, the local name `lower(s)+ddd+"0."+yy+"o"`; and for archive CDDIS the URL of the
command is the daily base URL followed by `/yyyy/ddd/yyd`. -/
theorem C2_dailyObsIgs_names (E : Env W) (ar : FtpArchive) (ep : EpochStr) (fopt : ftpopt_t)
    (ftpName sitName : String) (s : St W)
    (ho : fileExists E s (ToLower sitName ++ ep.sDoy ++ "0." ++ ep.sYy ++ "o") = false)
    (hd : fileExists E s (ToLower sitName ++ ep.sDoy ++ "0." ++ ep.sYy ++ "d") = false) :
    (∃ rest,
      (GetDailyObsIgs_unit E ar ep fopt ftpName sitName s).trace =
        s.trace ++ Event.sys (Cmd.wget (ToLower sitName ++ ep.sDoy ++ "0." ++ ep.sYy ++ "d.*")
          (GetDailyObsIgs_url ar ep ftpName).2 (GetDailyObsIgs_url ar ep ftpName).1) :: rest ∧
      (∀ l, Event.out l ∈ rest →
        l = GetDailyObsIgs_failed (ToLower sitName ++ ep.sDoy ++ "0." ++ ep.sYy ++ "o") ∨
        l = GetDailyObsIgs_success (ToLower sitName ++ ep.sDoy ++ "0." ++ ep.sYy ++ "o")) ∧
      (∀ d o, Event.sys (Cmd.crx2rnx d o) ∈ rest →
        o = ToLower sitName ++ ep.sDoy ++ "0." ++ ep.sYy ++ "o")) ∧
    (ftpName = "CDDIS" →
      GetDailyObsIgs_url ftpArchive0 ep ftpName =
        ("ftps://gdc.cddis.eosdis.nasa.gov/pub/gnss/data/daily" ++ "/" ++ ep.sYyyy ++ "/" ++
          ep.sDoy ++ "/" ++ ep.sYy ++ "d", " --cut-dirs=7 ")) := by
  constructor
  · unfold GetDailyObsIgs_unit
    simp only [ho, hd, and_self, if_true, append_d_star]
    simp only [sysCmd, say, removeFile, fileExists]
    split_ifs <;>
      exact ⟨_, by simp only [List.append_assoc, List.singleton_append]; rfl,
        by simp [GetDailyObsIgs_failed, GetDailyObsIgs_success], by simp⟩
  · intro h
    subst h
    rfl

/-- C2 for site `zimm`, year 2021, day 045, archive CDDIS, with nothing on disk and tools
that do nothing: the first command is the transfer of `zimm0450.21d.*` from the URL that
ends in `/2021/045/21d`, and the local name is `zimm0450.21o`. -/
theorem C2_dailyObsIgs_names_witness :
    fileExists (simEnv [] []) ⟨[], []⟩ "zimm0450.21o" = false ∧
    fileExists (simEnv [] []) ⟨[], []⟩ "zimm0450.21d" = false ∧
    (∃ rest,
      (GetDailyObsIgs_unit (simEnv [] []) ftpArchive0 ep2021_045 fopt0 "CDDIS" "zimm"
          ⟨[], []⟩).trace =
        [] ++ Event.sys (Cmd.wget "zimm0450.21d.*" " --cut-dirs=7 "
          "ftps://gdc.cddis.eosdis.nasa.gov/pub/gnss/data/daily/2021/045/21d") :: rest ∧
      (∀ l, Event.out l ∈ rest →
        l = GetDailyObsIgs_failed "zimm0450.21o" ∨ l = GetDailyObsIgs_success "zimm0450.21o")) := by
  have h := C2_dailyObsIgs_names (simEnv [] []) ftpArchive0 ep2021_045 fopt0 "CDDIS" "zimm"
    ⟨[], []⟩ (by decide) (by decide)
  obtain ⟨⟨rest, h1, h2, _⟩, h3⟩ := h
  refine ⟨by decide, by decide, rest, ?_, ?_⟩
  · rw [h1, h3 rfl]
    have e1 : ToLower "zimm" ++ ep2021_045.sDoy ++ "0." ++ ep2021_045.sYy ++ "d.*" =
      "zimm0450.21d.*" := by decide
    have e2 : "ftps://gdc.cddis.eosdis.nasa.gov/pub/gnss/data/daily" ++ "/" ++ ep2021_045.sYyyy ++
      "/" ++ ep2021_045.sDoy ++ "/" ++ ep2021_045.sYy ++ "d" =
      "ftps://gdc.cddis.eosdis.nasa.gov/pub/gnss/data/daily/2021/045/21d" := by decide
    rw [e1, e2]
  · have e3 : ToLower "zimm" ++ ep2021_045.sDoy ++ "0." ++ ep2021_045.sYy ++ "o" =
      "zimm0450.21o" := by decide
    rw [e3] at h2
    exact h2


/-! ## C1: a unit that is already there is skipped -/

/-- C1. In site-list mode of the six observation procedures, a unit whose `.o` file or
`.d` intermediate exists when the unit is checked (in the unit's directory) leaves the
world as it is and adds exactly one event to the trace, the `has existed!` line: no
command of any kind is issued and `remove` is not called. -/
theorem C1_existing_unit_skipped (E : Env W) (ar : FtpArchive) (ep : EpochStr)
    (fopt : ftpopt_t) (ftpName : String) (hh : Nat) (minu sitName : String) (s : St W) :
    ((fileExists E s (ToLower sitName ++ ep.sDoy ++ "0." ++ ep.sYy ++ "o") = true ∨
        fileExists E s (ToLower sitName ++ ep.sDoy ++ "0." ++ ep.sYy ++ "d") = true) →
      GetDailyObsIgs_unit E ar ep fopt ftpName sitName s =
        ⟨s.world, s.trace ++ [Event.out (GetDailyObsIgs_existed
          (ToLower sitName ++ ep.sDoy ++ "0." ++ ep.sYy ++ "o")
          (ToLower sitName ++ ep.sDoy ++ "0." ++ ep.sYy ++ "d"))]⟩) ∧
    ((fileExists E s (ToLower sitName ++ ep.sDoy ++ hourLetter hh ++ "." ++ ep.sYy ++ "o") = true ∨
        fileExists E s (ToLower sitName ++ ep.sDoy ++ hourLetter hh ++ "." ++ ep.sYy ++ "d") = true) →
      (GetHourlyObsIgs_unit E ar ep fopt ftpName hh sitName s).2 =
        ⟨s.world, s.trace ++ [Event.out (GetHourlyObsIgs_existed
          (ToLower sitName ++ ep.sDoy ++ hourLetter hh ++ "." ++ ep.sYy ++ "o")
          (ToLower sitName ++ ep.sDoy ++ hourLetter hh ++ "." ++ ep.sYy ++ "d"))]⟩) ∧
    ((fileExists E s
          (ToLower sitName ++ ep.sDoy ++ hourLetter hh ++ minu ++ "." ++ ep.sYy ++ "o") = true ∨
        fileExists E s
          (ToLower sitName ++ ep.sDoy ++ hourLetter hh ++ minu ++ "." ++ ep.sYy ++ "d") = true) →
      (GetHrObsIgs_unit E ar ep fopt ftpName hh minu sitName s).2 =
        ⟨s.world, s.trace ++ [Event.out (GetHrObsIgs_existed
          (ToLower sitName ++ ep.sDoy ++ hourLetter hh ++ minu ++ "." ++ ep.sYy ++ "o")
          (ToLower sitName ++ ep.sDoy ++ hourLetter hh ++ minu ++ "." ++ ep.sYy ++ "d"))]⟩) ∧
    ((fileExists E s (ToLower sitName ++ ep.sDoy ++ "0." ++ ep.sYy ++ "o") = true ∨
        fileExists E s (ToLower sitName ++ ep.sDoy ++ "0." ++ ep.sYy ++ "d") = true) →
      (GetDailyObsMgex_unit E ar ep fopt ftpName sitName s).2 =
        ⟨s.world, s.trace ++ [Event.out (GetDailyObsMgex_existed
          (ToLower sitName ++ ep.sDoy ++ "0." ++ ep.sYy ++ "o")
          (ToLower sitName ++ ep.sDoy ++ "0." ++ ep.sYy ++ "d"))]⟩) ∧
    ((fileExists E s (ToLower sitName ++ ep.sDoy ++ hourLetter hh ++ "." ++ ep.sYy ++ "o") = true ∨
        fileExists E s (ToLower sitName ++ ep.sDoy ++ hourLetter hh ++ "." ++ ep.sYy ++ "d") = true) →
      (GetHourlyObsMgex_unit E ar ep fopt ftpName hh sitName s).2 =
        ⟨s.world, s.trace ++ [Event.out (GetHourlyObsMgex_existed
          (ToLower sitName ++ ep.sDoy ++ hourLetter hh ++ "." ++ ep.sYy ++ "o")
          (ToLower sitName ++ ep.sDoy ++ hourLetter hh ++ "." ++ ep.sYy ++ "d"))]⟩) ∧
    ((fileExists E s
          (ToLower sitName ++ ep.sDoy ++ hourLetter hh ++ minu ++ "." ++ ep.sYy ++ "o") = true ∨
        fileExists E s
          (ToLower sitName ++ ep.sDoy ++ hourLetter hh ++ minu ++ "." ++ ep.sYy ++ "d") = true) →
      (GetHrObsMgex_unit E ar ep fopt ftpName hh minu sitName s).2 =
        ⟨s.world, s.trace ++ [Event.out (GetHrObsMgex_existed
          (ToLower sitName ++ ep.sDoy ++ hourLetter hh ++ minu ++ "." ++ ep.sYy ++ "o")
          (ToLower sitName ++ ep.sDoy ++ hourLetter hh ++ minu ++ "." ++ ep.sYy ++ "d"))]⟩) := by
  refine ⟨?_, ?_, ?_, ?_, ?_, ?_⟩
  · intro h
    unfold GetDailyObsIgs_unit
    rcases h with h | h <;> simp [h, say]
  · intro h
    unfold GetHourlyObsIgs_unit
    rcases h with h | h <;> simp [h, say]
  · intro h
    unfold GetHrObsIgs_unit
    rcases h with h | h <;> simp [h, say]
  · intro h
    unfold GetDailyObsMgex_unit
    rcases h with h | h <;> simp [h, say]
  · intro h
    unfold GetHourlyObsMgex_unit
    rcases h with h | h <;> simp [h, say]
  · intro h
    unfold GetHrObsMgex_unit
    rcases h with h | h <;> simp [h, say]

/-- C1 for site `ZIMM`, day 045 of 2021, hour 0 and quarter `00`, with the three `.o` files
on disk: each of the six units only prints its `has existed!` line. -/
theorem C1_existing_unit_skipped_witness :
    fileExists (simEnv [] []) worldC1 "zimm0450.21o" = true ∧
    fileExists (simEnv [] []) worldC1 "zimm045a.21o" = true ∧
    fileExists (simEnv [] []) worldC1 "zimm045a00.21o" = true ∧
    GetDailyObsIgs_unit (simEnv [] []) ftpArchive0 ep2021_045 fopt0 "CDDIS" "ZIMM" worldC1 =
      ⟨worldC1.world, [Event.out (GetDailyObsIgs_existed "zimm0450.21o" "zimm0450.21d")]⟩ ∧
    (GetHourlyObsIgs_unit (simEnv [] []) ftpArchive0 ep2021_045 fopt0 "CDDIS" 0 "ZIMM" worldC1).2 =
      ⟨worldC1.world, [Event.out (GetHourlyObsIgs_existed "zimm045a.21o" "zimm045a.21d")]⟩ ∧
    (GetHrObsIgs_unit (simEnv [] []) ftpArchive0 ep2021_045 fopt0 "CDDIS" 0 "00" "ZIMM"
        worldC1).2 =
      ⟨worldC1.world, [Event.out (GetHrObsIgs_existed "zimm045a00.21o" "zimm045a00.21d")]⟩ ∧
    (GetDailyObsMgex_unit (simEnv [] []) ftpArchive0 ep2021_045 fopt0 "CDDIS" "ZIMM" worldC1).2 =
      ⟨worldC1.world, [Event.out (GetDailyObsMgex_existed "zimm0450.21o" "zimm0450.21d")]⟩ ∧
    (GetHourlyObsMgex_unit (simEnv [] []) ftpArchive0 ep2021_045 fopt0 "CDDIS" 0 "ZIMM"
        worldC1).2 =
      ⟨worldC1.world, [Event.out (GetHourlyObsMgex_existed "zimm045a.21o" "zimm045a.21d")]⟩ ∧
    (GetHrObsMgex_unit (simEnv [] []) ftpArchive0 ep2021_045 fopt0 "CDDIS" 0 "00" "ZIMM"
        worldC1).2 =
      ⟨worldC1.world, [Event.out (GetHrObsMgex_existed "zimm045a00.21o" "zimm045a00.21d")]⟩ := by
  have h := C1_existing_unit_skipped (simEnv [] []) ftpArchive0 ep2021_045 fopt0 "CDDIS" 0 "00"
    "ZIMM" worldC1
  obtain ⟨h1, h2, h3, h4, h5, h6⟩ := h
  exact ⟨by decide, by decide, by decide, h1 (Or.inl (by decide)), h2 (Or.inl (by decide)),
    h3 (Or.inl (by decide)), h4 (Or.inl (by decide)), h5 (Or.inl (by decide)),
    h6 (Or.inl (by decide))⟩


theorem makeSubDir_fst (E : Env W) (fopt : ftpopt_t) (dir name : String) (s : St W) :
    (makeSubDir E fopt dir name s).1 = dir ++ "/" ++ name := by
  simp only [makeSubDir]
  split_ifs <;> rfl

theorem makeSubDir_wget (E : Env W) (fopt : ftpopt_t) (dir name : String) (s : St W) :
    wgetCmds (makeSubDir E fopt dir name s).2.trace = wgetCmds s.trace := by
  simp only [makeSubDir, sysCmd]
  split_ifs <;> simp [wgetCmds, List.filterMap_append]

theorem chdir_wget (E : Env W) (dir : String) (s : St W) :
    wgetCmds (chdir E dir s).trace = wgetCmds s.trace := by
  simp [chdir, wgetCmds, List.filterMap_append]

/-! ## C4: status lines of a unit of `GetDailyObsIgs` -/

theorem GetDailyObsIgs_unit_wget (E : Env W) (ar : FtpArchive) (ep : EpochStr) (fopt : ftpopt_t)
    (ftpName x : String) (s : St W) :
    wgetCmds (GetDailyObsIgs_unit E ar ep fopt ftpName x s).trace =
      wgetCmds s.trace ++
      (if fileExists E s (ToLower x ++ ep.sDoy ++ "0." ++ ep.sYy ++ "o") = false ∧
          fileExists E s (ToLower x ++ ep.sDoy ++ "0." ++ ep.sYy ++ "d") = false then
        [Cmd.wget (ToLower x ++ ep.sDoy ++ "0." ++ ep.sYy ++ "d.*")
          (GetDailyObsIgs_url ar ep ftpName).2 (GetDailyObsIgs_url ar ep ftpName).1]
      else []) := by
  unfold GetDailyObsIgs_unit
  simp only [append_d_star]
  simp only [sysCmd, say, removeFile, fileExists]
  split_ifs <;> simp [wgetCmds, List.filterMap_append]

theorem GetDailyObsIgs_loop_wget (E : Env W) (ar : FtpArchive) (ep : EpochStr) (fopt : ftpopt_t)
    (ftpName : String) (sites : List String) :
    ∀ s : St W,
      wgetCmds (sites.foldl (fun s x => GetDailyObsIgs_unit E ar ep fopt ftpName x s) s).trace =
        wgetCmds s.trace ++ GetDailyObsIgs_expectedWget E ar ep fopt ftpName sites s := by
  induction sites with
  | nil => intro s; simp [GetDailyObsIgs_expectedWget]
  | cons x xs ih =>
      intro s
      rw [List.foldl_cons, ih, GetDailyObsIgs_unit_wget]
      simp [GetDailyObsIgs_expectedWget, List.append_assoc]

/-- C5. `GetDailyObsIgs` in site-list mode (option string of nine characters or more, the
list readable) goes through every line of the list whatever the external tools do: the
transfer commands of the run are, in list order, exactly one command for each line whose
`.o` and `.d` files are both absent when the line is reached, each with the accept
pattern of its own line. What happened to the earlier lines plays no part. -/
theorem C5_dailyObsIgs_every_line (E : Env W) (ar : FtpArchive) (ep : EpochStr) (dir : String)
    (fopt : ftpopt_t) (sites : List String) (s : St W)
    (h9 : 9 ≤ fopt.obsOpt.length)
    (hacc : fileExists E (chdir E (dir ++ "/" ++ "daily") (makeSubDir E fopt dir "daily" s).2)
      fopt.obsOpt = true)
    (hopen : E.openLines (chdir E (dir ++ "/" ++ "daily") (makeSubDir E fopt dir "daily" s).2).world
      fopt.obsOpt = some sites) :
    wgetCmds (GetDailyObsIgs E ar ep dir fopt s).trace =
      wgetCmds s.trace ++
      GetDailyObsIgs_expectedWget E ar ep fopt (ToUpper fopt.ftpFrom) sites
        (chdir E (dir ++ "/" ++ "daily") (makeSubDir E fopt dir "daily" s).2) ∧
    (GetDailyObsIgs_expectedWget E ar ep fopt (ToUpper fopt.ftpFrom) sites
        (chdir E (dir ++ "/" ++ "daily") (makeSubDir E fopt dir "daily" s).2)).length ≤
      sites.length := by
  have hsub := makeSubDir_fst E fopt dir "daily" s
  have hlen : ∀ (xs : List String) (t : St W),
      (GetDailyObsIgs_expectedWget E ar ep fopt (ToUpper fopt.ftpFrom) xs t).length ≤
        xs.length := by
    intro xs
    induction xs with
    | nil => intro t; simp [GetDailyObsIgs_expectedWget]
    | cons x xs ih =>
        intro t
        have := ih (GetDailyObsIgs_unit E ar ep fopt (ToUpper fopt.ftpFrom) x t)
        simp only [GetDailyObsIgs_expectedWget, List.length_append, List.length_cons]
        split_ifs <;> simp <;> omega
  refine ⟨?_, hlen _ _⟩
  unfold GetDailyObsIgs
  simp only [hsub]
  have hb := length_le_strlen fopt.obsOpt
  rw [if_neg (by omega), if_pos hacc]
  simp only [hopen]
  rw [GetDailyObsIgs_loop_wget]
  rw [chdir_wget, makeSubDir_wget]

/-- C5 on the list `zimm`, `ZIMM`, `wtzr` with tools that fetch and decompress only
`zimm0450.21d` and a converter that leaves nothing: the first line fails to convert, the
second finds the `.d` file of the first and is skipped, the third is still fetched. -/
theorem C5_dailyObsIgs_every_line_witness :
    9 ≤ fopt0.obsOpt.length ∧
    wgetCmds (GetDailyObsIgs (simEnv toolsGzNoConv [("site.list", ["zimm", "ZIMM", "wtzr"])])
        ftpArchive0 ep2021_045 "obs" fopt0 worldObs).trace =
      [ Cmd.wget "zimm0450.21d.*" " --cut-dirs=7 "
          "ftps://gdc.cddis.eosdis.nasa.gov/pub/gnss/data/daily/2021/045/21d",
        Cmd.wget "wtzr0450.21d.*" " --cut-dirs=7 "
          "ftps://gdc.cddis.eosdis.nasa.gov/pub/gnss/data/daily/2021/045/21d" ] := by
  have h := C5_dailyObsIgs_every_line (simEnv toolsGzNoConv [("site.list", ["zimm", "ZIMM", "wtzr"])])
    ftpArchive0 ep2021_045 "obs" fopt0 ["zimm", "ZIMM", "wtzr"] worldObs (by decide) (by decide)
    (by decide)
  refine ⟨by decide, h.1.trans ?_⟩
  decide


/-! ## C7: the day window of the orbit and clock products -/

/-- C7 as stated fails. For the option `igu` (likewise `gfu`, `wuu`) `FtpDownload` makes
one `GetOrbClk` invocation with the day window enabled and one with it disabled: the same
number, not three times as many. -/
theorem C7_igu_window_not_tripled :
    (orbClkCalls (FtpDownload_orbClk ⟨0, "sp3", "clk"⟩
      { fopt0 with orbClkOpt := "igu", minusAdd1day := true })).length = 1 ∧
    (orbClkCalls (FtpDownload_orbClk ⟨0, "sp3", "clk"⟩
      { fopt0 with orbClkOpt := "igu", minusAdd1day := false })).length = 1 ∧
    (orbClkCalls (FtpDownload_orbClk ⟨0, "sp3", "clk"⟩
      { fopt0 with orbClkOpt := "igu", minusAdd1day := true })).length ≠
    3 * (orbClkCalls (FtpDownload_orbClk ⟨0, "sp3", "clk"⟩
      { fopt0 with orbClkOpt := "igu", minusAdd1day := false })).length := by
  decide

/-- C7, amended. With `getOrbClk` set and an option string other than `igu`, `gfu`, `wuu`:
with the day window disabled `FtpDownload` invokes `GetOrbClk` twice (orbit, then clock,
at the epoch `ts`); with it enabled it makes these two invocations and then the same two
at `ts - 86400` and at `ts + 86400`, six in all, three times as many. For the option
strings `igu`, `gfu`, `wuu` the day window has no effect: one orbit invocation at `ts`
either way. -/
theorem C7_day_window_calls (popt : prcopt_t) (fOn fOff : ftpopt_t)
    (hg : fOn.getOrbClk = true) (hg2 : fOff.getOrbClk = true)
    (hopt : fOn.orbClkOpt = fOff.orbClkOpt)
    (hon : fOn.minusAdd1day = true) (hoff : fOff.minusAdd1day = false) :
    ((fOn.orbClkOpt ≠ "igu" ∧ fOn.orbClkOpt ≠ "gfu" ∧ fOn.orbClkOpt ≠ "wuu") →
      orbClkCalls (FtpDownload_orbClk popt fOff) =
        [(popt.ts, popt.sp3Dir, 1), (popt.ts, popt.clkDir, 2)] ∧
      orbClkCalls (FtpDownload_orbClk popt fOn) =
        [(popt.ts, popt.sp3Dir, 1), (popt.ts, popt.clkDir, 2),
         (popt.ts - 86400, popt.sp3Dir, 1), (popt.ts - 86400, popt.clkDir, 2),
         (popt.ts + 86400, popt.sp3Dir, 1), (popt.ts + 86400, popt.clkDir, 2)] ∧
      (orbClkCalls (FtpDownload_orbClk popt fOn)).length =
        3 * (orbClkCalls (FtpDownload_orbClk popt fOff)).length) ∧
    ((fOn.orbClkOpt = "igu" ∨ fOn.orbClkOpt = "gfu" ∨ fOn.orbClkOpt = "wuu") →
      orbClkCalls (FtpDownload_orbClk popt fOn) = [(popt.ts, popt.sp3Dir, 1)] ∧
      orbClkCalls (FtpDownload_orbClk popt fOff) = [(popt.ts, popt.sp3Dir, 1)]) := by
  constructor
  · intro h
    have h' : fOff.orbClkOpt ≠ "igu" ∧ fOff.orbClkOpt ≠ "gfu" ∧ fOff.orbClkOpt ≠ "wuu" := by
      rw [← hopt]; exact h
    have e1 : orbClkCalls (FtpDownload_orbClk popt fOff) =
        [(popt.ts, popt.sp3Dir, 1), (popt.ts, popt.clkDir, 2)] := by
      unfold FtpDownload_orbClk
      rw [if_pos hg2, if_pos h', if_neg (by simp [hoff])]
      simp [orbClkCalls]
    have e2 : orbClkCalls (FtpDownload_orbClk popt fOn) =
        [(popt.ts, popt.sp3Dir, 1), (popt.ts, popt.clkDir, 2),
         (popt.ts - 86400, popt.sp3Dir, 1), (popt.ts - 86400, popt.clkDir, 2),
         (popt.ts + 86400, popt.sp3Dir, 1), (popt.ts + 86400, popt.clkDir, 2)] := by
      unfold FtpDownload_orbClk
      rw [if_pos hg, if_pos h, if_pos ⟨hon, h⟩]
      simp [orbClkCalls, TimeAdd, Int.sub_eq_add_neg]
    refine ⟨e1, e2, ?_⟩
    rw [e1, e2]
    rfl
  · intro h
    have hn : ¬ (fOn.orbClkOpt ≠ "igu" ∧ fOn.orbClkOpt ≠ "gfu" ∧ fOn.orbClkOpt ≠ "wuu") := by
      rcases h with h | h | h <;> simp [h]
    have hn' : ¬ (fOff.orbClkOpt ≠ "igu" ∧ fOff.orbClkOpt ≠ "gfu" ∧ fOff.orbClkOpt ≠ "wuu") := by
      rw [← hopt]; exact hn
    constructor
    · unfold FtpDownload_orbClk
      rw [if_pos hg, if_neg hn, if_neg (fun hc => hn hc.2)]
      simp [orbClkCalls]
    · unfold FtpDownload_orbClk
      rw [if_pos hg2, if_neg hn', if_neg (fun hc => hn' hc.2)]
      simp [orbClkCalls]

/-- C7, amended, for the option `igs` at epoch 1000000 and for the option `igu`. -/
theorem C7_day_window_calls_witness :
    orbClkCalls (FtpDownload_orbClk ⟨1000000, "sp3", "clk"⟩
        { fopt0 with minusAdd1day := true }) =
      [(1000000, "sp3", 1), (1000000, "clk", 2), (913600, "sp3", 1), (913600, "clk", 2),
       (1086400, "sp3", 1), (1086400, "clk", 2)] ∧
    orbClkCalls (FtpDownload_orbClk ⟨1000000, "sp3", "clk"⟩
        { fopt0 with orbClkOpt := "igu", minusAdd1day := true }) = [(1000000, "sp3", 1)] := by
  have h1 := (C7_day_window_calls ⟨1000000, "sp3", "clk"⟩ { fopt0 with minusAdd1day := true }
    fopt0 rfl rfl rfl rfl rfl).1 (by decide)
  have h2 := (C7_day_window_calls ⟨1000000, "sp3", "clk"⟩
    { fopt0 with orbClkOpt := "igu", minusAdd1day := true }
    { fopt0 with orbClkOpt := "igu" } rfl rfl rfl rfl rfl).2 (Or.inl rfl)
  exact ⟨h1.2.1, h2.1⟩


/-! ## C9: the rename step of the daily broadcast ephemeris -/

theorem first_char_ne (c d : Char) (l m : List Char) (x y : String) (h : c ≠ d) :
    String.mk (c :: l) ++ x ≠ String.mk (d :: m) ++ y := by
  intro e
  have e2 := congrArg String.data e
  simp only [String.data_append, List.cons_append, List.cons.injEq] at e2
  exact h e2.1

theorem makeSubDir_sysCmds_mv (E : Env W) (fopt : ftpopt_t) (dir name : String) (s : St W)
    (a b : String) :
    Cmd.mv a b ∈ sysCmds (chdir E (dir ++ "/" ++ name) (makeSubDir E fopt dir name s).2).trace →
      Cmd.mv a b ∈ sysCmds s.trace := by
  simp only [makeSubDir, sysCmd, chdir]
  split_ifs <;> simp [sysCmds, List.filterMap_append]

theorem GetNav_dailyFetch_sysCmds (E : Env W) (ar : FtpArchive) (ep : EpochStr)
    (fopt : ftpopt_t) (ftpName nOpt nf n0 : String) (s : St W) :
    sysCmds (GetNav_dailyFetch E ar ep fopt ftpName nOpt nf n0 s).trace =
      sysCmds s.trace ++
        (if fileExists E s nf = false ∧ fileExists E s n0 = false then
          [Cmd.wget (nf ++ ".*") (GetNav_dailyUrl ar ep ftpName).2
            (GetNav_dailyUrl ar ep ftpName).1] ++
          (if fileExists E (sysCmd E fopt (Cmd.wget (nf ++ ".*") (GetNav_dailyUrl ar ep ftpName).2
                (GetNav_dailyUrl ar ep ftpName).1) s) (nf ++ ".gz") then [Cmd.gzip (nf ++ ".gz")]
            else if fileExists E (sysCmd E fopt (Cmd.wget (nf ++ ".*")
                (GetNav_dailyUrl ar ep ftpName).2 (GetNav_dailyUrl ar ep ftpName).1) s)
                (nf ++ ".Z") then [Cmd.gzip (nf ++ ".Z")]
            else []) ++
          (if nOpt = "mixed" then [Cmd.mv nf n0] else [])
        else []) := by
  unfold GetNav_dailyFetch
  by_cases hm : nOpt = "mixed"
  · simp only [if_pos hm]
    simp only [sysCmd, say, fileExists]
    split_ifs <;> simp [sysCmds, List.filterMap_append]
  · simp only [if_neg hm]
    simp only [sysCmd, say, fileExists]
    split_ifs <;> simp [sysCmds, List.filterMap_append]

/-- C9. In the daily mode of `GetNav`, for every epoch: with option `mixed` the remote
name is `BRDC00IGS_R_<yyyy><ddd>0000_01D_MN.rnx` (`BRDC00IGN_R_...` for archive IGN), the
canonical local name is `brdm<ddd>0.<yy>p`, the two differ, and when the fetch is attempted
(both names absent in the state `s0` reached after the `chdir` into `daily`) the commands
of the run are the transfer, the decompression (of `.gz` if it exists, else of `.Z` if it
exists) and then, last, the rename of the remote name to the local name. With option
`gps` or `glo` the remote and the local name are both `brdc<ddd>0.<yy>n` (`...g`) and the
run issues no rename command. -/
theorem C9_nav_daily_rename (E : Env W) (ar : FtpArchive) (ep : EpochStr) (dir : String)
    (fopt : ftpopt_t) (s s0 : St W) (nf n0 : String)
    (hT : ToLower fopt.navTyp = "daily")
    (hs0 : s0 = chdir E (dir ++ "/" ++ "daily") (makeSubDir E fopt dir "daily" s).2)
    (hnf : nf = if ToUpper fopt.ftpFrom = "IGN" then
        "BRDC00IGN_R_" ++ ep.sYyyy ++ ep.sDoy ++ "0000_01D_MN.rnx"
      else "BRDC00IGS_R_" ++ ep.sYyyy ++ ep.sDoy ++ "0000_01D_MN.rnx")
    (hn0 : n0 = "brdm" ++ ep.sDoy ++ "0." ++ ep.sYy ++ "p") :
    (ToLower fopt.navOpt = "mixed" →
      GetNav_dailyNames ep (ToUpper fopt.ftpFrom) (ToLower fopt.navOpt) = (nf, n0) ∧
      nf ≠ n0 ∧
      (fileExists E s0 nf = false → fileExists E s0 n0 = false →
        sysCmds (GetNav E ar ep dir fopt s).trace =
          sysCmds s0.trace ++
            [Cmd.wget (nf ++ ".*") (GetNav_dailyUrl ar ep (ToUpper fopt.ftpFrom)).2
              (GetNav_dailyUrl ar ep (ToUpper fopt.ftpFrom)).1] ++
            (if fileExists E (sysCmd E fopt (Cmd.wget (nf ++ ".*")
                  (GetNav_dailyUrl ar ep (ToUpper fopt.ftpFrom)).2
                  (GetNav_dailyUrl ar ep (ToUpper fopt.ftpFrom)).1) s0) (nf ++ ".gz") then
                [Cmd.gzip (nf ++ ".gz")]
              else if fileExists E (sysCmd E fopt (Cmd.wget (nf ++ ".*")
                  (GetNav_dailyUrl ar ep (ToUpper fopt.ftpFrom)).2
                  (GetNav_dailyUrl ar ep (ToUpper fopt.ftpFrom)).1) s0) (nf ++ ".Z") then
                [Cmd.gzip (nf ++ ".Z")]
              else []) ++
            [Cmd.mv nf n0])) ∧
    (ToLower fopt.navOpt = "gps" →
      GetNav_dailyNames ep (ToUpper fopt.ftpFrom) (ToLower fopt.navOpt) =
        ("brdc" ++ ep.sDoy ++ "0." ++ ep.sYy ++ "n", "brdc" ++ ep.sDoy ++ "0." ++ ep.sYy ++ "n") ∧
      ∀ a b, Cmd.mv a b ∈ sysCmds (GetNav E ar ep dir fopt s).trace →
        Cmd.mv a b ∈ sysCmds s.trace) ∧
    (ToLower fopt.navOpt = "glo" →
      GetNav_dailyNames ep (ToUpper fopt.ftpFrom) (ToLower fopt.navOpt) =
        ("brdc" ++ ep.sDoy ++ "0." ++ ep.sYy ++ "g", "brdc" ++ ep.sDoy ++ "0." ++ ep.sYy ++ "g") ∧
      ∀ a b, Cmd.mv a b ∈ sysCmds (GetNav E ar ep dir fopt s).trace →
        Cmd.mv a b ∈ sysCmds s.trace) := by
  have hsub := makeSubDir_fst E fopt dir "daily" s
  have hrun : ∀ names : String × String,
      GetNav_dailyNames ep (ToUpper fopt.ftpFrom) (ToLower fopt.navOpt) = names →
      sysCmds (GetNav E ar ep dir fopt s).trace =
        sysCmds (GetNav_dailyFetch E ar ep fopt (ToUpper fopt.ftpFrom) (ToLower fopt.navOpt)
          names.1 names.2 s0).trace := by
    intro names hn
    unfold GetNav
    rw [if_pos hT]
    unfold GetNav_daily
    simp only [hsub, hn, ← hs0]
  have hs0mv : ∀ a b, Cmd.mv a b ∈ sysCmds s0.trace → Cmd.mv a b ∈ sysCmds s.trace := by
    intro a b
    rw [hs0]
    exact makeSubDir_sysCmds_mv E fopt dir "daily" s a b
  refine ⟨?_, ?_, ?_⟩
  · intro hO
    have hn : GetNav_dailyNames ep (ToUpper fopt.ftpFrom) (ToLower fopt.navOpt) = (nf, n0) := by
      rw [hO, hnf, hn0]
      unfold GetNav_dailyNames
      rw [if_neg (by decide), if_neg (by decide), if_pos rfl]
    refine ⟨hn, ?_, ?_⟩
    · rw [hnf, hn0]
      simp only [String.append_assoc]
      split_ifs
      · exact first_char_ne 'B' 'b' _ _ _ _ (by decide)
      · exact first_char_ne 'B' 'b' _ _ _ _ (by decide)
    · intro h1 h2
      rw [hrun _ hn, GetNav_dailyFetch_sysCmds, if_pos ⟨h1, h2⟩, if_pos hO]
      simp only [List.append_assoc]
  · intro hO
    have hn : GetNav_dailyNames ep (ToUpper fopt.ftpFrom) (ToLower fopt.navOpt) =
        ("brdc" ++ ep.sDoy ++ "0." ++ ep.sYy ++ "n", "brdc" ++ ep.sDoy ++ "0." ++ ep.sYy ++ "n") := by
      rw [hO]; unfold GetNav_dailyNames; rw [if_pos rfl]
    refine ⟨hn, ?_⟩
    intro a b
    have hne : ¬ (ToLower fopt.navOpt = "mixed") := by rw [hO]; decide
    rw [hrun _ hn, GetNav_dailyFetch_sysCmds, if_neg hne]
    generalize ("brdc" ++ ep.sDoy ++ "0." ++ ep.sYy ++ "n") = x
    intro hm
    apply hs0mv
    revert hm
    split_ifs <;> simp
  · intro hO
    have hn : GetNav_dailyNames ep (ToUpper fopt.ftpFrom) (ToLower fopt.navOpt) =
        ("brdc" ++ ep.sDoy ++ "0." ++ ep.sYy ++ "g", "brdc" ++ ep.sDoy ++ "0." ++ ep.sYy ++ "g") := by
      rw [hO]; unfold GetNav_dailyNames; rw [if_neg (by decide), if_pos rfl]
    refine ⟨hn, ?_⟩
    intro a b
    have hne : ¬ (ToLower fopt.navOpt = "mixed") := by rw [hO]; decide
    rw [hrun _ hn, GetNav_dailyFetch_sysCmds, if_neg hne]
    generalize ("brdc" ++ ep.sDoy ++ "0." ++ ep.sYy ++ "g") = x
    intro hm
    apply hs0mv
    revert hm
    split_ifs <;> simp


/-! ## C6: the daily fall-back of `GetSnx` -/

theorem append_snx_star (x : String) : x ++ ".snx" ++ ".*" = x ++ ".snx.*" := by
  rw [String.append_assoc]; rfl

theorem append_snx_Z (x : String) : x ++ ".snx" ++ ".Z" = x ++ ".snx.Z" := by
  rw [String.append_assoc]; rfl

theorem GetSnx_urlDaily_eq (ar : FtpArchive) (ep : EpochStr) (ftpName : String) :
    GetSnx_urlDaily ar ep ftpName = GetSnx_url ar ep ftpName := by
  unfold GetSnx_urlDaily GetSnx_url
  rfl

theorem GetSnx_weekly_wget (E : Env W) (ar : FtpArchive) (ep : EpochStr) (fopt : ftpopt_t)
    (ftpName snx0File : String) (s : St W) :
    wgetCmds (GetSnx_weekly E ar ep fopt ftpName snx0File s).trace =
      wgetCmds s.trace ++ [Cmd.wget ("igs*P" ++ ep.sWwww ++ ".snx.*")
        (GetSnx_url ar ep ftpName).2 (GetSnx_url ar ep ftpName).1] := by
  unfold GetSnx_weekly
  simp only [append_snx_star]
  simp only [sysCmd, say, fileExists]
  split_ifs <;> simp [wgetCmds, List.filterMap_append]

theorem GetSnx_dailyFallback_absent (E : Env W) (ar : FtpArchive) (ep : EpochStr)
    (fopt : ftpopt_t) (ftpName snx0File : String) (s : St W)
    (h : fileExists E s snx0File = false) :
    ∃ rest, (GetSnx_dailyFallback E ar ep fopt ftpName snx0File s).trace =
      s.trace ++
        [ Event.sys (Cmd.wget ("igs*P" ++ ep.sWwww ++ ep.sDow ++ ".snx.*")
            (GetSnx_url ar ep ftpName).2 (GetSnx_url ar ep ftpName).1),
          Event.sys (Cmd.gzip ("igs*P" ++ ep.sWwww ++ ep.sDow ++ ".snx.Z")),
          Event.sys (Cmd.mv ("igs*P" ++ ep.sWwww ++ ep.sDow ++ ".snx") snx0File) ] ++ rest := by
  unfold GetSnx_dailyFallback
  rw [if_pos h]
  simp only [append_snx_star, append_snx_Z, GetSnx_urlDaily_eq]
  simp only [sysCmd, say, fileExists]
  split_ifs
  · exact ⟨_, by simp only [List.append_assoc, List.singleton_append, List.cons_append,
      List.nil_append]; rfl⟩
  · exact ⟨_, by simp only [List.append_assoc, List.singleton_append, List.cons_append,
      List.nil_append]; rfl⟩
  · exact ⟨[], by simp only [List.append_assoc, List.singleton_append, List.cons_append,
      List.nil_append, List.append_nil]⟩

theorem GetSnx_dailyFallback_present (E : Env W) (ar : FtpArchive) (ep : EpochStr)
    (fopt : ftpopt_t) (ftpName snx0File : String) (s : St W)
    (h : fileExists E s snx0File = true) :
    GetSnx_dailyFallback E ar ep fopt ftpName snx0File s = s := by
  unfold GetSnx_dailyFallback
  rw [if_neg (by simp [h])]

theorem GetSnx_tail (E : Env W) (fopt : ftpopt_t) (snx0File : String) (s : St W) :
    ∃ rest, (cleanRepro3 E fopt
        (if fileExists E s snx0File then say (GetSnx_success snx0File) s else s)).trace =
      s.trace ++ rest ∧ wgetCmds rest = [] := by
  unfold cleanRepro3
  simp only [sysCmd, say, fileExists]
  split_ifs
  · exact ⟨[Event.out (GetSnx_success snx0File), Event.sys (Cmd.rmrf "repro3")],
      by simp, by simp [wgetCmds]⟩
  · exact ⟨[Event.out (GetSnx_success snx0File)], by simp, by simp [wgetCmds]⟩
  · exact ⟨[Event.sys (Cmd.rmrf "repro3")], by simp, by simp [wgetCmds]⟩
  · exact ⟨[], by simp, by simp [wgetCmds]⟩

/-- C6. In `GetSnx`, for every GPS week string `wwww` and day-of-week string `d`, when the
fetch is attempted (the canonical file `igs<wwww>.snx` is absent after the `chdir`): the
weekly attempt issues one transfer command, with pattern `igs*P<wwww>.snx.*`; if the
canonical file is still absent after the weekly attempt, the run continues with a second
transfer command with the daily pattern `igs*P<wwww><d>.snx.*` against the same URL and
with the same `--cut-dirs` option, then a decompression command and the rename of
`igs*P<wwww><d>.snx` to `igs<wwww>.snx`; if the weekly attempt produced the canonical file,
the weekly transfer command is the only transfer command of the run. -/
theorem C6_snx_daily_fallback (E : Env W) (ar : FtpArchive) (ep : EpochStr) (dir : String)
    (fopt : ftpopt_t) (s s0 sW : St W)
    (hs0 : s0 = chdir E dir s)
    (hsW : sW = GetSnx_weekly E ar ep fopt (ToUpper fopt.ftpFrom) ("igs" ++ ep.sWwww ++ ".snx") s0)
    (h0 : fileExists E s0 ("igs" ++ ep.sWwww ++ ".snx") = false) :
    wgetCmds sW.trace =
      wgetCmds s.trace ++ [Cmd.wget ("igs*P" ++ ep.sWwww ++ ".snx.*")
        (GetSnx_url ar ep (ToUpper fopt.ftpFrom)).2 (GetSnx_url ar ep (ToUpper fopt.ftpFrom)).1] ∧
    (fileExists E sW ("igs" ++ ep.sWwww ++ ".snx") = false →
      ∃ rest, (GetSnx E ar ep dir fopt s).trace =
        sW.trace ++
          [ Event.sys (Cmd.wget ("igs*P" ++ ep.sWwww ++ ep.sDow ++ ".snx.*")
              (GetSnx_url ar ep (ToUpper fopt.ftpFrom)).2
              (GetSnx_url ar ep (ToUpper fopt.ftpFrom)).1),
            Event.sys (Cmd.gzip ("igs*P" ++ ep.sWwww ++ ep.sDow ++ ".snx.Z")),
            Event.sys (Cmd.mv ("igs*P" ++ ep.sWwww ++ ep.sDow ++ ".snx")
              ("igs" ++ ep.sWwww ++ ".snx")) ] ++ rest) ∧
    (fileExists E sW ("igs" ++ ep.sWwww ++ ".snx") = true →
      wgetCmds (GetSnx E ar ep dir fopt s).trace =
        wgetCmds s.trace ++ [Cmd.wget ("igs*P" ++ ep.sWwww ++ ".snx.*")
          (GetSnx_url ar ep (ToUpper fopt.ftpFrom)).2
          (GetSnx_url ar ep (ToUpper fopt.ftpFrom)).1]) := by
  have hw : wgetCmds sW.trace =
      wgetCmds s.trace ++ [Cmd.wget ("igs*P" ++ ep.sWwww ++ ".snx.*")
        (GetSnx_url ar ep (ToUpper fopt.ftpFrom)).2
        (GetSnx_url ar ep (ToUpper fopt.ftpFrom)).1] := by
    rw [hsW, GetSnx_weekly_wget, hs0, chdir_wget]
  have hrun : GetSnx E ar ep dir fopt s =
      cleanRepro3 E fopt
        (if fileExists E (GetSnx_dailyFallback E ar ep fopt (ToUpper fopt.ftpFrom)
            ("igs" ++ ep.sWwww ++ ".snx") sW) ("igs" ++ ep.sWwww ++ ".snx") then
          say (GetSnx_success ("igs" ++ ep.sWwww ++ ".snx"))
            (GetSnx_dailyFallback E ar ep fopt (ToUpper fopt.ftpFrom)
              ("igs" ++ ep.sWwww ++ ".snx") sW)
        else GetSnx_dailyFallback E ar ep fopt (ToUpper fopt.ftpFrom)
          ("igs" ++ ep.sWwww ++ ".snx") sW) := by
    unfold GetSnx
    simp only [← hs0]
    rw [if_pos h0, ← hsW]
  refine ⟨hw, ?_, ?_⟩
  · intro h
    obtain ⟨r1, hr1⟩ := GetSnx_dailyFallback_absent E ar ep fopt (ToUpper fopt.ftpFrom)
      ("igs" ++ ep.sWwww ++ ".snx") sW h
    obtain ⟨r2, hr2, _⟩ := GetSnx_tail E fopt ("igs" ++ ep.sWwww ++ ".snx")
      (GetSnx_dailyFallback E ar ep fopt (ToUpper fopt.ftpFrom) ("igs" ++ ep.sWwww ++ ".snx") sW)
    refine ⟨r1 ++ r2, ?_⟩
    rw [hrun, hr2, hr1]
    simp only [List.append_assoc]
  · intro h
    obtain ⟨r2, hr2, hr3⟩ := GetSnx_tail E fopt ("igs" ++ ep.sWwww ++ ".snx")
      (GetSnx_dailyFallback E ar ep fopt (ToUpper fopt.ftpFrom) ("igs" ++ ep.sWwww ++ ".snx") sW)
    rw [hrun, hr2, GetSnx_dailyFallback_present _ _ _ _ _ _ _ h, wgetCmds_append, hr3, hw]
    simp

/-- C9 on day 045 of 2021 from CDDIS with working tools: with option `mixed` the run
fetches and decompresses `BRDC00IGS_R_20210450000_01D_MN.rnx` and renames it to
`brdm0450.21p`; with option `gps` it fetches and decompresses `brdc0450.21n` and issues no
rename. -/
theorem C9_nav_daily_rename_witness :
    ToLower foptNavMixed.navTyp = "daily" ∧ ToLower foptNavMixed.navOpt = "mixed" ∧
    sysCmds (GetNav (simEnv toolsNav []) ftpArchive0 ep2021_045 "nav" foptNavMixed worldNav).trace =
      [ Cmd.wget "BRDC00IGS_R_20210450000_01D_MN.rnx.*" " --cut-dirs=6 "
          "ftps://gdc.cddis.eosdis.nasa.gov/pub/gnss/data/daily/2021/brdc",
        Cmd.gzip "BRDC00IGS_R_20210450000_01D_MN.rnx.gz",
        Cmd.mv "BRDC00IGS_R_20210450000_01D_MN.rnx" "brdm0450.21p" ] ∧
    (∀ a b, Cmd.mv a b ∈
        sysCmds (GetNav (simEnv toolsNav []) ftpArchive0 ep2021_045 "nav" foptNavGps worldNav).trace →
      Cmd.mv a b ∈ sysCmds worldNav.trace) := by
  have h := C9_nav_daily_rename (simEnv toolsNav []) ftpArchive0 ep2021_045 "nav" foptNavMixed
    worldNav _ _ _ (by decide) rfl rfl rfl
  have g := C9_nav_daily_rename (simEnv toolsNav []) ftpArchive0 ep2021_045 "nav" foptNavGps
    worldNav _ _ _ (by decide) rfl rfl rfl
  refine ⟨by decide, by decide, ?_, (g.2.1 (by decide)).2⟩
  exact ((h.1 (by decide)).2.2 (by decide) (by decide)).trans (by decide)

/-- C6 for GPS week 2145, day 0, archive CDDIS. When the weekly file is not on the server
the run issues the daily transfer command `igs*P21450.snx.*` for the same week URL; when
the weekly file is there, the weekly transfer command is the only one. -/
theorem C6_snx_daily_fallback_witness :
    fileExists (simEnv toolsSnxDaily []) (chdir (simEnv toolsSnxDaily []) "snx" worldSnx)
      "igs2145.snx" = false ∧
    Event.sys (Cmd.wget "igs*P21450.snx.*" " --cut-dirs=4 "
        "ftps://gdc.cddis.eosdis.nasa.gov/pub/gnss/products/2145") ∈
      (GetSnx (simEnv toolsSnxDaily []) ftpArchive0 ep2021_045 "snx" fopt0 worldSnx).trace ∧
    wgetCmds (GetSnx (simEnv toolsSnxWeekly []) ftpArchive0 ep2021_045 "snx" fopt0 worldSnx).trace =
      [Cmd.wget "igs*P2145.snx.*" " --cut-dirs=4 "
        "ftps://gdc.cddis.eosdis.nasa.gov/pub/gnss/products/2145"] := by
  have h := C6_snx_daily_fallback (simEnv toolsSnxDaily []) ftpArchive0 ep2021_045 "snx" fopt0
    worldSnx _ _ rfl rfl (by decide)
  have g := C6_snx_daily_fallback (simEnv toolsSnxWeekly []) ftpArchive0 ep2021_045 "snx" fopt0
    worldSnx _ _ rfl rfl (by decide)
  refine ⟨by decide, ?_, (g.2.2 (by decide)).trans (by decide)⟩
  obtain ⟨rest, hr⟩ := h.2.1 (by decide)
  have e : Event.sys (Cmd.wget "igs*P21450.snx.*" " --cut-dirs=4 "
      "ftps://gdc.cddis.eosdis.nasa.gov/pub/gnss/products/2145") =
    Event.sys (Cmd.wget ("igs*P" ++ ep2021_045.sWwww ++ ep2021_045.sDow ++ ".snx.*")
      (GetSnx_url ftpArchive0 ep2021_045 (ToUpper fopt0.ftpFrom)).2
      (GetSnx_url ftpArchive0 ep2021_045 (ToUpper fopt0.ftpFrom)).1) := by decide
  rw [hr, e]
  simp only [List.mem_append, List.mem_cons, true_or, or_true]


/-! ## C8: upper-cased remote pattern, lower-cased local names (MGEX) -/

theorem starts2_intro (a b r : String) : Starts2 a b (a ++ (b ++ r)) :=
  ⟨r, rfl⟩

theorem fold_named {α : Type} (P : Event → Prop) (inv : String → Prop)
    (f : String × St W → α → String × St W)
    (hf : ∀ (a : α) (x : String) (s : St W), inv x →
      ∃ evs, (f (x, s) a).2.trace = s.trace ++ evs ∧ (∀ e ∈ evs, P e) ∧ inv (f (x, s) a).1) :
    ∀ (l : List α) (x : String) (s : St W), inv x →
      ∃ evs, (l.foldl f (x, s)).2.trace = s.trace ++ evs ∧ (∀ e ∈ evs, P e) ∧
        inv (l.foldl f (x, s)).1 := by
  intro l
  induction l with
  | nil => intro x s hx; exact ⟨[], by simp, by simp, hx⟩
  | cons a l ih =>
      intro x s hx
      obtain ⟨e1, h1, h2, h3⟩ := hf a x s hx
      obtain ⟨e2, g1, g2, g3⟩ := ih (f (x, s) a).1 (f (x, s) a).2 h3
      refine ⟨e1 ++ e2, ?_, ?_, ?_⟩
      · rw [List.foldl_cons]
        have : f (x, s) a = ((f (x, s) a).1, (f (x, s) a).2) := rfl
        rw [this, g1, h1, List.append_assoc]
      · intro e he
        rcases List.mem_append.1 he with h | h
        · exact h2 e h
        · exact g2 e h
      · rw [List.foldl_cons]
        exact g3

theorem enterHourDir_named (E : Env W) (fopt : ftpopt_t) (subDir sHh : String) (s : St W)
    (P : Event → Prop) (hmk : ∀ d, P (Event.sys (Cmd.mkdir d))) (hcd : ∀ d, P (Event.cd d)) :
    ∃ evs, (enterHourDir E fopt subDir sHh s).2.trace = s.trace ++ evs ∧ ∀ e ∈ evs, P e := by
  simp only [enterHourDir, sysCmd, chdir, fileExists]
  split_ifs
  · exact ⟨[Event.sys (Cmd.mkdir (subDir ++ "/" ++ sHh)), Event.cd (subDir ++ "/" ++ sHh)],
      by simp, by simp [hmk, hcd]⟩
  · exact ⟨[Event.cd (subDir ++ "/" ++ sHh)], by simp, by simp [hcd]⟩

theorem GetDailyObsMgex_unit_named (E : Env W) (ar : FtpArchive) (ep : EpochStr)
    (fopt : ftpopt_t) (ftpName line x : String) (s : St W) (hx : ToLower x = ToLower line) :
    ∃ evs, (GetDailyObsMgex_unit E ar ep fopt ftpName x s).2.trace = s.trace ++ evs ∧
      (∀ e ∈ evs, MgexNamed ep line e) ∧
      ToLower (GetDailyObsMgex_unit E ar ep fopt ftpName x s).1 = ToLower line := by
  unfold GetDailyObsMgex_unit
  simp only [hx, ToUpper_ToLower, String.append_assoc]
  simp only [sysCmd, say, removeFile, fileExists]
  split_ifs <;>
    exact ⟨_, by simp only [List.append_assoc]; rfl,
      by simp only [List.forall_mem_append, List.forall_mem_singleton, List.forall_mem_cons,
        List.not_mem_nil, MgexNamed, starts2_intro, and_self, false_imp_iff, implies_true],
      by simp only [ToLower_ToUpper, ToLower_ToLower]⟩

theorem GetHourlyObsMgex_unit_named (E : Env W) (ar : FtpArchive) (ep : EpochStr)
    (fopt : ftpopt_t) (ftpName line : String) (hh : Nat) (x : String) (s : St W)
    (hx : ToLower x = ToLower line) :
    ∃ evs, (GetHourlyObsMgex_unit E ar ep fopt ftpName hh x s).2.trace = s.trace ++ evs ∧
      (∀ e ∈ evs, MgexNamed ep line e) ∧
      ToLower (GetHourlyObsMgex_unit E ar ep fopt ftpName hh x s).1 = ToLower line := by
  unfold GetHourlyObsMgex_unit
  simp only [hx, ToUpper_ToLower, String.append_assoc]
  simp only [sysCmd, say, removeFile, fileExists]
  split_ifs <;>
    exact ⟨_, by simp only [List.append_assoc]; rfl,
      by simp only [List.forall_mem_append, List.forall_mem_singleton, List.forall_mem_cons,
        List.not_mem_nil, MgexNamed, starts2_intro, and_self, false_imp_iff, implies_true],
      by simp only [ToLower_ToUpper, ToLower_ToLower]⟩

theorem GetHrObsMgex_unit_named (E : Env W) (ar : FtpArchive) (ep : EpochStr)
    (fopt : ftpopt_t) (ftpName line : String) (hh : Nat) (minu x : String) (s : St W)
    (hx : ToLower x = ToLower line) :
    ∃ evs, (GetHrObsMgex_unit E ar ep fopt ftpName hh minu x s).2.trace = s.trace ++ evs ∧
      (∀ e ∈ evs, MgexNamed ep line e) ∧
      ToLower (GetHrObsMgex_unit E ar ep fopt ftpName hh minu x s).1 = ToLower line := by
  unfold GetHrObsMgex_unit
  simp only [hx, ToUpper_ToLower, String.append_assoc]
  simp only [sysCmd, say, removeFile, fileExists]
  split_ifs <;>
    exact ⟨_, by simp only [List.append_assoc]; rfl,
      by simp only [List.forall_mem_append, List.forall_mem_singleton, List.forall_mem_cons,
        List.not_mem_nil, MgexNamed, starts2_intro, and_self, false_imp_iff, implies_true],
      by simp only [ToLower_ToUpper, ToLower_ToLower]⟩

theorem GetHourlyObsMgex_iter_named (E : Env W) (ar : FtpArchive) (ep : EpochStr)
    (fopt : ftpopt_t) (ftpName subDir line : String) (hh : Nat) (x : String) (s : St W)
    (hx : ToLower x = ToLower line) :
    ∃ evs, (GetHourlyObsMgex_iter E ar ep fopt ftpName subDir hh x s).2.trace = s.trace ++ evs ∧
      (∀ e ∈ evs, MgexNamed ep line e) ∧
      ToLower (GetHourlyObsMgex_iter E ar ep fopt ftpName subDir hh x s).1 = ToLower line := by
  obtain ⟨e1, h1, h2⟩ := enterHourDir_named E fopt subDir (hh2str hh) s (MgexNamed ep line)
    (fun _ => trivial) (fun _ => trivial)
  obtain ⟨e2, g1, g2, g3⟩ := GetHourlyObsMgex_unit_named E ar ep fopt ftpName line hh x
    (enterHourDir E fopt subDir (hh2str hh) s).2 hx
  refine ⟨e1 ++ e2, ?_, ?_, g3⟩
  · unfold GetHourlyObsMgex_iter
    rw [g1, h1, List.append_assoc]
  · intro e he
    rcases List.mem_append.1 he with h | h
    · exact h2 e h
    · exact g2 e h

theorem GetHrObsMgex_iter_named (E : Env W) (ar : FtpArchive) (ep : EpochStr)
    (fopt : ftpopt_t) (ftpName subDir line : String) (hh : Nat) (x : String) (s : St W)
    (hx : ToLower x = ToLower line) :
    ∃ evs, (GetHrObsMgex_iter E ar ep fopt ftpName subDir hh x s).2.trace = s.trace ++ evs ∧
      (∀ e ∈ evs, MgexNamed ep line e) ∧
      ToLower (GetHrObsMgex_iter E ar ep fopt ftpName subDir hh x s).1 = ToLower line := by
  obtain ⟨e1, h1, h2⟩ := enterHourDir_named E fopt subDir (hh2str hh) s (MgexNamed ep line)
    (fun _ => trivial) (fun _ => trivial)
  obtain ⟨e2, g1, g2, g3⟩ := fold_named (MgexNamed ep line) (fun y => ToLower y = ToLower line)
    (fun (p : String × St W) minu => GetHrObsMgex_unit E ar ep fopt ftpName hh minu p.1 p.2)
    (fun minu y t hy => GetHrObsMgex_unit_named E ar ep fopt ftpName line hh minu y t hy)
    minuStr x (enterHourDir E fopt subDir (hh2str hh) s).2 hx
  refine ⟨e1 ++ e2, ?_, ?_, g3⟩
  · unfold GetHrObsMgex_iter
    rw [g1, h1, List.append_assoc]
  · intro e he
    rcases List.mem_append.1 he with h | h
    · exact h2 e h
    · exact g2 e h

/-- C8. In site-list mode of `GetDailyObsMgex`, `GetHourlyObsMgex` and `GetHrObsMgex`, for
every site line (in any letter case) and whatever the external tools do, every event of
the processing of the line obeys the naming rule `MgexNamed`: every accept pattern starts
with the upper-cased site followed by `*_R_`, and the `.d` and `.o` names (rename target,
converter input and output, removed file) start with the lower-cased site followed by the
day string. This covers all hours and quarter hours of the line: a unit entered with the
site in another letter case (as left by the previous iteration) does exactly what it does
when entered with the line as read. -/
theorem C8_mgex_site_case (E : Env W) (ar : FtpArchive) (ep : EpochStr) (fopt : ftpopt_t)
    (ftpName subDir line : String) (s : St W) :
    (∃ evs, (GetDailyObsMgex_unit E ar ep fopt ftpName line s).2.trace = s.trace ++ evs ∧
      ∀ e ∈ evs, MgexNamed ep line e) ∧
    (∃ evs, (fopt.hhObm.foldl (fun (p : String × St W) hh =>
        GetHourlyObsMgex_iter E ar ep fopt ftpName subDir hh p.1 p.2) (line, s)).2.trace =
          s.trace ++ evs ∧
      ∀ e ∈ evs, MgexNamed ep line e) ∧
    (∃ evs, (fopt.hhObm.foldl (fun (p : String × St W) hh =>
        GetHrObsMgex_iter E ar ep fopt ftpName subDir hh p.1 p.2) (line, s)).2.trace =
          s.trace ++ evs ∧
      ∀ e ∈ evs, MgexNamed ep line e) ∧
    (∀ (hh : Nat) (x : String), ToLower x = ToLower line →
      (GetHourlyObsMgex_unit E ar ep fopt ftpName hh x s).2 =
        (GetHourlyObsMgex_unit E ar ep fopt ftpName hh line s).2) ∧
    (∀ (hh : Nat) (minu x : String), ToLower x = ToLower line →
      (GetHrObsMgex_unit E ar ep fopt ftpName hh minu x s).2 =
        (GetHrObsMgex_unit E ar ep fopt ftpName hh minu line s).2) := by
  refine ⟨?_, ?_, ?_, ?_, ?_⟩
  · obtain ⟨evs, h1, h2, _⟩ := GetDailyObsMgex_unit_named E ar ep fopt ftpName line line s rfl
    exact ⟨evs, h1, h2⟩
  · obtain ⟨evs, h1, h2, _⟩ := fold_named (MgexNamed ep line)
      (fun y => ToLower y = ToLower line)
      (fun (p : String × St W) hh => GetHourlyObsMgex_iter E ar ep fopt ftpName subDir hh p.1 p.2)
      (fun hh y t hy => GetHourlyObsMgex_iter_named E ar ep fopt ftpName subDir line hh y t hy)
      fopt.hhObm line s rfl
    exact ⟨evs, h1, h2⟩
  · obtain ⟨evs, h1, h2, _⟩ := fold_named (MgexNamed ep line)
      (fun y => ToLower y = ToLower line)
      (fun (p : String × St W) hh => GetHrObsMgex_iter E ar ep fopt ftpName subDir hh p.1 p.2)
      (fun hh y t hy => GetHrObsMgex_iter_named E ar ep fopt ftpName subDir line hh y t hy)
      fopt.hhObm line s rfl
    exact ⟨evs, h1, h2⟩
  · intro hh x hx
    unfold GetHourlyObsMgex_unit
    simp only [hx]
  · intro hh minu x hx
    unfold GetHrObsMgex_unit
    simp only [hx]


/-! ## C3: the compression fall-back of the exactly named artifacts -/

/-- C8 for the site line `Zimm`, hours 0 and 1 of day 045 of 2021, with nothing on disk and
tools that do nothing: the unit of hour 1 entered with `ZIMM` (as the unit of hour 0
leaves the loop variable) does what it does when entered with `Zimm`, every event of
the two hours obeys the naming rule, and the transfer command of hour 1 has the accept
pattern `ZIMM*_R_20210450100_01H_30S_MO.crx.*`. -/
theorem C8_mgex_site_case_witness :
    ToLower "ZIMM" = ToLower "Zimm" ∧
    (GetHourlyObsMgex_unit (simEnv [] []) ftpArchive0 ep2021_045 foptObmHourly "CDDIS" 1 "ZIMM"
        worldEmpty).2 =
      (GetHourlyObsMgex_unit (simEnv [] []) ftpArchive0 ep2021_045 foptObmHourly "CDDIS" 1 "Zimm"
        worldEmpty).2 ∧
    (∀ e ∈ (foptObmHourly.hhObm.foldl (fun (p : String × St (List String)) hh =>
        GetHourlyObsMgex_iter (simEnv [] []) ftpArchive0 ep2021_045 foptObmHourly "CDDIS"
          "obm/hourly" hh p.1 p.2) ("Zimm", worldEmpty)).2.trace,
      MgexNamed ep2021_045 "Zimm" e) ∧
    Event.sys (Cmd.wget "ZIMM*_R_20210450100_01H_30S_MO.crx.*" " --cut-dirs=7 "
        "ftps://gdc.cddis.eosdis.nasa.gov/pub/gnss/data/hourly/2021/045/01") ∈
      (foptObmHourly.hhObm.foldl (fun (p : String × St (List String)) hh =>
        GetHourlyObsMgex_iter (simEnv [] []) ftpArchive0 ep2021_045 foptObmHourly "CDDIS"
          "obm/hourly" hh p.1 p.2) ("Zimm", worldEmpty)).2.trace := by
  have h := C8_mgex_site_case (simEnv [] []) ftpArchive0 ep2021_045 foptObmHourly "CDDIS"
    "obm/hourly" "Zimm" worldEmpty
  refine ⟨by decide, h.2.2.2.1 1 "ZIMM" (by decide), ?_, by decide⟩
  obtain ⟨evs, h1, h2⟩ := h.2.1
  rw [h1]
  intro e he
  rcases List.mem_append.1 he with hm | hm
  · exact absurd hm (by simp [worldEmpty])
  · exact h2 e hm

/-! ## C15: the order of the decompression attempts of `GetSnx` -/

theorem append_snx_gz (x : String) : x ++ ".snx" ++ ".gz" = x ++ ".snx.gz" := by
  rw [String.append_assoc]; rfl

/-- C15 as stated fails. On week 2145 with tools that deliver the weekly file as `.Z`, the only file handed
to the decompression utility is `igs*P2145.snx.Z`; no command is issued on the `.gz`
name, so the first decompression is not on `.gz`. -/
theorem C15_snx_first_decompression_is_Z :
    gzipFiles (GetSnx (simEnv toolsSnxWeekly []) ftpArchive0 ep2021_045 "snx" fopt0 worldSnx).trace =
      ["igs*P2145.snx.Z"] := by
  decide

/-- C15, amended. In `GetSnx`, for both attempts and every behaviour of the external tools:
the weekly attempt hands `igs*P<wwww>.snx.Z` to the decompression utility first, and
`igs*P<wwww>.snx.gz` after it exactly when the canonical file is absent after the first
decompression and rename; the daily attempt, which runs when the canonical file is absent
after the weekly one, does the same with `igs*P<wwww><d>.snx.Z` and
`igs*P<wwww><d>.snx.gz`. -/
theorem C15_snx_Z_first_then_gz (E : Env W) (ar : FtpArchive) (ep : EpochStr) (fopt : ftpopt_t)
    (ftpName snx0File : String) (s : St W) :
    gzipFiles (GetSnx_weekly E ar ep fopt ftpName snx0File s).trace =
      gzipFiles s.trace ++ ("igs*P" ++ ep.sWwww ++ ".snx.Z") ::
        (if fileExists E
            (sysCmd E fopt (Cmd.mv ("igs*P" ++ ep.sWwww ++ ".snx") snx0File)
              (sysCmd E fopt (Cmd.gzip ("igs*P" ++ ep.sWwww ++ ".snx.Z"))
                (sysCmd E fopt (Cmd.wget ("igs*P" ++ ep.sWwww ++ ".snx.*")
                  (GetSnx_url ar ep ftpName).2 (GetSnx_url ar ep ftpName).1) s))) snx0File = false
         then ["igs*P" ++ ep.sWwww ++ ".snx.gz"] else []) ∧
    (fileExists E s snx0File = false →
      gzipFiles (GetSnx_dailyFallback E ar ep fopt ftpName snx0File s).trace =
        gzipFiles s.trace ++ ("igs*P" ++ ep.sWwww ++ ep.sDow ++ ".snx.Z") ::
          (if fileExists E
              (sysCmd E fopt (Cmd.mv ("igs*P" ++ ep.sWwww ++ ep.sDow ++ ".snx") snx0File)
                (sysCmd E fopt (Cmd.gzip ("igs*P" ++ ep.sWwww ++ ep.sDow ++ ".snx.Z"))
                  (sysCmd E fopt (Cmd.wget ("igs*P" ++ ep.sWwww ++ ep.sDow ++ ".snx.*")
                    (GetSnx_urlDaily ar ep ftpName).2 (GetSnx_urlDaily ar ep ftpName).1) s)))
              snx0File = false
           then ["igs*P" ++ ep.sWwww ++ ep.sDow ++ ".snx.gz"] else [])) := by
  constructor
  · unfold GetSnx_weekly
    simp only [append_snx_star, append_snx_Z, append_snx_gz]
    simp only [sysCmd, say, fileExists]
    split_ifs <;> simp [gzipFiles, List.filterMap_append]
  · intro h
    unfold GetSnx_dailyFallback
    rw [if_pos h]
    simp only [append_snx_star, append_snx_Z, append_snx_gz]
    simp only [sysCmd, say, fileExists]
    split_ifs <;> simp [gzipFiles, List.filterMap_append]

/-- C15, amended, on week 2145, day 0, with tools for which only the daily file is on the
server, as `.Z`: the weekly attempt hands `.Z` and then `.gz` to the decompression utility,
the daily attempt `.Z` alone. -/
theorem C15_snx_Z_first_then_gz_witness :
    gzipFiles (GetSnx_weekly (simEnv toolsSnxDaily []) ftpArchive0 ep2021_045 fopt0 "CDDIS"
        "igs2145.snx" worldSnx).trace = ["igs*P2145.snx.Z", "igs*P2145.snx.gz"] ∧
    gzipFiles (GetSnx_dailyFallback (simEnv toolsSnxDaily []) ftpArchive0 ep2021_045 fopt0 "CDDIS"
        "igs2145.snx" worldSnx).trace = ["igs*P21450.snx.Z"] := by
  have h := C15_snx_Z_first_then_gz (simEnv toolsSnxDaily []) ftpArchive0 ep2021_045 fopt0
    "CDDIS" "igs2145.snx" worldSnx
  exact ⟨h.1.trans (by decide), (h.2 (by decide)).trans (by decide)⟩

/-! ## C16: the failure line of `GetSnx` -/

/-- C16, evaluated. On week 2145, day 0, with tools for which only the daily file is on the server:
the failure line is printed after the weekly attempt and before the transfer command of
the daily file; the daily attempt then produces `igs2145.snx` and the success line is
printed too. -/
theorem C16_snx_failure_line_before_daily_transfer :
    (GetSnx (simEnv toolsSnxDaily []) ftpArchive0 ep2021_045 "snx" fopt0 worldSnx).trace =
      [ Event.cd "snx",
        Event.sys (Cmd.wget "igs*P2145.snx.*" " --cut-dirs=4 "
          "ftps://gdc.cddis.eosdis.nasa.gov/pub/gnss/products/2145"),
        Event.sys (Cmd.gzip "igs*P2145.snx.Z"),
        Event.sys (Cmd.mv "igs*P2145.snx" "igs2145.snx"),
        Event.sys (Cmd.gzip "igs*P2145.snx.gz"),
        Event.sys (Cmd.mv "igs*P2145.snx" "igs2145.snx"),
        Event.out "*** INFO(FtpUtil::GetSnx): failed to download IGS weekly SINEX file igs2145.snx",
        Event.sys (Cmd.wget "igs*P21450.snx.*" " --cut-dirs=4 "
          "ftps://gdc.cddis.eosdis.nasa.gov/pub/gnss/products/2145"),
        Event.sys (Cmd.gzip "igs*P21450.snx.Z"),
        Event.sys (Cmd.mv "igs*P21450.snx" "igs2145.snx"),
        Event.out "*** INFO(FtpUtil::GetSnx): successfully download IGS weekly SINEX file igs2145.snx" ] ∧
    fileExists (simEnv toolsSnxDaily [])
      (GetSnx (simEnv toolsSnxDaily []) ftpArchive0 ep2021_045 "snx" fopt0 worldSnx)
      "igs2145.snx" = true := by
  decide

/-! ## C17: the status lines of the MGEX branch of `GetOrbClk` -/

/-- Two strings that differ within their first `n` characters stay different whatever is
appended to them. -/
theorem ne_of_take (n : Nat) (a b x y : String) (ha : n ≤ a.length) (hb : n ≤ b.length)
    (h : a.data.take n ≠ b.data.take n) : a ++ x ≠ b ++ y := by
  intro e
  apply h
  have e2 := congrArg (fun t : String => t.data.take n) e
  simp only [String.data_append] at e2
  rw [List.take_append_of_le_length (by simpa using ha),
    List.take_append_of_le_length (by simpa using hb)] at e2
  exact e2

theorem orbit_failed_ne_success (x y : String) :
    "*** INFO(FtpUtil::GetOrbClk): failed to download MGEX precise orbit file " ++ x ≠
    "*** INFO(FtpUtil::GetOrbClk): successfully download MGEX precise orbit file " ++ y :=
  ne_of_take 32 _ _ x y (by decide) (by decide) (by decide)

/-- Mode 1 of the MGEX branch of `GetOrbClk` (lines 2287-2323), when the fetch is
attempted: among the events added by the unit, the failure line is there exactly when the
canonical file is absent at the end, and the success line exactly when it is present. -/
theorem GetOrbClk_mgexSp3_status (E : Env W) (fopt : ftpopt_t) (uc : String × String)
    (sp3File sp30File : String) (s : St W) (h : fileExists E s sp30File = false) :
    (Event.out ("*** INFO(FtpUtil::GetOrbClk): failed to download MGEX precise orbit file " ++
        sp30File) ∈ (GetOrbClk_mgexSp3 E fopt uc sp3File sp30File s).trace.drop s.trace.length ↔
      fileExists E (GetOrbClk_mgexSp3 E fopt uc sp3File sp30File s) sp30File = false) ∧
    (Event.out ("*** INFO(FtpUtil::GetOrbClk): successfully download MGEX precise orbit file " ++
        sp30File) ∈ (GetOrbClk_mgexSp3 E fopt uc sp3File sp30File s).trace.drop s.trace.length ↔
      fileExists E (GetOrbClk_mgexSp3 E fopt uc sp3File sp30File s) sp30File = true) := by
  have hne := orbit_failed_ne_success sp30File sp30File
  unfold GetOrbClk_mgexSp3
  rw [if_pos h]
  simp only [sysCmd, say, fileExists]
  split_ifs <;>
    simp_all [List.append_assoc, Ne.symm hne]

/-- C17, evaluated. Mode 2 with option `com` on day 045 of 2021 (week 2145, day 0), nothing on disk,
with tools that deliver the clock file as `.Z`: the second decompression and rename
produce `com21450.clk`, and the unit prints the failure line and then the success line,
because the test that guards the failure line (line 2356) is on the remote pattern
`clkFile` and not on `clk0File`. -/
theorem C17_mgex_clock_failed_and_success :
    outLines (GetOrbClk (ruleEnv toolsClkZ []) ftpArchive0 ep2021_045 "clk" 2 foptCom worldEmpty).trace =
      [ "*** INFO(FtpUtil::GetOrbClk): failed to download MGEX precise clock file com21450.clk",
        "*** INFO(FtpUtil::GetOrbClk): successfully download MGEX precise clock file com21450.clk" ] ∧
    fileExists (ruleEnv toolsClkZ [])
      (GetOrbClk (ruleEnv toolsClkZ []) ftpArchive0 ep2021_045 "clk" 2 foptCom worldEmpty)
      "com21450.clk" = true := by
  decide

/-! ## C14: the hourly broadcast ephemeris is fetched without a look at the local file -/

/-- One iteration of the loop over `navFiles` issues its transfer command in every state,
whether the local file `nav0File` exists or not. -/
theorem GetNav_hourlyUnit_wget (E : Env W) (ar : FtpArchive) (ep : EpochStr) (fopt : ftpopt_t)
    (ftpName sHh navFile nav0File : String) (s : St W) :
    ∃ c u, wgetCmds (GetNav_hourlyUnit E ar ep fopt ftpName sHh navFile nav0File s).trace =
      wgetCmds s.trace ++ [Cmd.wget (navFile ++ ".*") c u] := by
  unfold GetNav_hourlyUnit
  generalize (if ftpName = "CDDIS" then _ else _ : String × String) = uc
  refine ⟨uc.2, uc.1, ?_⟩
  simp only [sysCmd, say, fileExists]
  split_ifs <;> simp [wgetCmds, List.filterMap_append]

/-- C14, evaluated. Hourly GPS navigation files of site `zimm`, hour 0 of day 045 of 2021, with both
canonical local files `zimm045a.21n` and `zimm045a.21gn` on disk and tools that do
nothing: the run still issues one transfer command for each of the two files (the loop
of lines 1828-1887 has no test of the local file before the transfer). -/
theorem C14_nav_hourly_fetches_existing :
    fileExists (simEnv [] [("site.list", ["zimm"])]) worldNavHourly "zimm045a.21n" = true ∧
    fileExists (simEnv [] [("site.list", ["zimm"])]) worldNavHourly "zimm045a.21gn" = true ∧
    wgetCmds (GetNav (simEnv [] [("site.list", ["zimm"])]) ftpArchive0 ep2021_045 "nav"
        foptNavHourly worldNavHourly).trace =
      [ Cmd.wget "zimm045a.21n.*" " --cut-dirs=7 "
          "ftps://gdc.cddis.eosdis.nasa.gov/pub/gnss/data/hourly/2021/045/00",
        Cmd.wget "ZIMM*_R_20210450000_01H_GN.rnx.*" " --cut-dirs=7 "
          "ftps://gdc.cddis.eosdis.nasa.gov/pub/gnss/data/hourly/2021/045/00" ] := by
  decide

/-! ## C18: a site list that is not there -/

/-- C18, evaluated. `GetDailyObsIgs` in site-list mode (option string `site.list`, of length 9) on
day 045 of 2021 when no file `site.list` exists: the run creates nothing, changes to the
`daily` sub-directory and ends; it issues no transfer command and writes no line, neither
to `cout` nor to `cerr` (the test of line 232 has no else branch; the error line of lines
237-238 is written only when the file exists and cannot be opened). -/
theorem C18_missing_site_list_is_silent :
    9 ≤ fopt0.obsOpt.length ∧
    fileExists (simEnv [] []) worldNoList fopt0.obsOpt = false ∧
    (GetDailyObsIgs (simEnv [] []) ftpArchive0 ep2021_045 "obs" fopt0 worldNoList).trace =
      [Event.cd "obs/daily"] := by
  decide

/-! ## C12: the success line, the canonical file and the compact intermediate -/

theorem convOutcome_none (E : Env W) (fopt : ftpopt_t) (d o L : String) (s r : St W)
    (ht : r.trace = s.trace ++ r.trace.drop s.trace.length)
    (hc : Unmarked L (r.trace.drop s.trace.length)) : ConvOutcome E fopt d o L s r :=
  Or.inl ⟨_, ht, hc⟩

theorem convOutcome_succ (E : Env W) (fopt : ftpopt_t) (d o L : String) (s : St W) (w0 : W)
    (t0 : List Event) (ht : t0 = s.trace ++ t0.drop s.trace.length)
    (hc : Unmarked L (t0.drop s.trace.length))
    (h : E.access (E.system (Cmd.render fopt (Cmd.crx2rnx d o)) w0) o = true) :
    ConvOutcome E fopt d o L s
      ⟨E.remove d (E.system (Cmd.render fopt (Cmd.crx2rnx d o)) w0),
        t0 ++ [Event.sys (Cmd.crx2rnx d o)] ++ [Event.out L] ++ [Event.rm d]⟩ :=
  Or.inr ⟨⟨w0, t0⟩, _, ht, hc, Or.inl ⟨h, rfl⟩⟩

theorem convOutcome_fail (E : Env W) (fopt : ftpopt_t) (d o L : String) (s : St W) (w0 : W)
    (t0 : List Event) (ht : t0 = s.trace ++ t0.drop s.trace.length)
    (hc : Unmarked L (t0.drop s.trace.length))
    (h : ¬ E.access (E.system (Cmd.render fopt (Cmd.crx2rnx d o)) w0) o = true) :
    ConvOutcome E fopt d o L s
      ⟨E.system (Cmd.render fopt (Cmd.crx2rnx d o)) w0,
        t0 ++ [Event.sys (Cmd.crx2rnx d o)]⟩ :=
  Or.inr ⟨⟨w0, t0⟩, _, ht, hc, Or.inr ⟨by simpa [fileExists, sysCmd] using h, rfl⟩⟩

/-- What `ConvOutcome` says about the success line: when `L` is among the events added by
the unit, the unit ended by printing `L` in a state in which `o` exists and by removing
`d`; and a file is removed only by a unit that printed `L`. -/
theorem convOutcome_success_line (E : Env W) (fopt : ftpopt_t) (d o L : String) (s r : St W)
    (h : ConvOutcome E fopt d o L s r) :
    (Event.out L ∈ r.trace.drop s.trace.length →
      ∃ s1, fileExists E s1 o = true ∧ r = removeFile E d (say L s1)) ∧
    (∀ p, Event.rm p ∈ r.trace.drop s.trace.length → Event.out L ∈ r.trace.drop s.trace.length) := by
  rcases h with ⟨pre, ht, hc⟩ | ⟨s0, pre, ht, hc, ⟨hex, hr⟩ | ⟨hno, hr⟩⟩
  · rw [ht, List.drop_left]
    exact ⟨fun hm => absurd rfl (hc _ hm).1, fun p hm => absurd rfl ((hc _ hm).2.1 p)⟩
  · refine ⟨fun _ => ⟨_, hex, hr⟩, fun _ _ => ?_⟩
    rw [hr]
    simp [removeFile, say, sysCmd, ht]
  · rw [hr]
    simp only [sysCmd, ht, List.append_assoc, List.drop_left, List.mem_append,
      List.mem_singleton]
    refine ⟨fun hm => ?_, fun p hm => ?_⟩
    · rcases hm with hm | hm
      · exact absurd rfl (hc _ hm).1
      · cases hm
    · rcases hm with hm | hm
      · exact absurd rfl ((hc _ hm).2.1 p)
      · cases hm

theorem GetDailyObsIgs_marks (o d : String) :
    GetDailyObsIgs_failed o ≠ GetDailyObsIgs_success o ∧
    GetDailyObsIgs_existed o d ≠ GetDailyObsIgs_success o := by
  unfold GetDailyObsIgs_failed GetDailyObsIgs_success GetDailyObsIgs_existed
  simp only [String.append_assoc]
  exact ⟨ne_of_take 5 _ _ _ _ (by decide) (by decide) (by decide),
    ne_of_take 40 _ _ _ _ (by decide) (by decide) (by decide)⟩

theorem GetDailyObsIgs_unit_conv (E : Env W) (ar : FtpArchive) (ep : EpochStr) (fopt : ftpopt_t)
    (ftpName : String) (sitName : String) (s : St W) :
    ConvOutcome E fopt (ToLower sitName ++ ep.sDoy ++ "0." ++ ep.sYy ++ "d")
      (ToLower sitName ++ ep.sDoy ++ "0." ++ ep.sYy ++ "o")
      (GetDailyObsIgs_success (ToLower sitName ++ ep.sDoy ++ "0." ++ ep.sYy ++ "o")) s
      (GetDailyObsIgs_unit E ar ep fopt ftpName sitName s) := by
  have hm := GetDailyObsIgs_marks (ToLower sitName ++ ep.sDoy ++ "0." ++ ep.sYy ++ "o")
    (ToLower sitName ++ ep.sDoy ++ "0." ++ ep.sYy ++ "d")
  unfold GetDailyObsIgs_unit
  simp only [sysCmd, say, removeFile, fileExists]
  split_ifs
  all_goals first
    | (with_reducible refine convOutcome_succ E fopt _ _ _ s _ _ ?_ ?_ (by assumption)) <;>
        simp [Unmarked]
    | (with_reducible refine convOutcome_fail E fopt _ _ _ s _ _ ?_ ?_ (by assumption)) <;>
        simp [Unmarked]
    | (with_reducible refine convOutcome_none E fopt _ _ _ s _ ?_ ?_) <;>
        simp [Unmarked, hm.1, hm.2]

theorem GetHourlyObsIgs_marks (o d : String) :
    GetHourlyObsIgs_failed o ≠ GetHourlyObsIgs_success o ∧
    GetHourlyObsIgs_existed o d ≠ GetHourlyObsIgs_success o := by
  unfold GetHourlyObsIgs_failed GetHourlyObsIgs_success GetHourlyObsIgs_existed
  simp only [String.append_assoc]
  exact ⟨ne_of_take 5 _ _ _ _ (by decide) (by decide) (by decide),
    ne_of_take 40 _ _ _ _ (by decide) (by decide) (by decide)⟩

theorem GetHourlyObsIgs_unit_conv (E : Env W) (ar : FtpArchive) (ep : EpochStr) (fopt : ftpopt_t)
    (ftpName : String) (hh : Nat) (sitName : String) (s : St W) :
    ConvOutcome E fopt (ToLower sitName ++ ep.sDoy ++ hourLetter hh ++ "." ++ ep.sYy ++ "d")
      (ToLower sitName ++ ep.sDoy ++ hourLetter hh ++ "." ++ ep.sYy ++ "o")
      (GetHourlyObsIgs_success (ToLower sitName ++ ep.sDoy ++ hourLetter hh ++ "." ++ ep.sYy ++ "o")) s
      (GetHourlyObsIgs_unit E ar ep fopt ftpName hh sitName s).2 := by
  have hm := GetHourlyObsIgs_marks (ToLower sitName ++ ep.sDoy ++ hourLetter hh ++ "." ++ ep.sYy ++ "o")
    (ToLower sitName ++ ep.sDoy ++ hourLetter hh ++ "." ++ ep.sYy ++ "d")
  unfold GetHourlyObsIgs_unit
  simp only []
  generalize (if ftpName = "CDDIS" then _ else _ : String × String) = uc
  simp only [sysCmd, say, removeFile, fileExists]
  split_ifs
  all_goals first
    | (with_reducible refine convOutcome_succ E fopt _ _ _ s _ _ ?_ ?_ (by assumption)) <;>
        simp [Unmarked]
    | (with_reducible refine convOutcome_fail E fopt _ _ _ s _ _ ?_ ?_ (by assumption)) <;>
        simp [Unmarked]
    | (with_reducible refine convOutcome_none E fopt _ _ _ s _ ?_ ?_) <;>
        simp [Unmarked, hm.1, hm.2]

theorem GetHrObsIgs_marks (o d : String) :
    GetHrObsIgs_failed o ≠ GetHrObsIgs_success o ∧
    GetHrObsIgs_existed o d ≠ GetHrObsIgs_success o := by
  unfold GetHrObsIgs_failed GetHrObsIgs_success GetHrObsIgs_existed
  simp only [String.append_assoc]
  exact ⟨ne_of_take 5 _ _ _ _ (by decide) (by decide) (by decide),
    ne_of_take 40 _ _ _ _ (by decide) (by decide) (by decide)⟩

theorem GetHrObsIgs_unit_conv (E : Env W) (ar : FtpArchive) (ep : EpochStr) (fopt : ftpopt_t)
    (ftpName : String) (hh : Nat) (minu : String) (sitName : String) (s : St W) :
    ConvOutcome E fopt (ToLower sitName ++ ep.sDoy ++ hourLetter hh ++ minu ++ "." ++ ep.sYy ++ "d")
      (ToLower sitName ++ ep.sDoy ++ hourLetter hh ++ minu ++ "." ++ ep.sYy ++ "o")
      (GetHrObsIgs_success (ToLower sitName ++ ep.sDoy ++ hourLetter hh ++ minu ++ "." ++ ep.sYy ++ "o")) s
      (GetHrObsIgs_unit E ar ep fopt ftpName hh minu sitName s).2 := by
  have hm := GetHrObsIgs_marks (ToLower sitName ++ ep.sDoy ++ hourLetter hh ++ minu ++ "." ++ ep.sYy ++ "o")
    (ToLower sitName ++ ep.sDoy ++ hourLetter hh ++ minu ++ "." ++ ep.sYy ++ "d")
  unfold GetHrObsIgs_unit
  simp only []
  generalize (if ftpName = "CDDIS" then _ else _ : String × String) = uc
  simp only [sysCmd, say, removeFile, fileExists]
  split_ifs
  all_goals first
    | (with_reducible refine convOutcome_succ E fopt _ _ _ s _ _ ?_ ?_ (by assumption)) <;>
        simp [Unmarked]
    | (with_reducible refine convOutcome_fail E fopt _ _ _ s _ _ ?_ ?_ (by assumption)) <;>
        simp [Unmarked]
    | (with_reducible refine convOutcome_none E fopt _ _ _ s _ ?_ ?_) <;>
        simp [Unmarked, hm.1, hm.2]

theorem GetDailyObsMgex_marks (o d : String) :
    GetDailyObsMgex_failed o ≠ GetDailyObsMgex_success o ∧
    GetDailyObsMgex_existed o d ≠ GetDailyObsMgex_success o := by
  unfold GetDailyObsMgex_failed GetDailyObsMgex_success GetDailyObsMgex_existed
  simp only [String.append_assoc]
  exact ⟨ne_of_take 5 _ _ _ _ (by decide) (by decide) (by decide),
    ne_of_take 40 _ _ _ _ (by decide) (by decide) (by decide)⟩

theorem GetDailyObsMgex_unit_conv (E : Env W) (ar : FtpArchive) (ep : EpochStr) (fopt : ftpopt_t)
    (ftpName : String) (sitName : String) (s : St W) :
    ConvOutcome E fopt (ToLower sitName ++ ep.sDoy ++ "0." ++ ep.sYy ++ "d")
      (ToLower sitName ++ ep.sDoy ++ "0." ++ ep.sYy ++ "o")
      (GetDailyObsMgex_success (ToLower sitName ++ ep.sDoy ++ "0." ++ ep.sYy ++ "o")) s
      (GetDailyObsMgex_unit E ar ep fopt ftpName sitName s).2 := by
  have hm := GetDailyObsMgex_marks (ToLower sitName ++ ep.sDoy ++ "0." ++ ep.sYy ++ "o")
    (ToLower sitName ++ ep.sDoy ++ "0." ++ ep.sYy ++ "d")
  unfold GetDailyObsMgex_unit
  simp only []
  generalize (if ftpName = "CDDIS" then _ else _ : String × String) = uc
  simp only [sysCmd, say, removeFile, fileExists]
  split_ifs
  all_goals first
    | (with_reducible refine convOutcome_succ E fopt _ _ _ s _ _ ?_ ?_ (by assumption)) <;>
        simp [Unmarked]
    | (with_reducible refine convOutcome_fail E fopt _ _ _ s _ _ ?_ ?_ (by assumption)) <;>
        simp [Unmarked]
    | (with_reducible refine convOutcome_none E fopt _ _ _ s _ ?_ ?_) <;>
        simp [Unmarked, hm.1, hm.2]

theorem GetHourlyObsMgex_marks (o d : String) :
    GetHourlyObsMgex_failed o ≠ GetHourlyObsMgex_success o ∧
    GetHourlyObsMgex_existed o d ≠ GetHourlyObsMgex_success o := by
  unfold GetHourlyObsMgex_failed GetHourlyObsMgex_success GetHourlyObsMgex_existed
  simp only [String.append_assoc]
  exact ⟨ne_of_take 5 _ _ _ _ (by decide) (by decide) (by decide),
    ne_of_take 40 _ _ _ _ (by decide) (by decide) (by decide)⟩

theorem GetHourlyObsMgex_unit_conv (E : Env W) (ar : FtpArchive) (ep : EpochStr) (fopt : ftpopt_t)
    (ftpName : String) (hh : Nat) (sitName : String) (s : St W) :
    ConvOutcome E fopt (ToLower sitName ++ ep.sDoy ++ hourLetter hh ++ "." ++ ep.sYy ++ "d")
      (ToLower sitName ++ ep.sDoy ++ hourLetter hh ++ "." ++ ep.sYy ++ "o")
      (GetHourlyObsMgex_success (ToLower sitName ++ ep.sDoy ++ hourLetter hh ++ "." ++ ep.sYy ++ "o")) s
      (GetHourlyObsMgex_unit E ar ep fopt ftpName hh sitName s).2 := by
  have hm := GetHourlyObsMgex_marks (ToLower sitName ++ ep.sDoy ++ hourLetter hh ++ "." ++ ep.sYy ++ "o")
    (ToLower sitName ++ ep.sDoy ++ hourLetter hh ++ "." ++ ep.sYy ++ "d")
  unfold GetHourlyObsMgex_unit
  simp only []
  generalize (if ftpName = "CDDIS" then _ else _ : String × String) = uc
  simp only [sysCmd, say, removeFile, fileExists]
  split_ifs
  all_goals first
    | (with_reducible refine convOutcome_succ E fopt _ _ _ s _ _ ?_ ?_ (by assumption)) <;>
        simp [Unmarked]
    | (with_reducible refine convOutcome_fail E fopt _ _ _ s _ _ ?_ ?_ (by assumption)) <;>
        simp [Unmarked]
    | (with_reducible refine convOutcome_none E fopt _ _ _ s _ ?_ ?_) <;>
        simp [Unmarked, hm.1, hm.2]

theorem GetHrObsMgex_marks (o d : String) :
    GetHrObsMgex_failed o ≠ GetHrObsMgex_success o ∧
    GetHrObsMgex_existed o d ≠ GetHrObsMgex_success o := by
  unfold GetHrObsMgex_failed GetHrObsMgex_success GetHrObsMgex_existed
  simp only [String.append_assoc]
  exact ⟨ne_of_take 5 _ _ _ _ (by decide) (by decide) (by decide),
    ne_of_take 40 _ _ _ _ (by decide) (by decide) (by decide)⟩

theorem GetHrObsMgex_unit_conv (E : Env W) (ar : FtpArchive) (ep : EpochStr) (fopt : ftpopt_t)
    (ftpName : String) (hh : Nat) (minu : String) (sitName : String) (s : St W) :
    ConvOutcome E fopt (ToLower sitName ++ ep.sDoy ++ hourLetter hh ++ minu ++ "." ++ ep.sYy ++ "d")
      (ToLower sitName ++ ep.sDoy ++ hourLetter hh ++ minu ++ "." ++ ep.sYy ++ "o")
      (GetHrObsMgex_success (ToLower sitName ++ ep.sDoy ++ hourLetter hh ++ minu ++ "." ++ ep.sYy ++ "o")) s
      (GetHrObsMgex_unit E ar ep fopt ftpName hh minu sitName s).2 := by
  have hm := GetHrObsMgex_marks (ToLower sitName ++ ep.sDoy ++ hourLetter hh ++ minu ++ "." ++ ep.sYy ++ "o")
    (ToLower sitName ++ ep.sDoy ++ hourLetter hh ++ minu ++ "." ++ ep.sYy ++ "d")
  unfold GetHrObsMgex_unit
  simp only []
  generalize (if ftpName = "CDDIS" then _ else _ : String × String) = uc
  simp only [sysCmd, say, removeFile, fileExists]
  split_ifs
  all_goals first
    | (with_reducible refine convOutcome_succ E fopt _ _ _ s _ _ ?_ ?_ (by assumption)) <;>
        simp [Unmarked]
    | (with_reducible refine convOutcome_fail E fopt _ _ _ s _ _ ?_ ?_ (by assumption)) <;>
        simp [Unmarked]
    | (with_reducible refine convOutcome_none E fopt _ _ _ s _ ?_ ?_) <;>
        simp [Unmarked, hm.1, hm.2]

/-- C12. In the site-list unit of each of the six observation procedures, for every
behaviour of the external tools, with `d` the compact intermediate and `o` the canonical
file of the unit: either the unit issues no conversion command, prints no success line
and removes nothing; or it issues the conversion command of `d` to `o` once, having
printed no success line and removed nothing before, and then, if `o` exists after the
conversion, it prints the success line and removes `d`, and if `o` does not exist after
the conversion, it ends there, so `d` is not removed. Hence the success line is printed
only when `o` exists, and is followed by the removal of `d`. -/
theorem C12_success_line_converted_and_removed (E : Env W) (ar : FtpArchive) (ep : EpochStr)
    (fopt : ftpopt_t) (ftpName : String) (hh : Nat) (minu sitName : String) (s : St W) :
    ConvOutcome E fopt (ToLower sitName ++ ep.sDoy ++ "0." ++ ep.sYy ++ "d")
      (ToLower sitName ++ ep.sDoy ++ "0." ++ ep.sYy ++ "o")
      (GetDailyObsIgs_success (ToLower sitName ++ ep.sDoy ++ "0." ++ ep.sYy ++ "o")) s
      (GetDailyObsIgs_unit E ar ep fopt ftpName sitName s) ∧
    ConvOutcome E fopt (ToLower sitName ++ ep.sDoy ++ hourLetter hh ++ "." ++ ep.sYy ++ "d")
      (ToLower sitName ++ ep.sDoy ++ hourLetter hh ++ "." ++ ep.sYy ++ "o")
      (GetHourlyObsIgs_success (ToLower sitName ++ ep.sDoy ++ hourLetter hh ++ "." ++ ep.sYy ++ "o")) s
      (GetHourlyObsIgs_unit E ar ep fopt ftpName hh sitName s).2 ∧
    ConvOutcome E fopt (ToLower sitName ++ ep.sDoy ++ hourLetter hh ++ minu ++ "." ++ ep.sYy ++ "d")
      (ToLower sitName ++ ep.sDoy ++ hourLetter hh ++ minu ++ "." ++ ep.sYy ++ "o")
      (GetHrObsIgs_success (ToLower sitName ++ ep.sDoy ++ hourLetter hh ++ minu ++ "." ++ ep.sYy ++ "o")) s
      (GetHrObsIgs_unit E ar ep fopt ftpName hh minu sitName s).2 ∧
    ConvOutcome E fopt (ToLower sitName ++ ep.sDoy ++ "0." ++ ep.sYy ++ "d")
      (ToLower sitName ++ ep.sDoy ++ "0." ++ ep.sYy ++ "o")
      (GetDailyObsMgex_success (ToLower sitName ++ ep.sDoy ++ "0." ++ ep.sYy ++ "o")) s
      (GetDailyObsMgex_unit E ar ep fopt ftpName sitName s).2 ∧
    ConvOutcome E fopt (ToLower sitName ++ ep.sDoy ++ hourLetter hh ++ "." ++ ep.sYy ++ "d")
      (ToLower sitName ++ ep.sDoy ++ hourLetter hh ++ "." ++ ep.sYy ++ "o")
      (GetHourlyObsMgex_success (ToLower sitName ++ ep.sDoy ++ hourLetter hh ++ "." ++ ep.sYy ++ "o")) s
      (GetHourlyObsMgex_unit E ar ep fopt ftpName hh sitName s).2 ∧
    ConvOutcome E fopt (ToLower sitName ++ ep.sDoy ++ hourLetter hh ++ minu ++ "." ++ ep.sYy ++ "d")
      (ToLower sitName ++ ep.sDoy ++ hourLetter hh ++ minu ++ "." ++ ep.sYy ++ "o")
      (GetHrObsMgex_success (ToLower sitName ++ ep.sDoy ++ hourLetter hh ++ minu ++ "." ++ ep.sYy ++ "o")) s
      (GetHrObsMgex_unit E ar ep fopt ftpName hh minu sitName s).2 :=
  ⟨GetDailyObsIgs_unit_conv E ar ep fopt ftpName sitName s,
    GetHourlyObsIgs_unit_conv E ar ep fopt ftpName hh sitName s,
    GetHrObsIgs_unit_conv E ar ep fopt ftpName hh minu sitName s,
    GetDailyObsMgex_unit_conv E ar ep fopt ftpName sitName s,
    GetHourlyObsMgex_unit_conv E ar ep fopt ftpName hh sitName s,
    GetHrObsMgex_unit_conv E ar ep fopt ftpName hh minu sitName s⟩

/-! ## The transfer commands of the observation procedures -/

theorem urlCases3 (ftpName : String) (A B C : String × String) :
    UrlCases ftpName (if ftpName = "CDDIS" then A else if ftpName = "IGN" then B else C)
      A B C C := by
  refine ⟨fun h => by rw [if_pos h], fun h => ?_, fun h => ?_, fun h1 h2 _ => ?_⟩
  · rw [if_neg (by rw [h]; decide), if_pos h]
  · rw [if_neg (by rw [h]; decide), if_neg (by rw [h]; decide)]
  · rw [if_neg h1, if_neg h2]

theorem urlCases4 (ftpName : String) (A B D C : String × String) :
    UrlCases ftpName
      (if ftpName = "CDDIS" then A else if ftpName = "IGN" then B
        else if ftpName = "WHU" then D else C) A B D C := by
  refine ⟨fun h => by rw [if_pos h], fun h => ?_, fun h => ?_, fun h1 h2 h3 => ?_⟩
  · rw [if_neg (by rw [h]; decide), if_pos h]
  · rw [if_neg (by rw [h]; decide), if_neg (by rw [h]; decide), if_pos h]
  · rw [if_neg h1, if_neg h2, if_neg h3]

theorem foldl_wget_same {α : Type} (f : St W → α → St W)
    (hf : ∀ s a, wgetCmds (f s a).trace = wgetCmds s.trace) :
    ∀ (l : List α) (s : St W), wgetCmds (l.foldl f s).trace = wgetCmds s.trace := by
  intro l
  induction l with
  | nil => intro s; rfl
  | cons a l ih => intro s; rw [List.foldl_cons, ih, hf]

theorem enterHourDir_wget (E : Env W) (fopt : ftpopt_t) (subDir sHh : String) (s : St W) :
    wgetCmds (enterHourDir E fopt subDir sHh s).2.trace = wgetCmds s.trace := by
  simp only [enterHourDir, sysCmd, chdir, fileExists]
  split_ifs <;> simp [wgetCmds, List.filterMap_append]

theorem enterHourDir_fst (E : Env W) (fopt : ftpopt_t) (subDir sHh : String) (s : St W) :
    (enterHourDir E fopt subDir sHh s).1 = subDir ++ "/" ++ sHh := rfl

theorem GetDailyObsIgs_allFile_wget (E : Env W) (ep : EpochStr) (fopt : ftpopt_t) (f : String)
    (s : St W) : wgetCmds (GetDailyObsIgs_allFile E ep fopt f s).trace = wgetCmds s.trace := by
  simp only [GetDailyObsIgs_allFile, sysCmd, fileExists]
  split_ifs <;> simp [wgetCmds, List.filterMap_append]

theorem GetHourlyObsIgs_allFile_wget (E : Env W) (ep : EpochStr) (fopt : ftpopt_t)
    (sch f : String) (s : St W) :
    wgetCmds (GetHourlyObsIgs_allFile E ep fopt sch f s).trace = wgetCmds s.trace := by
  simp only [GetHourlyObsIgs_allFile, sysCmd, fileExists]
  split_ifs <;> simp [wgetCmds, List.filterMap_append]

theorem GetHrObsIgs_allFile_wget (E : Env W) (ep : EpochStr) (fopt : ftpopt_t)
    (sch minu f : String) (s : St W) :
    wgetCmds (GetHrObsIgs_allFile E ep fopt sch minu f s).trace = wgetCmds s.trace := by
  simp only [GetHrObsIgs_allFile, sysCmd, fileExists]
  split_ifs <;> simp [wgetCmds, List.filterMap_append]

theorem GetDailyObsMgex_allFile_wget (E : Env W) (ep : EpochStr) (fopt : ftpopt_t) (f : String)
    (s : St W) : wgetCmds (GetDailyObsMgex_allFile E ep fopt f s).trace = wgetCmds s.trace := by
  simp only [GetDailyObsMgex_allFile, sysCmd, fileExists]
  split_ifs <;> simp [wgetCmds, List.filterMap_append]

theorem GetHourlyObsMgex_allFile_wget (E : Env W) (ep : EpochStr) (fopt : ftpopt_t)
    (sch f : String) (s : St W) :
    wgetCmds (GetHourlyObsMgex_allFile E ep fopt sch f s).trace = wgetCmds s.trace := by
  simp only [GetHourlyObsMgex_allFile, sysCmd, fileExists]
  split_ifs <;> simp [wgetCmds, List.filterMap_append]

theorem GetHrObsMgex_allFile_wget (E : Env W) (ep : EpochStr) (fopt : ftpopt_t)
    (sch minu f : String) (s : St W) :
    wgetCmds (GetHrObsMgex_allFile E ep fopt sch minu f s).trace = wgetCmds s.trace := by
  simp only [GetHrObsMgex_allFile, sysCmd, fileExists]
  split_ifs <;> simp [wgetCmds, List.filterMap_append]

theorem sysCmd_wget (E : Env W) (fopt : ftpopt_t) (p c u : String) (s : St W) :
    wgetCmds (sysCmd E fopt (Cmd.wget p c u) s).trace = wgetCmds s.trace ++ [Cmd.wget p c u] := by
  simp [sysCmd, wgetCmds, List.filterMap_append]

theorem GetHourlyObsIgs_unit_wget (E : Env W) (ar : FtpArchive) (ep : EpochStr) (fopt : ftpopt_t)
    (ftpName : String) (hh : Nat) (x : String) (s : St W) :
    ∃ uc : String × String,
      wgetCmds (GetHourlyObsIgs_unit E ar ep fopt ftpName hh x s).2.trace = wgetCmds s.trace ++
        (if fileExists E s (ToLower x ++ ep.sDoy ++ hourLetter hh ++ "." ++ ep.sYy ++ "o") = false ∧
            fileExists E s (ToLower x ++ ep.sDoy ++ hourLetter hh ++ "." ++ ep.sYy ++ "d") = false then
          [Cmd.wget (ToLower x ++ ep.sDoy ++ hourLetter hh ++ "." ++ ep.sYy ++ "d" ++ ".*") uc.2 uc.1]
        else []) ∧
      UrlCases ftpName uc
        (at_ ar.CDDIS IDX_OBSH ++ "/" ++ ep.sYyyy ++ "/" ++ ep.sDoy ++ "/" ++ hh2str hh, " --cut-dirs=7 ")
        (at_ ar.IGN IDX_OBSH ++ "/" ++ ep.sYyyy ++ "/" ++ ep.sDoy, " --cut-dirs=6 ")
        (at_ ar.WHU IDX_OBSH ++ "/" ++ ep.sYyyy ++ "/" ++ ep.sDoy ++ "/" ++ hh2str hh, " --cut-dirs=7 ")
        (at_ ar.CDDIS IDX_OBSH ++ "/" ++ ep.sYyyy ++ "/" ++ ep.sDoy ++ "/" ++ hh2str hh, " --cut-dirs=7 ") ∧
      ToLower (GetHourlyObsIgs_unit E ar ep fopt ftpName hh x s).1 = ToLower x := by
  refine ⟨_, ?_, urlCases4 ftpName _ _ _ _, ?_⟩
  · unfold GetHourlyObsIgs_unit
    simp only []
    generalize (if ftpName = "CDDIS" then _ else _ : String × String) = uc
    simp only [sysCmd, say, removeFile, fileExists]
    split_ifs <;> simp [wgetCmds, List.filterMap_append]
  · unfold GetHourlyObsIgs_unit
    simp only []
    generalize (if ftpName = "CDDIS" then _ else _ : String × String) = uc
    split_ifs <;> simp only [ToLower_ToLower, ToLower_ToUpper]

theorem GetHrObsIgs_unit_wget (E : Env W) (ar : FtpArchive) (ep : EpochStr) (fopt : ftpopt_t)
    (ftpName : String) (hh : Nat) (minu : String) (x : String) (s : St W) :
    ∃ uc : String × String,
      wgetCmds (GetHrObsIgs_unit E ar ep fopt ftpName hh minu x s).2.trace = wgetCmds s.trace ++
        (if fileExists E s (ToLower x ++ ep.sDoy ++ hourLetter hh ++ minu ++ "." ++ ep.sYy ++ "o") = false ∧
            fileExists E s (ToLower x ++ ep.sDoy ++ hourLetter hh ++ minu ++ "." ++ ep.sYy ++ "d") = false then
          [Cmd.wget (ToLower x ++ ep.sDoy ++ hourLetter hh ++ minu ++ "." ++ ep.sYy ++ "d" ++ ".*") uc.2 uc.1]
        else []) ∧
      UrlCases ftpName uc
        (at_ ar.CDDIS IDX_OBSHR ++ "/" ++ ep.sYyyy ++ "/" ++ ep.sDoy ++ "/" ++ ep.sYy ++ "d" ++ "/" ++
          hh2str hh, " --cut-dirs=8 ")
        (at_ ar.IGN IDX_OBSHR ++ "/" ++ ep.sYyyy ++ "/" ++ ep.sDoy, " --cut-dirs=6 ")
        (at_ ar.CDDIS IDX_OBSHR ++ "/" ++ ep.sYyyy ++ "/" ++ ep.sDoy ++ "/" ++ ep.sYy ++ "d" ++ "/" ++
          hh2str hh, " --cut-dirs=8 ")
        (at_ ar.CDDIS IDX_OBSHR ++ "/" ++ ep.sYyyy ++ "/" ++ ep.sDoy ++ "/" ++ ep.sYy ++ "d" ++ "/" ++
          hh2str hh, " --cut-dirs=8 ") ∧
      ToLower (GetHrObsIgs_unit E ar ep fopt ftpName hh minu x s).1 = ToLower x := by
  refine ⟨_, ?_, urlCases3 ftpName _ _ _, ?_⟩
  · unfold GetHrObsIgs_unit
    simp only []
    generalize (if ftpName = "CDDIS" then _ else _ : String × String) = uc
    simp only [sysCmd, say, removeFile, fileExists]
    split_ifs <;> simp [wgetCmds, List.filterMap_append]
  · unfold GetHrObsIgs_unit
    simp only []
    generalize (if ftpName = "CDDIS" then _ else _ : String × String) = uc
    split_ifs <;> simp only [ToLower_ToLower, ToLower_ToUpper]

theorem GetDailyObsMgex_unit_wget (E : Env W) (ar : FtpArchive) (ep : EpochStr) (fopt : ftpopt_t)
    (ftpName : String) (x : String) (s : St W) :
    ∃ uc : String × String,
      wgetCmds (GetDailyObsMgex_unit E ar ep fopt ftpName x s).2.trace = wgetCmds s.trace ++
        (if fileExists E s (ToLower x ++ ep.sDoy ++ "0." ++ ep.sYy ++ "o") = false ∧
            fileExists E s (ToLower x ++ ep.sDoy ++ "0." ++ ep.sYy ++ "d") = false then
          [Cmd.wget (ToUpper (ToLower x) ++ "*_R_" ++ ep.sYyyy ++ ep.sDoy ++ "0000_01D_30S_MO.crx" ++ ".*") uc.2 uc.1]
        else []) ∧
      UrlCases ftpName uc
        (at_ ar.CDDIS IDX_OBMD ++ "/" ++ ep.sYyyy ++ "/" ++ ep.sDoy ++ "/" ++ ep.sYy ++ "d", " --cut-dirs=7 ")
        (at_ ar.IGN IDX_OBMD ++ "/" ++ ep.sYyyy ++ "/" ++ ep.sDoy, " --cut-dirs=5 ")
        (at_ ar.WHU IDX_OBMD ++ "/" ++ ep.sYyyy ++ "/" ++ ep.sDoy ++ "/" ++ ep.sYy ++ "d", " --cut-dirs=7 ")
        (at_ ar.CDDIS IDX_OBMD ++ "/" ++ ep.sYyyy ++ "/" ++ ep.sDoy ++ "/" ++ ep.sYy ++ "d", " --cut-dirs=7 ") ∧
      ToLower (GetDailyObsMgex_unit E ar ep fopt ftpName x s).1 = ToLower x := by
  refine ⟨_, ?_, urlCases4 ftpName _ _ _ _, ?_⟩
  · unfold GetDailyObsMgex_unit
    simp only []
    generalize (if ftpName = "CDDIS" then _ else _ : String × String) = uc
    simp only [sysCmd, say, removeFile, fileExists]
    split_ifs <;> simp [wgetCmds, List.filterMap_append]
  · unfold GetDailyObsMgex_unit
    simp only []
    generalize (if ftpName = "CDDIS" then _ else _ : String × String) = uc
    split_ifs <;> simp only [ToLower_ToLower, ToLower_ToUpper]

theorem GetHourlyObsMgex_unit_wget (E : Env W) (ar : FtpArchive) (ep : EpochStr) (fopt : ftpopt_t)
    (ftpName : String) (hh : Nat) (x : String) (s : St W) :
    ∃ uc : String × String,
      wgetCmds (GetHourlyObsMgex_unit E ar ep fopt ftpName hh x s).2.trace = wgetCmds s.trace ++
        (if fileExists E s (ToLower x ++ ep.sDoy ++ hourLetter hh ++ "." ++ ep.sYy ++ "o") = false ∧
            fileExists E s (ToLower x ++ ep.sDoy ++ hourLetter hh ++ "." ++ ep.sYy ++ "d") = false then
          [Cmd.wget (ToUpper (ToLower x) ++ "*_R_" ++ ep.sYyyy ++ ep.sDoy ++ hh2str hh ++ "00_01H_30S_MO.crx" ++ ".*") uc.2 uc.1]
        else []) ∧
      UrlCases ftpName uc
        (at_ ar.CDDIS IDX_OBMH ++ "/" ++ ep.sYyyy ++ "/" ++ ep.sDoy ++ "/" ++ hh2str hh, " --cut-dirs=7 ")
        (at_ ar.IGN IDX_OBMH ++ "/" ++ ep.sYyyy ++ "/" ++ ep.sDoy, " --cut-dirs=6 ")
        (at_ ar.CDDIS IDX_OBMH ++ "/" ++ ep.sYyyy ++ "/" ++ ep.sDoy ++ "/" ++ hh2str hh, " --cut-dirs=7 ")
        (at_ ar.CDDIS IDX_OBMH ++ "/" ++ ep.sYyyy ++ "/" ++ ep.sDoy ++ "/" ++ hh2str hh, " --cut-dirs=7 ") ∧
      ToLower (GetHourlyObsMgex_unit E ar ep fopt ftpName hh x s).1 = ToLower x := by
  refine ⟨_, ?_, urlCases3 ftpName _ _ _, ?_⟩
  · unfold GetHourlyObsMgex_unit
    simp only []
    generalize (if ftpName = "CDDIS" then _ else _ : String × String) = uc
    simp only [sysCmd, say, removeFile, fileExists]
    split_ifs <;> simp [wgetCmds, List.filterMap_append]
  · unfold GetHourlyObsMgex_unit
    simp only []
    generalize (if ftpName = "CDDIS" then _ else _ : String × String) = uc
    split_ifs <;> simp only [ToLower_ToLower, ToLower_ToUpper]

theorem GetHrObsMgex_unit_wget (E : Env W) (ar : FtpArchive) (ep : EpochStr) (fopt : ftpopt_t)
    (ftpName : String) (hh : Nat) (minu : String) (x : String) (s : St W) :
    ∃ uc : String × String,
      wgetCmds (GetHrObsMgex_unit E ar ep fopt ftpName hh minu x s).2.trace = wgetCmds s.trace ++
        (if fileExists E s (ToLower x ++ ep.sDoy ++ hourLetter hh ++ minu ++ "." ++ ep.sYy ++ "o") = false ∧
            fileExists E s (ToLower x ++ ep.sDoy ++ hourLetter hh ++ minu ++ "." ++ ep.sYy ++ "d") = false then
          [Cmd.wget (ToUpper (ToLower x) ++ "*_R_" ++ ep.sYyyy ++ ep.sDoy ++ hh2str hh ++ minu ++ "_15M_01S_MO.crx" ++ ".*") uc.2 uc.1]
        else []) ∧
      UrlCases ftpName uc
        (at_ ar.CDDIS IDX_OBMHR ++ "/" ++ ep.sYyyy ++ "/" ++ ep.sDoy ++ "/" ++ ep.sYy ++ "d" ++ "/" ++
          hh2str hh, " --cut-dirs=8 ")
        (at_ ar.IGN IDX_OBMHR ++ "/" ++ ep.sYyyy ++ "/" ++ ep.sDoy, " --cut-dirs=6 ")
        (at_ ar.CDDIS IDX_OBMHR ++ "/" ++ ep.sYyyy ++ "/" ++ ep.sDoy ++ "/" ++ ep.sYy ++ "d" ++ "/" ++
          hh2str hh, " --cut-dirs=8 ")
        (at_ ar.CDDIS IDX_OBMHR ++ "/" ++ ep.sYyyy ++ "/" ++ ep.sDoy ++ "/" ++ ep.sYy ++ "d" ++ "/" ++
          hh2str hh, " --cut-dirs=8 ") ∧
      ToLower (GetHrObsMgex_unit E ar ep fopt ftpName hh minu x s).1 = ToLower x := by
  refine ⟨_, ?_, urlCases3 ftpName _ _ _, ?_⟩
  · unfold GetHrObsMgex_unit
    simp only []
    generalize (if ftpName = "CDDIS" then _ else _ : String × String) = uc
    simp only [sysCmd, say, removeFile, fileExists]
    split_ifs <;> simp [wgetCmds, List.filterMap_append]
  · unfold GetHrObsMgex_unit
    simp only []
    generalize (if ftpName = "CDDIS" then _ else _ : String × String) = uc
    split_ifs <;> simp only [ToLower_ToLower, ToLower_ToUpper]

theorem GetDailyObsIgs_all_wget (E : Env W) (ar : FtpArchive) (ep : EpochStr) (dir : String)
    (fopt : ftpopt_t) (s : St W) (h : strlen fopt.obsOpt < 9) :
    ∃ uc : String × String,
      wgetCmds (GetDailyObsIgs E ar ep dir fopt s).trace = wgetCmds s.trace ++
        [Cmd.wget ("*" ++ ep.sDoy ++ "0." ++ ep.sYy ++ "d" ++ ".*") uc.2 uc.1] ∧
      UrlCases (ToUpper fopt.ftpFrom) uc
        (at_ ar.CDDIS IDX_OBSD ++ "/" ++ ep.sYyyy ++ "/" ++ ep.sDoy ++ "/" ++ ep.sYy ++ "d",
          " --cut-dirs=7 ")
        (at_ ar.IGN IDX_OBSD ++ "/" ++ ep.sYyyy ++ "/" ++ ep.sDoy, " --cut-dirs=5 ")
        (at_ ar.WHU IDX_OBSD ++ "/" ++ ep.sYyyy ++ "/" ++ ep.sDoy ++ "/" ++ ep.sYy ++ "d",
          " --cut-dirs=7 ")
        (at_ ar.CDDIS IDX_OBSD ++ "/" ++ ep.sYyyy ++ "/" ++ ep.sDoy ++ "/" ++ ep.sYy ++ "d",
          " --cut-dirs=7 ") := by
  refine ⟨_, ?_, urlCases4 (ToUpper fopt.ftpFrom) _ _ _ _⟩
  unfold GetDailyObsIgs
  simp only []
  rw [if_pos h]
  generalize (if ToUpper fopt.ftpFrom = "CDDIS" then _ else _ : String × String) = uc
  rw [foldl_wget_same _ (fun s a => GetDailyObsIgs_allFile_wget E ep fopt a s), sysCmd_wget,
    chdir_wget, makeSubDir_wget]

theorem GetDailyObsMgex_all_wget (E : Env W) (ar : FtpArchive) (ep : EpochStr) (dir : String)
    (fopt : ftpopt_t) (s : St W) (h : strlen fopt.obmOpt < 9) :
    ∃ uc : String × String,
      wgetCmds (GetDailyObsMgex E ar ep dir fopt s).trace = wgetCmds s.trace ++
        [Cmd.wget ("*_R_" ++ ep.sYyyy ++ ep.sDoy ++ "0000_01D_30S_MO.crx" ++ ".*") uc.2 uc.1] ∧
      UrlCases (ToUpper fopt.ftpFrom) uc
        (at_ ar.CDDIS IDX_OBMD ++ "/" ++ ep.sYyyy ++ "/" ++ ep.sDoy ++ "/" ++ ep.sYy ++ "d",
          " --cut-dirs=7 ")
        (at_ ar.IGN IDX_OBMD ++ "/" ++ ep.sYyyy ++ "/" ++ ep.sDoy, " --cut-dirs=5 ")
        (at_ ar.WHU IDX_OBMD ++ "/" ++ ep.sYyyy ++ "/" ++ ep.sDoy ++ "/" ++ ep.sYy ++ "d",
          " --cut-dirs=7 ")
        (at_ ar.CDDIS IDX_OBMD ++ "/" ++ ep.sYyyy ++ "/" ++ ep.sDoy ++ "/" ++ ep.sYy ++ "d",
          " --cut-dirs=7 ") := by
  refine ⟨_, ?_, urlCases4 (ToUpper fopt.ftpFrom) _ _ _ _⟩
  unfold GetDailyObsMgex
  simp only []
  rw [if_pos h]
  generalize (if ToUpper fopt.ftpFrom = "CDDIS" then _ else _ : String × String) = uc
  rw [foldl_wget_same _ (fun s a => GetDailyObsMgex_allFile_wget E ep fopt a s), sysCmd_wget,
    chdir_wget, makeSubDir_wget]

theorem GetHourlyObsIgs_allHour_wget (E : Env W) (ar : FtpArchive) (ep : EpochStr)
    (fopt : ftpopt_t) (ftpName subDir : String) (hh : Nat) (s : St W) :
    ∃ uc : String × String,
      wgetCmds (GetHourlyObsIgs_allHour E ar ep fopt ftpName subDir hh s).trace =
        wgetCmds s.trace ++
          [Cmd.wget ("*" ++ ep.sDoy ++ hourLetter hh ++ "." ++ ep.sYy ++ "d" ++ ".*") uc.2 uc.1] ∧
      UrlCases ftpName uc
        (at_ ar.CDDIS IDX_OBSH ++ "/" ++ ep.sYyyy ++ "/" ++ ep.sDoy ++ "/" ++ hh2str hh,
          " --cut-dirs=7 ")
        (at_ ar.IGN IDX_OBSH ++ "/" ++ ep.sYyyy ++ "/" ++ ep.sDoy, " --cut-dirs=6 ")
        (at_ ar.WHU IDX_OBSH ++ "/" ++ ep.sYyyy ++ "/" ++ ep.sDoy ++ "/" ++ hh2str hh,
          " --cut-dirs=7 ")
        (at_ ar.CDDIS IDX_OBSH ++ "/" ++ ep.sYyyy ++ "/" ++ ep.sDoy ++ "/" ++ hh2str hh,
          " --cut-dirs=7 ") := by
  refine ⟨_, ?_, urlCases4 ftpName _ _ _ _⟩
  unfold GetHourlyObsIgs_allHour
  simp only []
  generalize (if ftpName = "CDDIS" then _ else _ : String × String) = uc
  rw [foldl_wget_same _ (fun s a => GetHourlyObsIgs_allFile_wget E ep fopt _ a s), sysCmd_wget,
    enterHourDir_wget]

theorem GetHourlyObsMgex_allHour_wget (E : Env W) (ar : FtpArchive) (ep : EpochStr)
    (fopt : ftpopt_t) (ftpName subDir : String) (hh : Nat) (s : St W) :
    ∃ uc : String × String,
      wgetCmds (GetHourlyObsMgex_allHour E ar ep fopt ftpName subDir hh s).trace =
        wgetCmds s.trace ++
          [Cmd.wget ("*_R_" ++ ep.sYyyy ++ ep.sDoy ++ hh2str hh ++ "00_01H_30S_MO.crx" ++ ".*")
            uc.2 uc.1] ∧
      UrlCases ftpName uc
        (at_ ar.CDDIS IDX_OBMH ++ "/" ++ ep.sYyyy ++ "/" ++ ep.sDoy ++ "/" ++ hh2str hh,
          " --cut-dirs=7 ")
        (at_ ar.IGN IDX_OBMH ++ "/" ++ ep.sYyyy ++ "/" ++ ep.sDoy, " --cut-dirs=6 ")
        (at_ ar.WHU IDX_OBMH ++ "/" ++ ep.sYyyy ++ "/" ++ ep.sDoy ++ "/" ++ hh2str hh,
          " --cut-dirs=7 ")
        (at_ ar.CDDIS IDX_OBMH ++ "/" ++ ep.sYyyy ++ "/" ++ ep.sDoy ++ "/" ++ hh2str hh,
          " --cut-dirs=7 ") := by
  refine ⟨_, ?_, urlCases4 ftpName _ _ _ _⟩
  unfold GetHourlyObsMgex_allHour
  simp only []
  generalize (if ftpName = "CDDIS" then _ else _ : String × String) = uc
  rw [foldl_wget_same _ (fun s a => GetHourlyObsMgex_allFile_wget E ep fopt _ a s), sysCmd_wget,
    enterHourDir_wget]

theorem GetHrObsIgs_allHour_wget (E : Env W) (ar : FtpArchive) (ep : EpochStr)
    (fopt : ftpopt_t) (ftpName subDir : String) (hh : Nat) (s : St W) :
    ∃ uc : String × String,
      wgetCmds (GetHrObsIgs_allHour E ar ep fopt ftpName subDir hh s).trace =
        wgetCmds s.trace ++
          [Cmd.wget ("*" ++ ep.sDoy ++ hourLetter hh ++ "*." ++ ep.sYy ++ "d" ++ ".*") uc.2 uc.1] ∧
      UrlCases ftpName uc
        (at_ ar.CDDIS IDX_OBSHR ++ "/" ++ ep.sYyyy ++ "/" ++ ep.sDoy ++ "/" ++ ep.sYy ++ "d" ++ "/" ++
          hh2str hh, " --cut-dirs=8 ")
        (at_ ar.IGN IDX_OBSHR ++ "/" ++ ep.sYyyy ++ "/" ++ ep.sDoy, " --cut-dirs=6 ")
        (at_ ar.CDDIS IDX_OBSHR ++ "/" ++ ep.sYyyy ++ "/" ++ ep.sDoy ++ "/" ++ ep.sYy ++ "d" ++ "/" ++
          hh2str hh, " --cut-dirs=8 ")
        (at_ ar.CDDIS IDX_OBSHR ++ "/" ++ ep.sYyyy ++ "/" ++ ep.sDoy ++ "/" ++ ep.sYy ++ "d" ++ "/" ++
          hh2str hh, " --cut-dirs=8 ") := by
  refine ⟨_, ?_, urlCases3 ftpName _ _ _⟩
  unfold GetHrObsIgs_allHour
  simp only []
  generalize (if ftpName = "CDDIS" then _ else _ : String × String) = uc
  rw [foldl_wget_same _ (fun s minu =>
      foldl_wget_same _ (fun s a => GetHrObsIgs_allFile_wget E ep fopt _ minu a s) _ s),
    sysCmd_wget, enterHourDir_wget]

theorem GetHrObsMgex_allHour_wget (E : Env W) (ep : EpochStr) (fopt : ftpopt_t)
    (subDir : String) (hh : Nat) (s : St W) :
    wgetCmds (GetHrObsMgex_allHour E ep fopt subDir hh s).trace = wgetCmds s.trace := by
  unfold GetHrObsMgex_allHour
  simp only []
  rw [foldl_wget_same _ (fun s minu =>
      foldl_wget_same _ (fun s a => GetHrObsMgex_allFile_wget E ep fopt _ minu a s) _ s),
    enterHourDir_wget]

theorem addsWget_same (P : Cmd → Prop) (s r : St W)
    (h : wgetCmds r.trace = wgetCmds s.trace) : AddsWget P s r :=
  ⟨[], by rw [h, List.append_nil], fun _ hc => absurd hc (List.not_mem_nil _)⟩

theorem addsWget_trans (P : Cmd → Prop) (s r t : St W) (h1 : AddsWget P s r)
    (h2 : AddsWget P r t) : AddsWget P s t := by
  obtain ⟨n1, e1, p1⟩ := h1
  obtain ⟨n2, e2, p2⟩ := h2
  refine ⟨n1 ++ n2, by rw [e2, e1, List.append_assoc], fun c hc => ?_⟩
  rcases List.mem_append.1 hc with h | h
  · exact p1 c h
  · exact p2 c h

theorem addsWget_one (P : Cmd → Prop) (s r : St W) (c : Cmd)
    (hw : wgetCmds r.trace = wgetCmds s.trace ++ [c]) (hP : P c) : AddsWget P s r :=
  ⟨[c], hw, fun d hd => by rw [List.mem_singleton.1 hd]; exact hP⟩

theorem addsWget_guard (P : Cmd → Prop) (s r : St W) (g : Prop) [Decidable g] (c : Cmd)
    (hw : wgetCmds r.trace = wgetCmds s.trace ++ (if g then [c] else [])) (hP : P c) :
    AddsWget P s r := by
  by_cases hg : g
  · rw [if_pos hg] at hw; exact addsWget_one P s r c hw hP
  · rw [if_neg hg, List.append_nil] at hw; exact addsWget_same P s r hw

theorem addsWget_foldl {α : Type} (P : Cmd → Prop) (f : St W → α → St W)
    (hf : ∀ s a, AddsWget P s (f s a)) :
    ∀ (l : List α) (s : St W), AddsWget P s (l.foldl f s) := by
  intro l
  induction l with
  | nil => intro s; exact addsWget_same P s s rfl
  | cons a l ih => intro s; exact addsWget_trans P _ _ _ (hf s a) (ih _)

theorem addsWget_foldl2 {α : Type} (P : Cmd → Prop) (f : String × St W → α → String × St W)
    (hf : ∀ p a, AddsWget P p.2 (f p a).2) :
    ∀ (l : List α) (p : String × St W), AddsWget P p.2 (l.foldl f p).2 := by
  intro l
  induction l with
  | nil => intro p; exact addsWget_same P _ _ rfl
  | cons a l ih => intro p; exact addsWget_trans P _ _ _ (hf p a) (ih _)

theorem sayErr_wget (line : String) (s : St W) :
    wgetCmds (sayErr line s).trace = wgetCmds s.trace := by
  simp [sayErr, wgetCmds, List.filterMap_append]

theorem GetDailyObsIgs_adds (E : Env W) (ar : FtpArchive) (ep : EpochStr) (dir : String)
    (fopt : ftpopt_t) (s : St W) (P : Cmd → Prop)
    (hA : strlen fopt.obsOpt < 9 → ∀ p uc,
      UrlCases (ToUpper fopt.ftpFrom) uc
        (at_ ar.CDDIS IDX_OBSD ++ "/" ++ ep.sYyyy ++ "/" ++ ep.sDoy ++ "/" ++ ep.sYy ++ "d",
          " --cut-dirs=7 ")
        (at_ ar.IGN IDX_OBSD ++ "/" ++ ep.sYyyy ++ "/" ++ ep.sDoy, " --cut-dirs=5 ")
        (at_ ar.WHU IDX_OBSD ++ "/" ++ ep.sYyyy ++ "/" ++ ep.sDoy ++ "/" ++ ep.sYy ++ "d",
          " --cut-dirs=7 ")
        (at_ ar.CDDIS IDX_OBSD ++ "/" ++ ep.sYyyy ++ "/" ++ ep.sDoy ++ "/" ++ ep.sYy ++ "d",
          " --cut-dirs=7 ") → P (Cmd.wget p uc.2 uc.1))
    (hU : ¬ strlen fopt.obsOpt < 9 → ∀ x s,
      AddsWget P s (GetDailyObsIgs_unit E ar ep fopt (ToUpper fopt.ftpFrom) x s)) :
    AddsWget P s (GetDailyObsIgs E ar ep dir fopt s) := by
  by_cases h : strlen fopt.obsOpt < 9
  · obtain ⟨uc, hw, hc⟩ := GetDailyObsIgs_all_wget E ar ep dir fopt s h
    exact addsWget_one P _ _ _ hw (hA h _ uc hc)
  · have h0 : AddsWget P s (chdir E (makeSubDir E fopt dir "daily" s).1
        (makeSubDir E fopt dir "daily" s).2) :=
      addsWget_same P _ _ (by rw [chdir_wget, makeSubDir_wget])
    refine addsWget_trans P _ _ _ h0 ?_
    unfold GetDailyObsIgs
    simp only []
    rw [if_neg h]
    split_ifs
    · split
      · exact addsWget_same P _ _ (sayErr_wget _ _)
      · exact addsWget_foldl P _ (fun s x => hU h x s) _ _
    · exact addsWget_same P _ _ rfl

theorem GetDailyObsMgex_adds (E : Env W) (ar : FtpArchive) (ep : EpochStr) (dir : String)
    (fopt : ftpopt_t) (s : St W) (P : Cmd → Prop)
    (hA : strlen fopt.obmOpt < 9 → ∀ p uc,
      UrlCases (ToUpper fopt.ftpFrom) uc
        (at_ ar.CDDIS IDX_OBMD ++ "/" ++ ep.sYyyy ++ "/" ++ ep.sDoy ++ "/" ++ ep.sYy ++ "d",
          " --cut-dirs=7 ")
        (at_ ar.IGN IDX_OBMD ++ "/" ++ ep.sYyyy ++ "/" ++ ep.sDoy, " --cut-dirs=5 ")
        (at_ ar.WHU IDX_OBMD ++ "/" ++ ep.sYyyy ++ "/" ++ ep.sDoy ++ "/" ++ ep.sYy ++ "d",
          " --cut-dirs=7 ")
        (at_ ar.CDDIS IDX_OBMD ++ "/" ++ ep.sYyyy ++ "/" ++ ep.sDoy ++ "/" ++ ep.sYy ++ "d",
          " --cut-dirs=7 ") → P (Cmd.wget p uc.2 uc.1))
    (hU : ¬ strlen fopt.obmOpt < 9 → ∀ x s,
      AddsWget P s (GetDailyObsMgex_unit E ar ep fopt (ToUpper fopt.ftpFrom) x s).2) :
    AddsWget P s (GetDailyObsMgex E ar ep dir fopt s) := by
  by_cases h : strlen fopt.obmOpt < 9
  · obtain ⟨uc, hw, hc⟩ := GetDailyObsMgex_all_wget E ar ep dir fopt s h
    exact addsWget_one P _ _ _ hw (hA h _ uc hc)
  · have h0 : AddsWget P s (chdir E (makeSubDir E fopt dir "daily" s).1
        (makeSubDir E fopt dir "daily" s).2) :=
      addsWget_same P _ _ (by rw [chdir_wget, makeSubDir_wget])
    refine addsWget_trans P _ _ _ h0 ?_
    unfold GetDailyObsMgex
    simp only []
    rw [if_neg h]
    split_ifs
    · split
      · exact addsWget_same P _ _ (sayErr_wget _ _)
      · exact addsWget_foldl P _ (fun s x => hU h x s) _ _
    · exact addsWget_same P _ _ rfl

theorem GetHourlyObsIgs_adds (E : Env W) (ar : FtpArchive) (ep : EpochStr) (dir : String)
    (fopt : ftpopt_t) (s : St W) (P : Cmd → Prop)
    (hA : strlen fopt.obsOpt < 9 → ∀ subDir hh s,
      AddsWget P s (GetHourlyObsIgs_allHour E ar ep fopt (ToUpper fopt.ftpFrom) subDir hh s))
    (hU : ¬ strlen fopt.obsOpt < 9 → ∀ hh x s,
      AddsWget P s (GetHourlyObsIgs_unit E ar ep fopt (ToUpper fopt.ftpFrom) hh x s).2) :
    AddsWget P s (GetHourlyObsIgs E ar ep dir fopt s) := by
  have h0 : AddsWget P s (makeSubDir E fopt dir "hourly" s).2 :=
    addsWget_same P _ _ (makeSubDir_wget E fopt dir "hourly" s)
  refine addsWget_trans P _ _ _ h0 ?_
  unfold GetHourlyObsIgs
  simp only []
  by_cases h : strlen fopt.obsOpt < 9
  · rw [if_pos h]
    exact addsWget_foldl P _ (fun s hh => hA h _ hh s) _ _
  · rw [if_neg h]
    have hI : ∀ (p : String × St W) (hh : Nat), AddsWget P p.2
        (GetHourlyObsIgs_iter E ar ep fopt (ToUpper fopt.ftpFrom)
          (makeSubDir E fopt dir "hourly" s).1 hh p.1 p.2).2 := by
      intro p hh
      unfold GetHourlyObsIgs_iter
      simp only []
      exact addsWget_trans P _ _ _ (addsWget_same P _ _ (enterHourDir_wget E fopt _ _ _))
        (hU h hh _ _)
    split_ifs
    · split
      · exact addsWget_same P _ _ (sayErr_wget _ _)
      · exact addsWget_foldl P _ (fun s line => addsWget_foldl2 P _ hI _ (line, s)) _ _
    · exact addsWget_same P _ _ rfl

theorem GetHrObsIgs_adds (E : Env W) (ar : FtpArchive) (ep : EpochStr) (dir : String)
    (fopt : ftpopt_t) (s : St W) (P : Cmd → Prop)
    (hA : strlen fopt.obsOpt < 9 → ∀ subDir hh s,
      AddsWget P s (GetHrObsIgs_allHour E ar ep fopt (ToUpper fopt.ftpFrom) subDir hh s))
    (hU : ¬ strlen fopt.obsOpt < 9 → ∀ hh minu x s,
      AddsWget P s (GetHrObsIgs_unit E ar ep fopt (ToUpper fopt.ftpFrom) hh minu x s).2) :
    AddsWget P s (GetHrObsIgs E ar ep dir fopt s) := by
  have h0 : AddsWget P s (makeSubDir E fopt dir "highrate" s).2 :=
    addsWget_same P _ _ (makeSubDir_wget E fopt dir "highrate" s)
  refine addsWget_trans P _ _ _ h0 ?_
  unfold GetHrObsIgs
  simp only []
  by_cases h : strlen fopt.obsOpt < 9
  · rw [if_pos h]
    exact addsWget_foldl P _ (fun s hh => hA h _ hh s) _ _
  · rw [if_neg h]
    have hI : ∀ (p : String × St W) (hh : Nat), AddsWget P p.2
        (GetHrObsIgs_iter E ar ep fopt (ToUpper fopt.ftpFrom)
          (makeSubDir E fopt dir "highrate" s).1 hh p.1 p.2).2 := by
      intro p hh
      unfold GetHrObsIgs_iter
      simp only []
      refine addsWget_trans P _
        (enterHourDir E fopt (makeSubDir E fopt dir "highrate" s).1 (hh2str hh) p.2).2 _
        (addsWget_same P _ _ (enterHourDir_wget E fopt _ _ _)) ?_
      exact addsWget_foldl2 P _ (fun q minu => hU h hh minu q.1 q.2) minuStr
        (p.1, (enterHourDir E fopt (makeSubDir E fopt dir "highrate" s).1 (hh2str hh) p.2).2)
    split_ifs
    · split
      · exact addsWget_same P _ _ (sayErr_wget _ _)
      · exact addsWget_foldl P _ (fun s line => addsWget_foldl2 P _ hI _ (line, s)) _ _
    · exact addsWget_same P _ _ rfl

theorem GetHourlyObsMgex_adds (E : Env W) (ar : FtpArchive) (ep : EpochStr) (dir : String)
    (fopt : ftpopt_t) (s : St W) (P : Cmd → Prop)
    (hA : strlen fopt.obmOpt < 9 → ∀ subDir hh s,
      AddsWget P s (GetHourlyObsMgex_allHour E ar ep fopt (ToUpper fopt.ftpFrom) subDir hh s))
    (hU : ¬ strlen fopt.obmOpt < 9 → ∀ hh x s,
      AddsWget P s (GetHourlyObsMgex_unit E ar ep fopt (ToUpper fopt.ftpFrom) hh x s).2) :
    AddsWget P s (GetHourlyObsMgex E ar ep dir fopt s) := by
  have h0 : AddsWget P s (makeSubDir E fopt dir "hourly" s).2 :=
    addsWget_same P _ _ (makeSubDir_wget E fopt dir "hourly" s)
  refine addsWget_trans P _ _ _ h0 ?_
  unfold GetHourlyObsMgex
  simp only []
  by_cases h : strlen fopt.obmOpt < 9
  · rw [if_pos h]
    exact addsWget_foldl P _ (fun s hh => hA h _ hh s) _ _
  · rw [if_neg h]
    have hI : ∀ (p : String × St W) (hh : Nat), AddsWget P p.2
        (GetHourlyObsMgex_iter E ar ep fopt (ToUpper fopt.ftpFrom)
          (makeSubDir E fopt dir "hourly" s).1 hh p.1 p.2).2 := by
      intro p hh
      unfold GetHourlyObsMgex_iter
      simp only []
      exact addsWget_trans P _ _ _ (addsWget_same P _ _ (enterHourDir_wget E fopt _ _ _))
        (hU h hh _ _)
    split_ifs
    · split
      · exact addsWget_same P _ _ (sayErr_wget _ _)
      · exact addsWget_foldl P _ (fun s line => addsWget_foldl2 P _ hI _ (line, s)) _ _
    · exact addsWget_same P _ _ rfl

theorem GetHrObsMgex_adds (E : Env W) (ar : FtpArchive) (ep : EpochStr) (dir : String)
    (fopt : ftpopt_t) (s : St W) (P : Cmd → Prop)
    (hA : strlen fopt.obmOpt < 9 → ∀ subDir hh s,
      AddsWget P s (GetHrObsMgex_allHour E ep fopt subDir hh s))
    (hU : ¬ strlen fopt.obmOpt < 9 → ∀ hh minu x s,
      AddsWget P s (GetHrObsMgex_unit E ar ep fopt (ToUpper fopt.ftpFrom) hh minu x s).2) :
    AddsWget P s (GetHrObsMgex E ar ep dir fopt s) := by
  have h0 : AddsWget P s (makeSubDir E fopt dir "highrate" s).2 :=
    addsWget_same P _ _ (makeSubDir_wget E fopt dir "highrate" s)
  refine addsWget_trans P _ _ _ h0 ?_
  unfold GetHrObsMgex
  simp only []
  by_cases h : strlen fopt.obmOpt < 9
  · rw [if_pos h]
    exact addsWget_foldl P _ (fun s hh => hA h _ hh s) _ _
  · rw [if_neg h]
    have hI : ∀ (p : String × St W) (hh : Nat), AddsWget P p.2
        (GetHrObsMgex_iter E ar ep fopt (ToUpper fopt.ftpFrom)
          (makeSubDir E fopt dir "highrate" s).1 hh p.1 p.2).2 := by
      intro p hh
      unfold GetHrObsMgex_iter
      simp only []
      refine addsWget_trans P _
        (enterHourDir E fopt (makeSubDir E fopt dir "highrate" s).1 (hh2str hh) p.2).2 _
        (addsWget_same P _ _ (enterHourDir_wget E fopt _ _ _)) ?_
      exact addsWget_foldl2 P _ (fun q minu => hU h hh minu q.1 q.2) minuStr
        (p.1, (enterHourDir E fopt (makeSubDir E fopt dir "highrate" s).1 (hh2str hh) p.2).2)
    split_ifs
    · split
      · exact addsWget_same P _ _ (sayErr_wget _ _)
      · exact addsWget_foldl P _ (fun s line => addsWget_foldl2 P _ hI _ (line, s)) _ _
    · exact addsWget_same P _ _ rfl

theorem requestedTable_cddis (ar : FtpArchive) : requestedTable ar "CDDIS" = ar.CDDIS := by
  unfold requestedTable; rw [if_pos rfl]

theorem requestedTable_ign (ar : FtpArchive) : requestedTable ar "IGN" = ar.IGN := by
  unfold requestedTable; rw [if_neg (by decide), if_pos rfl]

theorem requestedTable_whu (ar : FtpArchive) : requestedTable ar "WHU" = ar.WHU := by
  unfold requestedTable; rw [if_neg (by decide), if_neg (by decide), if_pos rfl]

theorem urlFrom_of_cases (N : String) (uc c i w e : String × String)
    (hc : UrlCases N uc c i w e) (base : String) (ep : EpochStr) (p : String)
    (hC : N = "CDDIS" → ∃ t, c.1 = base ++ "/" ++ ep.sYyyy ++ "/" ++ ep.sDoy ++ t)
    (hI : N = "IGN" → ∃ t, i.1 = base ++ "/" ++ ep.sYyyy ++ "/" ++ ep.sDoy ++ t)
    (hW : N = "WHU" → ∃ t, w.1 = base ++ "/" ++ ep.sYyyy ++ "/" ++ ep.sDoy ++ t)
    (hE : N ≠ "CDDIS" → N ≠ "IGN" → N ≠ "WHU" →
      ∃ t, e.1 = base ++ "/" ++ ep.sYyyy ++ "/" ++ ep.sDoy ++ t) :
    UrlFrom base ep (Cmd.wget p uc.2 uc.1) := by
  by_cases h1 : N = "CDDIS"
  · obtain ⟨t, ht⟩ := hC h1
    exact ⟨p, uc.2, t, by rw [hc.1 h1, ht]⟩
  · by_cases h2 : N = "IGN"
    · obtain ⟨t, ht⟩ := hI h2
      exact ⟨p, uc.2, t, by rw [hc.2.1 h2, ht]⟩
    · by_cases h3 : N = "WHU"
      · obtain ⟨t, ht⟩ := hW h3
        exact ⟨p, uc.2, t, by rw [hc.2.2.1 h3, ht]⟩
      · obtain ⟨t, ht⟩ := hE h1 h2 h3
        exact ⟨p, uc.2, t, by rw [hc.2.2.2 h1 h2 h3, ht]⟩

theorem tail_nil (x : String) : ∃ t, x = x ++ t := ⟨"", by simp⟩

theorem tail_one (x a : String) : ∃ t, x ++ "/" ++ a = x ++ t :=
  ⟨"/" ++ a, by simp only [String.append_assoc]⟩

theorem tail_two (x a b : String) : ∃ t, x ++ "/" ++ a ++ b = x ++ t :=
  ⟨"/" ++ (a ++ b), by simp only [String.append_assoc]⟩

theorem tail_four (x a b c : String) : ∃ t, x ++ "/" ++ a ++ b ++ "/" ++ c = x ++ t :=
  ⟨"/" ++ (a ++ (b ++ ("/" ++ c))), by simp only [String.append_assoc]⟩

theorem GetDailyObsIgs_url_cases (ar : FtpArchive) (ep : EpochStr) (ftpName : String) :
    UrlCases ftpName (GetDailyObsIgs_url ar ep ftpName)
      (at_ ar.CDDIS IDX_OBSD ++ "/" ++ ep.sYyyy ++ "/" ++ ep.sDoy ++ "/" ++ ep.sYy ++ "d",
        " --cut-dirs=7 ")
      (at_ ar.IGN IDX_OBSD ++ "/" ++ ep.sYyyy ++ "/" ++ ep.sDoy, " --cut-dirs=5 ")
      (at_ ar.WHU IDX_OBSD ++ "/" ++ ep.sYyyy ++ "/" ++ ep.sDoy ++ "/" ++ ep.sYy ++ "d",
        " --cut-dirs=7 ")
      (at_ ar.CDDIS IDX_OBSD ++ "/" ++ ep.sYyyy ++ "/" ++ ep.sDoy ++ "/" ++ ep.sYy ++ "d",
        " --cut-dirs=7 ") :=
  urlCases4 ftpName _ _ _ _

/-! ## C13: the archive of the URL of the observation procedures -/

/-- C13, amended. For every behaviour of the external tools and each archive name
`CDDIS`, `IGN`, `WHU` in `ftpFrom` (after upper-casing), every transfer command issued by
an observation procedure, in site-list and in all-stations mode, has a URL that starts
with the base URL of a registry table for the category of the procedure, followed by
`/yyyy/ddd`: the table of the requested archive in `GetDailyObsIgs`, `GetHourlyObsIgs` and
`GetDailyObsMgex`, in `GetHourlyObsMgex` for `CDDIS` and `IGN` and, in all-stations mode,
for `WHU`, and in the high-rate procedures `GetHrObsIgs` and `GetHrObsMgex` for `CDDIS` and
`IGN`; the table of `CDDIS` in the high-rate procedures when `WHU` is requested. -/
theorem C13_url_from_archive_table (E : Env W) (ar : FtpArchive) (ep : EpochStr) (dir : String)
    (fopt : ftpopt_t) (s : St W)
    (h : ToUpper fopt.ftpFrom = "CDDIS" ∨ ToUpper fopt.ftpFrom = "IGN" ∨
      ToUpper fopt.ftpFrom = "WHU") :
    AddsWget (UrlFrom (at_ (requestedTable ar (ToUpper fopt.ftpFrom)) IDX_OBSD) ep) s
      (GetDailyObsIgs E ar ep dir fopt s) ∧
    AddsWget (UrlFrom (at_ (requestedTable ar (ToUpper fopt.ftpFrom)) IDX_OBSH) ep) s
      (GetHourlyObsIgs E ar ep dir fopt s) ∧
    (ToUpper fopt.ftpFrom ≠ "WHU" →
      AddsWget (UrlFrom (at_ (requestedTable ar (ToUpper fopt.ftpFrom)) IDX_OBSHR) ep) s
        (GetHrObsIgs E ar ep dir fopt s)) ∧
    (ToUpper fopt.ftpFrom = "WHU" →
      AddsWget (UrlFrom (at_ ar.CDDIS IDX_OBSHR) ep) s (GetHrObsIgs E ar ep dir fopt s)) ∧
    AddsWget (UrlFrom (at_ (requestedTable ar (ToUpper fopt.ftpFrom)) IDX_OBMD) ep) s
      (GetDailyObsMgex E ar ep dir fopt s) ∧
    (ToUpper fopt.ftpFrom ≠ "WHU" ∨ strlen fopt.obmOpt < 9 →
      AddsWget (UrlFrom (at_ (requestedTable ar (ToUpper fopt.ftpFrom)) IDX_OBMH) ep) s
        (GetHourlyObsMgex E ar ep dir fopt s)) ∧
    (ToUpper fopt.ftpFrom ≠ "WHU" →
      AddsWget (UrlFrom (at_ (requestedTable ar (ToUpper fopt.ftpFrom)) IDX_OBMHR) ep) s
        (GetHrObsMgex E ar ep dir fopt s)) ∧
    (ToUpper fopt.ftpFrom = "WHU" →
      AddsWget (UrlFrom (at_ ar.CDDIS IDX_OBMHR) ep) s (GetHrObsMgex E ar ep dir fopt s)) := by
  have hE : ∀ Q : Prop, ToUpper fopt.ftpFrom ≠ "CDDIS" → ToUpper fopt.ftpFrom ≠ "IGN" →
      ToUpper fopt.ftpFrom ≠ "WHU" → Q := by
    intro Q h1 h2 h3
    rcases h with h | h | h
    · exact absurd h h1
    · exact absurd h h2
    · exact absurd h h3
  refine ⟨?_, ?_, ?_, ?_, ?_, ?_, ?_, ?_⟩
  · have key : ∀ p uc, UrlCases (ToUpper fopt.ftpFrom) uc
        (at_ ar.CDDIS IDX_OBSD ++ "/" ++ ep.sYyyy ++ "/" ++ ep.sDoy ++ "/" ++ ep.sYy ++ "d",
          " --cut-dirs=7 ")
        (at_ ar.IGN IDX_OBSD ++ "/" ++ ep.sYyyy ++ "/" ++ ep.sDoy, " --cut-dirs=5 ")
        (at_ ar.WHU IDX_OBSD ++ "/" ++ ep.sYyyy ++ "/" ++ ep.sDoy ++ "/" ++ ep.sYy ++ "d",
          " --cut-dirs=7 ")
        (at_ ar.CDDIS IDX_OBSD ++ "/" ++ ep.sYyyy ++ "/" ++ ep.sDoy ++ "/" ++ ep.sYy ++ "d",
          " --cut-dirs=7 ") →
        UrlFrom (at_ (requestedTable ar (ToUpper fopt.ftpFrom)) IDX_OBSD) ep
          (Cmd.wget p uc.2 uc.1) := by
      intro p uc hc
      refine urlFrom_of_cases _ uc _ _ _ _ hc _ ep p ?_ ?_ ?_ (hE _)
      · intro g; rw [g, requestedTable_cddis]; exact tail_two _ _ _
      · intro g; rw [g, requestedTable_ign]; exact tail_nil _
      · intro g; rw [g, requestedTable_whu]; exact tail_two _ _ _
    exact GetDailyObsIgs_adds E ar ep dir fopt s _ (fun _ p uc hc => key p uc hc)
      (fun _ x s => addsWget_guard _ _ _ _ _ (GetDailyObsIgs_unit_wget E ar ep fopt _ x s)
        (key _ _ (GetDailyObsIgs_url_cases ar ep _)))
  · have key : ∀ hh p uc, UrlCases (ToUpper fopt.ftpFrom) uc
        (at_ ar.CDDIS IDX_OBSH ++ "/" ++ ep.sYyyy ++ "/" ++ ep.sDoy ++ "/" ++ hh2str hh,
          " --cut-dirs=7 ")
        (at_ ar.IGN IDX_OBSH ++ "/" ++ ep.sYyyy ++ "/" ++ ep.sDoy, " --cut-dirs=6 ")
        (at_ ar.WHU IDX_OBSH ++ "/" ++ ep.sYyyy ++ "/" ++ ep.sDoy ++ "/" ++ hh2str hh,
          " --cut-dirs=7 ")
        (at_ ar.CDDIS IDX_OBSH ++ "/" ++ ep.sYyyy ++ "/" ++ ep.sDoy ++ "/" ++ hh2str hh,
          " --cut-dirs=7 ") →
        UrlFrom (at_ (requestedTable ar (ToUpper fopt.ftpFrom)) IDX_OBSH) ep
          (Cmd.wget p uc.2 uc.1) := by
      intro hh p uc hc
      refine urlFrom_of_cases _ uc _ _ _ _ hc _ ep p ?_ ?_ ?_ (hE _)
      · intro g; rw [g, requestedTable_cddis]; exact tail_one _ _
      · intro g; rw [g, requestedTable_ign]; exact tail_nil _
      · intro g; rw [g, requestedTable_whu]; exact tail_one _ _
    refine GetHourlyObsIgs_adds E ar ep dir fopt s _ (fun _ subDir hh s => ?_)
      (fun _ hh x s => ?_)
    · obtain ⟨uc, hw, hc⟩ := GetHourlyObsIgs_allHour_wget E ar ep fopt (ToUpper fopt.ftpFrom)
        subDir hh s
      exact addsWget_one _ _ _ _ hw (key hh _ uc hc)
    · obtain ⟨uc, hw, hc, _⟩ := GetHourlyObsIgs_unit_wget E ar ep fopt (ToUpper fopt.ftpFrom)
        hh x s
      exact addsWget_guard _ _ _ _ _ hw (key hh _ uc hc)
  · intro hn
    have key : ∀ hh p uc, UrlCases (ToUpper fopt.ftpFrom) uc
        (at_ ar.CDDIS IDX_OBSHR ++ "/" ++ ep.sYyyy ++ "/" ++ ep.sDoy ++ "/" ++ ep.sYy ++ "d" ++ "/" ++
          hh2str hh, " --cut-dirs=8 ")
        (at_ ar.IGN IDX_OBSHR ++ "/" ++ ep.sYyyy ++ "/" ++ ep.sDoy, " --cut-dirs=6 ")
        (at_ ar.CDDIS IDX_OBSHR ++ "/" ++ ep.sYyyy ++ "/" ++ ep.sDoy ++ "/" ++ ep.sYy ++ "d" ++ "/" ++
          hh2str hh, " --cut-dirs=8 ")
        (at_ ar.CDDIS IDX_OBSHR ++ "/" ++ ep.sYyyy ++ "/" ++ ep.sDoy ++ "/" ++ ep.sYy ++ "d" ++ "/" ++
          hh2str hh, " --cut-dirs=8 ") →
        UrlFrom (at_ (requestedTable ar (ToUpper fopt.ftpFrom)) IDX_OBSHR) ep
          (Cmd.wget p uc.2 uc.1) := by
      intro hh p uc hc
      refine urlFrom_of_cases _ uc _ _ _ _ hc _ ep p ?_ ?_ (fun g => absurd g hn) (hE _)
      · intro g; rw [g, requestedTable_cddis]; exact tail_four _ _ _ _
      · intro g; rw [g, requestedTable_ign]; exact tail_nil _
    refine GetHrObsIgs_adds E ar ep dir fopt s _ (fun _ subDir hh s => ?_)
      (fun _ hh minu x s => ?_)
    · obtain ⟨uc, hw, hc⟩ := GetHrObsIgs_allHour_wget E ar ep fopt (ToUpper fopt.ftpFrom)
        subDir hh s
      exact addsWget_one _ _ _ _ hw (key hh _ uc hc)
    · obtain ⟨uc, hw, hc, _⟩ := GetHrObsIgs_unit_wget E ar ep fopt (ToUpper fopt.ftpFrom)
        hh minu x s
      exact addsWget_guard _ _ _ _ _ hw (key hh _ uc hc)
  · intro hw0
    have key : ∀ hh p uc, UrlCases (ToUpper fopt.ftpFrom) uc
        (at_ ar.CDDIS IDX_OBSHR ++ "/" ++ ep.sYyyy ++ "/" ++ ep.sDoy ++ "/" ++ ep.sYy ++ "d" ++ "/" ++
          hh2str hh, " --cut-dirs=8 ")
        (at_ ar.IGN IDX_OBSHR ++ "/" ++ ep.sYyyy ++ "/" ++ ep.sDoy, " --cut-dirs=6 ")
        (at_ ar.CDDIS IDX_OBSHR ++ "/" ++ ep.sYyyy ++ "/" ++ ep.sDoy ++ "/" ++ ep.sYy ++ "d" ++ "/" ++
          hh2str hh, " --cut-dirs=8 ")
        (at_ ar.CDDIS IDX_OBSHR ++ "/" ++ ep.sYyyy ++ "/" ++ ep.sDoy ++ "/" ++ ep.sYy ++ "d" ++ "/" ++
          hh2str hh, " --cut-dirs=8 ") →
        UrlFrom (at_ ar.CDDIS IDX_OBSHR) ep (Cmd.wget p uc.2 uc.1) := by
      intro hh p uc hc
      refine urlFrom_of_cases _ uc _ _ _ _ hc _ ep p ?_ ?_ ?_ (hE _)
      · intro _; exact tail_four _ _ _ _
      · intro g; rw [hw0] at g; exact absurd g (by decide)
      · intro _; exact tail_four _ _ _ _
    refine GetHrObsIgs_adds E ar ep dir fopt s _ (fun _ subDir hh s => ?_)
      (fun _ hh minu x s => ?_)
    · obtain ⟨uc, hw, hc⟩ := GetHrObsIgs_allHour_wget E ar ep fopt (ToUpper fopt.ftpFrom)
        subDir hh s
      exact addsWget_one _ _ _ _ hw (key hh _ uc hc)
    · obtain ⟨uc, hw, hc, _⟩ := GetHrObsIgs_unit_wget E ar ep fopt (ToUpper fopt.ftpFrom)
        hh minu x s
      exact addsWget_guard _ _ _ _ _ hw (key hh _ uc hc)
  · have key : ∀ p uc, UrlCases (ToUpper fopt.ftpFrom) uc
        (at_ ar.CDDIS IDX_OBMD ++ "/" ++ ep.sYyyy ++ "/" ++ ep.sDoy ++ "/" ++ ep.sYy ++ "d",
          " --cut-dirs=7 ")
        (at_ ar.IGN IDX_OBMD ++ "/" ++ ep.sYyyy ++ "/" ++ ep.sDoy, " --cut-dirs=5 ")
        (at_ ar.WHU IDX_OBMD ++ "/" ++ ep.sYyyy ++ "/" ++ ep.sDoy ++ "/" ++ ep.sYy ++ "d",
          " --cut-dirs=7 ")
        (at_ ar.CDDIS IDX_OBMD ++ "/" ++ ep.sYyyy ++ "/" ++ ep.sDoy ++ "/" ++ ep.sYy ++ "d",
          " --cut-dirs=7 ") →
        UrlFrom (at_ (requestedTable ar (ToUpper fopt.ftpFrom)) IDX_OBMD) ep
          (Cmd.wget p uc.2 uc.1) := by
      intro p uc hc
      refine urlFrom_of_cases _ uc _ _ _ _ hc _ ep p ?_ ?_ ?_ (hE _)
      · intro g; rw [g, requestedTable_cddis]; exact tail_two _ _ _
      · intro g; rw [g, requestedTable_ign]; exact tail_nil _
      · intro g; rw [g, requestedTable_whu]; exact tail_two _ _ _
    refine GetDailyObsMgex_adds E ar ep dir fopt s _ (fun _ p uc hc => key p uc hc)
      (fun _ x s => ?_)
    obtain ⟨uc, hw, hc, _⟩ := GetDailyObsMgex_unit_wget E ar ep fopt (ToUpper fopt.ftpFrom) x s
    exact addsWget_guard _ _ _ _ _ hw (key _ uc hc)
  · intro hn
    refine GetHourlyObsMgex_adds E ar ep dir fopt s _ (fun _ subDir hh s => ?_)
      (fun hl hh x s => ?_)
    · obtain ⟨uc, hw, hc⟩ := GetHourlyObsMgex_allHour_wget E ar ep fopt (ToUpper fopt.ftpFrom)
        subDir hh s
      refine addsWget_one _ _ _ _ hw (urlFrom_of_cases _ uc _ _ _ _ hc _ ep _ ?_ ?_ ?_ (hE _))
      · intro g; rw [g, requestedTable_cddis]; exact tail_one _ _
      · intro g; rw [g, requestedTable_ign]; exact tail_nil _
      · intro g; rw [g, requestedTable_whu]; exact tail_one _ _
    · have hn2 : ToUpper fopt.ftpFrom ≠ "WHU" := by
        rcases hn with hn | hn
        · exact hn
        · exact absurd hn hl
      obtain ⟨uc, hw, hc, _⟩ := GetHourlyObsMgex_unit_wget E ar ep fopt (ToUpper fopt.ftpFrom)
        hh x s
      refine addsWget_guard _ _ _ _ _ hw
        (urlFrom_of_cases _ uc _ _ _ _ hc _ ep _ ?_ ?_ (fun g => absurd g hn2) (hE _))
      · intro g; rw [g, requestedTable_cddis]; exact tail_one _ _
      · intro g; rw [g, requestedTable_ign]; exact tail_nil _
  · intro hn
    refine GetHrObsMgex_adds E ar ep dir fopt s _
      (fun _ subDir hh s => addsWget_same _ _ _ (GetHrObsMgex_allHour_wget E ep fopt subDir hh s))
      (fun _ hh minu x s => ?_)
    obtain ⟨uc, hw, hc, _⟩ := GetHrObsMgex_unit_wget E ar ep fopt (ToUpper fopt.ftpFrom)
      hh minu x s
    refine addsWget_guard _ _ _ _ _ hw
      (urlFrom_of_cases _ uc _ _ _ _ hc _ ep _ ?_ ?_ (fun g => absurd g hn) (hE _))
    · intro g; rw [g, requestedTable_cddis]; exact tail_four _ _ _ _
    · intro g; rw [g, requestedTable_ign]; exact tail_nil _
  · intro hw0
    refine GetHrObsMgex_adds E ar ep dir fopt s _
      (fun _ subDir hh s => addsWget_same _ _ _ (GetHrObsMgex_allHour_wget E ep fopt subDir hh s))
      (fun _ hh minu x s => ?_)
    obtain ⟨uc, hw, hc, _⟩ := GetHrObsMgex_unit_wget E ar ep fopt (ToUpper fopt.ftpFrom)
      hh minu x s
    refine addsWget_guard _ _ _ _ _ hw
      (urlFrom_of_cases _ uc _ _ _ _ hc _ ep _ ?_ ?_ ?_ (hE _))
    · intro _; exact tail_four _ _ _ _
    · intro g; rw [hw0] at g; exact absurd g (by decide)
    · intro _; exact tail_four _ _ _ _

/-- C13 as stated fails. `GetHrObsIgs` in site-list mode with `ftpFrom = whu`, site `zimm`, hour 0 of day
045 of 2021: the registry table of `WHU` holds `ftp://igs.gnsswhu.cn/pub/gps/data` for the
category, and the four transfer commands of the run go to
`ftps://gdc.cddis.eosdis.nasa.gov/pub/gnss/data/highrate/...`, the base URL of the `CDDIS`
table (the URL block of lines 746-754 has no branch for `WHU`); so it is not the case that
every URL starts with the base URL of the requested archive. -/
theorem C13_whu_high_rate_goes_to_cddis :
    ToUpper foptWhuHr.ftpFrom = "WHU" ∧
    at_ (requestedTable ftpArchive0 "WHU") IDX_OBSHR = "ftp://igs.gnsswhu.cn/pub/gps/data" ∧
    wgetCmds (GetHrObsIgs (simEnv [] [("site.list", ["zimm"])]) ftpArchive0 ep2021_045 "obs"
        foptWhuHr worldObsHr).trace =
      [ Cmd.wget "zimm045a00.21d.*" " --cut-dirs=8 "
          "ftps://gdc.cddis.eosdis.nasa.gov/pub/gnss/data/highrate/2021/045/21d/00",
        Cmd.wget "zimm045a15.21d.*" " --cut-dirs=8 "
          "ftps://gdc.cddis.eosdis.nasa.gov/pub/gnss/data/highrate/2021/045/21d/00",
        Cmd.wget "zimm045a30.21d.*" " --cut-dirs=8 "
          "ftps://gdc.cddis.eosdis.nasa.gov/pub/gnss/data/highrate/2021/045/21d/00",
        Cmd.wget "zimm045a45.21d.*" " --cut-dirs=8 "
          "ftps://gdc.cddis.eosdis.nasa.gov/pub/gnss/data/highrate/2021/045/21d/00" ] ∧
    ¬ AddsWget (UrlFrom (at_ (requestedTable ftpArchive0 "WHU") IDX_OBSHR) ep2021_045) worldObsHr
      (GetHrObsIgs (simEnv [] [("site.list", ["zimm"])]) ftpArchive0 ep2021_045 "obs"
        foptWhuHr worldObsHr) := by
  have e : wgetCmds (GetHrObsIgs (simEnv [] [("site.list", ["zimm"])]) ftpArchive0 ep2021_045
      "obs" foptWhuHr worldObsHr).trace =
      [ Cmd.wget "zimm045a00.21d.*" " --cut-dirs=8 "
          "ftps://gdc.cddis.eosdis.nasa.gov/pub/gnss/data/highrate/2021/045/21d/00",
        Cmd.wget "zimm045a15.21d.*" " --cut-dirs=8 "
          "ftps://gdc.cddis.eosdis.nasa.gov/pub/gnss/data/highrate/2021/045/21d/00",
        Cmd.wget "zimm045a30.21d.*" " --cut-dirs=8 "
          "ftps://gdc.cddis.eosdis.nasa.gov/pub/gnss/data/highrate/2021/045/21d/00",
        Cmd.wget "zimm045a45.21d.*" " --cut-dirs=8 "
          "ftps://gdc.cddis.eosdis.nasa.gov/pub/gnss/data/highrate/2021/045/21d/00" ] := by
    decide
  have b : at_ (requestedTable ftpArchive0 "WHU") IDX_OBSHR =
      "ftp://igs.gnsswhu.cn/pub/gps/data" := by decide
  refine ⟨by decide, b, e, ?_⟩
  rintro ⟨new, hnew, hP⟩
  have hw : wgetCmds worldObsHr.trace = [] := rfl
  rw [e, hw, List.nil_append] at hnew
  obtain ⟨p, cut, r, hc⟩ := hP (Cmd.wget "zimm045a00.21d.*" " --cut-dirs=8 "
    "ftps://gdc.cddis.eosdis.nasa.gov/pub/gnss/data/highrate/2021/045/21d/00")
    (by rw [← hnew]; exact List.mem_cons_self _ _)
  rw [b] at hc
  injection hc with _ _ hu
  have hu2 : "ftps://gdc.cddis.eosdis.nasa.gov/pub/gnss/data/highrate/2021/045/21d/00" ++ "" =
      "ftp://igs.gnsswhu.cn/pub/gps/data" ++
        ("/" ++ (ep2021_045.sYyyy ++ ("/" ++ (ep2021_045.sDoy ++ r)))) := by
    rw [String.append_empty, hu]
    simp only [String.append_assoc]
  exact ne_of_take 4 _ _ _ _ (by decide) (by decide) (by decide) hu2

/-- C13, amended, for `ftpFrom = whu` on day 045 of 2021: the transfer commands of
`GetDailyObsIgs` have URLs from the `WHU` table, those of `GetHrObsIgs` URLs from the
`CDDIS` table. -/
theorem C13_url_from_archive_table_witness :
    ToUpper foptWhuHr.ftpFrom = "WHU" ∧
    AddsWget (UrlFrom (at_ (requestedTable ftpArchive0 (ToUpper foptWhuHr.ftpFrom)) IDX_OBSD)
        ep2021_045) worldObsHr
      (GetDailyObsIgs (simEnv [] [("site.list", ["zimm"])]) ftpArchive0 ep2021_045 "obs"
        foptWhuHr worldObsHr) ∧
    AddsWget (UrlFrom (at_ ftpArchive0.CDDIS IDX_OBSHR) ep2021_045) worldObsHr
      (GetHrObsIgs (simEnv [] [("site.list", ["zimm"])]) ftpArchive0 ep2021_045 "obs"
        foptWhuHr worldObsHr) :=
  ⟨by decide,
    (C13_url_from_archive_table (simEnv [] [("site.list", ["zimm"])]) ftpArchive0 ep2021_045
      "obs" foptWhuHr worldObsHr (Or.inr (Or.inr (by decide)))).1,
    (C13_url_from_archive_table (simEnv [] [("site.list", ["zimm"])]) ftpArchive0 ep2021_045
      "obs" foptWhuHr worldObsHr (Or.inr (Or.inr (by decide)))).2.2.2.1 (by decide)⟩

/-! ## C20: the bulk transfer commands of the all-stations mode -/

theorem foldl_wget_length {α : Type} (f : St W → α → St W)
    (hf : ∀ s a, (wgetCmds (f s a).trace).length = (wgetCmds s.trace).length + 1) :
    ∀ (l : List α) (s : St W),
      (wgetCmds (l.foldl f s).trace).length = (wgetCmds s.trace).length + l.length := by
  intro l
  induction l with
  | nil => intro s; rfl
  | cons a l ih =>
      intro s
      rw [List.foldl_cons, ih, hf, List.length_cons]
      omega

/-- C20. In all-stations mode (both option strings shorter than 9 bytes, the test
`strlen(...) < 9` of the code), for every
behaviour of the external tools and whatever files exist: `GetDailyObsIgs` and
`GetDailyObsMgex` issue exactly one transfer command per invocation; `GetHourlyObsIgs`,
`GetHrObsIgs` and `GetHourlyObsMgex` issue exactly one per configured hour; and
`GetHrObsMgex` issues none at all (the call of line 1347 is commented out). -/
theorem C20_all_stations_transfer_count (E : Env W) (ar : FtpArchive) (ep : EpochStr)
    (dir : String) (fopt : ftpopt_t) (s : St W)
    (ho : strlen fopt.obsOpt < 9) (hm : strlen fopt.obmOpt < 9) :
    (wgetCmds (GetDailyObsIgs E ar ep dir fopt s).trace).length =
      (wgetCmds s.trace).length + 1 ∧
    (wgetCmds (GetHourlyObsIgs E ar ep dir fopt s).trace).length =
      (wgetCmds s.trace).length + fopt.hhObs.length ∧
    (wgetCmds (GetHrObsIgs E ar ep dir fopt s).trace).length =
      (wgetCmds s.trace).length + fopt.hhObs.length ∧
    (wgetCmds (GetDailyObsMgex E ar ep dir fopt s).trace).length =
      (wgetCmds s.trace).length + 1 ∧
    (wgetCmds (GetHourlyObsMgex E ar ep dir fopt s).trace).length =
      (wgetCmds s.trace).length + fopt.hhObm.length ∧
    wgetCmds (GetHrObsMgex E ar ep dir fopt s).trace = wgetCmds s.trace := by
  refine ⟨?_, ?_, ?_, ?_, ?_, ?_⟩
  · obtain ⟨uc, h, _⟩ := GetDailyObsIgs_all_wget E ar ep dir fopt s ho
    rw [h]; simp
  · unfold GetHourlyObsIgs
    simp only []
    rw [if_pos ho, foldl_wget_length _ (fun s hh => by
      obtain ⟨uc, h, _⟩ := GetHourlyObsIgs_allHour_wget E ar ep fopt _ _ hh s
      rw [h]; simp), makeSubDir_wget]
  · unfold GetHrObsIgs
    simp only []
    rw [if_pos ho, foldl_wget_length _ (fun s hh => by
      obtain ⟨uc, h, _⟩ := GetHrObsIgs_allHour_wget E ar ep fopt _ _ hh s
      rw [h]; simp), makeSubDir_wget]
  · obtain ⟨uc, h, _⟩ := GetDailyObsMgex_all_wget E ar ep dir fopt s hm
    rw [h]; simp
  · unfold GetHourlyObsMgex
    simp only []
    rw [if_pos hm, foldl_wget_length _ (fun s hh => by
      obtain ⟨uc, h, _⟩ := GetHourlyObsMgex_allHour_wget E ar ep fopt _ _ hh s
      rw [h]; simp), makeSubDir_wget]
  · unfold GetHrObsMgex
    simp only []
    rw [if_pos hm, foldl_wget_same _ (fun s hh => GetHrObsMgex_allHour_wget E ep fopt _ hh s),
      makeSubDir_wget]

/-- C20 for hours 0 and 1 of day 045 of 2021, archive CDDIS, nothing on disk, tools that do
nothing: one transfer command for each daily procedure, two for each of `GetHourlyObsIgs`,
`GetHrObsIgs` and `GetHourlyObsMgex`, and none for `GetHrObsMgex`. -/
theorem C20_all_stations_transfer_count_witness :
    strlen foptAll.obsOpt < 9 ∧ strlen foptAll.obmOpt < 9 ∧
    (wgetCmds (GetDailyObsIgs (simEnv [] []) ftpArchive0 ep2021_045 "obs" foptAll worldEmpty).trace).length = 1 ∧
    (wgetCmds (GetHourlyObsIgs (simEnv [] []) ftpArchive0 ep2021_045 "obs" foptAll worldEmpty).trace).length = 2 ∧
    (wgetCmds (GetHrObsIgs (simEnv [] []) ftpArchive0 ep2021_045 "obs" foptAll worldEmpty).trace).length = 2 ∧
    (wgetCmds (GetDailyObsMgex (simEnv [] []) ftpArchive0 ep2021_045 "obs" foptAll worldEmpty).trace).length = 1 ∧
    (wgetCmds (GetHourlyObsMgex (simEnv [] []) ftpArchive0 ep2021_045 "obs" foptAll worldEmpty).trace).length = 2 ∧
    wgetCmds (GetHrObsMgex (simEnv [] []) ftpArchive0 ep2021_045 "obs" foptAll worldEmpty).trace = [] :=
  ⟨by decide, by decide,
    C20_all_stations_transfer_count (simEnv [] []) ftpArchive0 ep2021_045 "obs" foptAll worldEmpty
      (by decide) (by decide)⟩

/-! ## C19: an archive name that is not in the registry -/

/-- C19, amended. For every behaviour of the external tools, when `ftpFrom` is, after
upper-casing, neither `CDDIS` nor `IGN`: if it is not `WHU` either, the site-list unit and
the all-stations pass of `GetDailyObsIgs`, `GetHourlyObsIgs`, `GetDailyObsMgex` and
`GetHourlyObsMgex` issue their transfer command as they do for `CDDIS`, with the URL built
from the `CDDIS` table and the `--cut-dirs` option of `CDDIS` (a unit does so when its
`.o` and `.d` files are absent, a pass always); and the site-list units of `GetHrObsIgs` and
`GetHrObsMgex` and the all-stations pass of `GetHrObsIgs` do the same, also when the name
is `WHU`. -/
theorem C19_unknown_archive_uses_cddis (E : Env W) (ar : FtpArchive) (ep : EpochStr)
    (dir : String) (fopt : ftpopt_t) (hh : Nat) (minu x : String) (s : St W)
    (h1 : ToUpper fopt.ftpFrom ≠ "CDDIS") (h2 : ToUpper fopt.ftpFrom ≠ "IGN") :
    (ToUpper fopt.ftpFrom ≠ "WHU" →
    (wgetCmds (GetDailyObsIgs_unit E ar ep fopt (ToUpper fopt.ftpFrom) x s).trace = wgetCmds s.trace ++
      (if fileExists E s (ToLower x ++ ep.sDoy ++ "0." ++ ep.sYy ++ "o") = false ∧
          fileExists E s (ToLower x ++ ep.sDoy ++ "0." ++ ep.sYy ++ "d") = false then
        [Cmd.wget (ToLower x ++ ep.sDoy ++ "0." ++ ep.sYy ++ "d.*") " --cut-dirs=7 "
          (at_ ar.CDDIS IDX_OBSD ++ "/" ++ ep.sYyyy ++ "/" ++ ep.sDoy ++ "/" ++ ep.sYy ++ "d")]
      else [])) ∧
    (wgetCmds (GetHourlyObsIgs_unit E ar ep fopt (ToUpper fopt.ftpFrom) hh x s).2.trace = wgetCmds s.trace ++
      (if fileExists E s (ToLower x ++ ep.sDoy ++ hourLetter hh ++ "." ++ ep.sYy ++ "o") = false ∧
          fileExists E s (ToLower x ++ ep.sDoy ++ hourLetter hh ++ "." ++ ep.sYy ++ "d") = false then
        [Cmd.wget (ToLower x ++ ep.sDoy ++ hourLetter hh ++ "." ++ ep.sYy ++ "d" ++ ".*") " --cut-dirs=7 "
          (at_ ar.CDDIS IDX_OBSH ++ "/" ++ ep.sYyyy ++ "/" ++ ep.sDoy ++ "/" ++ hh2str hh)]
      else [])) ∧
    (wgetCmds (GetDailyObsMgex_unit E ar ep fopt (ToUpper fopt.ftpFrom) x s).2.trace = wgetCmds s.trace ++
      (if fileExists E s (ToLower x ++ ep.sDoy ++ "0." ++ ep.sYy ++ "o") = false ∧
          fileExists E s (ToLower x ++ ep.sDoy ++ "0." ++ ep.sYy ++ "d") = false then
        [Cmd.wget (ToUpper (ToLower x) ++ "*_R_" ++ ep.sYyyy ++ ep.sDoy ++ "0000_01D_30S_MO.crx" ++ ".*") " --cut-dirs=7 "
          (at_ ar.CDDIS IDX_OBMD ++ "/" ++ ep.sYyyy ++ "/" ++ ep.sDoy ++ "/" ++ ep.sYy ++ "d")]
      else [])) ∧
    (wgetCmds (GetHourlyObsMgex_unit E ar ep fopt (ToUpper fopt.ftpFrom) hh x s).2.trace = wgetCmds s.trace ++
      (if fileExists E s (ToLower x ++ ep.sDoy ++ hourLetter hh ++ "." ++ ep.sYy ++ "o") = false ∧
          fileExists E s (ToLower x ++ ep.sDoy ++ hourLetter hh ++ "." ++ ep.sYy ++ "d") = false then
        [Cmd.wget (ToUpper (ToLower x) ++ "*_R_" ++ ep.sYyyy ++ ep.sDoy ++ hh2str hh ++ "00_01H_30S_MO.crx" ++ ".*") " --cut-dirs=7 "
          (at_ ar.CDDIS IDX_OBMH ++ "/" ++ ep.sYyyy ++ "/" ++ ep.sDoy ++ "/" ++ hh2str hh)]
      else [])) ∧
    (strlen fopt.obsOpt < 9 →
      wgetCmds (GetDailyObsIgs E ar ep dir fopt s).trace = wgetCmds s.trace ++
        [Cmd.wget ("*" ++ ep.sDoy ++ "0." ++ ep.sYy ++ "d" ++ ".*") " --cut-dirs=7 "
          (at_ ar.CDDIS IDX_OBSD ++ "/" ++ ep.sYyyy ++ "/" ++ ep.sDoy ++ "/" ++ ep.sYy ++ "d")]) ∧
    (wgetCmds (GetHourlyObsIgs_allHour E ar ep fopt (ToUpper fopt.ftpFrom) dir hh s).trace = wgetCmds s.trace ++
      [Cmd.wget ("*" ++ ep.sDoy ++ hourLetter hh ++ "." ++ ep.sYy ++ "d" ++ ".*") " --cut-dirs=7 "
        (at_ ar.CDDIS IDX_OBSH ++ "/" ++ ep.sYyyy ++ "/" ++ ep.sDoy ++ "/" ++ hh2str hh)]) ∧
    (strlen fopt.obmOpt < 9 →
      wgetCmds (GetDailyObsMgex E ar ep dir fopt s).trace = wgetCmds s.trace ++
        [Cmd.wget ("*_R_" ++ ep.sYyyy ++ ep.sDoy ++ "0000_01D_30S_MO.crx" ++ ".*") " --cut-dirs=7 "
          (at_ ar.CDDIS IDX_OBMD ++ "/" ++ ep.sYyyy ++ "/" ++ ep.sDoy ++ "/" ++ ep.sYy ++ "d")]) ∧
    (wgetCmds (GetHourlyObsMgex_allHour E ar ep fopt (ToUpper fopt.ftpFrom) dir hh s).trace = wgetCmds s.trace ++
      [Cmd.wget ("*_R_" ++ ep.sYyyy ++ ep.sDoy ++ hh2str hh ++ "00_01H_30S_MO.crx" ++ ".*") " --cut-dirs=7 "
        (at_ ar.CDDIS IDX_OBMH ++ "/" ++ ep.sYyyy ++ "/" ++ ep.sDoy ++ "/" ++ hh2str hh)])) ∧
    (wgetCmds (GetHrObsIgs_unit E ar ep fopt (ToUpper fopt.ftpFrom) hh minu x s).2.trace = wgetCmds s.trace ++
      (if fileExists E s (ToLower x ++ ep.sDoy ++ hourLetter hh ++ minu ++ "." ++ ep.sYy ++ "o") = false ∧
          fileExists E s (ToLower x ++ ep.sDoy ++ hourLetter hh ++ minu ++ "." ++ ep.sYy ++ "d") = false then
        [Cmd.wget (ToLower x ++ ep.sDoy ++ hourLetter hh ++ minu ++ "." ++ ep.sYy ++ "d" ++ ".*") " --cut-dirs=8 "
          (at_ ar.CDDIS IDX_OBSHR ++ "/" ++ ep.sYyyy ++ "/" ++ ep.sDoy ++ "/" ++ ep.sYy ++ "d" ++ "/" ++ hh2str hh)]
      else [])) ∧
    (wgetCmds (GetHrObsMgex_unit E ar ep fopt (ToUpper fopt.ftpFrom) hh minu x s).2.trace = wgetCmds s.trace ++
      (if fileExists E s (ToLower x ++ ep.sDoy ++ hourLetter hh ++ minu ++ "." ++ ep.sYy ++ "o") = false ∧
          fileExists E s (ToLower x ++ ep.sDoy ++ hourLetter hh ++ minu ++ "." ++ ep.sYy ++ "d") = false then
        [Cmd.wget (ToUpper (ToLower x) ++ "*_R_" ++ ep.sYyyy ++ ep.sDoy ++ hh2str hh ++ minu ++ "_15M_01S_MO.crx" ++ ".*") " --cut-dirs=8 "
          (at_ ar.CDDIS IDX_OBMHR ++ "/" ++ ep.sYyyy ++ "/" ++ ep.sDoy ++ "/" ++ ep.sYy ++ "d" ++ "/" ++ hh2str hh)]
      else [])) ∧
    (wgetCmds (GetHrObsIgs_allHour E ar ep fopt (ToUpper fopt.ftpFrom) dir hh s).trace = wgetCmds s.trace ++
      [Cmd.wget ("*" ++ ep.sDoy ++ hourLetter hh ++ "*." ++ ep.sYy ++ "d" ++ ".*") " --cut-dirs=8 "
        (at_ ar.CDDIS IDX_OBSHR ++ "/" ++ ep.sYyyy ++ "/" ++ ep.sDoy ++ "/" ++ ep.sYy ++ "d" ++ "/" ++ hh2str hh)]) :=
  ⟨fun h3 => ⟨(by
      have hw := GetDailyObsIgs_unit_wget E ar ep fopt (ToUpper fopt.ftpFrom) x s
      rw [(GetDailyObsIgs_url_cases ar ep (ToUpper fopt.ftpFrom)).2.2.2 h1 h2 h3] at hw
      exact hw), (by
      obtain ⟨uc, hw, hc, _⟩ := GetHourlyObsIgs_unit_wget E ar ep fopt (ToUpper fopt.ftpFrom) hh x s
      rw [hc.2.2.2 h1 h2 h3] at hw
      exact hw), (by
      obtain ⟨uc, hw, hc, _⟩ := GetDailyObsMgex_unit_wget E ar ep fopt (ToUpper fopt.ftpFrom) x s
      rw [hc.2.2.2 h1 h2 h3] at hw
      exact hw), (by
      obtain ⟨uc, hw, hc, _⟩ := GetHourlyObsMgex_unit_wget E ar ep fopt (ToUpper fopt.ftpFrom) hh x s
      rw [hc.2.2.2 h1 h2 h3] at hw
      exact hw), (fun hl => by
      obtain ⟨uc, hw, hc⟩ := GetDailyObsIgs_all_wget E ar ep dir fopt s hl
      rw [hc.2.2.2 h1 h2 h3] at hw
      exact hw), (by
      obtain ⟨uc, hw, hc⟩ := GetHourlyObsIgs_allHour_wget E ar ep fopt (ToUpper fopt.ftpFrom) dir hh s
      rw [hc.2.2.2 h1 h2 h3] at hw
      exact hw), (fun hl => by
      obtain ⟨uc, hw, hc⟩ := GetDailyObsMgex_all_wget E ar ep dir fopt s hl
      rw [hc.2.2.2 h1 h2 h3] at hw
      exact hw), (by
      obtain ⟨uc, hw, hc⟩ := GetHourlyObsMgex_allHour_wget E ar ep fopt (ToUpper fopt.ftpFrom) dir hh s
      rw [hc.2.2.2 h1 h2 h3] at hw
      exact hw)⟩,
    (by
      obtain ⟨uc, hw, hc, _⟩ := GetHrObsIgs_unit_wget E ar ep fopt (ToUpper fopt.ftpFrom) hh minu x s
      by_cases h3 : ToUpper fopt.ftpFrom = "WHU"
      · rw [hc.2.2.1 h3] at hw; exact hw
      · rw [hc.2.2.2 h1 h2 h3] at hw; exact hw), (by
      obtain ⟨uc, hw, hc, _⟩ := GetHrObsMgex_unit_wget E ar ep fopt (ToUpper fopt.ftpFrom) hh minu x s
      by_cases h3 : ToUpper fopt.ftpFrom = "WHU"
      · rw [hc.2.2.1 h3] at hw; exact hw
      · rw [hc.2.2.2 h1 h2 h3] at hw; exact hw), (by
      obtain ⟨uc, hw, hc⟩ := GetHrObsIgs_allHour_wget E ar ep fopt (ToUpper fopt.ftpFrom) dir hh s
      by_cases h3 : ToUpper fopt.ftpFrom = "WHU"
      · rw [hc.2.2.1 h3] at hw; exact hw
      · rw [hc.2.2.2 h1 h2 h3] at hw; exact hw)⟩

/-- C19 as stated fails. `GetDailyObsIgs` in site-list mode with `ftpFrom = xyz`, site `zimm`, day 045 of
2021, tools that do nothing: the run reports nothing about the archive name and issues the
transfer command with the URL of the `CDDIS` table. -/
theorem C19_unknown_archive_is_fetched_from_cddis :
    ToUpper foptXyz.ftpFrom = "XYZ" ∧
    (GetDailyObsIgs (simEnv [] [("site.list", ["zimm"])]) ftpArchive0 ep2021_045 "obs" foptXyz
        worldObsHr).trace =
      [ Event.cd "obs/daily",
        Event.sys (Cmd.wget "zimm0450.21d.*" " --cut-dirs=7 "
          "ftps://gdc.cddis.eosdis.nasa.gov/pub/gnss/data/daily/2021/045/21d"),
        Event.out "*** WARNING(FtpUtil::GetDailyObsIgs): failed to download IGS daily observation file zimm0450.21o" ] := by
  decide

/-- C19, amended, for `ftpFrom = xyz`, site `zimm`, day 045 of 2021, nothing on disk: the
unit of `GetDailyObsIgs` issues the transfer command of `CDDIS`. -/
theorem C19_unknown_archive_uses_cddis_witness :
    ToUpper foptXyz.ftpFrom ≠ "CDDIS" ∧ ToUpper foptXyz.ftpFrom ≠ "IGN" ∧
    ToUpper foptXyz.ftpFrom ≠ "WHU" ∧
    wgetCmds (GetDailyObsIgs_unit (simEnv [] []) ftpArchive0 ep2021_045 foptXyz
        (ToUpper foptXyz.ftpFrom) "zimm" worldEmpty).trace =
      [Cmd.wget "zimm0450.21d.*" " --cut-dirs=7 "
        "ftps://gdc.cddis.eosdis.nasa.gov/pub/gnss/data/daily/2021/045/21d"] :=
  ⟨by decide, by decide, by decide,
    (((C19_unknown_archive_uses_cddis (simEnv [] []) ftpArchive0 ep2021_045 "obs" foptXyz 0 "00"
      "zimm" worldEmpty (by decide) (by decide)).1 (by decide)).1).trans (by decide)⟩

/-! ## C11: the site-list mode of `GetHrObsIgs` -/

theorem cdWget_append (a b : List Event) : cdWget (a ++ b) = cdWget a ++ cdWget b := by
  simp [cdWget, List.filter_append]

theorem wgetCmds_cdWget (tr : List Event) : wgetCmds (cdWget tr) = wgetCmds tr := by
  induction tr with
  | nil => rfl
  | cons e tr ih =>
      cases e with
      | sys c => cases c <;> simp_all [cdWget, wgetCmds, List.filter_cons]
      | out l => simp_all [cdWget, wgetCmds, List.filter_cons]
      | err l => simp_all [cdWget, wgetCmds, List.filter_cons]
      | rm p => simp_all [cdWget, wgetCmds, List.filter_cons]
      | cd d => simp_all [cdWget, wgetCmds, List.filter_cons]

theorem enterHourDir_cdWget (E : Env W) (fopt : ftpopt_t) (subDir sHh : String) (s : St W) :
    cdWget (enterHourDir E fopt subDir sHh s).2.trace =
      cdWget s.trace ++ [Event.cd (subDir ++ "/" ++ sHh)] := by
  simp only [enterHourDir, sysCmd, chdir, fileExists]
  split_ifs <;> simp [cdWget, List.filter_append]

theorem makeSubDir_cdWget (E : Env W) (fopt : ftpopt_t) (dir name : String) (s : St W) :
    cdWget (makeSubDir E fopt dir name s).2.trace = cdWget s.trace := by
  simp only [makeSubDir, sysCmd]
  split_ifs <;> simp [cdWget, List.filter_append]

theorem GetHrObsIgs_unit_cdWget (E : Env W) (ar : FtpArchive) (ep : EpochStr) (fopt : ftpopt_t)
    (ftpName : String) (hh : Nat) :
    ∃ uc : String × String,
      UrlCases ftpName uc
        (at_ ar.CDDIS IDX_OBSHR ++ "/" ++ ep.sYyyy ++ "/" ++ ep.sDoy ++ "/" ++ ep.sYy ++ "d" ++ "/" ++
          hh2str hh, " --cut-dirs=8 ")
        (at_ ar.IGN IDX_OBSHR ++ "/" ++ ep.sYyyy ++ "/" ++ ep.sDoy, " --cut-dirs=6 ")
        (at_ ar.CDDIS IDX_OBSHR ++ "/" ++ ep.sYyyy ++ "/" ++ ep.sDoy ++ "/" ++ ep.sYy ++ "d" ++ "/" ++
          hh2str hh, " --cut-dirs=8 ")
        (at_ ar.CDDIS IDX_OBSHR ++ "/" ++ ep.sYyyy ++ "/" ++ ep.sDoy ++ "/" ++ ep.sYy ++ "d" ++ "/" ++
          hh2str hh, " --cut-dirs=8 ") ∧
      ∀ (minu x : String) (s : St W),
        cdWget (GetHrObsIgs_unit E ar ep fopt ftpName hh minu x s).2.trace = cdWget s.trace ++
          (if fileExists E s (ToLower x ++ ep.sDoy ++ hourLetter hh ++ minu ++ "." ++ ep.sYy ++ "o") =
                false ∧
              fileExists E s (ToLower x ++ ep.sDoy ++ hourLetter hh ++ minu ++ "." ++ ep.sYy ++ "d") =
                false then
            [Event.sys (Cmd.wget (ToLower x ++ ep.sDoy ++ hourLetter hh ++ minu ++ "." ++ ep.sYy ++
              "d" ++ ".*") uc.2 uc.1)]
          else []) ∧
        ToLower (GetHrObsIgs_unit E ar ep fopt ftpName hh minu x s).1 = ToLower x := by
  refine ⟨_, urlCases3 ftpName _ _ _, fun minu x s => ⟨?_, ?_⟩⟩
  · unfold GetHrObsIgs_unit
    simp only []
    generalize (if ftpName = "CDDIS" then _ else _ : String × String) = uc
    simp only [sysCmd, say, removeFile, fileExists]
    split_ifs <;> simp [cdWget, List.filter_append]
  · unfold GetHrObsIgs_unit
    simp only []
    generalize (if ftpName = "CDDIS" then _ else _ : String × String) = uc
    split_ifs <;> simp only [ToLower_ToLower, ToLower_ToUpper]

theorem GetHrObsIgs_minu_cdWget (E : Env W) (ar : FtpArchive) (ep : EpochStr) (fopt : ftpopt_t)
    (ftpName : String) (hh : Nat) (uc : String × String) (line : String)
    (hU : ∀ (minu x : String) (s : St W),
      cdWget (GetHrObsIgs_unit E ar ep fopt ftpName hh minu x s).2.trace = cdWget s.trace ++
        (if fileExists E s (ToLower x ++ ep.sDoy ++ hourLetter hh ++ minu ++ "." ++ ep.sYy ++ "o") =
              false ∧
            fileExists E s (ToLower x ++ ep.sDoy ++ hourLetter hh ++ minu ++ "." ++ ep.sYy ++ "d") =
              false then
          [Event.sys (Cmd.wget (ToLower x ++ ep.sDoy ++ hourLetter hh ++ minu ++ "." ++ ep.sYy ++
            "d" ++ ".*") uc.2 uc.1)]
        else []) ∧
      ToLower (GetHrObsIgs_unit E ar ep fopt ftpName hh minu x s).1 = ToLower x) :
    ∀ (ms : List String) (p : String × St W), ToLower p.1 = ToLower line →
      (∀ b ∈ GetHrObsIgs_absentMinu E ar ep fopt ftpName hh ms p, b = true) →
      cdWget (ms.foldl (fun (p : String × St W) minu =>
          GetHrObsIgs_unit E ar ep fopt ftpName hh minu p.1 p.2) p).2.trace =
        cdWget p.2.trace ++ ms.map (fun minu =>
          Event.sys (Cmd.wget (ToLower line ++ ep.sDoy ++ hourLetter hh ++ minu ++ "." ++ ep.sYy ++
            "d" ++ ".*") uc.2 uc.1)) ∧
      ToLower (ms.foldl (fun (p : String × St W) minu =>
          GetHrObsIgs_unit E ar ep fopt ftpName hh minu p.1 p.2) p).1 = ToLower line := by
  intro ms
  induction ms with
  | nil => intro p hp _; exact ⟨by simp, hp⟩
  | cons minu ms ih =>
      intro p hp hb
      obtain ⟨h1, h2⟩ := hU minu p.1 p.2
      have hg := of_decide_eq_true (hb _ (List.mem_cons_self _ _))
      rw [if_pos hg, hp] at h1
      obtain ⟨i1, i2⟩ := ih (GetHrObsIgs_unit E ar ep fopt ftpName hh minu p.1 p.2)
        (h2.trans hp) (fun b hm => hb b (List.mem_cons_of_mem _ hm))
      refine ⟨?_, i2⟩
      rw [List.foldl_cons, i1, h1, List.map_cons, List.append_assoc]
      rfl

theorem GetHrObsIgs_hour_cdWget (E : Env W) (ar : FtpArchive) (ep : EpochStr) (fopt : ftpopt_t)
    (ftpName subDir : String) (url : Nat → String × String) (line : String)
    (hU : ∀ (hh : Nat) (minu x : String) (s : St W),
      cdWget (GetHrObsIgs_unit E ar ep fopt ftpName hh minu x s).2.trace = cdWget s.trace ++
        (if fileExists E s (ToLower x ++ ep.sDoy ++ hourLetter hh ++ minu ++ "." ++ ep.sYy ++ "o") =
              false ∧
            fileExists E s (ToLower x ++ ep.sDoy ++ hourLetter hh ++ minu ++ "." ++ ep.sYy ++ "d") =
              false then
          [Event.sys (Cmd.wget (ToLower x ++ ep.sDoy ++ hourLetter hh ++ minu ++ "." ++ ep.sYy ++
            "d" ++ ".*") (url hh).2 (url hh).1)]
        else []) ∧
      ToLower (GetHrObsIgs_unit E ar ep fopt ftpName hh minu x s).1 = ToLower x) :
    ∀ (hs : List Nat) (p : String × St W), ToLower p.1 = ToLower line →
      (∀ b ∈ GetHrObsIgs_absentHour E ar ep fopt ftpName subDir hs p, b = true) →
      cdWget (hs.foldl (fun (p : String × St W) hh =>
          GetHrObsIgs_iter E ar ep fopt ftpName subDir hh p.1 p.2) p).2.trace =
        cdWget p.2.trace ++ hs.flatMap (fun hh =>
          Event.cd (subDir ++ "/" ++ hh2str hh) :: hrUnits ep (url hh) line hh) ∧
      ToLower (hs.foldl (fun (p : String × St W) hh =>
          GetHrObsIgs_iter E ar ep fopt ftpName subDir hh p.1 p.2) p).1 = ToLower line := by
  intro hs
  induction hs with
  | nil => intro p hp _; exact ⟨by simp, hp⟩
  | cons hh hs ih =>
      intro p hp hb
      have hb1 : ∀ b ∈ GetHrObsIgs_absentMinu E ar ep fopt ftpName hh minuStr
          (p.1, (enterHourDir E fopt subDir (hh2str hh) p.2).2), b = true :=
        fun b hm => hb b (List.mem_append_left _ hm)
      have hb2 : ∀ b ∈ GetHrObsIgs_absentHour E ar ep fopt ftpName subDir hs
          (GetHrObsIgs_iter E ar ep fopt ftpName subDir hh p.1 p.2), b = true :=
        fun b hm => hb b (List.mem_append_right _ hm)
      obtain ⟨m1, m2⟩ := GetHrObsIgs_minu_cdWget E ar ep fopt ftpName hh (url hh) line
        (hU hh) minuStr (p.1, (enterHourDir E fopt subDir (hh2str hh) p.2).2) hp hb1
      have hit : GetHrObsIgs_iter E ar ep fopt ftpName subDir hh p.1 p.2 =
          minuStr.foldl (fun (p : String × St W) minu =>
            GetHrObsIgs_unit E ar ep fopt ftpName hh minu p.1 p.2)
            (p.1, (enterHourDir E fopt subDir (hh2str hh) p.2).2) := rfl
      obtain ⟨i1, i2⟩ := ih (GetHrObsIgs_iter E ar ep fopt ftpName subDir hh p.1 p.2)
        (by rw [hit]; exact m2) hb2
      refine ⟨?_, i2⟩
      rw [List.foldl_cons, i1, hit, m1, enterHourDir_cdWget, List.flatMap_cons]
      simp only [List.append_assoc, List.singleton_append, hrUnits]

theorem GetHrObsIgs_sites_cdWget (E : Env W) (ar : FtpArchive) (ep : EpochStr) (fopt : ftpopt_t)
    (ftpName subDir : String) (url : Nat → String × String)
    (hU : ∀ (hh : Nat) (minu x : String) (s : St W),
      cdWget (GetHrObsIgs_unit E ar ep fopt ftpName hh minu x s).2.trace = cdWget s.trace ++
        (if fileExists E s (ToLower x ++ ep.sDoy ++ hourLetter hh ++ minu ++ "." ++ ep.sYy ++ "o") =
              false ∧
            fileExists E s (ToLower x ++ ep.sDoy ++ hourLetter hh ++ minu ++ "." ++ ep.sYy ++ "d") =
              false then
          [Event.sys (Cmd.wget (ToLower x ++ ep.sDoy ++ hourLetter hh ++ minu ++ "." ++ ep.sYy ++
            "d" ++ ".*") (url hh).2 (url hh).1)]
        else []) ∧
      ToLower (GetHrObsIgs_unit E ar ep fopt ftpName hh minu x s).1 = ToLower x) :
    ∀ (sites : List String) (s : St W),
      (∀ b ∈ GetHrObsIgs_absent E ar ep fopt ftpName subDir sites s, b = true) →
      cdWget (sites.foldl (fun s line =>
          (fopt.hhObs.foldl (fun (p : String × St W) hh =>
            GetHrObsIgs_iter E ar ep fopt ftpName subDir hh p.1 p.2) (line, s)).2) s).trace =
        cdWget s.trace ++ hrPlan ep subDir url fopt.hhObs sites := by
  intro sites
  induction sites with
  | nil => intro s _; simp [hrPlan]
  | cons line ls ih =>
      intro s hb
      obtain ⟨h1, _⟩ := GetHrObsIgs_hour_cdWget E ar ep fopt ftpName subDir url line hU
        fopt.hhObs (line, s) rfl (fun b hm => hb b (List.mem_append_left _ hm))
      rw [List.foldl_cons, ih _ (fun b hm => hb b (List.mem_append_right _ hm)), h1]
      simp only [hrPlan, List.flatMap_cons, List.append_assoc]

theorem hrPlan_wget_length (ep : EpochStr) (subDir : String) (url : Nat → String × String)
    (hhs : List Nat) (sites : List String) :
    (wgetCmds (hrPlan ep subDir url hhs sites)).length = 4 * sites.length * hhs.length := by
  have hh1 : ∀ (site : String) (hs : List Nat),
      (wgetCmds (hs.flatMap fun hh =>
        Event.cd (subDir ++ "/" ++ hh2str hh) :: hrUnits ep (url hh) site hh)).length =
        4 * hs.length := by
    intro site hs
    induction hs with
    | nil => rfl
    | cons hh hs ih =>
        rw [List.flatMap_cons, wgetCmds_append, List.length_append, ih, List.length_cons]
        have : (wgetCmds (Event.cd (subDir ++ "/" ++ hh2str hh) ::
            hrUnits ep (url hh) site hh)).length = 4 := by
          simp [wgetCmds, hrUnits, minuStr]
        omega
  induction sites with
  | nil => simp [hrPlan, wgetCmds]
  | cons site ls ih =>
      have e : hrPlan ep subDir url hhs (site :: ls) =
          (hhs.flatMap fun hh =>
            Event.cd (subDir ++ "/" ++ hh2str hh) :: hrUnits ep (url hh) site hh) ++
          hrPlan ep subDir url hhs ls := by
        simp only [hrPlan, List.flatMap_cons]
      rw [e, wgetCmds_append, List.length_append, ih, hh1, List.length_cons]
      ring

/-- C11. In the site-list mode of `GetHrObsIgs` (option string of length at least 9, site
list there and readable with the lines `sites`), for every behaviour of the external
tools: when the `.o` and `.d` files of every unit are absent in the state in which the
unit tests them, the changes of directory and transfer commands of the run are, for each
site in list order and each configured hour in order, the change to
`<dir>/highrate/<hh>` followed by the four transfer commands of the quarter-hour labels
`00`, `15`, `30`, `45` in that order, with the accept patterns
`lower(site) + ddd + letter + label + "." + yy + "d.*"` (the units test and convert to the
names ending in `o`); the run issues exactly `4 * n * m` transfer commands for `n` lines
and `m` hours. The URL and `--cut-dirs` pair of an hour is the one its URL block (lines
746-754) gives for the archive. -/
theorem C11_hr_site_list_units (E : Env W) (ar : FtpArchive) (ep : EpochStr) (dir : String)
    (fopt : ftpopt_t) (s : St W) (sites : List String)
    (hlen : 9 ≤ fopt.obsOpt.length)
    (hex : fileExists E (makeSubDir E fopt dir "highrate" s).2 fopt.obsOpt = true)
    (hopen : E.openLines (makeSubDir E fopt dir "highrate" s).2.world fopt.obsOpt = some sites)
    (habs : ∀ b ∈ GetHrObsIgs_absent E ar ep fopt (ToUpper fopt.ftpFrom)
      (dir ++ "/" ++ "highrate") sites (makeSubDir E fopt dir "highrate" s).2, b = true) :
    ∃ url : Nat → String × String,
      (∀ hh, UrlCases (ToUpper fopt.ftpFrom) (url hh)
        (at_ ar.CDDIS IDX_OBSHR ++ "/" ++ ep.sYyyy ++ "/" ++ ep.sDoy ++ "/" ++ ep.sYy ++ "d" ++ "/" ++
          hh2str hh, " --cut-dirs=8 ")
        (at_ ar.IGN IDX_OBSHR ++ "/" ++ ep.sYyyy ++ "/" ++ ep.sDoy, " --cut-dirs=6 ")
        (at_ ar.CDDIS IDX_OBSHR ++ "/" ++ ep.sYyyy ++ "/" ++ ep.sDoy ++ "/" ++ ep.sYy ++ "d" ++ "/" ++
          hh2str hh, " --cut-dirs=8 ")
        (at_ ar.CDDIS IDX_OBSHR ++ "/" ++ ep.sYyyy ++ "/" ++ ep.sDoy ++ "/" ++ ep.sYy ++ "d" ++ "/" ++
          hh2str hh, " --cut-dirs=8 ")) ∧
      cdWget (GetHrObsIgs E ar ep dir fopt s).trace =
        cdWget s.trace ++ hrPlan ep (dir ++ "/" ++ "highrate") url fopt.hhObs sites ∧
      (wgetCmds (GetHrObsIgs E ar ep dir fopt s).trace).length =
        (wgetCmds s.trace).length + 4 * sites.length * fopt.hhObs.length := by
  choose url hurl hU using fun hh => GetHrObsIgs_unit_cdWget E ar ep fopt (ToUpper fopt.ftpFrom) hh
  have hrun : cdWget (GetHrObsIgs E ar ep dir fopt s).trace =
      cdWget s.trace ++ hrPlan ep (dir ++ "/" ++ "highrate") url fopt.hhObs sites := by
    have h := GetHrObsIgs_sites_cdWget E ar ep fopt (ToUpper fopt.ftpFrom)
      (dir ++ "/" ++ "highrate") url hU sites (makeSubDir E fopt dir "highrate" s).2 habs
    rw [makeSubDir_cdWget] at h
    rw [← h]
    unfold GetHrObsIgs
    simp only []
    have hb := length_le_strlen fopt.obsOpt
    rw [if_neg (by omega), if_pos hex]
    simp only [hopen, makeSubDir_fst]
  refine ⟨url, hurl, hrun, ?_⟩
  rw [← wgetCmds_cdWget, hrun, wgetCmds_append, wgetCmds_cdWget, List.length_append,
    hrPlan_wget_length]

set_option maxRecDepth 8192 in
/-- C11 for the site list `zimm`, `wtzr`, hours 0 and 1 of day 045 of 2021, archive CDDIS,
nothing on disk but the directories and the site list, tools that do nothing: sixteen
transfer commands, and the run starts with the change to `obs/highrate/00` and the
transfer command of `zimm045a00.21d.*`. -/
theorem C11_hr_site_list_units_witness :
    9 ≤ foptHr.obsOpt.length ∧
    (wgetCmds (GetHrObsIgs (simEnv [] [("site.list", ["zimm", "wtzr"])]) ftpArchive0 ep2021_045
      "obs" foptHr worldObsHr).trace).length = 16 ∧
    (cdWget (GetHrObsIgs (simEnv [] [("site.list", ["zimm", "wtzr"])]) ftpArchive0 ep2021_045
      "obs" foptHr worldObsHr).trace).take 2 =
      [ Event.cd "obs/highrate/00",
        Event.sys (Cmd.wget "zimm045a00.21d.*" " --cut-dirs=8 "
          "ftps://gdc.cddis.eosdis.nasa.gov/pub/gnss/data/highrate/2021/045/21d/00") ] := by
  obtain ⟨url, hurl, h1, h2⟩ := C11_hr_site_list_units (simEnv [] [("site.list", ["zimm", "wtzr"])])
    ftpArchive0 ep2021_045 "obs" foptHr worldObsHr ["zimm", "wtzr"] (by decide) (by decide)
    (by decide) (by decide)
  exact ⟨by decide, h2, by decide⟩

/-! ## C24: the size of the archive tables -/

/-- C24. The seventeen index constants are 0, 1, ..., 16 in the order `IDX_OBSD` to
`IDX_ZTD`; `init()` appends exactly 17 entries to each of the three tables; after `init()`
on a fresh `FtpUtil` each table holds exactly 17 base URLs; and for every index below 17
the element access `v[i]` reads an entry of the table, which is a non-empty URL. -/
theorem C24_init_tables_have_17_entries :
    [IDX_OBSD, IDX_OBSH, IDX_OBSHR, IDX_OBMD, IDX_OBMH, IDX_OBMHR, IDX_NAV, IDX_SP3, IDX_CLK,
      IDX_EOP, IDX_SNX, IDX_SP3M, IDX_CLKM, IDX_DCBM, IDX_ION, IDX_ROTI, IDX_ZTD] =
      List.range 17 ∧
    (∀ a : FtpArchive, (init a).CDDIS.length = a.CDDIS.length + 17 ∧
      (init a).IGN.length = a.IGN.length + 17 ∧ (init a).WHU.length = a.WHU.length + 17) ∧
    ftpArchive0.CDDIS.length = 17 ∧ ftpArchive0.IGN.length = 17 ∧
    ftpArchive0.WHU.length = 17 ∧
    ∀ i : Fin 17,
      ftpArchive0.CDDIS.get? i.val = some (at_ ftpArchive0.CDDIS i.val) ∧
      ftpArchive0.IGN.get? i.val = some (at_ ftpArchive0.IGN i.val) ∧
      ftpArchive0.WHU.get? i.val = some (at_ ftpArchive0.WHU i.val) ∧
      at_ ftpArchive0.CDDIS i.val ≠ "" ∧ at_ ftpArchive0.IGN i.val ≠ "" ∧
      at_ ftpArchive0.WHU i.val ≠ "" := by
  refine ⟨by decide, fun a => ?_, by decide, by decide, by decide, by decide⟩
  simp [init]

/-! ## C25: the return value of `main` -/

/-- C25. For every argument vector with `argc ≥ 1` and every behaviour of
`PreProcess::run`, `main` returns 0; with `argc = 1` it prints the missing-parameter
message, leaves the world as it was and does not call `PreProcess::run`; otherwise it
calls `PreProcess::run` exactly once, on `argv[1]`, prints nothing itself and returns 0
whatever that call did to the world. -/
theorem C25_main_returns_zero (run : String → W → W) (argv : List String) (w : W)
    (h : 1 ≤ argv.length) :
    (main run argv w).1 = 0 ∧
    (argv.length = 1 → main run argv w = (0, w, [MainEvent.out main_lost])) ∧
    (argv.length ≠ 1 → ∃ cfgFile, argv.get? 1 = some cfgFile ∧
      main run argv w = (0, run cfgFile w, [MainEvent.run cfgFile])) := by
  unfold main
  refine ⟨by split_ifs <;> rfl, fun h1 => by rw [if_pos h1], fun h1 => ?_⟩
  rw [if_neg h1]
  match argv, h, h1 with
  | [_], _, h1 => exact absurd rfl h1
  | _ :: c :: _, _, _ => exact ⟨c, rfl, rfl⟩

/-- C25 for `run_GOOD good.cfg` and for `run_GOOD` alone, with a `PreProcess::run` that
records its argument in the world: both return 0, the first one after one call on
`good.cfg`, the second one after the message and no call. -/
theorem C25_main_returns_zero_witness :
    1 ≤ ["run_GOOD", "good.cfg"].length ∧
    main (fun c w => w ++ [c]) ["run_GOOD", "good.cfg"] [] =
      (0, ["good.cfg"], [MainEvent.run "good.cfg"]) ∧
    main (fun c w => w ++ [c]) ["run_GOOD"] [] = (0, [], [MainEvent.out main_lost]) := by
  have h := C25_main_returns_zero (fun c (w : List String) => w ++ [c]) ["run_GOOD", "good.cfg"]
    [] (by decide)
  obtain ⟨c, hc, hm⟩ := h.2.2 (by decide)
  have : c = "good.cfg" := by
    have : some "good.cfg" = some c := hc
    exact (Option.some.inj this).symm
  subst this
  exact ⟨by decide, hm, by decide⟩

/-! ## C29: the real-time branch of `GetNav` -/

theorem toLower_ne_upper_R (c : Char) : Char.toLower c ≠ 'R' := by
  by_cases h : 65 ≤ c.toNat ∧ c.toNat ≤ 90
  · have h1 : Char.toLower c = Char.ofNat (c.toNat + 32) := by
      simp [Char.toLower, h]
    rw [h1]
    obtain ⟨ha, hb⟩ := h
    generalize c.toNat = n at ha hb
    interval_cases n <;> decide
  · have h1 : Char.toLower c = c := by
      simp [Char.toLower, h]
    rw [h1]
    intro hc
    apply h
    rw [hc]
    decide

theorem ToLower_ne_RTNAV (x : String) : ToLower x ≠ "RTNAV" := by
  intro h
  have hd : (ToLower x).data = ['R', 'T', 'N', 'A', 'V'] := by rw [h]
  simp only [ToLower] at hd
  cases hx : x.data with
  | nil => rw [hx] at hd; simp at hd
  | cons c r =>
      rw [hx] at hd
      simp only [List.map_cons, List.cons.injEq] at hd
      exact toLower_ne_upper_R c hd.1

theorem GetNav_dispatch (E : Env W) (ar : FtpArchive) (ep : EpochStr) (dir : String)
    (fopt : ftpopt_t) (s : St W) :
    GetNav E ar ep dir fopt s =
      (if ToLower fopt.navTyp = "daily" then
        GetNav_daily E ar ep dir fopt (ToUpper fopt.ftpFrom) (ToLower fopt.navOpt) s
      else if ToLower fopt.navTyp = "hourly" then
        GetNav_hourly E ar ep dir fopt (ToUpper fopt.ftpFrom) (ToLower fopt.navOpt) s
      else s) := by
  unfold GetNav
  simp only [if_neg (ToLower_ne_RTNAV fopt.navTyp)]

theorem GetNav_dailyFetch_adds (E : Env W) (ar : FtpArchive) (ep : EpochStr) (fopt : ftpopt_t)
    (ftpName nOpt navFile nav0File : String) (s : St W) (P : Cmd → Prop)
    (hP : ∀ p, P (Cmd.wget p (GetNav_dailyUrl ar ep ftpName).2 (GetNav_dailyUrl ar ep ftpName).1)) :
    AddsWget P s (GetNav_dailyFetch E ar ep fopt ftpName nOpt navFile nav0File s) := by
  refine addsWget_guard P _ _ (fileExists E s navFile = false ∧ fileExists E s nav0File = false)
    (Cmd.wget (navFile ++ ".*") _ _) ?_ (hP _)
  unfold GetNav_dailyFetch
  simp only [sysCmd, say, fileExists]
  split_ifs <;> simp [wgetCmds, List.filterMap_append]

theorem GetNav_hourlyUnit_adds (E : Env W) (ar : FtpArchive) (ep : EpochStr) (fopt : ftpopt_t)
    (ftpName sHh navFile nav0File : String) (s : St W) (P : Cmd → Prop)
    (hP : ∀ p uc, UrlCases ftpName uc
      (at_ ar.CDDIS IDX_OBMH ++ "/" ++ ep.sYyyy ++ "/" ++ ep.sDoy ++ "/" ++ sHh, " --cut-dirs=7 ")
      (at_ ar.IGN IDX_OBMH ++ "/" ++ ep.sYyyy ++ "/" ++ ep.sDoy, " --cut-dirs=6 ")
      (at_ ar.CDDIS IDX_OBMH ++ "/" ++ ep.sYyyy ++ "/" ++ ep.sDoy ++ "/" ++ sHh, " --cut-dirs=7 ")
      (at_ ar.CDDIS IDX_OBMH ++ "/" ++ ep.sYyyy ++ "/" ++ ep.sDoy ++ "/" ++ sHh, " --cut-dirs=7 ") →
      P (Cmd.wget p uc.2 uc.1)) :
    AddsWget P s (GetNav_hourlyUnit E ar ep fopt ftpName sHh navFile nav0File s) := by
  have hc := urlCases3 ftpName
    (at_ ar.CDDIS IDX_OBMH ++ "/" ++ ep.sYyyy ++ "/" ++ ep.sDoy ++ "/" ++ sHh, " --cut-dirs=7 ")
    (at_ ar.IGN IDX_OBMH ++ "/" ++ ep.sYyyy ++ "/" ++ ep.sDoy, " --cut-dirs=6 ")
    (at_ ar.CDDIS IDX_OBMH ++ "/" ++ ep.sYyyy ++ "/" ++ ep.sDoy ++ "/" ++ sHh, " --cut-dirs=7 ")
  unfold GetNav_hourlyUnit
  simp only []
  generalize (if ftpName = "CDDIS" then _ else _ : String × String) = uc at hc
  refine addsWget_one P _ _ (Cmd.wget (navFile ++ ".*") uc.2 uc.1) ?_ (hP _ uc hc)
  simp only [sysCmd, say, fileExists]
  split_ifs <;> simp [wgetCmds, List.filterMap_append]

theorem GetNav_daily_adds (E : Env W) (ar : FtpArchive) (ep : EpochStr) (dir : String)
    (fopt : ftpopt_t) (ftpName nOpt : String) (s : St W) (P : Cmd → Prop)
    (hP : ∀ p, P (Cmd.wget p (GetNav_dailyUrl ar ep ftpName).2 (GetNav_dailyUrl ar ep ftpName).1)) :
    AddsWget P s (GetNav_daily E ar ep dir fopt ftpName nOpt s) := by
  unfold GetNav_daily
  simp only []
  exact addsWget_trans P _ _ _ (addsWget_same P _ _ (by rw [chdir_wget, makeSubDir_wget]))
    (GetNav_dailyFetch_adds E ar ep fopt ftpName nOpt _ _ _ P hP)

theorem GetNav_hourlyIter_adds (E : Env W) (ar : FtpArchive) (ep : EpochStr) (fopt : ftpopt_t)
    (ftpName nOpt subDir : String) (hh : Nat) (sitName : String) (s : St W) (P : Cmd → Prop)
    (hP : ∀ p hh uc, UrlCases ftpName uc
      (at_ ar.CDDIS IDX_OBMH ++ "/" ++ ep.sYyyy ++ "/" ++ ep.sDoy ++ "/" ++ hh2str hh, " --cut-dirs=7 ")
      (at_ ar.IGN IDX_OBMH ++ "/" ++ ep.sYyyy ++ "/" ++ ep.sDoy, " --cut-dirs=6 ")
      (at_ ar.CDDIS IDX_OBMH ++ "/" ++ ep.sYyyy ++ "/" ++ ep.sDoy ++ "/" ++ hh2str hh, " --cut-dirs=7 ")
      (at_ ar.CDDIS IDX_OBMH ++ "/" ++ ep.sYyyy ++ "/" ++ ep.sDoy ++ "/" ++ hh2str hh, " --cut-dirs=7 ") →
      P (Cmd.wget p uc.2 uc.1)) :
    AddsWget P s (GetNav_hourlyIter E ar ep fopt ftpName nOpt subDir hh sitName s).2 := by
  unfold GetNav_hourlyIter
  simp only []
  refine addsWget_trans P _ (enterHourDir E fopt subDir (hh2str hh) s).2 _
    (addsWget_same P _ _ (enterHourDir_wget E fopt _ (hh2str hh) s)) ?_
  exact addsWget_foldl P
    (fun s (nf : String × String) =>
      GetNav_hourlyUnit E ar ep fopt ftpName (hh2str hh) nf.1 nf.2 s)
    (fun s nf => GetNav_hourlyUnit_adds E ar ep fopt ftpName (hh2str hh) nf.1 nf.2 s P
      (fun q uc hc => hP q hh uc hc)) _ _

theorem GetNav_hourly_adds (E : Env W) (ar : FtpArchive) (ep : EpochStr) (dir : String)
    (fopt : ftpopt_t) (ftpName nOpt : String) (s : St W) (P : Cmd → Prop)
    (hP : ∀ p hh uc, UrlCases ftpName uc
      (at_ ar.CDDIS IDX_OBMH ++ "/" ++ ep.sYyyy ++ "/" ++ ep.sDoy ++ "/" ++ hh2str hh, " --cut-dirs=7 ")
      (at_ ar.IGN IDX_OBMH ++ "/" ++ ep.sYyyy ++ "/" ++ ep.sDoy, " --cut-dirs=6 ")
      (at_ ar.CDDIS IDX_OBMH ++ "/" ++ ep.sYyyy ++ "/" ++ ep.sDoy ++ "/" ++ hh2str hh, " --cut-dirs=7 ")
      (at_ ar.CDDIS IDX_OBMH ++ "/" ++ ep.sYyyy ++ "/" ++ ep.sDoy ++ "/" ++ hh2str hh, " --cut-dirs=7 ") →
      P (Cmd.wget p uc.2 uc.1)) :
    AddsWget P s (GetNav_hourly E ar ep dir fopt ftpName nOpt s) := by
  have h0 : AddsWget P s (makeSubDir E fopt dir "hourly" s).2 :=
    addsWget_same P _ _ (makeSubDir_wget E fopt dir "hourly" s)
  refine addsWget_trans P _ _ _ h0 ?_
  unfold GetNav_hourly
  simp only []
  generalize (if fopt.getObs = true then fopt.obsOpt else _ : String) = sitFile
  split_ifs
  · split
    · exact addsWget_same P _ _ (sayErr_wget _ _)
    · exact addsWget_foldl P _ (fun s line => addsWget_foldl2 P _ (fun p hh =>
        GetNav_hourlyIter_adds E ar ep fopt ftpName nOpt _ hh p.1 p.2 P hP) _ (line, s)) _ _
  · exact addsWget_same P _ _ rfl

theorem GetNav_adds (E : Env W) (ar : FtpArchive) (ep : EpochStr) (dir : String)
    (fopt : ftpopt_t) (s : St W) (P : Cmd → Prop)
    (hD : ∀ p, P (Cmd.wget p (GetNav_dailyUrl ar ep (ToUpper fopt.ftpFrom)).2
      (GetNav_dailyUrl ar ep (ToUpper fopt.ftpFrom)).1))
    (hH : ∀ p hh uc, UrlCases (ToUpper fopt.ftpFrom) uc
      (at_ ar.CDDIS IDX_OBMH ++ "/" ++ ep.sYyyy ++ "/" ++ ep.sDoy ++ "/" ++ hh2str hh, " --cut-dirs=7 ")
      (at_ ar.IGN IDX_OBMH ++ "/" ++ ep.sYyyy ++ "/" ++ ep.sDoy, " --cut-dirs=6 ")
      (at_ ar.CDDIS IDX_OBMH ++ "/" ++ ep.sYyyy ++ "/" ++ ep.sDoy ++ "/" ++ hh2str hh, " --cut-dirs=7 ")
      (at_ ar.CDDIS IDX_OBMH ++ "/" ++ ep.sYyyy ++ "/" ++ ep.sDoy ++ "/" ++ hh2str hh, " --cut-dirs=7 ") →
      P (Cmd.wget p uc.2 uc.1)) :
    AddsWget P s (GetNav E ar ep dir fopt s) := by
  rw [GetNav_dispatch]
  split_ifs
  · exact GetNav_daily_adds E ar ep dir fopt _ _ s P hD
  · exact GetNav_hourly_adds E ar ep dir fopt _ _ s P hH
  · exact addsWget_same P _ _ rfl

theorem url_ne_lrz (b x : String) (hb : 10 ≤ b.length)
    (h : b.data.take 10 ≠ ['f', 't', 'p', ':', '/', '/', 'f', 't', 'p', '.']) :
    b ++ x ≠ "ftp://ftp.lrz.de/transfer/steigenb/brdm" := by
  have h2 := ne_of_take 10 b "ftp://ftp.lrz.de/transfer/steigenb/brdm" x "" hb (by decide) h
  rwa [String.append_empty] at h2

/-- C29. For every option set (every `navTyp` string in particular), every registry,
epoch, directory, state and tool behaviour: the lower-cased `navTyp` is never the
upper-case literal `RTNAV`, so `GetNav` is the daily processing when the lower-cased
`navTyp` is `daily`, the hourly processing when it is `hourly`, and nothing at all
otherwise: the real-time branch (`GetNav_rt`, the only place where `brdm<ddd>z.<yy>p` is
built) is never entered. With the registry of `init()`, no transfer command that `GetNav`
issues has the URL `ftp://ftp.lrz.de/transfer/steigenb/brdm` of that branch. -/
theorem C29_GetNav_never_real_time (E : Env W) (ar : FtpArchive) (ep : EpochStr)
    (dir : String) (fopt : ftpopt_t) (s : St W) :
    ToLower fopt.navTyp ≠ "RTNAV" ∧
    GetNav E ar ep dir fopt s =
      (if ToLower fopt.navTyp = "daily" then
        GetNav_daily E ar ep dir fopt (ToUpper fopt.ftpFrom) (ToLower fopt.navOpt) s
      else if ToLower fopt.navTyp = "hourly" then
        GetNav_hourly E ar ep dir fopt (ToUpper fopt.ftpFrom) (ToLower fopt.navOpt) s
      else s) ∧
    AddsWget (fun c => ∀ p cut, c ≠ Cmd.wget p cut "ftp://ftp.lrz.de/transfer/steigenb/brdm") s
      (GetNav E ftpArchive0 ep dir fopt s) := by
  refine ⟨ToLower_ne_RTNAV _, GetNav_dispatch E ar ep dir fopt s, ?_⟩
  refine GetNav_adds E ftpArchive0 ep dir fopt s _ (fun p q cut => ?_) (fun p hh uc hc q cut => ?_)
  · unfold GetNav_dailyUrl
    split_ifs <;>
      simp only [ne_eq, Cmd.wget.injEq, not_and, String.append_assoc] <;>
      intro _ _ <;>
      exact url_ne_lrz _ _ (by decide) (by decide)
  · obtain ⟨h1, h2, h3, h4⟩ := hc
    by_cases c1 : ToUpper fopt.ftpFrom = "CDDIS"
    · rw [h1 c1]
      simp only [ne_eq, Cmd.wget.injEq, not_and, String.append_assoc]
      intro _ _
      exact url_ne_lrz _ _ (by decide) (by decide)
    · by_cases c2 : ToUpper fopt.ftpFrom = "IGN"
      · rw [h2 c2]
        simp only [ne_eq, Cmd.wget.injEq, not_and, String.append_assoc]
        intro _ _
        exact url_ne_lrz _ _ (by decide) (by decide)
      · by_cases c3 : ToUpper fopt.ftpFrom = "WHU"
        · rw [h3 c3]
          simp only [ne_eq, Cmd.wget.injEq, not_and, String.append_assoc]
          intro _ _
          exact url_ne_lrz _ _ (by decide) (by decide)
        · rw [h4 c1 c2 c3]
          simp only [ne_eq, Cmd.wget.injEq, not_and, String.append_assoc]
          intro _ _
          exact url_ne_lrz _ _ (by decide) (by decide)

/-! ## C28: the ultra-rapid test of `FtpDownload` and the branches of `GetOrbClk` -/

/-- C28 fails for the option string `IGU`. The test of `FtpDownload` compares the string as
it is and does not take `IGU` for an ultra-rapid option, while `GetOrbClk` lower-cases it
and does: `FtpDownload` invokes `GetOrbClk` with mode 2 in the clock directory (and, with
the day window on, for the days before and after), and that invocation takes the
ultra-rapid branch and requests the orbit file `igu21450_00.sp3`. With `igu` in lower case
the two agree and there is the one orbit invocation only. -/
theorem C28_upper_case_ultra_option :
    FtpDownload_notUltra foptIGU = true ∧ GetOrbClk_ultra foptIGU = true ∧
    orbClkCalls (FtpDownload_orbClk ⟨0, "sp3", "clk"⟩ foptIGU) = [(0, "sp3", 1), (0, "clk", 2)] ∧
    orbClkCalls (FtpDownload_orbClk ⟨0, "sp3", "clk"⟩ { foptIGU with minusAdd1day := true }) =
      [(0, "sp3", 1), (0, "clk", 2), (-86400, "sp3", 1), (-86400, "clk", 2),
       (86400, "sp3", 1), (86400, "clk", 2)] ∧
    wgetCmds (GetOrbClk (simEnv [] []) ftpArchive0 ep2021_045 "clk" 2 foptIGU worldEmpty).trace =
      [Cmd.wget "igu21450_00.sp3.*" " --cut-dirs=4 "
        "ftps://gdc.cddis.eosdis.nasa.gov/pub/gnss/products/2145"] ∧
    FtpDownload_notUltra foptIgu = false ∧ GetOrbClk_ultra foptIgu = true ∧
    orbClkCalls (FtpDownload_orbClk ⟨0, "sp3", "clk"⟩ foptIgu) = [(0, "sp3", 1)] := by
  decide

/-! ## The transfer commands of `GetOrbClk` -/

theorem endsWith_append (x a suf : String) (h : suf.length ≤ a.length) :
    endsWith (x ++ a) suf = endsWith a suf := by
  unfold endsWith
  rw [Bool.eq_iff_iff, List.isSuffixOf_iff_suffix, List.isSuffixOf_iff_suffix,
    String.data_append]
  constructor
  · intro h1
    exact List.suffix_of_suffix_length_le h1 (List.suffix_append _ _) h
  · intro h1
    exact h1.trans (List.suffix_append _ _)

theorem cleanRepro3_wget (E : Env W) (fopt : ftpopt_t) (s : St W) :
    wgetCmds (cleanRepro3 E fopt s).trace = wgetCmds s.trace := by
  simp only [cleanRepro3, sysCmd, fileExists]
  split_ifs <;> simp [wgetCmds, List.filterMap_append]

theorem GetOrbClk_iguUnit_adds (E : Env W) (ep : EpochStr) (fopt : ftpopt_t) (ac : String)
    (uc : String × String) (hh : Nat) (s : St W) (P : Cmd → Prop)
    (hP : P (Cmd.wget (ac ++ ep.sWwww ++ ep.sDow ++ "_" ++ hh2str hh ++ ".sp3" ++ ".*") uc.2 uc.1)) :
    AddsWget P s (GetOrbClk_iguUnit E ep fopt ac uc hh s) := by
  refine addsWget_guard P _ _
    (fileExists E s (ac ++ ep.sWwww ++ ep.sDow ++ "_" ++ hh2str hh ++ ".sp3") = false) _ ?_ hP
  unfold GetOrbClk_iguUnit
  simp only [cleanRepro3, sysCmd, say, fileExists]
  split_ifs <;> simp [wgetCmds, List.filterMap_append]

theorem GetOrbClk_gfuUnit_adds (E : Env W) (ep : EpochStr) (fopt : ftpopt_t) (ac : String)
    (uc : String × String) (hh : Nat) (s : St W) (P : Cmd → Prop)
    (hP : P (Cmd.wget (ac ++ ep.sWwww ++ ep.sDow ++ "_" ++ hh2str hh ++ ".sp3" ++ ".*") uc.2 uc.1)) :
    AddsWget P s (GetOrbClk_gfuUnit E ep fopt ac uc hh s) := by
  refine addsWget_guard P _ _
    (fileExists E s (ac ++ ep.sWwww ++ ep.sDow ++ "_" ++ hh2str hh ++ ".sp3") = false) _ ?_ hP
  unfold GetOrbClk_gfuUnit
  simp only [sysCmd, say, fileExists]
  split_ifs <;> simp [wgetCmds, List.filterMap_append]

theorem GetOrbClk_wuuUnit_adds (E : Env W) (ep : EpochStr) (fopt : ftpopt_t)
    (uc : String × String) (hh : Nat) (s : St W) (P : Cmd → Prop)
    (hP : P (Cmd.wget ("WUM0MGXULA_" ++ ep.sYyyy ++ ep.sDoy ++ hh2str hh ++ "00_01D_05M_ORB.SP3" ++
      ".*") uc.2 uc.1)) :
    AddsWget P s (GetOrbClk_wuuUnit E ep fopt uc hh s) := by
  refine addsWget_guard P _ _
    (fileExists E s ("WUM0MGXULA_" ++ ep.sYyyy ++ ep.sDoy ++ hh2str hh ++ "00_01D_05M_ORB.SP3") =
      false) _ ?_ hP
  unfold GetOrbClk_wuuUnit
  simp only [sysCmd, say, fileExists]
  split_ifs <;> simp [wgetCmds, List.filterMap_append]

theorem GetOrbClk_igsSp3_adds (E : Env W) (fopt : ftpopt_t) (uc : String × String)
    (sp3File : String) (s : St W) (P : Cmd → Prop)
    (hP : P (Cmd.wget (sp3File ++ ".*") uc.2 uc.1)) :
    AddsWget P s (GetOrbClk_igsSp3 E fopt uc sp3File s) := by
  refine addsWget_guard P _ _ (fileExists E s sp3File = false) _ ?_ hP
  unfold GetOrbClk_igsSp3
  simp only [cleanRepro3, sysCmd, say, fileExists]
  split_ifs <;> simp [wgetCmds, List.filterMap_append]

theorem GetOrbClk_igsClk_adds (E : Env W) (fopt : ftpopt_t) (uc : String × String)
    (clkFile : String) (s : St W) (P : Cmd → Prop)
    (hP : P (Cmd.wget (clkFile ++ ".*") uc.2 uc.1)) :
    AddsWget P s (GetOrbClk_igsClk E fopt uc clkFile s) := by
  refine addsWget_guard P _ _ (fileExists E s clkFile = false) _ ?_ hP
  unfold GetOrbClk_igsClk
  simp only [cleanRepro3, sysCmd, say, fileExists]
  split_ifs <;> simp [wgetCmds, List.filterMap_append]

theorem GetOrbClk_mgexSp3_adds (E : Env W) (fopt : ftpopt_t) (uc : String × String)
    (sp3File sp30File : String) (s : St W) (P : Cmd → Prop)
    (hP : P (Cmd.wget (sp3File ++ ".*") uc.2 uc.1)) :
    AddsWget P s (GetOrbClk_mgexSp3 E fopt uc sp3File sp30File s) := by
  refine addsWget_guard P _ _ (fileExists E s sp30File = false) _ ?_ hP
  unfold GetOrbClk_mgexSp3
  simp only [sysCmd, say, fileExists]
  split_ifs <;> simp [wgetCmds, List.filterMap_append]

theorem GetOrbClk_mgexClk_adds (E : Env W) (fopt : ftpopt_t) (uc : String × String)
    (clkFile clk0File : String) (s : St W) (P : Cmd → Prop)
    (hP : P (Cmd.wget (clkFile ++ ".*") uc.2 uc.1)) :
    AddsWget P s (GetOrbClk_mgexClk E fopt uc clkFile clk0File s) := by
  refine addsWget_guard P _ _ (fileExists E s clk0File = false) _ ?_ hP
  unfold GetOrbClk_mgexClk
  simp only [sysCmd, say, fileExists]
  split_ifs <;> simp [wgetCmds, List.filterMap_append]

theorem mem_of_any_beq (l : List String) (a : String) (h : (l.any fun b => a == b) = true) :
    a ∈ l := by
  rw [List.any_eq_true] at h
  obtain ⟨b, hb, e⟩ := h
  rw [beq_iff_eq] at e
  rw [e]; exact hb

theorem GetOrbClk_adds (E : Env W) (ar : FtpArchive) (ep : EpochStr) (dir : String) (mode : Nat)
    (fopt : ftpopt_t) (s : St W) (P : Cmd → Prop)
    (hIgu : ToLower fopt.orbClkOpt = "igu" → ∀ hh,
      P (Cmd.wget ("igu" ++ ep.sWwww ++ ep.sDow ++ "_" ++ hh2str hh ++ ".sp3" ++ ".*")
        (GetOrbClk_igsUrl ar ep (ToUpper fopt.ftpFrom)).2
        (GetOrbClk_igsUrl ar ep (ToUpper fopt.ftpFrom)).1))
    (hGfu : ToLower fopt.orbClkOpt = "gfu" → ∀ hh,
      P (Cmd.wget ("gfu" ++ ep.sWwww ++ ep.sDow ++ "_" ++ hh2str hh ++ ".sp3" ++ ".*")
        " --cut-dirs=5 " ("ftp://ftp.gfz-potsdam.de/pub/GNSS/products/ultra/w" ++ ep.sWwww)))
    (hSp3 : ToLower fopt.orbClkOpt ∈ acIGS → ToLower fopt.orbClkOpt ≠ "igu" →
      ToLower fopt.orbClkOpt ≠ "gfu" → mode = 1 →
      P (Cmd.wget ((GetOrbClk_igsNames ep (ToLower fopt.orbClkOpt)).1 ++ ".*")
        (GetOrbClk_igsUrl ar ep (ToUpper fopt.ftpFrom)).2
        (GetOrbClk_igsUrl ar ep (ToUpper fopt.ftpFrom)).1))
    (hClk : ToLower fopt.orbClkOpt ∈ acIGS → ToLower fopt.orbClkOpt ≠ "igu" →
      ToLower fopt.orbClkOpt ≠ "gfu" → mode = 2 →
      P (Cmd.wget ((GetOrbClk_igsNames ep (ToLower fopt.orbClkOpt)).2 ++ ".*")
        (GetOrbClk_igsUrl ar ep (ToUpper fopt.ftpFrom)).2
        (GetOrbClk_igsUrl ar ep (ToUpper fopt.ftpFrom)).1))
    (hWuu : ToLower fopt.orbClkOpt = "wuu" → ∀ hh uc,
      UrlCases (ToUpper fopt.ftpFrom) uc
        (at_ ar.CDDIS IDX_SP3M ++ "/" ++ ep.sWwww, " --cut-dirs=5 ")
        (at_ ar.IGN IDX_SP3M ++ "/" ++ ep.sWwww, " --cut-dirs=5 ")
        (at_ ar.WHU IDX_SP3M ++ "/" ++ ep.sWwww, " --cut-dirs=5 ")
        (at_ ar.CDDIS IDX_SP3M ++ "/" ++ ep.sWwww, " --cut-dirs=5 ") →
      P (Cmd.wget ("WUM0MGXULA_" ++ ep.sYyyy ++ ep.sDoy ++ hh2str hh ++ "00_01D_05M_ORB.SP3" ++
        ".*") uc.2 uc.1))
    (hMSp3 : ToLower fopt.orbClkOpt ∈ ["com", "gbm", "grm", "wum"] → mode = 1 → ∀ uc,
      UrlCases (ToUpper fopt.ftpFrom) uc
        (at_ ar.CDDIS IDX_SP3M ++ "/" ++ ep.sWwww, " --cut-dirs=5 ")
        (at_ ar.IGN IDX_SP3M ++ "/" ++ ep.sWwww, " --cut-dirs=5 ")
        (at_ ar.WHU IDX_SP3M ++ "/" ++ ep.sWwww, " --cut-dirs=5 ")
        (at_ ar.CDDIS IDX_SP3M ++ "/" ++ ep.sWwww, " --cut-dirs=5 ") →
      P (Cmd.wget ((GetOrbClk_mgexNames ep (ToLower fopt.orbClkOpt)).sp3File ++ ".*") uc.2 uc.1))
    (hMClk : ToLower fopt.orbClkOpt ∈ ["com", "gbm", "grm", "wum"] → mode = 2 → ∀ uc,
      UrlCases (ToUpper fopt.ftpFrom) uc
        (at_ ar.CDDIS IDX_SP3M ++ "/" ++ ep.sWwww, " --cut-dirs=5 ")
        (at_ ar.IGN IDX_SP3M ++ "/" ++ ep.sWwww, " --cut-dirs=5 ")
        (at_ ar.WHU IDX_SP3M ++ "/" ++ ep.sWwww, " --cut-dirs=5 ")
        (at_ ar.CDDIS IDX_SP3M ++ "/" ++ ep.sWwww, " --cut-dirs=5 ") →
      P (Cmd.wget ((GetOrbClk_mgexNames ep (ToLower fopt.orbClkOpt)).clkFile ++ ".*") uc.2 uc.1)) :
    AddsWget P s (GetOrbClk E ar ep dir mode fopt s) := by
  have h0 : AddsWget P s (chdir E dir s) := addsWget_same P _ _ (chdir_wget E dir s)
  refine addsWget_trans P _ _ _ h0 ?_
  have hc := urlCases4 (ToUpper fopt.ftpFrom)
    (at_ ar.CDDIS IDX_SP3M ++ "/" ++ ep.sWwww, " --cut-dirs=5 ")
    (at_ ar.IGN IDX_SP3M ++ "/" ++ ep.sWwww, " --cut-dirs=5 ")
    (at_ ar.WHU IDX_SP3M ++ "/" ++ ep.sWwww, " --cut-dirs=5 ")
    (at_ ar.CDDIS IDX_SP3M ++ "/" ++ ep.sWwww, " --cut-dirs=5 ")
  unfold GetOrbClk
  simp only []
  generalize (if ToUpper fopt.ftpFrom = "CDDIS" then _ else _ : String × String) = uc at hc
  generalize hac : ToLower fopt.orbClkOpt = ac at *
  by_cases hI : (acIGS.any fun a => ac == a) = true
  · rw [if_pos hI]
    have hmem := mem_of_any_beq _ _ hI
    by_cases h1 : ac = "igu"
    · rw [if_pos h1]
      subst h1
      exact addsWget_foldl P _ (fun s hh => GetOrbClk_iguUnit_adds E ep fopt _ _ hh s P
        (hIgu rfl hh)) _ _
    · rw [if_neg h1]
      by_cases h2 : ac = "gfu"
      · rw [if_pos h2]
        subst h2
        exact addsWget_foldl P _ (fun s hh => GetOrbClk_gfuUnit_adds E ep fopt _ _ hh s P
          (hGfu rfl hh)) _ _
      · rw [if_neg h2]
        by_cases m1 : mode = 1
        · rw [if_pos m1]
          exact GetOrbClk_igsSp3_adds E fopt _ _ _ P (hSp3 hmem h1 h2 m1)
        · rw [if_neg m1]
          by_cases m2 : mode = 2
          · rw [if_pos m2]
            exact GetOrbClk_igsClk_adds E fopt _ _ _ P (hClk hmem h1 h2 m2)
          · rw [if_neg m2]
            exact addsWget_same P _ _ rfl
  · rw [if_neg hI]
    by_cases hM : (acMGEX.any fun a => ac == a) = true
    · rw [if_pos hM]
      have hmem := mem_of_any_beq _ _ hM
      by_cases h3 : ac = "wuu"
      · rw [if_pos h3]
        exact addsWget_foldl P _ (fun s hh => GetOrbClk_wuuUnit_adds E ep fopt _ hh s P
          (hWuu h3 hh uc hc)) _ _
      · rw [if_neg h3]
        have hm4 : ac ∈ ["com", "gbm", "grm", "wum"] := by
          simp only [acMGEX, List.mem_cons, List.mem_singleton] at hmem ⊢
          simp only [List.not_mem_nil, or_false] at hmem ⊢
          rcases hmem with h | h | h | h | h
          · exact Or.inl h
          · exact Or.inr (Or.inl h)
          · exact Or.inr (Or.inr (Or.inl h))
          · exact Or.inr (Or.inr (Or.inr h))
          · exact absurd h h3
        by_cases m1 : mode = 1
        · rw [if_pos m1]
          exact GetOrbClk_mgexSp3_adds E fopt _ _ _ _ P (hMSp3 hm4 m1 uc hc)
        · rw [if_neg m1]
          by_cases m2 : mode = 2
          · rw [if_pos m2]
            exact GetOrbClk_mgexClk_adds E fopt _ _ _ _ P (hMClk hm4 m2 uc hc)
          · rw [if_neg m2]
            exact addsWget_same P _ _ rfl
    · rw [if_neg hM]
      exact addsWget_same P _ _ rfl

theorem endsWith_append_long (x a suf : String) (h : a.length ≤ suf.length)
    (hn : endsWith suf a = false) : endsWith (x ++ a) suf = false := by
  unfold endsWith at hn ⊢
  rw [Bool.eq_false_iff] at hn ⊢
  intro h1
  apply hn
  rw [List.isSuffixOf_iff_suffix] at h1 ⊢
  rw [String.data_append] at h1
  exact List.suffix_of_suffix_length_le (List.suffix_append _ _) h1 h

theorem endsWith_tail (x a suf : String)
    (h : (decide (suf.length ≤ a.length) || !endsWith suf a) = true) :
    endsWith (x ++ a) suf = endsWith a suf := by
  by_cases h1 : suf.length ≤ a.length
  · exact endsWith_append x a suf h1
  · have h2 : endsWith suf a = false := by simpa [h1] using h
    rw [endsWith_append_long x a suf (by omega) h2]
    symm
    unfold endsWith
    rw [Bool.eq_false_iff]
    intro h3
    rw [List.isSuffixOf_iff_suffix] at h3
    have := h3.length_le
    simp only [String.length] at h1
    omega

theorem isOrbitPattern_tail (x a b : String)
    (h : (decide (6 ≤ (a ++ b).length)) = true) :
    isOrbitPattern (x ++ a ++ b) = isOrbitPattern (a ++ b) := by
  have h6 : 6 ≤ (a ++ b).length := by simpa using h
  have e : ∀ suf : String, suf.length = 6 →
      endsWith (x ++ (a ++ b)) suf = endsWith (a ++ b) suf :=
    fun suf hs => endsWith_append x (a ++ b) suf (by omega)
  unfold isOrbitPattern
  rw [String.append_assoc, e ".sp3.*" (by decide), e ".SP3.*" (by decide),
    e ".eph.*" (by decide)]

theorem isClockPattern_tail (x a b : String)
    (h : (decide (6 ≤ (a ++ b).length) &&
      (decide (10 ≤ (a ++ b).length) ||
        (!endsWith ".clk_05s.*" (a ++ b) && !endsWith ".clk_30s.*" (a ++ b)))) = true) :
    isClockPattern (x ++ a ++ b) = isClockPattern (a ++ b) := by
  rw [Bool.and_eq_true] at h
  obtain ⟨h6, h10⟩ := h
  have h6 : 6 ≤ (a ++ b).length := by simpa using h6
  have e : ∀ suf : String, suf.length = 6 →
      endsWith (x ++ (a ++ b)) suf = endsWith (a ++ b) suf :=
    fun suf hs => endsWith_append x (a ++ b) suf (by omega)
  have e5 : endsWith (x ++ (a ++ b)) ".clk_05s.*" = endsWith (a ++ b) ".clk_05s.*" := by
    apply endsWith_tail
    rw [Bool.or_eq_true] at h10 ⊢
    rcases h10 with h | h
    · exact Or.inl h
    · rw [Bool.and_eq_true] at h; exact Or.inr h.1
  have e3 : endsWith (x ++ (a ++ b)) ".clk_30s.*" = endsWith (a ++ b) ".clk_30s.*" := by
    apply endsWith_tail
    rw [Bool.or_eq_true] at h10 ⊢
    rcases h10 with h | h
    · exact Or.inl h
    · rw [Bool.and_eq_true] at h; exact Or.inr h.2
  unfold isClockPattern
  rw [String.append_assoc, e ".clk.*" (by decide), e ".CLK.*" (by decide), e5, e3]

theorem orbitRequest_tail (x a b cut url : String)
    (h : (decide (6 ≤ (a ++ b).length) &&
      (decide (10 ≤ (a ++ b).length) ||
        (!endsWith ".clk_05s.*" (a ++ b) && !endsWith ".clk_30s.*" (a ++ b)))) = true)
    (ho : isOrbitPattern (a ++ b) = true) (hc : isClockPattern (a ++ b) = false) :
    OrbitRequest (Cmd.wget (x ++ a ++ b) cut url) := by
  refine ⟨_, _, _, rfl, ?_, ?_⟩
  · rw [isOrbitPattern_tail x a b (by rw [Bool.and_eq_true] at h; exact h.1)]; exact ho
  · rw [isClockPattern_tail x a b h]; exact hc

theorem clockRequest_tail (x a b cut url : String)
    (h : (decide (6 ≤ (a ++ b).length) &&
      (decide (10 ≤ (a ++ b).length) ||
        (!endsWith ".clk_05s.*" (a ++ b) && !endsWith ".clk_30s.*" (a ++ b)))) = true)
    (hc : isClockPattern (a ++ b) = true) (ho : isOrbitPattern (a ++ b) = false) :
    ClockRequest (Cmd.wget (x ++ a ++ b) cut url) := by
  refine ⟨_, _, _, rfl, ?_, ?_⟩
  · rw [isClockPattern_tail x a b h]; exact hc
  · rw [isOrbitPattern_tail x a b (by rw [Bool.and_eq_true] at h; exact h.1)]; exact ho

theorem GetOrbClk_igsNames_orbit (ep : EpochStr) (ac cut url : String) :
    OrbitRequest (Cmd.wget ((GetOrbClk_igsNames ep ac).1 ++ ".*") cut url) := by
  unfold GetOrbClk_igsNames
  split_ifs
  · exact orbitRequest_tail _ ".eph" ".*" _ _ (by decide) (by decide) (by decide)
  · exact orbitRequest_tail _ ".sp3" ".*" _ _ (by decide) (by decide) (by decide)
  · exact orbitRequest_tail _ ".sp3" ".*" _ _ (by decide) (by decide) (by decide)

theorem GetOrbClk_igsNames_clock (ep : EpochStr) (ac cut url : String) :
    ClockRequest (Cmd.wget ((GetOrbClk_igsNames ep ac).2 ++ ".*") cut url) := by
  unfold GetOrbClk_igsNames
  split_ifs
  · exact clockRequest_tail _ ".clk_05s" ".*" _ _ (by decide) (by decide) (by decide)
  · exact clockRequest_tail _ ".clk_30s" ".*" _ _ (by decide) (by decide) (by decide)
  · exact clockRequest_tail _ ".clk" ".*" _ _ (by decide) (by decide) (by decide)

theorem GetOrbClk_mgexNames_orbit (ep : EpochStr) (ac cut url : String)
    (h : ac ∈ ["com", "gbm", "grm", "wum"]) :
    OrbitRequest (Cmd.wget ((GetOrbClk_mgexNames ep ac).sp3File ++ ".*") cut url) := by
  simp only [List.mem_cons, List.mem_singleton, List.not_mem_nil, or_false] at h
  rcases h with h | h | h | h <;> subst h <;>
    exact orbitRequest_tail _ "*_ORB.SP3" ".*" _ _ (by decide) (by decide) (by decide)

theorem GetOrbClk_mgexNames_clock (ep : EpochStr) (ac cut url : String)
    (h : ac ∈ ["com", "gbm", "grm", "wum"]) :
    ClockRequest (Cmd.wget ((GetOrbClk_mgexNames ep ac).clkFile ++ ".*") cut url) := by
  simp only [List.mem_cons, List.mem_singleton, List.not_mem_nil, or_false] at h
  rcases h with h | h | h | h <;> subst h <;>
    exact clockRequest_tail _ "*_CLK.CLK" ".*" _ _ (by decide) (by decide) (by decide)

theorem GetOrbClk_ultra_false (fopt : ftpopt_t) (h : GetOrbClk_ultra fopt = false) :
    ToLower fopt.orbClkOpt ≠ "igu" ∧ ToLower fopt.orbClkOpt ≠ "gfu" ∧
      ToLower fopt.orbClkOpt ≠ "wuu" := by
  simpa [GetOrbClk_ultra] using h

theorem GetOrbClk_ultra_true (fopt : ftpopt_t) (h : GetOrbClk_ultra fopt = true) :
    ToLower fopt.orbClkOpt = "igu" ∨ ToLower fopt.orbClkOpt = "gfu" ∨
      ToLower fopt.orbClkOpt = "wuu" := by
  simpa [GetOrbClk_ultra] using h

/-! ## C23: what a call of `GetOrbClk` requests -/

/-- C23 fails for the ultra-rapid options. The option `igu` is accepted by `GetOrbClk`,
and a call with mode 2 on day 045 of 2021 (week 2145, day 0), hour 0, with nothing on
disk, issues a transfer command for the orbit name `igu21450_00.sp3`, and none for a
clock name, where the description of the parameter at lines 1956-1966 says
`mode (=1:sp3 downloaded; =2:clk downloadeded)` and the branches of the other options
test `mode`. -/
theorem C23_igu_mode_2_requests_orbit :
    foptIgu.orbClkOpt ∈ acIGS ∧
    wgetCmds (GetOrbClk (simEnv [] []) ftpArchive0 ep2021_045 "clk" 2 foptIgu worldEmpty).trace =
      [Cmd.wget "igu21450_00.sp3.*" " --cut-dirs=4 "
        "ftps://gdc.cddis.eosdis.nasa.gov/pub/gnss/products/2145"] ∧
    isOrbitPattern "igu21450_00.sp3.*" = true ∧ isClockPattern "igu21450_00.sp3.*" = false := by
  decide

/-- The extent of C23. For every option string, registry, epoch, state and tool behaviour: when
the lower-cased option is none of `igu`, `gfu`, `wuu`, every transfer command added by a
call with mode 1 requests an orbit name (`.sp3`, `.SP3` or `.eph`) and no clock name, and
every transfer command added by a call with mode 2 requests a clock name (`.clk`,
`.clk_05s`, `.clk_30s` or `.CLK`) and no orbit name; when the lower-cased option is one of
`igu`, `gfu`, `wuu`, every transfer command added by a call, whatever the mode, requests
an orbit name and no clock name: the branches of lines 2007, 2060 and 2217 never test
`mode`. -/
theorem C23_mode_selects_orbit_or_clock (E : Env W) (ar : FtpArchive) (ep : EpochStr)
    (dir : String) (mode : Nat) (fopt : ftpopt_t) (s : St W) :
    (GetOrbClk_ultra fopt = false → mode = 1 →
      AddsWget OrbitRequest s (GetOrbClk E ar ep dir mode fopt s)) ∧
    (GetOrbClk_ultra fopt = false → mode = 2 →
      AddsWget ClockRequest s (GetOrbClk E ar ep dir mode fopt s)) ∧
    (GetOrbClk_ultra fopt = true →
      AddsWget OrbitRequest s (GetOrbClk E ar ep dir mode fopt s)) := by
  refine ⟨fun hu hm => ?_, fun hu hm => ?_, fun hu => ?_⟩
  · obtain ⟨n1, n2, n3⟩ := GetOrbClk_ultra_false fopt hu
    refine GetOrbClk_adds E ar ep dir mode fopt s _ (fun h => absurd h n1)
      (fun h => absurd h n2) (fun _ _ _ _ => GetOrbClk_igsNames_orbit ep _ _ _)
      (fun _ _ _ m2 => ?_) (fun h => absurd h n3)
      (fun h _ uc _ => GetOrbClk_mgexNames_orbit ep _ _ _ h) (fun _ m2 => ?_)
    · omega
    · omega
  · obtain ⟨n1, n2, n3⟩ := GetOrbClk_ultra_false fopt hu
    refine GetOrbClk_adds E ar ep dir mode fopt s _ (fun h => absurd h n1)
      (fun h => absurd h n2) (fun _ _ _ m1 => ?_)
      (fun _ _ _ _ => GetOrbClk_igsNames_clock ep _ _ _) (fun h => absurd h n3)
      (fun _ m1 => ?_) (fun h _ uc _ => GetOrbClk_mgexNames_clock ep _ _ _ h)
    · omega
    · omega
  · have hu3 := GetOrbClk_ultra_true fopt hu
    have hI : ToLower fopt.orbClkOpt ∈ acIGS → ToLower fopt.orbClkOpt ≠ "igu" →
        ToLower fopt.orbClkOpt ≠ "gfu" → False := by
      intro hm a b
      rcases hu3 with h | h | h
      · exact a h
      · exact b h
      · rw [h] at hm; exact absurd hm (by decide)
    have hM : ToLower fopt.orbClkOpt ∈ ["com", "gbm", "grm", "wum"] → False := by
      intro hm
      rcases hu3 with h | h | h <;> rw [h] at hm <;> exact absurd hm (by decide)
    refine GetOrbClk_adds E ar ep dir mode fopt s _
      (fun _ hh => orbitRequest_tail _ ".sp3" ".*" _ _ (by decide) (by decide) (by decide))
      (fun _ hh => orbitRequest_tail _ ".sp3" ".*" _ _ (by decide) (by decide) (by decide))
      (fun a b c _ => (hI a b c).elim) (fun a b c _ => (hI a b c).elim)
      (fun _ hh uc _ => orbitRequest_tail _ "00_01D_05M_ORB.SP3" ".*" _ _ (by decide)
        (by decide) (by decide))
      (fun a _ => (hM a).elim) (fun a _ => (hM a).elim)

/-- The extent of C23 for the option `com` in mode 2 on day 045 of 2021 with nothing on disk:
the one transfer command of the call requests the clock pattern of CODE; and for the
option `igu` in mode 2: the transfer command requests an orbit name. -/
theorem C23_mode_selects_orbit_or_clock_witness :
    GetOrbClk_ultra foptCom = false ∧
    AddsWget ClockRequest worldEmpty
      (GetOrbClk (simEnv [] []) ftpArchive0 ep2021_045 "clk" 2 foptCom worldEmpty) ∧
    wgetCmds (GetOrbClk (simEnv [] []) ftpArchive0 ep2021_045 "clk" 2 foptCom worldEmpty).trace =
      [Cmd.wget "COD0MGXFIN_20210450000_01D_*_CLK.CLK.*" " --cut-dirs=5 "
        "ftps://gdc.cddis.eosdis.nasa.gov/pub/gnss/products/mgex/2145"] ∧
    GetOrbClk_ultra foptIgu = true ∧
    AddsWget OrbitRequest worldEmpty
      (GetOrbClk (simEnv [] []) ftpArchive0 ep2021_045 "clk" 2 foptIgu worldEmpty) :=
  ⟨by decide,
    (C23_mode_selects_orbit_or_clock (simEnv [] []) ftpArchive0 ep2021_045 "clk" 2 foptCom
      worldEmpty).2.1 (by decide) rfl,
    by decide, by decide,
    (C23_mode_selects_orbit_or_clock (simEnv [] []) ftpArchive0 ep2021_045 "clk" 2 foptIgu
      worldEmpty).2.2 (by decide)⟩

/-! ## The mode selection of the observation procedures -/

theorem GetDailyObsIgs_openLines (E : Env W) (f : W → String → Option (List String))
    (ar : FtpArchive) (ep : EpochStr) (dir : String) (fopt : ftpopt_t) (s : St W)
    (h : strlen fopt.obsOpt < 9) :
    GetDailyObsIgs (withOpenLines E f) ar ep dir fopt s = GetDailyObsIgs E ar ep dir fopt s := by
  unfold GetDailyObsIgs
  simp only []
  rw [if_pos h, if_pos h]
  rfl

theorem GetHourlyObsIgs_openLines (E : Env W) (f : W → String → Option (List String))
    (ar : FtpArchive) (ep : EpochStr) (dir : String) (fopt : ftpopt_t) (s : St W)
    (h : strlen fopt.obsOpt < 9) :
    GetHourlyObsIgs (withOpenLines E f) ar ep dir fopt s = GetHourlyObsIgs E ar ep dir fopt s := by
  unfold GetHourlyObsIgs
  simp only []
  rw [if_pos h, if_pos h]
  rfl

theorem GetHrObsIgs_openLines (E : Env W) (f : W → String → Option (List String))
    (ar : FtpArchive) (ep : EpochStr) (dir : String) (fopt : ftpopt_t) (s : St W)
    (h : strlen fopt.obsOpt < 9) :
    GetHrObsIgs (withOpenLines E f) ar ep dir fopt s = GetHrObsIgs E ar ep dir fopt s := by
  unfold GetHrObsIgs
  simp only []
  rw [if_pos h, if_pos h]
  rfl

theorem GetDailyObsMgex_openLines (E : Env W) (f : W → String → Option (List String))
    (ar : FtpArchive) (ep : EpochStr) (dir : String) (fopt : ftpopt_t) (s : St W)
    (h : strlen fopt.obmOpt < 9) :
    GetDailyObsMgex (withOpenLines E f) ar ep dir fopt s = GetDailyObsMgex E ar ep dir fopt s := by
  unfold GetDailyObsMgex
  simp only []
  rw [if_pos h, if_pos h]
  rfl

theorem GetHourlyObsMgex_openLines (E : Env W) (f : W → String → Option (List String))
    (ar : FtpArchive) (ep : EpochStr) (dir : String) (fopt : ftpopt_t) (s : St W)
    (h : strlen fopt.obmOpt < 9) :
    GetHourlyObsMgex (withOpenLines E f) ar ep dir fopt s =
      GetHourlyObsMgex E ar ep dir fopt s := by
  unfold GetHourlyObsMgex
  simp only []
  rw [if_pos h, if_pos h]
  rfl

theorem GetHrObsMgex_openLines (E : Env W) (f : W → String → Option (List String))
    (ar : FtpArchive) (ep : EpochStr) (dir : String) (fopt : ftpopt_t) (s : St W)
    (h : strlen fopt.obmOpt < 9) :
    GetHrObsMgex (withOpenLines E f) ar ep dir fopt s = GetHrObsMgex E ar ep dir fopt s := by
  unfold GetHrObsMgex
  simp only []
  rw [if_pos h, if_pos h]
  rfl

theorem head_star (x : String) : ("*" ++ x).data.head? = some '*' := by
  rw [String.data_append]; rfl

theorem head_star_R (x : String) : ("*_R_" ++ x).data.head? = some '*' := by
  rw [String.data_append]; rfl

theorem head_append (a b : String) (c : Char) (h : a.data.head? = some c) :
    (a ++ b).data.head? = some c := by
  rw [String.data_append]
  cases ha : a.data with
  | nil => rw [ha] at h; exact absurd h (by simp)
  | cons x r => rw [ha] at h; simpa using h

theorem GetDailyObsIgs_noList (E : Env W) (ar : FtpArchive) (ep : EpochStr) (dir : String)
    (fopt : ftpopt_t) (s : St W) (h : ¬ strlen fopt.obsOpt < 9)
    (hno : ∀ t : St W, fileExists E t fopt.obsOpt = false) :
    wgetCmds (GetDailyObsIgs E ar ep dir fopt s).trace = wgetCmds s.trace := by
  unfold GetDailyObsIgs
  simp only []
  rw [if_neg h, if_neg (by rw [hno]; simp)]
  rw [chdir_wget, makeSubDir_wget]

theorem GetHourlyObsIgs_noList (E : Env W) (ar : FtpArchive) (ep : EpochStr) (dir : String)
    (fopt : ftpopt_t) (s : St W) (h : ¬ strlen fopt.obsOpt < 9)
    (hno : ∀ t : St W, fileExists E t fopt.obsOpt = false) :
    wgetCmds (GetHourlyObsIgs E ar ep dir fopt s).trace = wgetCmds s.trace := by
  unfold GetHourlyObsIgs
  simp only []
  rw [if_neg h, if_neg (by rw [hno]; simp)]
  rw [makeSubDir_wget]

theorem GetHrObsIgs_noList (E : Env W) (ar : FtpArchive) (ep : EpochStr) (dir : String)
    (fopt : ftpopt_t) (s : St W) (h : ¬ strlen fopt.obsOpt < 9)
    (hno : ∀ t : St W, fileExists E t fopt.obsOpt = false) :
    wgetCmds (GetHrObsIgs E ar ep dir fopt s).trace = wgetCmds s.trace := by
  unfold GetHrObsIgs
  simp only []
  rw [if_neg h, if_neg (by rw [hno]; simp)]
  rw [makeSubDir_wget]

theorem GetDailyObsMgex_noList (E : Env W) (ar : FtpArchive) (ep : EpochStr) (dir : String)
    (fopt : ftpopt_t) (s : St W) (h : ¬ strlen fopt.obmOpt < 9)
    (hno : ∀ t : St W, fileExists E t fopt.obmOpt = false) :
    wgetCmds (GetDailyObsMgex E ar ep dir fopt s).trace = wgetCmds s.trace := by
  unfold GetDailyObsMgex
  simp only []
  rw [if_neg h, if_neg (by rw [hno]; simp)]
  rw [chdir_wget, makeSubDir_wget]

theorem GetHourlyObsMgex_noList (E : Env W) (ar : FtpArchive) (ep : EpochStr) (dir : String)
    (fopt : ftpopt_t) (s : St W) (h : ¬ strlen fopt.obmOpt < 9)
    (hno : ∀ t : St W, fileExists E t fopt.obmOpt = false) :
    wgetCmds (GetHourlyObsMgex E ar ep dir fopt s).trace = wgetCmds s.trace := by
  unfold GetHourlyObsMgex
  simp only []
  rw [if_neg h, if_neg (by rw [hno]; simp)]
  rw [makeSubDir_wget]

theorem GetHrObsMgex_noList (E : Env W) (ar : FtpArchive) (ep : EpochStr) (dir : String)
    (fopt : ftpopt_t) (s : St W) (h : ¬ strlen fopt.obmOpt < 9)
    (hno : ∀ t : St W, fileExists E t fopt.obmOpt = false) :
    wgetCmds (GetHrObsMgex E ar ep dir fopt s).trace = wgetCmds s.trace := by
  unfold GetHrObsMgex
  simp only []
  rw [if_neg h, if_neg (by rw [hno]; simp)]
  rw [makeSubDir_wget]

theorem isBulk_of_head (p c u : String) (h : p.data.head? = some '*') :
    isBulkRequest (Cmd.wget p c u) = true := by
  simp [isBulkRequest, h]

theorem GetDailyObsIgs_bulk (E : Env W) (ar : FtpArchive) (ep : EpochStr) (dir : String)
    (fopt : ftpopt_t) (s : St W) (h : strlen fopt.obsOpt < 9) :
    AddsWget (fun c => isBulkRequest c = true) s (GetDailyObsIgs E ar ep dir fopt s) ∧
    (wgetCmds (GetDailyObsIgs E ar ep dir fopt s).trace).length =
      (wgetCmds s.trace).length + 1 := by
  obtain ⟨uc, hw, _⟩ := GetDailyObsIgs_all_wget E ar ep dir fopt s h
  refine ⟨addsWget_one _ _ _ _ hw (isBulk_of_head _ _ _ ?_), by rw [hw]; simp⟩
  repeat (first | exact head_star _ | apply head_append)

theorem GetDailyObsMgex_bulk (E : Env W) (ar : FtpArchive) (ep : EpochStr) (dir : String)
    (fopt : ftpopt_t) (s : St W) (h : strlen fopt.obmOpt < 9) :
    AddsWget (fun c => isBulkRequest c = true) s (GetDailyObsMgex E ar ep dir fopt s) ∧
    (wgetCmds (GetDailyObsMgex E ar ep dir fopt s).trace).length =
      (wgetCmds s.trace).length + 1 := by
  obtain ⟨uc, hw, _⟩ := GetDailyObsMgex_all_wget E ar ep dir fopt s h
  refine ⟨addsWget_one _ _ _ _ hw (isBulk_of_head _ _ _ ?_), by rw [hw]; simp⟩
  repeat (first | exact head_star_R _ | apply head_append)

theorem GetHourlyObsIgs_bulk (E : Env W) (ar : FtpArchive) (ep : EpochStr) (dir : String)
    (fopt : ftpopt_t) (s : St W) (h : strlen fopt.obsOpt < 9) :
    AddsWget (fun c => isBulkRequest c = true) s (GetHourlyObsIgs E ar ep dir fopt s) ∧
    (wgetCmds (GetHourlyObsIgs E ar ep dir fopt s).trace).length =
      (wgetCmds s.trace).length + fopt.hhObs.length := by
  constructor
  · refine addsWget_trans _ _ (makeSubDir E fopt dir "hourly" s).2 _
      (addsWget_same _ _ _ (makeSubDir_wget E fopt dir "hourly" s)) ?_
    unfold GetHourlyObsIgs
    simp only []
    rw [if_pos h]
    refine addsWget_foldl _ _ (fun t hh => ?_) _ _
    obtain ⟨uc, hw, _⟩ := GetHourlyObsIgs_allHour_wget E ar ep fopt (ToUpper fopt.ftpFrom)
      (makeSubDir E fopt dir "hourly" s).1 hh t
    refine addsWget_one _ _ _ _ hw (isBulk_of_head _ _ _ ?_)
    repeat (first | exact head_star _ | apply head_append)
  · unfold GetHourlyObsIgs
    simp only []
    rw [if_pos h, foldl_wget_length _ (fun s hh => by
      obtain ⟨uc, hw, _⟩ := GetHourlyObsIgs_allHour_wget E ar ep fopt _ _ hh s
      rw [hw]; simp), makeSubDir_wget]

theorem GetHrObsIgs_bulk (E : Env W) (ar : FtpArchive) (ep : EpochStr) (dir : String)
    (fopt : ftpopt_t) (s : St W) (h : strlen fopt.obsOpt < 9) :
    AddsWget (fun c => isBulkRequest c = true) s (GetHrObsIgs E ar ep dir fopt s) ∧
    (wgetCmds (GetHrObsIgs E ar ep dir fopt s).trace).length =
      (wgetCmds s.trace).length + fopt.hhObs.length := by
  constructor
  · refine addsWget_trans _ _ (makeSubDir E fopt dir "highrate" s).2 _
      (addsWget_same _ _ _ (makeSubDir_wget E fopt dir "highrate" s)) ?_
    unfold GetHrObsIgs
    simp only []
    rw [if_pos h]
    refine addsWget_foldl _ _ (fun t hh => ?_) _ _
    obtain ⟨uc, hw, _⟩ := GetHrObsIgs_allHour_wget E ar ep fopt (ToUpper fopt.ftpFrom)
      (makeSubDir E fopt dir "highrate" s).1 hh t
    refine addsWget_one _ _ _ _ hw (isBulk_of_head _ _ _ ?_)
    repeat (first | exact head_star _ | apply head_append)
  · unfold GetHrObsIgs
    simp only []
    rw [if_pos h, foldl_wget_length _ (fun s hh => by
      obtain ⟨uc, hw, _⟩ := GetHrObsIgs_allHour_wget E ar ep fopt _ _ hh s
      rw [hw]; simp), makeSubDir_wget]

theorem GetHourlyObsMgex_bulk (E : Env W) (ar : FtpArchive) (ep : EpochStr) (dir : String)
    (fopt : ftpopt_t) (s : St W) (h : strlen fopt.obmOpt < 9) :
    AddsWget (fun c => isBulkRequest c = true) s (GetHourlyObsMgex E ar ep dir fopt s) ∧
    (wgetCmds (GetHourlyObsMgex E ar ep dir fopt s).trace).length =
      (wgetCmds s.trace).length + fopt.hhObm.length := by
  constructor
  · refine addsWget_trans _ _ (makeSubDir E fopt dir "hourly" s).2 _
      (addsWget_same _ _ _ (makeSubDir_wget E fopt dir "hourly" s)) ?_
    unfold GetHourlyObsMgex
    simp only []
    rw [if_pos h]
    refine addsWget_foldl _ _ (fun t hh => ?_) _ _
    obtain ⟨uc, hw, _⟩ := GetHourlyObsMgex_allHour_wget E ar ep fopt (ToUpper fopt.ftpFrom)
      (makeSubDir E fopt dir "hourly" s).1 hh t
    refine addsWget_one _ _ _ _ hw (isBulk_of_head _ _ _ ?_)
    repeat (first | exact head_star_R _ | apply head_append)
  · unfold GetHourlyObsMgex
    simp only []
    rw [if_pos h, foldl_wget_length _ (fun s hh => by
      obtain ⟨uc, hw, _⟩ := GetHourlyObsMgex_allHour_wget E ar ep fopt _ _ hh s
      rw [hw]; simp), makeSubDir_wget]

theorem GetHrObsMgex_noBulk (E : Env W) (ar : FtpArchive) (ep : EpochStr) (dir : String)
    (fopt : ftpopt_t) (s : St W) (h : strlen fopt.obmOpt < 9) :
    wgetCmds (GetHrObsMgex E ar ep dir fopt s).trace = wgetCmds s.trace := by
  unfold GetHrObsMgex
  simp only []
  rw [if_pos h, foldl_wget_same _ (fun s hh => GetHrObsMgex_allHour_wget E ep fopt _ hh s),
    makeSubDir_wget]

/-! ## C30: the length of the option string selects the mode -/

/-- C30, the part that holds, and the exception. For every registry, epoch, state and tool
behaviour: with an option string shorter than 9 bytes (`strlen`) each observation procedure runs
its all-stations mode: the result is the same whatever the reading of text files would
return (the site list is never read), and `GetDailyObsIgs`, `GetHourlyObsIgs`,
`GetHrObsIgs`, `GetDailyObsMgex` and `GetHourlyObsMgex` issue bulk transfer commands only
(accept pattern starting with `*`), one per invocation for the daily procedures and one
per configured hour for the others. `GetHrObsMgex` runs its all-stations mode as well but
issues no transfer command at all. With an option string of 9 bytes or more every
procedure runs its site-list mode: when the named list does not exist it issues no
transfer command. -/
theorem C30_option_length_selects_mode (E : Env W) (ar : FtpArchive) (ep : EpochStr)
    (dir : String) (fopt : ftpopt_t) (s : St W) (f : W → String → Option (List String)) :
    (strlen fopt.obsOpt < 9 →
      (GetDailyObsIgs (withOpenLines E f) ar ep dir fopt s = GetDailyObsIgs E ar ep dir fopt s ∧
        AddsWget (fun c => isBulkRequest c = true) s (GetDailyObsIgs E ar ep dir fopt s) ∧
        (wgetCmds (GetDailyObsIgs E ar ep dir fopt s).trace).length =
          (wgetCmds s.trace).length + 1) ∧
      (GetHourlyObsIgs (withOpenLines E f) ar ep dir fopt s =
          GetHourlyObsIgs E ar ep dir fopt s ∧
        AddsWget (fun c => isBulkRequest c = true) s (GetHourlyObsIgs E ar ep dir fopt s) ∧
        (wgetCmds (GetHourlyObsIgs E ar ep dir fopt s).trace).length =
          (wgetCmds s.trace).length + fopt.hhObs.length) ∧
      (GetHrObsIgs (withOpenLines E f) ar ep dir fopt s = GetHrObsIgs E ar ep dir fopt s ∧
        AddsWget (fun c => isBulkRequest c = true) s (GetHrObsIgs E ar ep dir fopt s) ∧
        (wgetCmds (GetHrObsIgs E ar ep dir fopt s).trace).length =
          (wgetCmds s.trace).length + fopt.hhObs.length)) ∧
    (strlen fopt.obmOpt < 9 →
      (GetDailyObsMgex (withOpenLines E f) ar ep dir fopt s =
          GetDailyObsMgex E ar ep dir fopt s ∧
        AddsWget (fun c => isBulkRequest c = true) s (GetDailyObsMgex E ar ep dir fopt s) ∧
        (wgetCmds (GetDailyObsMgex E ar ep dir fopt s).trace).length =
          (wgetCmds s.trace).length + 1) ∧
      (GetHourlyObsMgex (withOpenLines E f) ar ep dir fopt s =
          GetHourlyObsMgex E ar ep dir fopt s ∧
        AddsWget (fun c => isBulkRequest c = true) s (GetHourlyObsMgex E ar ep dir fopt s) ∧
        (wgetCmds (GetHourlyObsMgex E ar ep dir fopt s).trace).length =
          (wgetCmds s.trace).length + fopt.hhObm.length) ∧
      (GetHrObsMgex (withOpenLines E f) ar ep dir fopt s = GetHrObsMgex E ar ep dir fopt s ∧
        wgetCmds (GetHrObsMgex E ar ep dir fopt s).trace = wgetCmds s.trace)) ∧
    (¬ strlen fopt.obsOpt < 9 → (∀ t : St W, fileExists E t fopt.obsOpt = false) →
      wgetCmds (GetDailyObsIgs E ar ep dir fopt s).trace = wgetCmds s.trace ∧
      wgetCmds (GetHourlyObsIgs E ar ep dir fopt s).trace = wgetCmds s.trace ∧
      wgetCmds (GetHrObsIgs E ar ep dir fopt s).trace = wgetCmds s.trace) ∧
    (¬ strlen fopt.obmOpt < 9 → (∀ t : St W, fileExists E t fopt.obmOpt = false) →
      wgetCmds (GetDailyObsMgex E ar ep dir fopt s).trace = wgetCmds s.trace ∧
      wgetCmds (GetHourlyObsMgex E ar ep dir fopt s).trace = wgetCmds s.trace ∧
      wgetCmds (GetHrObsMgex E ar ep dir fopt s).trace = wgetCmds s.trace) := by
  refine ⟨fun h => ⟨⟨GetDailyObsIgs_openLines E f ar ep dir fopt s h,
        GetDailyObsIgs_bulk E ar ep dir fopt s h⟩,
      ⟨GetHourlyObsIgs_openLines E f ar ep dir fopt s h,
        GetHourlyObsIgs_bulk E ar ep dir fopt s h⟩,
      ⟨GetHrObsIgs_openLines E f ar ep dir fopt s h, GetHrObsIgs_bulk E ar ep dir fopt s h⟩⟩,
    fun h => ⟨⟨GetDailyObsMgex_openLines E f ar ep dir fopt s h,
        GetDailyObsMgex_bulk E ar ep dir fopt s h⟩,
      ⟨GetHourlyObsMgex_openLines E f ar ep dir fopt s h,
        GetHourlyObsMgex_bulk E ar ep dir fopt s h⟩,
      ⟨GetHrObsMgex_openLines E f ar ep dir fopt s h,
        GetHrObsMgex_noBulk E ar ep dir fopt s h⟩⟩,
    fun h hno => ⟨GetDailyObsIgs_noList E ar ep dir fopt s h hno,
      GetHourlyObsIgs_noList E ar ep dir fopt s h hno,
      GetHrObsIgs_noList E ar ep dir fopt s h hno⟩,
    fun h hno => ⟨GetDailyObsMgex_noList E ar ep dir fopt s h hno,
      GetHourlyObsMgex_noList E ar ep dir fopt s h hno,
      GetHrObsMgex_noList E ar ep dir fopt s h hno⟩⟩

/-- C30 for the site-list path `s.lst` (five bytes), the list on disk with the line
`zimm`, day 045 of 2021, hour 0, tools that do nothing: `GetDailyObsIgs` issues the bulk
transfer command of the all-stations mode and no command for `zimm`, the result does not
change when the list cannot be read, and `GetHrObsMgex` issues no transfer command. -/
theorem C30_option_length_selects_mode_witness :
    strlen foptShort.obsOpt < 9 ∧ strlen foptShort.obmOpt < 9 ∧
    fileExists (simEnv [] [("s.lst", ["zimm"])]) worldShort "s.lst" = true ∧
    GetDailyObsIgs (withOpenLines (simEnv [] [("s.lst", ["zimm"])]) (fun _ _ => none))
        ftpArchive0 ep2021_045 "obs" foptShort worldShort =
      GetDailyObsIgs (simEnv [] [("s.lst", ["zimm"])]) ftpArchive0 ep2021_045 "obs" foptShort
        worldShort ∧
    wgetCmds (GetDailyObsIgs (simEnv [] [("s.lst", ["zimm"])]) ftpArchive0 ep2021_045 "obs"
        foptShort worldShort).trace =
      [Cmd.wget "*0450.21d.*" " --cut-dirs=7 "
        "ftps://gdc.cddis.eosdis.nasa.gov/pub/gnss/data/daily/2021/045/21d"] ∧
    wgetCmds (GetHrObsMgex (simEnv [] [("s.lst", ["zimm"])]) ftpArchive0 ep2021_045 "obs"
        foptShort worldShort).trace = [] := by
  have h := C30_option_length_selects_mode (simEnv [] [("s.lst", ["zimm"])]) ftpArchive0
    ep2021_045 "obs" foptShort worldShort (fun _ _ => none)
  exact ⟨by decide, by decide, by decide, (h.1 (by decide)).1.1, by decide,
    (h.2.1 (by decide)).2.2.2⟩

/-- The mode test counts bytes, not characters. The option `sité.lst` has eight characters
and nine bytes, and on it `GetDailyObsIgs` runs its site-list mode: with the list on disk
holding the line `zimm` and tools that do nothing, it issues the transfer command of the
site `zimm` and no bulk command. -/
theorem GetDailyObsIgs_mode_test_counts_bytes :
    "sité.lst".length = 8 ∧ strlen "sité.lst" = 9 ∧
    wgetCmds (GetDailyObsIgs (simEnv [] [("sité.lst", ["zimm"])]) ftpArchive0 ep2021_045 "obs"
        { foptShort with obsOpt := "sité.lst" }
        ⟨["obs", "obs/daily", "sité.lst"], []⟩).trace =
      [Cmd.wget "zimm0450.21d.*" " --cut-dirs=7 "
        "ftps://gdc.cddis.eosdis.nasa.gov/pub/gnss/data/daily/2021/045/21d"] := by
  decide

/-! ## C27: the URL of the site-list mode and of the all-stations mode -/

/-- C27 fails for `GetHourlyObsMgex` with the archive WHU and for `GetTrop` with an archive
name that is none of `CDDIS`, `IGN`, `WHU`. On day 045 of 2021, hour 0, site list with the
line `zimm`, nothing else on disk, tools that do nothing: the all-stations mode of
`GetHourlyObsMgex` fetches from the WHU URL and its site-list mode from the CDDIS URL;
the all-stations mode of `GetTrop` fetches from the CDDIS URL and its site-list mode
issues the transfer command with an empty URL. -/
theorem C27_modes_build_different_urls :
    wgetCmds (GetHourlyObsMgex (simEnv [] [("site.list", ["zimm"])]) ftpArchive0 ep2021_045
        "obs" foptWhuObmAll worldModes).trace =
      [Cmd.wget "*_R_20210450000_01H_30S_MO.crx.*" " --cut-dirs=7 "
        "ftp://igs.gnsswhu.cn/pub/gps/data/hourly/2021/045/00"] ∧
    wgetCmds (GetHourlyObsMgex (simEnv [] [("site.list", ["zimm"])]) ftpArchive0 ep2021_045
        "obs" foptWhuObmList worldModes).trace =
      [Cmd.wget "ZIMM*_R_20210450000_01H_30S_MO.crx.*" " --cut-dirs=7 "
        "ftps://gdc.cddis.eosdis.nasa.gov/pub/gnss/data/hourly/2021/045/00"] ∧
    wgetCmds (GetTrop (simEnv [] [("site.list", ["zimm"])]) ftpArchive0 ep2021_045
        "trp" foptXyzTrpAll worldModes).trace =
      [Cmd.wget "*0450.21zpd.*" " --cut-dirs=7 "
        "ftps://gdc.cddis.eosdis.nasa.gov/pub/gnss/products/troposphere/zpd/2021/045"] ∧
    wgetCmds (GetTrop (simEnv [] [("site.list", ["zimm"])]) ftpArchive0 ep2021_045
        "trp" foptXyzTrpList worldModes).trace =
      [Cmd.wget "zimm0450.21zpd.*" " --cut-dirs=7 " ""] := by
  decide

/-! ## C22: distinct units have distinct canonical local names -/

theorem data_cancel_right (a b c : String) (h : a ++ c = b ++ c) : a = b := by
  have h2 := congrArg String.data h
  simp only [String.data_append] at h2
  exact String.ext (List.append_cancel_right h2)

theorem data_split_right (a b c d : String) (h : a ++ c = b ++ d) (hl : c.length = d.length) :
    a = b ∧ c = d := by
  have h2 := congrArg String.data h
  simp only [String.data_append] at h2
  obtain ⟨e1, e2⟩ := List.append_inj' h2 hl
  exact ⟨String.ext e1, String.ext e2⟩

theorem hourLetter_length (h : Nat) : (hourLetter h).length = 1 := rfl

theorem hourLetter_inj (h k : Nat) (hh : h ≤ 23) (hk : k ≤ 23)
    (e : hourLetter h = hourLetter k) : h = k := by
  revert e
  interval_cases h <;> interval_cases k <;>
    first | (intro; rfl) | (intro hc; exact absurd hc (by decide))

theorem minuStr_length (q : String) (hq : q ∈ minuStr) : q.length = 2 := by
  simp only [minuStr, List.mem_cons, List.mem_singleton, List.not_mem_nil, or_false] at hq
  rcases hq with h | h | h | h <;> rw [h] <;> rfl

theorem GetHourlyObsIgs_unit_existing (E : Env W) (ar : FtpArchive) (ep : EpochStr)
    (fopt : ftpopt_t) (ftpName : String) (hh : Nat) (sitName : String) (s : St W)
    (h : fileExists E s (GetHourlyObsIgs_oFile ep hh sitName) = true) :
    (GetHourlyObsIgs_unit E ar ep fopt ftpName hh sitName s).2 =
      say (GetHourlyObsIgs_existed (GetHourlyObsIgs_oFile ep hh sitName)
        (ToLower sitName ++ ep.sDoy ++ hourLetter hh ++ "." ++ ep.sYy ++ "d")) s := by
  unfold GetHourlyObsIgs_oFile at h ⊢
  unfold GetHourlyObsIgs_unit
  simp only []
  rw [if_neg (by rw [h]; simp)]

theorem GetHrObsIgs_unit_existing (E : Env W) (ar : FtpArchive) (ep : EpochStr)
    (fopt : ftpopt_t) (ftpName : String) (hh : Nat) (minu sitName : String) (s : St W)
    (h : fileExists E s (GetHrObsIgs_oFile ep hh minu sitName) = true) :
    (GetHrObsIgs_unit E ar ep fopt ftpName hh minu sitName s).2 =
      say (GetHrObsIgs_existed (GetHrObsIgs_oFile ep hh minu sitName)
        (ToLower sitName ++ ep.sDoy ++ hourLetter hh ++ minu ++ "." ++ ep.sYy ++ "d")) s := by
  unfold GetHrObsIgs_oFile at h ⊢
  unfold GetHrObsIgs_unit
  simp only []
  rw [if_neg (by rw [h]; simp)]

/-- C22. At a fixed epoch, for sites `site1`, `site2`, hours `h1`, `h2` in 0..23 and
quarter-hour labels `q1`, `q2` of `minuStr`: equal canonical local names of two units of
`GetHourlyObsIgs` force equal lower-cased sites and equal hours, and equal canonical local
names of two units of `GetHrObsIgs` force equal lower-cased sites, equal hours and equal
labels; so units that differ in one of them have different names. The name is the one
the unit tests and reports: a unit whose canonical file exists prints the line for an
existing file with that name and does nothing else. -/
theorem C22_canonical_names_injective (ep : EpochStr) (site1 site2 : String) (h1 h2 : Nat)
    (q1 q2 : String) (hh1 : h1 ≤ 23) (hh2 : h2 ≤ 23) (hq1 : q1 ∈ minuStr) (hq2 : q2 ∈ minuStr) :
    (GetHourlyObsIgs_oFile ep h1 site1 = GetHourlyObsIgs_oFile ep h2 site2 →
      ToLower site1 = ToLower site2 ∧ h1 = h2) ∧
    (GetHrObsIgs_oFile ep h1 q1 site1 = GetHrObsIgs_oFile ep h2 q2 site2 →
      ToLower site1 = ToLower site2 ∧ h1 = h2 ∧ q1 = q2) ∧
    ((ToLower site1, h1) ≠ (ToLower site2, h2) →
      GetHourlyObsIgs_oFile ep h1 site1 ≠ GetHourlyObsIgs_oFile ep h2 site2) ∧
    ((ToLower site1, h1, q1) ≠ (ToLower site2, h2, q2) →
      GetHrObsIgs_oFile ep h1 q1 site1 ≠ GetHrObsIgs_oFile ep h2 q2 site2) ∧
    (∀ (E : Env W) (ar : FtpArchive) (fopt : ftpopt_t) (ftpName : String) (s : St W),
      fileExists E s (GetHourlyObsIgs_oFile ep h1 site1) = true →
      (GetHourlyObsIgs_unit E ar ep fopt ftpName h1 site1 s).2 =
        say (GetHourlyObsIgs_existed (GetHourlyObsIgs_oFile ep h1 site1)
          (ToLower site1 ++ ep.sDoy ++ hourLetter h1 ++ "." ++ ep.sYy ++ "d")) s) ∧
    (∀ (E : Env W) (ar : FtpArchive) (fopt : ftpopt_t) (ftpName : String) (s : St W),
      fileExists E s (GetHrObsIgs_oFile ep h1 q1 site1) = true →
      (GetHrObsIgs_unit E ar ep fopt ftpName h1 q1 site1 s).2 =
        say (GetHrObsIgs_existed (GetHrObsIgs_oFile ep h1 q1 site1)
          (ToLower site1 ++ ep.sDoy ++ hourLetter h1 ++ q1 ++ "." ++ ep.sYy ++ "d")) s) := by
  have A : GetHourlyObsIgs_oFile ep h1 site1 = GetHourlyObsIgs_oFile ep h2 site2 →
      ToLower site1 = ToLower site2 ∧ h1 = h2 := by
    intro e
    unfold GetHourlyObsIgs_oFile at e
    have e1 := data_cancel_right _ _ _ (data_cancel_right _ _ _ (data_cancel_right _ _ _ e))
    obtain ⟨e2, e3⟩ := data_split_right _ _ _ _ e1 rfl
    exact ⟨data_cancel_right _ _ _ e2, hourLetter_inj h1 h2 hh1 hh2 e3⟩
  have B : GetHrObsIgs_oFile ep h1 q1 site1 = GetHrObsIgs_oFile ep h2 q2 site2 →
      ToLower site1 = ToLower site2 ∧ h1 = h2 ∧ q1 = q2 := by
    intro e
    unfold GetHrObsIgs_oFile at e
    have e1 := data_cancel_right _ _ _ (data_cancel_right _ _ _ (data_cancel_right _ _ _ e))
    obtain ⟨e2, e3⟩ := data_split_right _ _ _ _ e1
      (by rw [minuStr_length q1 hq1, minuStr_length q2 hq2])
    obtain ⟨e4, e5⟩ := data_split_right _ _ _ _ e2 rfl
    exact ⟨data_cancel_right _ _ _ e4, hourLetter_inj h1 h2 hh1 hh2 e5, e3⟩
  refine ⟨A, B, fun hne e => hne ?_, fun hne e => hne ?_,
    fun E ar fopt ftpName s h => GetHourlyObsIgs_unit_existing E ar ep fopt ftpName h1 site1 s h,
    fun E ar fopt ftpName s h => GetHrObsIgs_unit_existing E ar ep fopt ftpName h1 q1 site1 s h⟩
  · obtain ⟨a, b⟩ := A e
    rw [a, b]
  · obtain ⟨a, b, c⟩ := B e
    rw [a, b, c]

/-- C22 on day 045 of 2021 for the sites `ZIMM` and `zimm` (the same lower-cased site),
hours 0 and 23, labels `00` and `15`: the hourly names of hour 0 and of hour 23 differ,
and so do the high-rate names of (hour 0, label `00`) and (hour 23, label `15`). -/
theorem C22_canonical_names_injective_witness :
    (0 : Nat) ≤ 23 ∧ (23 : Nat) ≤ 23 ∧ "00" ∈ minuStr ∧ "15" ∈ minuStr ∧
    GetHourlyObsIgs_oFile ep2021_045 0 "ZIMM" = "zimm045a.21o" ∧
    GetHourlyObsIgs_oFile ep2021_045 23 "zimm" = "zimm045x.21o" ∧
    GetHourlyObsIgs_oFile ep2021_045 0 "ZIMM" ≠ GetHourlyObsIgs_oFile ep2021_045 23 "zimm" ∧
    GetHrObsIgs_oFile ep2021_045 0 "00" "ZIMM" ≠ GetHrObsIgs_oFile ep2021_045 23 "15" "zimm" := by
  have h := @C22_canonical_names_injective (List String) ep2021_045 "ZIMM" "zimm" 0 23
    "00" "15" (by decide) (by decide) (by decide) (by decide)
  exact ⟨by decide, by decide, by decide, by decide, by decide, by decide,
    h.2.2.1 (by decide), h.2.2.2.1 (by decide)⟩

/-! ## The path components of the URLs -/

theorem isPrefixOf_scheme_append (a b : List Char)
    (h : [':', '/', '/'].isPrefixOf a = true) : [':', '/', '/'].isPrefixOf (a ++ b) = true := by
  rw [List.isPrefixOf_iff_prefix] at h ⊢
  exact h.trans (List.prefix_append _ _)

theorem isPrefixOf_scheme_long (a b : List Char) (hl : 3 ≤ a.length) :
    [':', '/', '/'].isPrefixOf (a ++ b) = [':', '/', '/'].isPrefixOf a := by
  match a, hl with
  | x :: y :: z :: r, _ => simp [List.isPrefixOf]

theorem hasScheme_length (a : List Char) (h : hasScheme a = true) : 3 ≤ a.length := by
  induction a with
  | nil => simp [hasScheme] at h
  | cons c r ih =>
      simp only [hasScheme, Bool.or_eq_true] at h
      rcases h with h | h
      · rw [List.isPrefixOf_iff_prefix] at h
        have := h.length_le
        simpa using this
      · have := ih h
        simp only [List.length_cons]
        omega

theorem afterScheme_append (a b : List Char) (h : hasScheme a = true) :
    afterScheme (a ++ b) = afterScheme a ++ b ∧ hasScheme (a ++ b) = true := by
  induction a with
  | nil => simp [hasScheme] at h
  | cons c r ih =>
      have hl := hasScheme_length _ h
      have e := isPrefixOf_scheme_long (c :: r) b hl
      simp only [List.cons_append] at e ⊢
      simp only [afterScheme, hasScheme, e]
      by_cases hp : [':', '/', '/'].isPrefixOf (c :: r) = true
      · rw [if_pos hp, if_pos hp]
        simp only [hp, Bool.true_or, and_true]
        have h2 : 2 ≤ r.length := by simp only [List.length_cons] at hl; omega
        rw [List.drop_append_of_le_length h2]
      · rw [if_neg hp, if_neg hp]
        simp only [hasScheme, Bool.or_eq_true] at h
        have hr : hasScheme r = true := by
          rcases h with h | h
          · exact absurd h hp
          · exact h
        obtain ⟨i1, i2⟩ := ih hr
        rw [i1, i2]
        simp

theorem urlHas_base (u : String) (h : hasScheme u.data = true) :
    hasScheme u.data = true ∧ urlComponents u = urlComponents u := ⟨h, rfl⟩

theorem urlHas_app (u x : String) (n : Nat)
    (h : hasScheme u.data = true ∧ urlComponents u = n) :
    hasScheme (u ++ x).data = true ∧ urlComponents (u ++ x) = n + x.data.count '/' := by
  obtain ⟨h1, h2⟩ := h
  obtain ⟨a1, a2⟩ := afterScheme_append u.data x.data h1
  refine ⟨by rw [String.data_append]; exact a2, ?_⟩
  unfold urlComponents at h2 ⊢
  rw [String.data_append, a1, List.count_append, h2]

theorem hh2str_noSlash (hh : Nat) : (hh2str hh).data.count '/' = 0 := by
  unfold hh2str
  have h1 : hh / 10 % 10 < 10 := Nat.mod_lt _ (by decide)
  have h2 : hh % 10 < 10 := Nat.mod_lt _ (by decide)
  generalize hh / 10 % 10 = a at h1
  generalize hh % 10 = b at h2
  interval_cases a <;> interval_cases b <;> decide

theorem cutDirsOk_wget (p cut url : String) (n m : Nat)
    (h : hasScheme url.data = true ∧ urlComponents url = n) (hn : n = m)
    (hc : cut = " --cut-dirs=" ++ toString m ++ " ") :
    cutDirsOk (Cmd.wget p cut url) = true := by
  simp only [cutDirsOk, beq_iff_eq]
  rw [h.2, hn, hc]

theorem cutDirsOk_wgetUrl (cut url : String) (n m : Nat)
    (h : hasScheme url.data = true ∧ urlComponents url = n) (hn : n - 1 = m)
    (hc : cut = " --cut-dirs=" ++ toString m ++ " ") :
    cutDirsOk (Cmd.wgetUrl cut url) = true := by
  simp only [cutDirsOk, beq_iff_eq]
  rw [h.2, hn, hc]

/-! ## The transfer commands of the product procedures -/

theorem cleanTopex_wget (E : Env W) (fopt : ftpopt_t) (s : St W) :
    wgetCmds (cleanTopex E fopt s).trace = wgetCmds s.trace := by
  simp only [cleanTopex, sysCmd, fileExists]
  split_ifs <;> simp [wgetCmds, List.filterMap_append]

theorem cleanCnt_wget (E : Env W) (fopt : ftpopt_t) (s : St W) :
    wgetCmds (cleanCnt E fopt s).trace = wgetCmds s.trace := by
  unfold cleanCnt
  refine foldl_wget_same _ (fun s d => ?_) _ s
  simp only [sysCmd, fileExists]
  split_ifs <;> simp [wgetCmds, List.filterMap_append]

theorem GetEop_iguUnit_adds (E : Env W) (ar : FtpArchive) (ep : EpochStr) (fopt : ftpopt_t)
    (ftpName ac : String) (hh : Nat) (s : St W) (P : Cmd → Prop)
    (hP : ∀ p, P (Cmd.wget p (GetEop_url ar ep ftpName).2 (GetEop_url ar ep ftpName).1)) :
    AddsWget P s (GetEop_iguUnit E ar ep fopt ftpName ac hh s) := by
  refine addsWget_guard P _ _
    (fileExists E s (ac ++ ep.sWwww ++ ep.sDow ++ "_" ++ hh2str hh ++ ".erp") = false)
    (Cmd.wget (ac ++ ep.sWwww ++ ep.sDow ++ "_" ++ hh2str hh ++ ".erp" ++ ".*") _ _) ?_ (hP _)
  unfold GetEop_iguUnit
  simp only [cleanRepro3, sysCmd, say, fileExists]
  split_ifs <;> simp [wgetCmds, List.filterMap_append]

theorem GetEop_gfuUnit_adds (E : Env W) (ep : EpochStr) (fopt : ftpopt_t) (ac : String)
    (uc : String × String) (hh : Nat) (s : St W) (P : Cmd → Prop)
    (hP : ∀ p, P (Cmd.wget p uc.2 uc.1)) :
    AddsWget P s (GetEop_gfuUnit E ep fopt ac uc hh s) := by
  refine addsWget_guard P _ _
    (fileExists E s (ac ++ ep.sWwww ++ ep.sDow ++ "_" ++ hh2str hh ++ ".erp") = false)
    (Cmd.wget (ac ++ ep.sWwww ++ ep.sDow ++ "_" ++ hh2str hh ++ ".erp" ++ ".*") _ _) ?_ (hP _)
  unfold GetEop_gfuUnit
  simp only [sysCmd, say, fileExists]
  split_ifs <;> simp [wgetCmds, List.filterMap_append]

theorem GetEop_igsFetch_adds (E : Env W) (ar : FtpArchive) (ep : EpochStr) (fopt : ftpopt_t)
    (ftpName eopFile : String) (s : St W) (P : Cmd → Prop)
    (hP : ∀ p, P (Cmd.wget p (GetEop_url ar ep ftpName).2 (GetEop_url ar ep ftpName).1)) :
    AddsWget P s (GetEop_igsFetch E ar ep fopt ftpName eopFile s) := by
  refine addsWget_guard P _ _ (fileExists E s eopFile = false)
    (Cmd.wget (eopFile ++ ".*") _ _) ?_ (hP _)
  unfold GetEop_igsFetch
  simp only [cleanRepro3, sysCmd, say, fileExists]
  split_ifs <;> simp [wgetCmds, List.filterMap_append]

theorem GetEop_adds (E : Env W) (ar : FtpArchive) (ep : EpochStr) (dir : String)
    (fopt : ftpopt_t) (s : St W) (P : Cmd → Prop)
    (hP : ∀ p, P (Cmd.wget p (GetEop_url ar ep (ToUpper fopt.ftpFrom)).2
      (GetEop_url ar ep (ToUpper fopt.ftpFrom)).1))
    (hG : ∀ p, P (Cmd.wget p " --cut-dirs=5 "
      ("ftp://ftp.gfz-potsdam.de/pub/GNSS/products/ultra/w" ++ ep.sWwww))) :
    AddsWget P s (GetEop E ar ep dir fopt s) := by
  refine addsWget_trans P _ _ _ (addsWget_same P _ _ (chdir_wget E dir s)) ?_
  unfold GetEop
  simp only []
  split_ifs
  · exact addsWget_foldl P _ (fun s hh => GetEop_iguUnit_adds E ar ep fopt _ _ hh s P hP) _ _
  · exact addsWget_foldl P _ (fun s hh => GetEop_gfuUnit_adds E ep fopt _ _ hh s P hG) _ _
  · exact GetEop_igsFetch_adds E ar ep fopt _ _ _ P hP
  · exact GetEop_igsFetch_adds E ar ep fopt _ _ _ P hP
  · exact addsWget_same P _ _ rfl

theorem GetSnx_weekly_adds (E : Env W) (ar : FtpArchive) (ep : EpochStr) (fopt : ftpopt_t)
    (ftpName snx0File : String) (s : St W) (P : Cmd → Prop)
    (hP : ∀ p, P (Cmd.wget p (GetSnx_url ar ep ftpName).2 (GetSnx_url ar ep ftpName).1)) :
    AddsWget P s (GetSnx_weekly E ar ep fopt ftpName snx0File s) := by
  refine addsWget_one P _ _ (Cmd.wget ("igs*P" ++ ep.sWwww ++ ".snx" ++ ".*") _ _) ?_ (hP _)
  unfold GetSnx_weekly
  simp only [sysCmd, say, fileExists]
  split_ifs <;> simp [wgetCmds, List.filterMap_append]

theorem GetSnx_dailyFallback_adds (E : Env W) (ar : FtpArchive) (ep : EpochStr)
    (fopt : ftpopt_t) (ftpName snx0File : String) (s : St W) (P : Cmd → Prop)
    (hP : ∀ p, P (Cmd.wget p (GetSnx_urlDaily ar ep ftpName).2
      (GetSnx_urlDaily ar ep ftpName).1)) :
    AddsWget P s (GetSnx_dailyFallback E ar ep fopt ftpName snx0File s) := by
  refine addsWget_guard P _ _ (fileExists E s snx0File = false)
    (Cmd.wget ("igs*P" ++ ep.sWwww ++ ep.sDow ++ ".snx" ++ ".*") _ _) ?_ (hP _)
  unfold GetSnx_dailyFallback
  simp only [sysCmd, say, fileExists]
  split_ifs <;> simp [wgetCmds, List.filterMap_append]

theorem GetSnx_adds (E : Env W) (ar : FtpArchive) (ep : EpochStr) (dir : String)
    (fopt : ftpopt_t) (s : St W) (P : Cmd → Prop)
    (hP : ∀ p, P (Cmd.wget p (GetSnx_url ar ep (ToUpper fopt.ftpFrom)).2
      (GetSnx_url ar ep (ToUpper fopt.ftpFrom)).1))
    (hD : ∀ p, P (Cmd.wget p (GetSnx_urlDaily ar ep (ToUpper fopt.ftpFrom)).2
      (GetSnx_urlDaily ar ep (ToUpper fopt.ftpFrom)).1)) :
    AddsWget P s (GetSnx E ar ep dir fopt s) := by
  refine addsWget_trans P _ _ _ (addsWget_same P _ _ (chdir_wget E dir s)) ?_
  unfold GetSnx
  simp only []
  by_cases h : fileExists E (chdir E dir s) ("igs" ++ ep.sWwww ++ ".snx") = false
  · rw [if_pos h]
    refine addsWget_trans P _ _ _
      (GetSnx_weekly_adds E ar ep fopt (ToUpper fopt.ftpFrom) ("igs" ++ ep.sWwww ++ ".snx")
        (chdir E dir s) P hP) ?_
    refine addsWget_trans P _ _ _
      (GetSnx_dailyFallback_adds E ar ep fopt (ToUpper fopt.ftpFrom) ("igs" ++ ep.sWwww ++ ".snx")
        _ P hD) ?_
    refine addsWget_same P _ _ ?_
    rw [cleanRepro3_wget]
    split_ifs <;> simp [say, wgetCmds, List.filterMap_append]
  · rw [if_neg h]
    exact addsWget_same P _ _ (by simp [say, wgetCmds, List.filterMap_append])

theorem GetDcbMgex_adds (E : Env W) (ar : FtpArchive) (ep : EpochStr) (dir : String)
    (fopt : ftpopt_t) (s : St W) (P : Cmd → Prop)
    (hP : ∀ p, P (Cmd.wget p (GetDcbMgex_url ar ep (ToUpper fopt.ftpFrom)).2
      (GetDcbMgex_url ar ep (ToUpper fopt.ftpFrom)).1)) :
    AddsWget P s (GetDcbMgex E ar ep dir fopt s) := by
  refine addsWget_trans P _ _ _ (addsWget_same P _ _ (chdir_wget E dir s)) ?_
  unfold GetDcbMgex
  simp only []
  refine addsWget_guard P _ _
    (fileExists E (chdir E dir s)
      ("CAS0MGXRAP_" ++ ep.sYyyy ++ ep.sDoy ++ "0000_01D_01D_DCB.BSX") = false)
    (Cmd.wget ("CAS0MGXRAP_" ++ ep.sYyyy ++ ep.sDoy ++ "0000_01D_01D_DCB.BSX" ++ ".*") _ _) ?_
    (hP _)
  unfold GetDcbMgex_fetch
  simp only [sysCmd, say, fileExists]
  split_ifs <;> simp [wgetCmds, List.filterMap_append]

theorem GetDcbCode_adds (E : Env W) (ep : EpochStr) (dir dType : String)
    (fopt : ftpopt_t) (s : St W) (P : Cmd → Prop)
    (hP : ∀ p, P (Cmd.wget p " --cut-dirs=2 " ("ftp://ftp.aiub.unibe.ch/CODE/" ++ ep.sYyyy))) :
    AddsWget P s (GetDcbCode E ep dir dType fopt s) := by
  refine addsWget_trans P _ _ _ (addsWget_same P _ _ (chdir_wget E dir s)) ?_
  unfold GetDcbCode
  simp only []
  generalize GetDcbCode_names ep (ToUpper dType) = names
  refine addsWget_guard P _ _
    (fileExists E (chdir E dir s) names.1 = false ∧ fileExists E (chdir E dir s) names.2 = false)
    (Cmd.wget (names.1 ++ ".*") _ _) ?_ (hP _)
  unfold GetDcbCode_fetch
  simp only [sysCmd, say, fileExists]
  split_ifs <;> simp [wgetCmds, List.filterMap_append]

theorem GetIono_adds (E : Env W) (ar : FtpArchive) (ep : EpochStr) (dir : String)
    (fopt : ftpopt_t) (s : St W) (P : Cmd → Prop)
    (hP : ∀ p, P (Cmd.wget p (GetIono_url ar ep (ToUpper fopt.ftpFrom)).2
      (GetIono_url ar ep (ToUpper fopt.ftpFrom)).1)) :
    AddsWget P s (GetIono E ar ep dir fopt s) := by
  refine addsWget_trans P _ _ _ (addsWget_same P _ _ (chdir_wget E dir s)) ?_
  unfold GetIono
  simp only []
  generalize ToLower fopt.ionOpt ++ "g" ++ ep.sDoy ++ "0." ++ ep.sYy ++ "i" = ionFile
  refine addsWget_guard P _ _ (fileExists E (chdir E dir s) ionFile = false)
    (Cmd.wget (ionFile ++ ".*") _ _) ?_ (hP _)
  unfold GetIono_fetch
  simp only [cleanTopex, sysCmd, say, fileExists]
  split_ifs <;> simp [wgetCmds, List.filterMap_append]

theorem GetRoti_adds (E : Env W) (ar : FtpArchive) (ep : EpochStr) (dir : String)
    (fopt : ftpopt_t) (s : St W) (P : Cmd → Prop)
    (hP : ∀ p, P (Cmd.wget p (GetRoti_url ar ep (ToUpper fopt.ftpFrom)).2
      (GetRoti_url ar ep (ToUpper fopt.ftpFrom)).1)) :
    AddsWget P s (GetRoti E ar ep dir fopt s) := by
  refine addsWget_trans P _ _ _ (addsWget_same P _ _ (chdir_wget E dir s)) ?_
  unfold GetRoti
  simp only []
  generalize "roti" ++ ep.sDoy ++ "0." ++ ep.sYy ++ "f" = rotFile
  refine addsWget_guard P _ _ (fileExists E (chdir E dir s) rotFile = false)
    (Cmd.wget (rotFile ++ ".*") _ _) ?_ (hP _)
  unfold GetRoti_fetch
  simp only [cleanTopex, sysCmd, say, fileExists]
  split_ifs <;> simp [wgetCmds, List.filterMap_append]

theorem GetTrop_unit_adds (E : Env W) (ar : FtpArchive) (ep : EpochStr) (fopt : ftpopt_t)
    (ftpName sitName : String) (s : St W) (P : Cmd → Prop)
    (hP : ∀ p, P (Cmd.wget p (GetTrop_url ar ep ftpName).2 (GetTrop_url ar ep ftpName).1)) :
    AddsWget P s (GetTrop_unit E ar ep fopt ftpName sitName s) := by
  refine addsWget_guard P _ _
    (fileExists E s (ToLower sitName ++ ep.sDoy ++ "0." ++ ep.sYy ++ "zpd") = false)
    (Cmd.wget (ToLower sitName ++ ep.sDoy ++ "0." ++ ep.sYy ++ "zpd" ++ ".*") _ _) ?_ (hP _)
  unfold GetTrop_unit
  simp only [sysCmd, say, fileExists]
  split_ifs <;> simp [wgetCmds, List.filterMap_append]

theorem GetTrop_cod_adds (E : Env W) (ep : EpochStr) (fopt : ftpopt_t) (s : St W)
    (P : Cmd → Prop)
    (hP : ∀ p, P (Cmd.wget p " --cut-dirs=2 " ("ftp://ftp.aiub.unibe.ch/CODE/" ++ ep.sYyyy))) :
    AddsWget P s (GetTrop_cod E ep fopt s) := by
  refine addsWget_guard P _ _
    (fileExists E s ("COD" ++ ep.sWwww ++ ep.sDow ++ ".TRO") = false)
    (Cmd.wget ("COD" ++ ep.sWwww ++ ep.sDow ++ ".TRO" ++ ".*") _ _) ?_ (hP _)
  unfold GetTrop_cod
  simp only [sysCmd, say, fileExists]
  split_ifs <;> simp [wgetCmds, List.filterMap_append]

theorem GetTrop_allFile_wget (E : Env W) (fopt : ftpopt_t) (f : String) (s : St W) :
    wgetCmds (GetTrop_allFile E fopt f s).trace = wgetCmds s.trace := by
  simp only [GetTrop_allFile, sysCmd, fileExists]
  split_ifs <;> simp [wgetCmds, List.filterMap_append]

theorem GetTrop_adds (E : Env W) (ar : FtpArchive) (ep : EpochStr) (dir : String)
    (fopt : ftpopt_t) (s : St W) (P : Cmd → Prop)
    (hA : ∀ p uc, UrlCases (ToUpper fopt.ftpFrom) uc
      (at_ ar.CDDIS IDX_ZTD ++ "/" ++ ep.sYyyy ++ "/" ++ ep.sDoy, " --cut-dirs=7 ")
      (at_ ar.IGN IDX_ZTD ++ "/" ++ ep.sYyyy ++ "/" ++ ep.sDoy, " --cut-dirs=6 ")
      (at_ ar.WHU IDX_ZTD ++ "/" ++ ep.sYyyy ++ "/" ++ ep.sDoy, " --cut-dirs=7 ")
      (at_ ar.CDDIS IDX_ZTD ++ "/" ++ ep.sYyyy ++ "/" ++ ep.sDoy, " --cut-dirs=7 ") →
      P (Cmd.wget p uc.2 uc.1))
    (hU : ∀ p, P (Cmd.wget p (GetTrop_url ar ep (ToUpper fopt.ftpFrom)).2
      (GetTrop_url ar ep (ToUpper fopt.ftpFrom)).1))
    (hC : ∀ p, P (Cmd.wget p " --cut-dirs=2 " ("ftp://ftp.aiub.unibe.ch/CODE/" ++ ep.sYyyy))) :
    AddsWget P s (GetTrop E ar ep dir fopt s) := by
  refine addsWget_trans P _ _ _ (addsWget_same P _ _ (chdir_wget E dir s)) ?_
  have hc := urlCases4 (ToUpper fopt.ftpFrom)
    (at_ ar.CDDIS IDX_ZTD ++ "/" ++ ep.sYyyy ++ "/" ++ ep.sDoy, " --cut-dirs=7 ")
    (at_ ar.IGN IDX_ZTD ++ "/" ++ ep.sYyyy ++ "/" ++ ep.sDoy, " --cut-dirs=6 ")
    (at_ ar.WHU IDX_ZTD ++ "/" ++ ep.sYyyy ++ "/" ++ ep.sDoy, " --cut-dirs=7 ")
    (at_ ar.CDDIS IDX_ZTD ++ "/" ++ ep.sYyyy ++ "/" ++ ep.sDoy, " --cut-dirs=7 ")
  unfold GetTrop
  simp only []
  generalize (if ToUpper fopt.ftpFrom = "CDDIS" then _ else _ : String × String) = uc at hc
  generalize (if fopt.getObs = true then fopt.obsOpt else _ : String) = sitFile
  by_cases h1 : ToLower fopt.trpOpt = "igs"
  · rw [if_pos h1]
    by_cases h2 : strlen sitFile < 9
    · rw [if_pos h2]
      refine addsWget_one P _ _ (Cmd.wget ("*" ++ ep.sDoy ++ "0." ++ ep.sYy ++ "zpd" ++ ".*")
        uc.2 uc.1) ?_ (hA _ uc hc)
      rw [foldl_wget_same _ (fun s f => GetTrop_allFile_wget E fopt f s), sysCmd_wget]
    · rw [if_neg h2]
      split_ifs
      · split
        · exact addsWget_same P _ _ (sayErr_wget _ _)
        · exact addsWget_foldl P _ (fun s line =>
            GetTrop_unit_adds E ar ep fopt _ line s P hU) _ _
      · exact addsWget_same P _ _ rfl
  · rw [if_neg h1]
    split_ifs
    · exact GetTrop_cod_adds E ep fopt _ P hC
    · exact addsWget_same P _ _ rfl

theorem GetRtOrbClkCNT_fetch_adds (E : Env W) (ep : EpochStr) (fopt : ftpopt_t)
    (kind ext : String) (s : St W) (P : Cmd → Prop)
    (hP : P (Cmd.wgetUrl " --cut-dirs=2 " ("http://www.ppp-wizard.net/products/REAL_TIME/" ++
      ("cnt" ++ ep.sWwww ++ ep.sDow ++ ext ++ ".gz")))) :
    AddsWget P s (GetRtOrbClkCNT_fetch E ep fopt kind ext s) := by
  refine addsWget_guard P _ _ (fileExists E s ("cnt" ++ ep.sWwww ++ ep.sDow ++ ext) = false)
    _ ?_ hP
  unfold GetRtOrbClkCNT_fetch
  simp only []
  by_cases h : fileExists E s ("cnt" ++ ep.sWwww ++ ep.sDow ++ ext) = false
  · rw [if_pos h, if_pos h, cleanCnt_wget]
    split_ifs <;> simp [sysCmd, say, wgetCmds, List.filterMap_append]
  · rw [if_neg h, if_neg h]
    simp [say, wgetCmds, List.filterMap_append]

theorem GetRtOrbClkCNT_adds (E : Env W) (ep : EpochStr) (dir : String) (mode : Nat)
    (fopt : ftpopt_t) (s : St W) (P : Cmd → Prop)
    (hP : ∀ ext, ext = ".sp3" ∨ ext = ".clk" →
      P (Cmd.wgetUrl " --cut-dirs=2 " ("http://www.ppp-wizard.net/products/REAL_TIME/" ++
        ("cnt" ++ ep.sWwww ++ ep.sDow ++ ext ++ ".gz")))) :
    AddsWget P s (GetRtOrbClkCNT E ep dir mode fopt s) := by
  refine addsWget_trans P _ _ _ (addsWget_same P _ _ (chdir_wget E dir s)) ?_
  unfold GetRtOrbClkCNT
  simp only []
  split_ifs
  · exact GetRtOrbClkCNT_fetch_adds E ep fopt _ _ _ P (hP _ (Or.inl rfl))
  · exact GetRtOrbClkCNT_fetch_adds E ep fopt _ _ _ P (hP _ (Or.inr rfl))
  · exact addsWget_same P _ _ rfl

theorem GetRtBiasCNT_adds (E : Env W) (ep : EpochStr) (dir : String)
    (fopt : ftpopt_t) (s : St W) (P : Cmd → Prop)
    (hP : P (Cmd.wgetUrl " --cut-dirs=2 " ("http://www.ppp-wizard.net/products/REAL_TIME/" ++
      ("cnt" ++ ep.sWwww ++ ep.sDow ++ ".bia" ++ ".gz")))) :
    AddsWget P s (GetRtBiasCNT E ep dir fopt s) := by
  refine addsWget_trans P _ _ _ (addsWget_same P _ _ (chdir_wget E dir s)) ?_
  refine addsWget_guard P _ _
    (fileExists E (chdir E dir s) ("cnt" ++ ep.sWwww ++ ep.sDow ++ ".bia") = false) _ ?_ hP
  unfold GetRtBiasCNT
  simp only []
  by_cases h : fileExists E (chdir E dir s) ("cnt" ++ ep.sWwww ++ ep.sDow ++ ".bia") = false
  · rw [if_pos h, if_pos h, cleanCnt_wget]
    split_ifs <;> simp [sysCmd, say, wgetCmds, List.filterMap_append]
  · rw [if_neg h, if_neg h]
    simp [say, wgetCmds, List.filterMap_append]

theorem GetAntexIGS_adds (E : Env W) (dir : String) (fopt : ftpopt_t) (s : St W)
    (P : Cmd → Prop)
    (hP : P (Cmd.wgetUrl " --cut-dirs=3 " ("https://files.igs.org/pub/station/general/" ++
      "igs14.atx"))) :
    AddsWget P s (GetAntexIGS E dir fopt s) := by
  refine addsWget_trans P _ _ _ (addsWget_same P _ _ (chdir_wget E dir s)) ?_
  refine addsWget_guard P _ _ (fileExists E (chdir E dir s) "igs14.atx" = false) _ ?_ hP
  unfold GetAntexIGS
  simp only [sysCmd, say, fileExists]
  split_ifs <;> simp [wgetCmds, List.filterMap_append]

/-! ## C26: the `--cut-dirs` option and the URL -/

theorem cutOk_cases (ftpName p : String) (uc c i w e : String × String)
    (h : UrlCases ftpName uc c i w e)
    (hc : cutDirsOk (Cmd.wget p c.2 c.1) = true) (hi : cutDirsOk (Cmd.wget p i.2 i.1) = true)
    (hw : cutDirsOk (Cmd.wget p w.2 w.1) = true) (he : cutDirsOk (Cmd.wget p e.2 e.1) = true) :
    cutDirsOk (Cmd.wget p uc.2 uc.1) = true := by
  obtain ⟨h1, h2, h3, h4⟩ := h
  by_cases c1 : ftpName = "CDDIS"
  · rw [h1 c1]; exact hc
  · by_cases c2 : ftpName = "IGN"
    · rw [h2 c2]; exact hi
    · by_cases c3 : ftpName = "WHU"
      · rw [h3 c3]; exact hw
      · rw [h4 c1 c2 c3]; exact he

theorem GetNav_dailyUrl_cutOk (ep : EpochStr) (hn : NoSlash ep) (ftpName p : String) :
    cutDirsOk (Cmd.wget p (GetNav_dailyUrl ftpArchive0 ep ftpName).2 (GetNav_dailyUrl ftpArchive0 ep ftpName).1) = true := by
  unfold GetNav_dailyUrl
  split_ifs
  · exact (cutDirsOk_wget _ _ _ _ 6
      (by repeat (first | exact urlHas_base _ (by decide) | apply urlHas_app))
      (by simp only [hn.1, hn.2.1, hn.2.2.1, hn.2.2.2.1, hn.2.2.2.2, hh2str_noSlash]; decide)
      (by rfl))
  · exact (cutDirsOk_wget _ _ _ _ 5
      (by repeat (first | exact urlHas_base _ (by decide) | apply urlHas_app))
      (by simp only [hn.1, hn.2.1, hn.2.2.1, hn.2.2.2.1, hn.2.2.2.2, hh2str_noSlash]; decide)
      (by rfl))
  · exact (cutDirsOk_wget _ _ _ _ 6
      (by repeat (first | exact urlHas_base _ (by decide) | apply urlHas_app))
      (by simp only [hn.1, hn.2.1, hn.2.2.1, hn.2.2.2.1, hn.2.2.2.2, hh2str_noSlash]; decide)
      (by rfl))
  · exact (cutDirsOk_wget _ _ _ _ 6
      (by repeat (first | exact urlHas_base _ (by decide) | apply urlHas_app))
      (by simp only [hn.1, hn.2.1, hn.2.2.1, hn.2.2.2.1, hn.2.2.2.2, hh2str_noSlash]; decide)
      (by rfl))

theorem GetOrbClk_igsUrl_cutOk (ep : EpochStr) (hn : NoSlash ep) (ftpName p : String) :
    cutDirsOk (Cmd.wget p (GetOrbClk_igsUrl ftpArchive0 ep ftpName).2 (GetOrbClk_igsUrl ftpArchive0 ep ftpName).1) = true := by
  unfold GetOrbClk_igsUrl
  split_ifs
  · exact (cutDirsOk_wget _ _ _ _ 4
      (by repeat (first | exact urlHas_base _ (by decide) | apply urlHas_app))
      (by simp only [hn.1, hn.2.1, hn.2.2.1, hn.2.2.2.1, hn.2.2.2.2, hh2str_noSlash]; decide)
      (by rfl))
  · exact (cutDirsOk_wget _ _ _ _ 4
      (by repeat (first | exact urlHas_base _ (by decide) | apply urlHas_app))
      (by simp only [hn.1, hn.2.1, hn.2.2.1, hn.2.2.2.1, hn.2.2.2.2, hh2str_noSlash]; decide)
      (by rfl))
  · exact (cutDirsOk_wget _ _ _ _ 4
      (by repeat (first | exact urlHas_base _ (by decide) | apply urlHas_app))
      (by simp only [hn.1, hn.2.1, hn.2.2.1, hn.2.2.2.1, hn.2.2.2.2, hh2str_noSlash]; decide)
      (by rfl))
  · exact (cutDirsOk_wget _ _ _ _ 4
      (by repeat (first | exact urlHas_base _ (by decide) | apply urlHas_app))
      (by simp only [hn.1, hn.2.1, hn.2.2.1, hn.2.2.2.1, hn.2.2.2.2, hh2str_noSlash]; decide)
      (by rfl))

theorem GetEop_url_cutOk (ep : EpochStr) (hn : NoSlash ep) (ftpName p : String) :
    cutDirsOk (Cmd.wget p (GetEop_url ftpArchive0 ep ftpName).2 (GetEop_url ftpArchive0 ep ftpName).1) = true := by
  unfold GetEop_url
  split_ifs
  · exact (cutDirsOk_wget _ _ _ _ 4
      (by repeat (first | exact urlHas_base _ (by decide) | apply urlHas_app))
      (by simp only [hn.1, hn.2.1, hn.2.2.1, hn.2.2.2.1, hn.2.2.2.2, hh2str_noSlash]; decide)
      (by rfl))
  · exact (cutDirsOk_wget _ _ _ _ 4
      (by repeat (first | exact urlHas_base _ (by decide) | apply urlHas_app))
      (by simp only [hn.1, hn.2.1, hn.2.2.1, hn.2.2.2.1, hn.2.2.2.2, hh2str_noSlash]; decide)
      (by rfl))
  · exact (cutDirsOk_wget _ _ _ _ 4
      (by repeat (first | exact urlHas_base _ (by decide) | apply urlHas_app))
      (by simp only [hn.1, hn.2.1, hn.2.2.1, hn.2.2.2.1, hn.2.2.2.2, hh2str_noSlash]; decide)
      (by rfl))
  · exact (cutDirsOk_wget _ _ _ _ 4
      (by repeat (first | exact urlHas_base _ (by decide) | apply urlHas_app))
      (by simp only [hn.1, hn.2.1, hn.2.2.1, hn.2.2.2.1, hn.2.2.2.2, hh2str_noSlash]; decide)
      (by rfl))

theorem GetSnx_url_cutOk (ep : EpochStr) (hn : NoSlash ep) (ftpName p : String) :
    cutDirsOk (Cmd.wget p (GetSnx_url ftpArchive0 ep ftpName).2 (GetSnx_url ftpArchive0 ep ftpName).1) = true := by
  unfold GetSnx_url
  split_ifs
  · exact (cutDirsOk_wget _ _ _ _ 4
      (by repeat (first | exact urlHas_base _ (by decide) | apply urlHas_app))
      (by simp only [hn.1, hn.2.1, hn.2.2.1, hn.2.2.2.1, hn.2.2.2.2, hh2str_noSlash]; decide)
      (by rfl))
  · exact (cutDirsOk_wget _ _ _ _ 4
      (by repeat (first | exact urlHas_base _ (by decide) | apply urlHas_app))
      (by simp only [hn.1, hn.2.1, hn.2.2.1, hn.2.2.2.1, hn.2.2.2.2, hh2str_noSlash]; decide)
      (by rfl))
  · exact (cutDirsOk_wget _ _ _ _ 4
      (by repeat (first | exact urlHas_base _ (by decide) | apply urlHas_app))
      (by simp only [hn.1, hn.2.1, hn.2.2.1, hn.2.2.2.1, hn.2.2.2.2, hh2str_noSlash]; decide)
      (by rfl))
  · exact (cutDirsOk_wget _ _ _ _ 4
      (by repeat (first | exact urlHas_base _ (by decide) | apply urlHas_app))
      (by simp only [hn.1, hn.2.1, hn.2.2.1, hn.2.2.2.1, hn.2.2.2.2, hh2str_noSlash]; decide)
      (by rfl))

theorem GetSnx_urlDaily_cutOk (ep : EpochStr) (hn : NoSlash ep) (ftpName p : String) :
    cutDirsOk (Cmd.wget p (GetSnx_urlDaily ftpArchive0 ep ftpName).2 (GetSnx_urlDaily ftpArchive0 ep ftpName).1) = true := by
  unfold GetSnx_urlDaily
  split_ifs
  · exact (cutDirsOk_wget _ _ _ _ 4
      (by repeat (first | exact urlHas_base _ (by decide) | apply urlHas_app))
      (by simp only [hn.1, hn.2.1, hn.2.2.1, hn.2.2.2.1, hn.2.2.2.2, hh2str_noSlash]; decide)
      (by rfl))
  · exact (cutDirsOk_wget _ _ _ _ 4
      (by repeat (first | exact urlHas_base _ (by decide) | apply urlHas_app))
      (by simp only [hn.1, hn.2.1, hn.2.2.1, hn.2.2.2.1, hn.2.2.2.2, hh2str_noSlash]; decide)
      (by rfl))
  · exact (cutDirsOk_wget _ _ _ _ 4
      (by repeat (first | exact urlHas_base _ (by decide) | apply urlHas_app))
      (by simp only [hn.1, hn.2.1, hn.2.2.1, hn.2.2.2.1, hn.2.2.2.2, hh2str_noSlash]; decide)
      (by rfl))
  · exact (cutDirsOk_wget _ _ _ _ 4
      (by repeat (first | exact urlHas_base _ (by decide) | apply urlHas_app))
      (by simp only [hn.1, hn.2.1, hn.2.2.1, hn.2.2.2.1, hn.2.2.2.2, hh2str_noSlash]; decide)
      (by rfl))

theorem GetDcbMgex_url_cutOk (ep : EpochStr) (hn : NoSlash ep) (ftpName p : String) :
    cutDirsOk (Cmd.wget p (GetDcbMgex_url ftpArchive0 ep ftpName).2 (GetDcbMgex_url ftpArchive0 ep ftpName).1) = true := by
  unfold GetDcbMgex_url
  split_ifs
  · exact (cutDirsOk_wget _ _ _ _ 5
      (by repeat (first | exact urlHas_base _ (by decide) | apply urlHas_app))
      (by simp only [hn.1, hn.2.1, hn.2.2.1, hn.2.2.2.1, hn.2.2.2.2, hh2str_noSlash]; decide)
      (by rfl))
  · exact (cutDirsOk_wget _ _ _ _ 6
      (by repeat (first | exact urlHas_base _ (by decide) | apply urlHas_app))
      (by simp only [hn.1, hn.2.1, hn.2.2.1, hn.2.2.2.1, hn.2.2.2.2, hh2str_noSlash]; decide)
      (by rfl))
  · exact (cutDirsOk_wget _ _ _ _ 6
      (by repeat (first | exact urlHas_base _ (by decide) | apply urlHas_app))
      (by simp only [hn.1, hn.2.1, hn.2.2.1, hn.2.2.2.1, hn.2.2.2.2, hh2str_noSlash]; decide)
      (by rfl))
  · exact (cutDirsOk_wget _ _ _ _ 5
      (by repeat (first | exact urlHas_base _ (by decide) | apply urlHas_app))
      (by simp only [hn.1, hn.2.1, hn.2.2.1, hn.2.2.2.1, hn.2.2.2.2, hh2str_noSlash]; decide)
      (by rfl))

theorem GetIono_url_cutOk (ep : EpochStr) (hn : NoSlash ep) (ftpName p : String) :
    cutDirsOk (Cmd.wget p (GetIono_url ftpArchive0 ep ftpName).2 (GetIono_url ftpArchive0 ep ftpName).1) = true := by
  unfold GetIono_url
  split_ifs
  · exact (cutDirsOk_wget _ _ _ _ 6
      (by repeat (first | exact urlHas_base _ (by decide) | apply urlHas_app))
      (by simp only [hn.1, hn.2.1, hn.2.2.1, hn.2.2.2.1, hn.2.2.2.2, hh2str_noSlash]; decide)
      (by rfl))
  · exact (cutDirsOk_wget _ _ _ _ 6
      (by repeat (first | exact urlHas_base _ (by decide) | apply urlHas_app))
      (by simp only [hn.1, hn.2.1, hn.2.2.1, hn.2.2.2.1, hn.2.2.2.2, hh2str_noSlash]; decide)
      (by rfl))
  · exact (cutDirsOk_wget _ _ _ _ 6
      (by repeat (first | exact urlHas_base _ (by decide) | apply urlHas_app))
      (by simp only [hn.1, hn.2.1, hn.2.2.1, hn.2.2.2.1, hn.2.2.2.2, hh2str_noSlash]; decide)
      (by rfl))
  · exact (cutDirsOk_wget _ _ _ _ 6
      (by repeat (first | exact urlHas_base _ (by decide) | apply urlHas_app))
      (by simp only [hn.1, hn.2.1, hn.2.2.1, hn.2.2.2.1, hn.2.2.2.2, hh2str_noSlash]; decide)
      (by rfl))

theorem GetRoti_url_cutOk (ep : EpochStr) (hn : NoSlash ep) (ftpName p : String) :
    cutDirsOk (Cmd.wget p (GetRoti_url ftpArchive0 ep ftpName).2 (GetRoti_url ftpArchive0 ep ftpName).1) = true := by
  unfold GetRoti_url
  split_ifs
  · exact (cutDirsOk_wget _ _ _ _ 6
      (by repeat (first | exact urlHas_base _ (by decide) | apply urlHas_app))
      (by simp only [hn.1, hn.2.1, hn.2.2.1, hn.2.2.2.1, hn.2.2.2.2, hh2str_noSlash]; decide)
      (by rfl))
  · exact (cutDirsOk_wget _ _ _ _ 6
      (by repeat (first | exact urlHas_base _ (by decide) | apply urlHas_app))
      (by simp only [hn.1, hn.2.1, hn.2.2.1, hn.2.2.2.1, hn.2.2.2.2, hh2str_noSlash]; decide)
      (by rfl))
  · exact (cutDirsOk_wget _ _ _ _ 6
      (by repeat (first | exact urlHas_base _ (by decide) | apply urlHas_app))
      (by simp only [hn.1, hn.2.1, hn.2.2.1, hn.2.2.2.1, hn.2.2.2.2, hh2str_noSlash]; decide)
      (by rfl))
  · exact (cutDirsOk_wget _ _ _ _ 6
      (by repeat (first | exact urlHas_base _ (by decide) | apply urlHas_app))
      (by simp only [hn.1, hn.2.1, hn.2.2.1, hn.2.2.2.1, hn.2.2.2.2, hh2str_noSlash]; decide)
      (by rfl))

theorem GetTrop_url_cutOk (ep : EpochStr) (hn : NoSlash ep) (ftpName p : String)
    (hk : ftpName = "CDDIS" ∨ ftpName = "IGN" ∨ ftpName = "WHU") :
    cutDirsOk (Cmd.wget p (GetTrop_url ftpArchive0 ep ftpName).2
      (GetTrop_url ftpArchive0 ep ftpName).1) = true := by
  unfold GetTrop_url
  split_ifs with c1 c2 c3
  · exact (cutDirsOk_wget _ _ _ _ 7
      (by repeat (first | exact urlHas_base _ (by decide) | apply urlHas_app))
      (by simp only [hn.1, hn.2.1, hn.2.2.1, hn.2.2.2.1, hn.2.2.2.2, hh2str_noSlash]; decide)
      (by rfl))
  · exact (cutDirsOk_wget _ _ _ _ 6
      (by repeat (first | exact urlHas_base _ (by decide) | apply urlHas_app))
      (by simp only [hn.1, hn.2.1, hn.2.2.1, hn.2.2.2.1, hn.2.2.2.2, hh2str_noSlash]; decide)
      (by rfl))
  · exact (cutDirsOk_wget _ _ _ _ 7
      (by repeat (first | exact urlHas_base _ (by decide) | apply urlHas_app))
      (by simp only [hn.1, hn.2.1, hn.2.2.1, hn.2.2.2.1, hn.2.2.2.2, hh2str_noSlash]; decide)
      (by rfl))
  · rcases hk with h | h | h
    · exact absurd h c1
    · exact absurd h c2
    · exact absurd h c3

theorem gfzUrl_cutOk (ep : EpochStr) (hn : NoSlash ep) (p : String) :
    cutDirsOk (Cmd.wget p " --cut-dirs=5 "
      ("ftp://ftp.gfz-potsdam.de/pub/GNSS/products/ultra/w" ++ ep.sWwww)) = true :=
  (cutDirsOk_wget _ _ _ _ 5
    (by repeat (first | exact urlHas_base _ (by decide) | apply urlHas_app))
    (by simp only [hn.1, hn.2.1, hn.2.2.1, hn.2.2.2.1, hn.2.2.2.2, hh2str_noSlash]; decide)
    (by rfl))

theorem codeUrl_cutOk (ep : EpochStr) (hn : NoSlash ep) (p : String) :
    cutDirsOk (Cmd.wget p " --cut-dirs=2 " ("ftp://ftp.aiub.unibe.ch/CODE/" ++ ep.sYyyy)) =
      true :=
  (cutDirsOk_wget _ _ _ _ 2
    (by repeat (first | exact urlHas_base _ (by decide) | apply urlHas_app))
    (by simp only [hn.1, hn.2.1, hn.2.2.1, hn.2.2.2.1, hn.2.2.2.2, hh2str_noSlash]; decide)
    (by rfl))

theorem cntUrl_cutOk (ep : EpochStr) (hn : NoSlash ep) (ext : String)
    (he : ext = ".sp3" ∨ ext = ".clk" ∨ ext = ".bia") :
    cutDirsOk (Cmd.wgetUrl " --cut-dirs=2 " ("http://www.ppp-wizard.net/products/REAL_TIME/" ++
      ("cnt" ++ ep.sWwww ++ ep.sDow ++ ext ++ ".gz"))) = true := by
  rcases he with h | h | h <;> subst h <;>
    exact (cutDirsOk_wgetUrl _ _ _ 2
      (by repeat (first | exact urlHas_base _ (by decide) | apply urlHas_app))
      (by simp only [hn.1, hn.2.1, hn.2.2.1, hn.2.2.2.1, hn.2.2.2.2, String.data_append,
        List.count_append]; decide)
      (by rfl))

theorem atxUrl_cutOk :
    cutDirsOk (Cmd.wgetUrl " --cut-dirs=3 " ("https://files.igs.org/pub/station/general/" ++
      "igs14.atx")) = true := by
  decide

/-- C26. With the registry of `init()`, an epoch whose year, day and week strings (and the
day of week that goes into the file names) contain no `/`, and the archive option one of
CDDIS, IGN, WHU in any letter case: for every state and every behaviour of the tools,
every transfer command issued by any of the eighteen retrieval procedures of `FtpUtil`
carries the `--cut-dirs` value that is the number of directory components of the path of
its URL. The hour strings are the two digits of `hh2str`, which contain no `/`. -/
theorem C26_cut_dirs_matches_url (E : Env W) (ep : EpochStr) (dir : String) (mode : Nat)
    (dType : String) (fopt : ftpopt_t) (s : St W) (hn : NoSlash ep) (hk : KnownArchive fopt) :
    AddsWget (fun c => cutDirsOk c = true) s (GetDailyObsIgs E ftpArchive0 ep dir fopt s) ∧
    AddsWget (fun c => cutDirsOk c = true) s (GetHourlyObsIgs E ftpArchive0 ep dir fopt s) ∧
    AddsWget (fun c => cutDirsOk c = true) s (GetHrObsIgs E ftpArchive0 ep dir fopt s) ∧
    AddsWget (fun c => cutDirsOk c = true) s (GetDailyObsMgex E ftpArchive0 ep dir fopt s) ∧
    AddsWget (fun c => cutDirsOk c = true) s (GetHourlyObsMgex E ftpArchive0 ep dir fopt s) ∧
    AddsWget (fun c => cutDirsOk c = true) s (GetHrObsMgex E ftpArchive0 ep dir fopt s) ∧
    AddsWget (fun c => cutDirsOk c = true) s (GetNav E ftpArchive0 ep dir fopt s) ∧
    AddsWget (fun c => cutDirsOk c = true) s (GetOrbClk E ftpArchive0 ep dir mode fopt s) ∧
    AddsWget (fun c => cutDirsOk c = true) s (GetEop E ftpArchive0 ep dir fopt s) ∧
    AddsWget (fun c => cutDirsOk c = true) s (GetSnx E ftpArchive0 ep dir fopt s) ∧
    AddsWget (fun c => cutDirsOk c = true) s (GetDcbMgex E ftpArchive0 ep dir fopt s) ∧
    AddsWget (fun c => cutDirsOk c = true) s (GetDcbCode E ep dir dType fopt s) ∧
    AddsWget (fun c => cutDirsOk c = true) s (GetIono E ftpArchive0 ep dir fopt s) ∧
    AddsWget (fun c => cutDirsOk c = true) s (GetRoti E ftpArchive0 ep dir fopt s) ∧
    AddsWget (fun c => cutDirsOk c = true) s (GetTrop E ftpArchive0 ep dir fopt s) ∧
    AddsWget (fun c => cutDirsOk c = true) s (GetRtOrbClkCNT E ep dir mode fopt s) ∧
    AddsWget (fun c => cutDirsOk c = true) s (GetRtBiasCNT E ep dir fopt s) ∧
    AddsWget (fun c => cutDirsOk c = true) s (GetAntexIGS E dir fopt s) := by
  refine ⟨?_, ?_, ?_, ?_, ?_, ?_, ?_, ?_, ?_, ?_, ?_, ?_, ?_, ?_, ?_, ?_, ?_, ?_⟩
  · exact GetDailyObsIgs_adds E ftpArchive0 ep dir fopt s _
      (fun _ p uc hc => (cutOk_cases _ _ uc _ _ _ _ hc
      (cutDirsOk_wget _ _ _ _ 7
        (by repeat (first | exact urlHas_base _ (by decide) | apply urlHas_app))
        (by simp only [hn.1, hn.2.1, hn.2.2.1, hn.2.2.2.1, hn.2.2.2.2, hh2str_noSlash]; decide)
        (by rfl))
      (cutDirsOk_wget _ _ _ _ 5
        (by repeat (first | exact urlHas_base _ (by decide) | apply urlHas_app))
        (by simp only [hn.1, hn.2.1, hn.2.2.1, hn.2.2.2.1, hn.2.2.2.2, hh2str_noSlash]; decide)
        (by rfl))
      (cutDirsOk_wget _ _ _ _ 7
        (by repeat (first | exact urlHas_base _ (by decide) | apply urlHas_app))
        (by simp only [hn.1, hn.2.1, hn.2.2.1, hn.2.2.2.1, hn.2.2.2.2, hh2str_noSlash]; decide)
        (by rfl))
      (cutDirsOk_wget _ _ _ _ 7
        (by repeat (first | exact urlHas_base _ (by decide) | apply urlHas_app))
        (by simp only [hn.1, hn.2.1, hn.2.2.1, hn.2.2.2.1, hn.2.2.2.2, hh2str_noSlash]; decide)
        (by rfl))))
      (fun _ x s => addsWget_guard _ _ _ _ _ (GetDailyObsIgs_unit_wget E ftpArchive0 ep fopt _ x s)
        (cutOk_cases _ _ _ _ _ _ _ (GetDailyObsIgs_url_cases ftpArchive0 ep _)
      (cutDirsOk_wget _ _ _ _ 7
        (by repeat (first | exact urlHas_base _ (by decide) | apply urlHas_app))
        (by simp only [hn.1, hn.2.1, hn.2.2.1, hn.2.2.2.1, hn.2.2.2.2, hh2str_noSlash]; decide)
        (by rfl))
      (cutDirsOk_wget _ _ _ _ 5
        (by repeat (first | exact urlHas_base _ (by decide) | apply urlHas_app))
        (by simp only [hn.1, hn.2.1, hn.2.2.1, hn.2.2.2.1, hn.2.2.2.2, hh2str_noSlash]; decide)
        (by rfl))
      (cutDirsOk_wget _ _ _ _ 7
        (by repeat (first | exact urlHas_base _ (by decide) | apply urlHas_app))
        (by simp only [hn.1, hn.2.1, hn.2.2.1, hn.2.2.2.1, hn.2.2.2.2, hh2str_noSlash]; decide)
        (by rfl))
      (cutDirsOk_wget _ _ _ _ 7
        (by repeat (first | exact urlHas_base _ (by decide) | apply urlHas_app))
        (by simp only [hn.1, hn.2.1, hn.2.2.1, hn.2.2.2.1, hn.2.2.2.2, hh2str_noSlash]; decide)
        (by rfl))))
  · refine GetHourlyObsIgs_adds E ftpArchive0 ep dir fopt s _ (fun _ subDir hh s => ?_)
      (fun _ hh x s => ?_)
    · obtain ⟨uc, hw, hc⟩ := GetHourlyObsIgs_allHour_wget E ftpArchive0 ep fopt (ToUpper fopt.ftpFrom)
        subDir hh s
      exact addsWget_one _ _ _ _ hw
        (cutOk_cases _ _ uc _ _ _ _ hc
      (cutDirsOk_wget _ _ _ _ 7
        (by repeat (first | exact urlHas_base _ (by decide) | apply urlHas_app))
        (by simp only [hn.1, hn.2.1, hn.2.2.1, hn.2.2.2.1, hn.2.2.2.2, hh2str_noSlash]; decide)
        (by rfl))
      (cutDirsOk_wget _ _ _ _ 6
        (by repeat (first | exact urlHas_base _ (by decide) | apply urlHas_app))
        (by simp only [hn.1, hn.2.1, hn.2.2.1, hn.2.2.2.1, hn.2.2.2.2, hh2str_noSlash]; decide)
        (by rfl))
      (cutDirsOk_wget _ _ _ _ 7
        (by repeat (first | exact urlHas_base _ (by decide) | apply urlHas_app))
        (by simp only [hn.1, hn.2.1, hn.2.2.1, hn.2.2.2.1, hn.2.2.2.2, hh2str_noSlash]; decide)
        (by rfl))
      (cutDirsOk_wget _ _ _ _ 7
        (by repeat (first | exact urlHas_base _ (by decide) | apply urlHas_app))
        (by simp only [hn.1, hn.2.1, hn.2.2.1, hn.2.2.2.1, hn.2.2.2.2, hh2str_noSlash]; decide)
        (by rfl)))
    · obtain ⟨uc, hw, hc, _⟩ := GetHourlyObsIgs_unit_wget E ftpArchive0 ep fopt (ToUpper fopt.ftpFrom)
        hh x s
      exact addsWget_guard _ _ _ _ _ hw
        (cutOk_cases _ _ uc _ _ _ _ hc
      (cutDirsOk_wget _ _ _ _ 7
        (by repeat (first | exact urlHas_base _ (by decide) | apply urlHas_app))
        (by simp only [hn.1, hn.2.1, hn.2.2.1, hn.2.2.2.1, hn.2.2.2.2, hh2str_noSlash]; decide)
        (by rfl))
      (cutDirsOk_wget _ _ _ _ 6
        (by repeat (first | exact urlHas_base _ (by decide) | apply urlHas_app))
        (by simp only [hn.1, hn.2.1, hn.2.2.1, hn.2.2.2.1, hn.2.2.2.2, hh2str_noSlash]; decide)
        (by rfl))
      (cutDirsOk_wget _ _ _ _ 7
        (by repeat (first | exact urlHas_base _ (by decide) | apply urlHas_app))
        (by simp only [hn.1, hn.2.1, hn.2.2.1, hn.2.2.2.1, hn.2.2.2.2, hh2str_noSlash]; decide)
        (by rfl))
      (cutDirsOk_wget _ _ _ _ 7
        (by repeat (first | exact urlHas_base _ (by decide) | apply urlHas_app))
        (by simp only [hn.1, hn.2.1, hn.2.2.1, hn.2.2.2.1, hn.2.2.2.2, hh2str_noSlash]; decide)
        (by rfl)))
  · refine GetHrObsIgs_adds E ftpArchive0 ep dir fopt s _ (fun _ subDir hh s => ?_)
      (fun _ hh minu x s => ?_)
    · obtain ⟨uc, hw, hc⟩ := GetHrObsIgs_allHour_wget E ftpArchive0 ep fopt (ToUpper fopt.ftpFrom)
        subDir hh s
      exact addsWget_one _ _ _ _ hw
        (cutOk_cases _ _ uc _ _ _ _ hc
      (cutDirsOk_wget _ _ _ _ 8
        (by repeat (first | exact urlHas_base _ (by decide) | apply urlHas_app))
        (by simp only [hn.1, hn.2.1, hn.2.2.1, hn.2.2.2.1, hn.2.2.2.2, hh2str_noSlash]; decide)
        (by rfl))
      (cutDirsOk_wget _ _ _ _ 6
        (by repeat (first | exact urlHas_base _ (by decide) | apply urlHas_app))
        (by simp only [hn.1, hn.2.1, hn.2.2.1, hn.2.2.2.1, hn.2.2.2.2, hh2str_noSlash]; decide)
        (by rfl))
      (cutDirsOk_wget _ _ _ _ 8
        (by repeat (first | exact urlHas_base _ (by decide) | apply urlHas_app))
        (by simp only [hn.1, hn.2.1, hn.2.2.1, hn.2.2.2.1, hn.2.2.2.2, hh2str_noSlash]; decide)
        (by rfl))
      (cutDirsOk_wget _ _ _ _ 8
        (by repeat (first | exact urlHas_base _ (by decide) | apply urlHas_app))
        (by simp only [hn.1, hn.2.1, hn.2.2.1, hn.2.2.2.1, hn.2.2.2.2, hh2str_noSlash]; decide)
        (by rfl)))
    · obtain ⟨uc, hw, hc, _⟩ := GetHrObsIgs_unit_wget E ftpArchive0 ep fopt (ToUpper fopt.ftpFrom)
        hh minu x s
      exact addsWget_guard _ _ _ _ _ hw
        (cutOk_cases _ _ uc _ _ _ _ hc
      (cutDirsOk_wget _ _ _ _ 8
        (by repeat (first | exact urlHas_base _ (by decide) | apply urlHas_app))
        (by simp only [hn.1, hn.2.1, hn.2.2.1, hn.2.2.2.1, hn.2.2.2.2, hh2str_noSlash]; decide)
        (by rfl))
      (cutDirsOk_wget _ _ _ _ 6
        (by repeat (first | exact urlHas_base _ (by decide) | apply urlHas_app))
        (by simp only [hn.1, hn.2.1, hn.2.2.1, hn.2.2.2.1, hn.2.2.2.2, hh2str_noSlash]; decide)
        (by rfl))
      (cutDirsOk_wget _ _ _ _ 8
        (by repeat (first | exact urlHas_base _ (by decide) | apply urlHas_app))
        (by simp only [hn.1, hn.2.1, hn.2.2.1, hn.2.2.2.1, hn.2.2.2.2, hh2str_noSlash]; decide)
        (by rfl))
      (cutDirsOk_wget _ _ _ _ 8
        (by repeat (first | exact urlHas_base _ (by decide) | apply urlHas_app))
        (by simp only [hn.1, hn.2.1, hn.2.2.1, hn.2.2.2.1, hn.2.2.2.2, hh2str_noSlash]; decide)
        (by rfl)))
  · refine GetDailyObsMgex_adds E ftpArchive0 ep dir fopt s _
      (fun _ p uc hc => (cutOk_cases _ _ uc _ _ _ _ hc
      (cutDirsOk_wget _ _ _ _ 7
        (by repeat (first | exact urlHas_base _ (by decide) | apply urlHas_app))
        (by simp only [hn.1, hn.2.1, hn.2.2.1, hn.2.2.2.1, hn.2.2.2.2, hh2str_noSlash]; decide)
        (by rfl))
      (cutDirsOk_wget _ _ _ _ 5
        (by repeat (first | exact urlHas_base _ (by decide) | apply urlHas_app))
        (by simp only [hn.1, hn.2.1, hn.2.2.1, hn.2.2.2.1, hn.2.2.2.2, hh2str_noSlash]; decide)
        (by rfl))
      (cutDirsOk_wget _ _ _ _ 7
        (by repeat (first | exact urlHas_base _ (by decide) | apply urlHas_app))
        (by simp only [hn.1, hn.2.1, hn.2.2.1, hn.2.2.2.1, hn.2.2.2.2, hh2str_noSlash]; decide)
        (by rfl))
      (cutDirsOk_wget _ _ _ _ 7
        (by repeat (first | exact urlHas_base _ (by decide) | apply urlHas_app))
        (by simp only [hn.1, hn.2.1, hn.2.2.1, hn.2.2.2.1, hn.2.2.2.2, hh2str_noSlash]; decide)
        (by rfl))))
      (fun _ x s => ?_)
    obtain ⟨uc, hw, hc, _⟩ := GetDailyObsMgex_unit_wget E ftpArchive0 ep fopt
      (ToUpper fopt.ftpFrom) x s
    exact addsWget_guard _ _ _ _ _ hw
      (cutOk_cases _ _ uc _ _ _ _ hc
      (cutDirsOk_wget _ _ _ _ 7
        (by repeat (first | exact urlHas_base _ (by decide) | apply urlHas_app))
        (by simp only [hn.1, hn.2.1, hn.2.2.1, hn.2.2.2.1, hn.2.2.2.2, hh2str_noSlash]; decide)
        (by rfl))
      (cutDirsOk_wget _ _ _ _ 5
        (by repeat (first | exact urlHas_base _ (by decide) | apply urlHas_app))
        (by simp only [hn.1, hn.2.1, hn.2.2.1, hn.2.2.2.1, hn.2.2.2.2, hh2str_noSlash]; decide)
        (by rfl))
      (cutDirsOk_wget _ _ _ _ 7
        (by repeat (first | exact urlHas_base _ (by decide) | apply urlHas_app))
        (by simp only [hn.1, hn.2.1, hn.2.2.1, hn.2.2.2.1, hn.2.2.2.2, hh2str_noSlash]; decide)
        (by rfl))
      (cutDirsOk_wget _ _ _ _ 7
        (by repeat (first | exact urlHas_base _ (by decide) | apply urlHas_app))
        (by simp only [hn.1, hn.2.1, hn.2.2.1, hn.2.2.2.1, hn.2.2.2.2, hh2str_noSlash]; decide)
        (by rfl)))
  · refine GetHourlyObsMgex_adds E ftpArchive0 ep dir fopt s _ (fun _ subDir hh s => ?_)
      (fun _ hh x s => ?_)
    · obtain ⟨uc, hw, hc⟩ := GetHourlyObsMgex_allHour_wget E ftpArchive0 ep fopt (ToUpper fopt.ftpFrom)
        subDir hh s
      exact addsWget_one _ _ _ _ hw
        (cutOk_cases _ _ uc _ _ _ _ hc
      (cutDirsOk_wget _ _ _ _ 7
        (by repeat (first | exact urlHas_base _ (by decide) | apply urlHas_app))
        (by simp only [hn.1, hn.2.1, hn.2.2.1, hn.2.2.2.1, hn.2.2.2.2, hh2str_noSlash]; decide)
        (by rfl))
      (cutDirsOk_wget _ _ _ _ 6
        (by repeat (first | exact urlHas_base _ (by decide) | apply urlHas_app))
        (by simp only [hn.1, hn.2.1, hn.2.2.1, hn.2.2.2.1, hn.2.2.2.2, hh2str_noSlash]; decide)
        (by rfl))
      (cutDirsOk_wget _ _ _ _ 7
        (by repeat (first | exact urlHas_base _ (by decide) | apply urlHas_app))
        (by simp only [hn.1, hn.2.1, hn.2.2.1, hn.2.2.2.1, hn.2.2.2.2, hh2str_noSlash]; decide)
        (by rfl))
      (cutDirsOk_wget _ _ _ _ 7
        (by repeat (first | exact urlHas_base _ (by decide) | apply urlHas_app))
        (by simp only [hn.1, hn.2.1, hn.2.2.1, hn.2.2.2.1, hn.2.2.2.2, hh2str_noSlash]; decide)
        (by rfl)))
    · obtain ⟨uc, hw, hc, _⟩ := GetHourlyObsMgex_unit_wget E ftpArchive0 ep fopt (ToUpper fopt.ftpFrom)
        hh x s
      exact addsWget_guard _ _ _ _ _ hw
        (cutOk_cases _ _ uc _ _ _ _ hc
      (cutDirsOk_wget _ _ _ _ 7
        (by repeat (first | exact urlHas_base _ (by decide) | apply urlHas_app))
        (by simp only [hn.1, hn.2.1, hn.2.2.1, hn.2.2.2.1, hn.2.2.2.2, hh2str_noSlash]; decide)
        (by rfl))
      (cutDirsOk_wget _ _ _ _ 6
        (by repeat (first | exact urlHas_base _ (by decide) | apply urlHas_app))
        (by simp only [hn.1, hn.2.1, hn.2.2.1, hn.2.2.2.1, hn.2.2.2.2, hh2str_noSlash]; decide)
        (by rfl))
      (cutDirsOk_wget _ _ _ _ 7
        (by repeat (first | exact urlHas_base _ (by decide) | apply urlHas_app))
        (by simp only [hn.1, hn.2.1, hn.2.2.1, hn.2.2.2.1, hn.2.2.2.2, hh2str_noSlash]; decide)
        (by rfl))
      (cutDirsOk_wget _ _ _ _ 7
        (by repeat (first | exact urlHas_base _ (by decide) | apply urlHas_app))
        (by simp only [hn.1, hn.2.1, hn.2.2.1, hn.2.2.2.1, hn.2.2.2.2, hh2str_noSlash]; decide)
        (by rfl)))
  · refine GetHrObsMgex_adds E ftpArchive0 ep dir fopt s _ (fun _ subDir hh s => ?_)
      (fun _ hh minu x s => ?_)
    · exact addsWget_same _ _ _ (GetHrObsMgex_allHour_wget E ep fopt subDir hh s)
    · obtain ⟨uc, hw, hc, _⟩ := GetHrObsMgex_unit_wget E ftpArchive0 ep fopt (ToUpper fopt.ftpFrom)
        hh minu x s
      exact addsWget_guard _ _ _ _ _ hw
        (cutOk_cases _ _ uc _ _ _ _ hc
      (cutDirsOk_wget _ _ _ _ 8
        (by repeat (first | exact urlHas_base _ (by decide) | apply urlHas_app))
        (by simp only [hn.1, hn.2.1, hn.2.2.1, hn.2.2.2.1, hn.2.2.2.2, hh2str_noSlash]; decide)
        (by rfl))
      (cutDirsOk_wget _ _ _ _ 6
        (by repeat (first | exact urlHas_base _ (by decide) | apply urlHas_app))
        (by simp only [hn.1, hn.2.1, hn.2.2.1, hn.2.2.2.1, hn.2.2.2.2, hh2str_noSlash]; decide)
        (by rfl))
      (cutDirsOk_wget _ _ _ _ 8
        (by repeat (first | exact urlHas_base _ (by decide) | apply urlHas_app))
        (by simp only [hn.1, hn.2.1, hn.2.2.1, hn.2.2.2.1, hn.2.2.2.2, hh2str_noSlash]; decide)
        (by rfl))
      (cutDirsOk_wget _ _ _ _ 8
        (by repeat (first | exact urlHas_base _ (by decide) | apply urlHas_app))
        (by simp only [hn.1, hn.2.1, hn.2.2.1, hn.2.2.2.1, hn.2.2.2.2, hh2str_noSlash]; decide)
        (by rfl)))
  · exact GetNav_adds E ftpArchive0 ep dir fopt s _
      (fun p => GetNav_dailyUrl_cutOk ep hn _ p)
      (fun p hh uc hc => (cutOk_cases _ _ uc _ _ _ _ hc
      (cutDirsOk_wget _ _ _ _ 7
        (by repeat (first | exact urlHas_base _ (by decide) | apply urlHas_app))
        (by simp only [hn.1, hn.2.1, hn.2.2.1, hn.2.2.2.1, hn.2.2.2.2, hh2str_noSlash]; decide)
        (by rfl))
      (cutDirsOk_wget _ _ _ _ 6
        (by repeat (first | exact urlHas_base _ (by decide) | apply urlHas_app))
        (by simp only [hn.1, hn.2.1, hn.2.2.1, hn.2.2.2.1, hn.2.2.2.2, hh2str_noSlash]; decide)
        (by rfl))
      (cutDirsOk_wget _ _ _ _ 7
        (by repeat (first | exact urlHas_base _ (by decide) | apply urlHas_app))
        (by simp only [hn.1, hn.2.1, hn.2.2.1, hn.2.2.2.1, hn.2.2.2.2, hh2str_noSlash]; decide)
        (by rfl))
      (cutDirsOk_wget _ _ _ _ 7
        (by repeat (first | exact urlHas_base _ (by decide) | apply urlHas_app))
        (by simp only [hn.1, hn.2.1, hn.2.2.1, hn.2.2.2.1, hn.2.2.2.2, hh2str_noSlash]; decide)
        (by rfl))))
  · exact GetOrbClk_adds E ftpArchive0 ep dir mode fopt s _
      (fun _ hh => GetOrbClk_igsUrl_cutOk ep hn _ _)
      (fun _ hh => gfzUrl_cutOk ep hn _)
      (fun _ _ _ _ => GetOrbClk_igsUrl_cutOk ep hn _ _)
      (fun _ _ _ _ => GetOrbClk_igsUrl_cutOk ep hn _ _)
      (fun _ hh uc hc => (cutOk_cases _ _ uc _ _ _ _ hc
      (cutDirsOk_wget _ _ _ _ 5
        (by repeat (first | exact urlHas_base _ (by decide) | apply urlHas_app))
        (by simp only [hn.1, hn.2.1, hn.2.2.1, hn.2.2.2.1, hn.2.2.2.2, hh2str_noSlash]; decide)
        (by rfl))
      (cutDirsOk_wget _ _ _ _ 5
        (by repeat (first | exact urlHas_base _ (by decide) | apply urlHas_app))
        (by simp only [hn.1, hn.2.1, hn.2.2.1, hn.2.2.2.1, hn.2.2.2.2, hh2str_noSlash]; decide)
        (by rfl))
      (cutDirsOk_wget _ _ _ _ 5
        (by repeat (first | exact urlHas_base _ (by decide) | apply urlHas_app))
        (by simp only [hn.1, hn.2.1, hn.2.2.1, hn.2.2.2.1, hn.2.2.2.2, hh2str_noSlash]; decide)
        (by rfl))
      (cutDirsOk_wget _ _ _ _ 5
        (by repeat (first | exact urlHas_base _ (by decide) | apply urlHas_app))
        (by simp only [hn.1, hn.2.1, hn.2.2.1, hn.2.2.2.1, hn.2.2.2.2, hh2str_noSlash]; decide)
        (by rfl))))
      (fun _ _ uc hc => (cutOk_cases _ _ uc _ _ _ _ hc
      (cutDirsOk_wget _ _ _ _ 5
        (by repeat (first | exact urlHas_base _ (by decide) | apply urlHas_app))
        (by simp only [hn.1, hn.2.1, hn.2.2.1, hn.2.2.2.1, hn.2.2.2.2, hh2str_noSlash]; decide)
        (by rfl))
      (cutDirsOk_wget _ _ _ _ 5
        (by repeat (first | exact urlHas_base _ (by decide) | apply urlHas_app))
        (by simp only [hn.1, hn.2.1, hn.2.2.1, hn.2.2.2.1, hn.2.2.2.2, hh2str_noSlash]; decide)
        (by rfl))
      (cutDirsOk_wget _ _ _ _ 5
        (by repeat (first | exact urlHas_base _ (by decide) | apply urlHas_app))
        (by simp only [hn.1, hn.2.1, hn.2.2.1, hn.2.2.2.1, hn.2.2.2.2, hh2str_noSlash]; decide)
        (by rfl))
      (cutDirsOk_wget _ _ _ _ 5
        (by repeat (first | exact urlHas_base _ (by decide) | apply urlHas_app))
        (by simp only [hn.1, hn.2.1, hn.2.2.1, hn.2.2.2.1, hn.2.2.2.2, hh2str_noSlash]; decide)
        (by rfl))))
      (fun _ _ uc hc => (cutOk_cases _ _ uc _ _ _ _ hc
      (cutDirsOk_wget _ _ _ _ 5
        (by repeat (first | exact urlHas_base _ (by decide) | apply urlHas_app))
        (by simp only [hn.1, hn.2.1, hn.2.2.1, hn.2.2.2.1, hn.2.2.2.2, hh2str_noSlash]; decide)
        (by rfl))
      (cutDirsOk_wget _ _ _ _ 5
        (by repeat (first | exact urlHas_base _ (by decide) | apply urlHas_app))
        (by simp only [hn.1, hn.2.1, hn.2.2.1, hn.2.2.2.1, hn.2.2.2.2, hh2str_noSlash]; decide)
        (by rfl))
      (cutDirsOk_wget _ _ _ _ 5
        (by repeat (first | exact urlHas_base _ (by decide) | apply urlHas_app))
        (by simp only [hn.1, hn.2.1, hn.2.2.1, hn.2.2.2.1, hn.2.2.2.2, hh2str_noSlash]; decide)
        (by rfl))
      (cutDirsOk_wget _ _ _ _ 5
        (by repeat (first | exact urlHas_base _ (by decide) | apply urlHas_app))
        (by simp only [hn.1, hn.2.1, hn.2.2.1, hn.2.2.2.1, hn.2.2.2.2, hh2str_noSlash]; decide)
        (by rfl))))
  · exact GetEop_adds E ftpArchive0 ep dir fopt s _ (fun p => GetEop_url_cutOk ep hn _ p)
      (fun p => gfzUrl_cutOk ep hn p)
  · exact GetSnx_adds E ftpArchive0 ep dir fopt s _ (fun p => GetSnx_url_cutOk ep hn _ p)
      (fun p => GetSnx_urlDaily_cutOk ep hn _ p)
  · exact GetDcbMgex_adds E ftpArchive0 ep dir fopt s _ (fun p => GetDcbMgex_url_cutOk ep hn _ p)
  · exact GetDcbCode_adds E ep dir dType fopt s _ (fun p => codeUrl_cutOk ep hn p)
  · exact GetIono_adds E ftpArchive0 ep dir fopt s _ (fun p => GetIono_url_cutOk ep hn _ p)
  · exact GetRoti_adds E ftpArchive0 ep dir fopt s _ (fun p => GetRoti_url_cutOk ep hn _ p)
  · exact GetTrop_adds E ftpArchive0 ep dir fopt s _
      (fun p uc hc => (cutOk_cases _ _ uc _ _ _ _ hc
      (cutDirsOk_wget _ _ _ _ 7
        (by repeat (first | exact urlHas_base _ (by decide) | apply urlHas_app))
        (by simp only [hn.1, hn.2.1, hn.2.2.1, hn.2.2.2.1, hn.2.2.2.2, hh2str_noSlash]; decide)
        (by rfl))
      (cutDirsOk_wget _ _ _ _ 6
        (by repeat (first | exact urlHas_base _ (by decide) | apply urlHas_app))
        (by simp only [hn.1, hn.2.1, hn.2.2.1, hn.2.2.2.1, hn.2.2.2.2, hh2str_noSlash]; decide)
        (by rfl))
      (cutDirsOk_wget _ _ _ _ 7
        (by repeat (first | exact urlHas_base _ (by decide) | apply urlHas_app))
        (by simp only [hn.1, hn.2.1, hn.2.2.1, hn.2.2.2.1, hn.2.2.2.2, hh2str_noSlash]; decide)
        (by rfl))
      (cutDirsOk_wget _ _ _ _ 7
        (by repeat (first | exact urlHas_base _ (by decide) | apply urlHas_app))
        (by simp only [hn.1, hn.2.1, hn.2.2.1, hn.2.2.2.1, hn.2.2.2.2, hh2str_noSlash]; decide)
        (by rfl))))
      (fun p => GetTrop_url_cutOk ep hn _ p hk) (fun p => codeUrl_cutOk ep hn p)
  · exact GetRtOrbClkCNT_adds E ep dir mode fopt s _
      (fun ext he => cntUrl_cutOk ep hn ext (he.elim Or.inl (fun h => Or.inr (Or.inl h))))
  · exact GetRtBiasCNT_adds E ep dir fopt s _ (cntUrl_cutOk ep hn ".bia" (Or.inr (Or.inr rfl)))
  · exact GetAntexIGS_adds E dir fopt s _ atxUrl_cutOk

/-- C26 on day 045 of 2021 with the archive CDDIS and the site list `zimm`: the one
transfer command of `GetDailyObsIgs` has `--cut-dirs=7` and a URL with seven path
components. The URLs of the same day have 5 components for the IGN daily observations, 8
for the CDDIS high-rate observations of hour 0, 4 for the IGS products and 6 for the MGEX
DCB files of IGN; and a command with another value does not pass the check. -/
theorem C26_cut_dirs_matches_url_witness :
    NoSlash ep2021_045 ∧ KnownArchive fopt0 ∧
    AddsWget (fun c => cutDirsOk c = true) worldObs
      (GetDailyObsIgs (simEnv [] [("site.list", ["zimm"])]) ftpArchive0 ep2021_045 "obs" fopt0
        worldObs) ∧
    wgetCmds (GetDailyObsIgs (simEnv [] [("site.list", ["zimm"])]) ftpArchive0 ep2021_045 "obs"
        fopt0 worldObs).trace =
      [Cmd.wget "zimm0450.21d.*" " --cut-dirs=7 "
        "ftps://gdc.cddis.eosdis.nasa.gov/pub/gnss/data/daily/2021/045/21d"] ∧
    urlComponents "ftps://gdc.cddis.eosdis.nasa.gov/pub/gnss/data/daily/2021/045/21d" = 7 ∧
    urlComponents "ftp://igs.ign.fr/pub/igs/data/2021/045" = 5 ∧
    urlComponents "ftps://gdc.cddis.eosdis.nasa.gov/pub/gnss/data/highrate/2021/045/21d/00" = 8 ∧
    urlComponents "ftps://gdc.cddis.eosdis.nasa.gov/pub/gnss/products/2145" = 4 ∧
    urlComponents "ftp://igs.ign.fr/pub/igs/products/mgex/dcb/2021" = 6 ∧
    cutDirsOk (Cmd.wget "zimm0450.21d.*" " --cut-dirs=6 "
      "ftps://gdc.cddis.eosdis.nasa.gov/pub/gnss/data/daily/2021/045/21d") = false := by
  have hn : NoSlash ep2021_045 := ⟨by decide, by decide, by decide, by decide, by decide⟩
  have hk : KnownArchive fopt0 := Or.inl (by decide)
  have h := C26_cut_dirs_matches_url (simEnv [] [("site.list", ["zimm"])]) ep2021_045 "obs" 1
    "P1P2" fopt0 worldObs hn hk
  exact ⟨hn, hk, h.1, by decide, by decide, by decide, by decide, by decide, by decide,
    by decide⟩

/-! ## The names in the status lines -/

theorem names_base (A N : String) : names N (A ++ N) := by
  unfold names
  rw [String.data_append]
  exact (List.suffix_append _ _).isInfix

theorem names_right (N x y : String) (h : names N x) : names N (x ++ y) := by
  unfold names at h ⊢
  rw [String.data_append]
  exact h.trans (List.prefix_append _ _).isInfix

theorem names_base_iff (A N : String) : names N (A ++ N) = True :=
  eq_true (names_base A N)

theorem names_right1 (A N y : String) : names N (A ++ N ++ y) = True :=
  eq_true (names_right N _ y (names_base A N))

theorem names_right2 (A N y z : String) : names N (A ++ N ++ y ++ z) = True :=
  eq_true (names_right N _ z (names_right N _ y (names_base A N)))

theorem names_right3 (A N y z w : String) : names N (A ++ N ++ y ++ z ++ w) = True :=
  eq_true (names_right N _ w (names_right N _ z (names_right N _ y (names_base A N))))

theorem outLines_sys (c : Cmd) : outLines [Event.sys c] = [] := rfl

theorem outLines_out (l : String) : outLines [Event.out l] = [l] := rfl

theorem outLines_rm (p : String) : outLines [Event.rm p] = [] := rfl

theorem outLines_cd (p : String) : outLines [Event.cd p] = [] := rfl

theorem outLines_err (p : String) : outLines [Event.err p] = [] := rfl

theorem says0 (P : String → Prop) (t : List String) :
    ∃ new, t = t ++ new ∧ ∀ l ∈ new, P l :=
  ⟨[], (List.append_nil _).symm, fun _ h => absurd h (List.not_mem_nil _)⟩

theorem says1 (P : String → Prop) (t : List String) (a : String) (ha : P a) :
    ∃ new, t ++ [a] = t ++ new ∧ ∀ l ∈ new, P l :=
  ⟨[a], rfl, fun l h => by rw [List.mem_singleton.1 h]; exact ha⟩

theorem says2 (P : String → Prop) (t : List String) (a b : String) (ha : P a) (hb : P b) :
    ∃ new, t ++ ([a] ++ [b]) = t ++ new ∧ ∀ l ∈ new, P l :=
  ⟨[a] ++ [b], rfl, fun l h => by
    rcases List.mem_append.1 h with h | h
    · rw [List.mem_singleton.1 h]; exact ha
    · rw [List.mem_singleton.1 h]; exact hb⟩

theorem GetDailyObsIgs_unit_tests (E : Env W) (ar : FtpArchive) (ep : EpochStr) (fopt : ftpopt_t) (ftpName site : String) :
    TestsAndReports E (GetDailyObsIgs_oFile ep site) []
      (fun s => s) (GetDailyObsIgs_unit E ar ep fopt ftpName site) := by
  intro s
  constructor
  · intro h
    try dsimp only at h
    try dsimp only
    unfold GetDailyObsIgs_unit GetDailyObsIgs_oFile at *
    simp only []
    rw [if_neg (by rw [h]; simp)]
    simp [say, chdir, wgetCmds, List.filterMap_append]
  · unfold SaysOnly
    try dsimp only
    unfold GetDailyObsIgs_unit GetDailyObsIgs_oFile
    simp only []
    simp only [GetDailyObsIgs_failed, GetDailyObsIgs_success, GetDailyObsIgs_existed, sysCmd, say, removeFile, chdir, fileExists, cleanRepro3, cleanTopex, cleanCnt,
      List.foldl]
    split_ifs <;>
      simp only [outLines_append, outLines_sys, outLines_out, outLines_rm, outLines_cd,
        List.append_nil, List.append_assoc] <;>
      first
        | exact says0 _ _
        | (refine says1 _ _ _ ?_
           simp only [List.mem_cons, List.mem_singleton, List.not_mem_nil, or_false, exists_eq_or_imp,
             exists_eq_left, names_base_iff, names_right1, names_right2, names_right3, true_or, or_true])

theorem GetHourlyObsIgs_unit_tests (E : Env W) (ar : FtpArchive) (ep : EpochStr) (fopt : ftpopt_t) (ftpName : String) (hh : Nat) (site : String) :
    TestsAndReports E (GetHourlyObsIgs_oFile ep hh site) []
      (fun s => s) (fun s => (GetHourlyObsIgs_unit E ar ep fopt ftpName hh site s).2) := by
  intro s
  constructor
  · intro h
    try dsimp only at h
    try dsimp only
    unfold GetHourlyObsIgs_unit GetHourlyObsIgs_oFile at *
    simp only []
    rw [if_neg (by rw [h]; simp)]
    simp [say, chdir, wgetCmds, List.filterMap_append]
  · unfold SaysOnly
    try dsimp only
    unfold GetHourlyObsIgs_unit GetHourlyObsIgs_oFile
    simp only []
    generalize (if ftpName = "CDDIS" then _ else _ : String × String) = uc
    simp only [GetHourlyObsIgs_failed, GetHourlyObsIgs_success, GetHourlyObsIgs_existed, sysCmd, say, removeFile, chdir, fileExists, cleanRepro3, cleanTopex, cleanCnt,
      List.foldl]
    split_ifs <;>
      simp only [outLines_append, outLines_sys, outLines_out, outLines_rm, outLines_cd,
        List.append_nil, List.append_assoc] <;>
      first
        | exact says0 _ _
        | (refine says1 _ _ _ ?_
           simp only [List.mem_cons, List.mem_singleton, List.not_mem_nil, or_false, exists_eq_or_imp,
             exists_eq_left, names_base_iff, names_right1, names_right2, names_right3, true_or, or_true])

theorem GetHrObsIgs_unit_tests (E : Env W) (ar : FtpArchive) (ep : EpochStr) (fopt : ftpopt_t) (ftpName : String) (hh : Nat) (minu site : String) :
    TestsAndReports E (GetHrObsIgs_oFile ep hh minu site) []
      (fun s => s) (fun s => (GetHrObsIgs_unit E ar ep fopt ftpName hh minu site s).2) := by
  intro s
  constructor
  · intro h
    try dsimp only at h
    try dsimp only
    unfold GetHrObsIgs_unit GetHrObsIgs_oFile at *
    simp only []
    rw [if_neg (by rw [h]; simp)]
    simp [say, chdir, wgetCmds, List.filterMap_append]
  · unfold SaysOnly
    try dsimp only
    unfold GetHrObsIgs_unit GetHrObsIgs_oFile
    simp only []
    generalize (if ftpName = "CDDIS" then _ else _ : String × String) = uc
    simp only [GetHrObsIgs_failed, GetHrObsIgs_success, GetHrObsIgs_existed, sysCmd, say, removeFile, chdir, fileExists, cleanRepro3, cleanTopex, cleanCnt,
      List.foldl]
    split_ifs <;>
      simp only [outLines_append, outLines_sys, outLines_out, outLines_rm, outLines_cd,
        List.append_nil, List.append_assoc] <;>
      first
        | exact says0 _ _
        | (refine says1 _ _ _ ?_
           simp only [List.mem_cons, List.mem_singleton, List.not_mem_nil, or_false, exists_eq_or_imp,
             exists_eq_left, names_base_iff, names_right1, names_right2, names_right3, true_or, or_true])

theorem GetDailyObsMgex_unit_tests (E : Env W) (ar : FtpArchive) (ep : EpochStr) (fopt : ftpopt_t) (ftpName site : String) :
    TestsAndReports E (ToLower site ++ ep.sDoy ++ "0." ++ ep.sYy ++ "o") []
      (fun s => s) (fun s => (GetDailyObsMgex_unit E ar ep fopt ftpName site s).2) := by
  intro s
  constructor
  · intro h
    try dsimp only at h
    try dsimp only
    unfold GetDailyObsMgex_unit at *
    simp only []
    rw [if_neg (by rw [h]; simp)]
    simp [say, chdir, wgetCmds, List.filterMap_append]
  · unfold SaysOnly
    try dsimp only
    unfold GetDailyObsMgex_unit
    simp only []
    generalize (if ftpName = "CDDIS" then _ else _ : String × String) = uc
    simp only [GetDailyObsMgex_failed, GetDailyObsMgex_success, GetDailyObsMgex_existed, sysCmd, say, removeFile, chdir, fileExists, cleanRepro3, cleanTopex, cleanCnt,
      List.foldl]
    split_ifs <;>
      simp only [outLines_append, outLines_sys, outLines_out, outLines_rm, outLines_cd,
        List.append_nil, List.append_assoc] <;>
      first
        | exact says0 _ _
        | (refine says1 _ _ _ ?_
           simp only [List.mem_cons, List.mem_singleton, List.not_mem_nil, or_false, exists_eq_or_imp,
             exists_eq_left, names_base_iff, names_right1, names_right2, names_right3, true_or, or_true])

theorem GetHourlyObsMgex_unit_tests (E : Env W) (ar : FtpArchive) (ep : EpochStr) (fopt : ftpopt_t) (ftpName : String) (hh : Nat) (site : String) :
    TestsAndReports E (ToLower site ++ ep.sDoy ++ hourLetter hh ++ "." ++ ep.sYy ++ "o") []
      (fun s => s) (fun s => (GetHourlyObsMgex_unit E ar ep fopt ftpName hh site s).2) := by
  intro s
  constructor
  · intro h
    try dsimp only at h
    try dsimp only
    unfold GetHourlyObsMgex_unit at *
    simp only []
    rw [if_neg (by rw [h]; simp)]
    simp [say, chdir, wgetCmds, List.filterMap_append]
  · unfold SaysOnly
    try dsimp only
    unfold GetHourlyObsMgex_unit
    simp only []
    generalize (if ftpName = "CDDIS" then _ else _ : String × String) = uc
    simp only [GetHourlyObsMgex_failed, GetHourlyObsMgex_success, GetHourlyObsMgex_existed, sysCmd, say, removeFile, chdir, fileExists, cleanRepro3, cleanTopex, cleanCnt,
      List.foldl]
    split_ifs <;>
      simp only [outLines_append, outLines_sys, outLines_out, outLines_rm, outLines_cd,
        List.append_nil, List.append_assoc] <;>
      first
        | exact says0 _ _
        | (refine says1 _ _ _ ?_
           simp only [List.mem_cons, List.mem_singleton, List.not_mem_nil, or_false, exists_eq_or_imp,
             exists_eq_left, names_base_iff, names_right1, names_right2, names_right3, true_or, or_true])

theorem GetHrObsMgex_unit_tests (E : Env W) (ar : FtpArchive) (ep : EpochStr) (fopt : ftpopt_t) (ftpName : String) (hh : Nat) (minu site : String) :
    TestsAndReports E (ToLower site ++ ep.sDoy ++ hourLetter hh ++ minu ++ "." ++ ep.sYy ++ "o") []
      (fun s => s) (fun s => (GetHrObsMgex_unit E ar ep fopt ftpName hh minu site s).2) := by
  intro s
  constructor
  · intro h
    try dsimp only at h
    try dsimp only
    unfold GetHrObsMgex_unit at *
    simp only []
    rw [if_neg (by rw [h]; simp)]
    simp [say, chdir, wgetCmds, List.filterMap_append]
  · unfold SaysOnly
    try dsimp only
    unfold GetHrObsMgex_unit
    simp only []
    generalize (if ftpName = "CDDIS" then _ else _ : String × String) = uc
    simp only [GetHrObsMgex_failed, GetHrObsMgex_success, GetHrObsMgex_existed, sysCmd, say, removeFile, chdir, fileExists, cleanRepro3, cleanTopex, cleanCnt,
      List.foldl]
    split_ifs <;>
      simp only [outLines_append, outLines_sys, outLines_out, outLines_rm, outLines_cd,
        List.append_nil, List.append_assoc] <;>
      first
        | exact says0 _ _
        | (refine says1 _ _ _ ?_
           simp only [List.mem_cons, List.mem_singleton, List.not_mem_nil, or_false, exists_eq_or_imp,
             exists_eq_left, names_base_iff, names_right1, names_right2, names_right3, true_or, or_true])

theorem GetNav_dailyFetch_tests (E : Env W) (ar : FtpArchive) (ep : EpochStr) (fopt : ftpopt_t) (ftpName nOpt navFile nav0File : String) :
    TestsAndReports E (nav0File) []
      (fun s => s) (GetNav_dailyFetch E ar ep fopt ftpName nOpt navFile nav0File) := by
  intro s
  constructor
  · intro h
    try dsimp only at h
    try dsimp only
    unfold GetNav_dailyFetch at *
    simp only []
    rw [if_neg (by rw [h]; simp)]
    simp [say, chdir, wgetCmds, List.filterMap_append]
  · unfold SaysOnly
    try dsimp only
    unfold GetNav_dailyFetch
    simp only []
    simp only [GetNav_failed, GetNav_success, GetNav_existed, sysCmd, say, removeFile, chdir, fileExists, cleanRepro3, cleanTopex, cleanCnt,
      List.foldl]
    split_ifs <;>
      simp only [outLines_append, outLines_sys, outLines_out, outLines_rm, outLines_cd,
        List.append_nil, List.append_assoc] <;>
      first
        | exact says0 _ _
        | (refine says1 _ _ _ ?_
           simp only [List.mem_cons, List.mem_singleton, List.not_mem_nil, or_false, exists_eq_or_imp,
             exists_eq_left, names_base_iff, names_right1, names_right2, names_right3, true_or, or_true])
        | (refine says2 _ _ _ _ ?_ ?_ <;>
           simp only [List.mem_cons, List.mem_singleton, List.not_mem_nil, or_false, exists_eq_or_imp,
             exists_eq_left, names_base_iff, names_right1, names_right2, names_right3, true_or, or_true])

theorem GetOrbClk_iguUnit_tests (E : Env W) (ep : EpochStr) (fopt : ftpopt_t) (ac : String) (uc : String × String) (hh : Nat) :
    TestsAndReports E (ac ++ ep.sWwww ++ ep.sDow ++ "_" ++ hh2str hh ++ ".sp3") []
      (fun s => s) (GetOrbClk_iguUnit E ep fopt ac uc hh) := by
  intro s
  constructor
  · intro h
    try dsimp only at h
    try dsimp only
    unfold GetOrbClk_iguUnit at *
    simp only []
    rw [if_neg (by rw [h]; simp)]
    simp [say, chdir, wgetCmds, List.filterMap_append]
  · unfold SaysOnly
    try dsimp only
    unfold GetOrbClk_iguUnit
    simp only []
    simp only [sysCmd, say, removeFile, chdir, fileExists, cleanRepro3, cleanTopex, cleanCnt,
      List.foldl]
    split_ifs <;>
      simp only [outLines_append, outLines_sys, outLines_out, outLines_rm, outLines_cd,
        List.append_nil, List.append_assoc] <;>
      first
        | exact says0 _ _
        | (refine says1 _ _ _ ?_
           simp only [List.mem_cons, List.mem_singleton, List.not_mem_nil, or_false, exists_eq_or_imp,
             exists_eq_left, names_base_iff, names_right1, names_right2, names_right3, true_or, or_true])

theorem GetOrbClk_gfuUnit_tests (E : Env W) (ep : EpochStr) (fopt : ftpopt_t) (ac : String) (uc : String × String) (hh : Nat) :
    TestsAndReports E (ac ++ ep.sWwww ++ ep.sDow ++ "_" ++ hh2str hh ++ ".sp3") []
      (fun s => s) (GetOrbClk_gfuUnit E ep fopt ac uc hh) := by
  intro s
  constructor
  · intro h
    try dsimp only at h
    try dsimp only
    unfold GetOrbClk_gfuUnit at *
    simp only []
    rw [if_neg (by rw [h]; simp)]
    simp [say, chdir, wgetCmds, List.filterMap_append]
  · unfold SaysOnly
    try dsimp only
    unfold GetOrbClk_gfuUnit
    simp only []
    simp only [sysCmd, say, removeFile, chdir, fileExists, cleanRepro3, cleanTopex, cleanCnt,
      List.foldl]
    split_ifs <;>
      simp only [outLines_append, outLines_sys, outLines_out, outLines_rm, outLines_cd,
        List.append_nil, List.append_assoc] <;>
      first
        | exact says0 _ _
        | (refine says1 _ _ _ ?_
           simp only [List.mem_cons, List.mem_singleton, List.not_mem_nil, or_false, exists_eq_or_imp,
             exists_eq_left, names_base_iff, names_right1, names_right2, names_right3, true_or, or_true])

theorem GetOrbClk_igsSp3_tests (E : Env W) (fopt : ftpopt_t) (uc : String × String) (sp3File : String) :
    TestsAndReports E (sp3File) []
      (fun s => s) (GetOrbClk_igsSp3 E fopt uc sp3File) := by
  intro s
  constructor
  · intro h
    try dsimp only at h
    try dsimp only
    unfold GetOrbClk_igsSp3 at *
    simp only []
    rw [if_neg (by rw [h]; simp)]
    simp [say, chdir, wgetCmds, List.filterMap_append]
  · unfold SaysOnly
    try dsimp only
    unfold GetOrbClk_igsSp3
    simp only []
    simp only [sysCmd, say, removeFile, chdir, fileExists, cleanRepro3, cleanTopex, cleanCnt,
      List.foldl]
    split_ifs <;>
      simp only [outLines_append, outLines_sys, outLines_out, outLines_rm, outLines_cd,
        List.append_nil, List.append_assoc] <;>
      first
        | exact says0 _ _
        | (refine says1 _ _ _ ?_
           simp only [List.mem_cons, List.mem_singleton, List.not_mem_nil, or_false, exists_eq_or_imp,
             exists_eq_left, names_base_iff, names_right1, names_right2, names_right3, true_or, or_true])

theorem GetOrbClk_igsClk_tests (E : Env W) (fopt : ftpopt_t) (uc : String × String) (clkFile : String) :
    TestsAndReports E (clkFile) []
      (fun s => s) (GetOrbClk_igsClk E fopt uc clkFile) := by
  intro s
  constructor
  · intro h
    try dsimp only at h
    try dsimp only
    unfold GetOrbClk_igsClk at *
    simp only []
    rw [if_neg (by rw [h]; simp)]
    simp [say, chdir, wgetCmds, List.filterMap_append]
  · unfold SaysOnly
    try dsimp only
    unfold GetOrbClk_igsClk
    simp only []
    simp only [sysCmd, say, removeFile, chdir, fileExists, cleanRepro3, cleanTopex, cleanCnt,
      List.foldl]
    split_ifs <;>
      simp only [outLines_append, outLines_sys, outLines_out, outLines_rm, outLines_cd,
        List.append_nil, List.append_assoc] <;>
      first
        | exact says0 _ _
        | (refine says1 _ _ _ ?_
           simp only [List.mem_cons, List.mem_singleton, List.not_mem_nil, or_false, exists_eq_or_imp,
             exists_eq_left, names_base_iff, names_right1, names_right2, names_right3, true_or, or_true])

theorem GetOrbClk_wuuUnit_tests (E : Env W) (ep : EpochStr) (fopt : ftpopt_t) (uc : String × String) (hh : Nat) :
    TestsAndReports E ("WUM0MGXULA_" ++ ep.sYyyy ++ ep.sDoy ++ hh2str hh ++ "00_01D_05M_ORB.SP3") []
      (fun s => s) (GetOrbClk_wuuUnit E ep fopt uc hh) := by
  intro s
  constructor
  · intro h
    try dsimp only at h
    try dsimp only
    unfold GetOrbClk_wuuUnit at *
    simp only []
    rw [if_neg (by rw [h]; simp)]
    simp [say, chdir, wgetCmds, List.filterMap_append]
  · unfold SaysOnly
    try dsimp only
    unfold GetOrbClk_wuuUnit
    simp only []
    simp only [sysCmd, say, removeFile, chdir, fileExists, cleanRepro3, cleanTopex, cleanCnt,
      List.foldl]
    split_ifs <;>
      simp only [outLines_append, outLines_sys, outLines_out, outLines_rm, outLines_cd,
        List.append_nil, List.append_assoc] <;>
      first
        | exact says0 _ _
        | (refine says1 _ _ _ ?_
           simp only [List.mem_cons, List.mem_singleton, List.not_mem_nil, or_false, exists_eq_or_imp,
             exists_eq_left, names_base_iff, names_right1, names_right2, names_right3, true_or, or_true])

theorem GetOrbClk_mgexSp3_tests (E : Env W) (fopt : ftpopt_t) (uc : String × String) (sp3File sp30File : String) :
    TestsAndReports E (sp30File) []
      (fun s => s) (GetOrbClk_mgexSp3 E fopt uc sp3File sp30File) := by
  intro s
  constructor
  · intro h
    try dsimp only at h
    try dsimp only
    unfold GetOrbClk_mgexSp3 at *
    simp only []
    rw [if_neg (by rw [h]; simp)]
    simp [say, chdir, wgetCmds, List.filterMap_append]
  · unfold SaysOnly
    try dsimp only
    unfold GetOrbClk_mgexSp3
    simp only []
    simp only [sysCmd, say, removeFile, chdir, fileExists, cleanRepro3, cleanTopex, cleanCnt,
      List.foldl]
    split_ifs <;>
      simp only [outLines_append, outLines_sys, outLines_out, outLines_rm, outLines_cd,
        List.append_nil, List.append_assoc] <;>
      first
        | exact says0 _ _
        | (refine says1 _ _ _ ?_
           simp only [List.mem_cons, List.mem_singleton, List.not_mem_nil, or_false, exists_eq_or_imp,
             exists_eq_left, names_base_iff, names_right1, names_right2, names_right3, true_or, or_true])
        | (refine says2 _ _ _ _ ?_ ?_ <;>
           simp only [List.mem_cons, List.mem_singleton, List.not_mem_nil, or_false, exists_eq_or_imp,
             exists_eq_left, names_base_iff, names_right1, names_right2, names_right3, true_or, or_true])

theorem GetOrbClk_mgexClk_tests (E : Env W) (fopt : ftpopt_t) (uc : String × String) (clkFile clk0File : String) :
    TestsAndReports E (clk0File) []
      (fun s => s) (GetOrbClk_mgexClk E fopt uc clkFile clk0File) := by
  intro s
  constructor
  · intro h
    try dsimp only at h
    try dsimp only
    unfold GetOrbClk_mgexClk at *
    simp only []
    rw [if_neg (by rw [h]; simp)]
    simp [say, chdir, wgetCmds, List.filterMap_append]
  · unfold SaysOnly
    try dsimp only
    unfold GetOrbClk_mgexClk
    simp only []
    simp only [sysCmd, say, removeFile, chdir, fileExists, cleanRepro3, cleanTopex, cleanCnt,
      List.foldl]
    split_ifs <;>
      simp only [outLines_append, outLines_sys, outLines_out, outLines_rm, outLines_cd,
        List.append_nil, List.append_assoc] <;>
      first
        | exact says0 _ _
        | (refine says1 _ _ _ ?_
           simp only [List.mem_cons, List.mem_singleton, List.not_mem_nil, or_false, exists_eq_or_imp,
             exists_eq_left, names_base_iff, names_right1, names_right2, names_right3, true_or, or_true])
        | (refine says2 _ _ _ _ ?_ ?_ <;>
           simp only [List.mem_cons, List.mem_singleton, List.not_mem_nil, or_false, exists_eq_or_imp,
             exists_eq_left, names_base_iff, names_right1, names_right2, names_right3, true_or, or_true])

theorem GetEop_iguUnit_tests (E : Env W) (ar : FtpArchive) (ep : EpochStr) (fopt : ftpopt_t) (ftpName ac : String) (hh : Nat) :
    TestsAndReports E (ac ++ ep.sWwww ++ ep.sDow ++ "_" ++ hh2str hh ++ ".erp") []
      (fun s => s) (GetEop_iguUnit E ar ep fopt ftpName ac hh) := by
  intro s
  constructor
  · intro h
    try dsimp only at h
    try dsimp only
    unfold GetEop_iguUnit at *
    simp only []
    rw [if_neg (by rw [h]; simp)]
    simp [say, chdir, wgetCmds, List.filterMap_append]
  · unfold SaysOnly
    try dsimp only
    unfold GetEop_iguUnit
    simp only []
    simp only [sysCmd, say, removeFile, chdir, fileExists, cleanRepro3, cleanTopex, cleanCnt,
      List.foldl]
    split_ifs <;>
      simp only [outLines_append, outLines_sys, outLines_out, outLines_rm, outLines_cd,
        List.append_nil, List.append_assoc] <;>
      first
        | exact says0 _ _
        | (refine says1 _ _ _ ?_
           simp only [List.mem_cons, List.mem_singleton, List.not_mem_nil, or_false, exists_eq_or_imp,
             exists_eq_left, names_base_iff, names_right1, names_right2, names_right3, true_or, or_true])

theorem GetEop_gfuUnit_tests (E : Env W) (ep : EpochStr) (fopt : ftpopt_t) (ac : String) (uc : String × String) (hh : Nat) :
    TestsAndReports E (ac ++ ep.sWwww ++ ep.sDow ++ "_" ++ hh2str hh ++ ".erp") []
      (fun s => s) (GetEop_gfuUnit E ep fopt ac uc hh) := by
  intro s
  constructor
  · intro h
    try dsimp only at h
    try dsimp only
    unfold GetEop_gfuUnit at *
    simp only []
    rw [if_neg (by rw [h]; simp)]
    simp [say, chdir, wgetCmds, List.filterMap_append]
  · unfold SaysOnly
    try dsimp only
    unfold GetEop_gfuUnit
    simp only []
    simp only [sysCmd, say, removeFile, chdir, fileExists, cleanRepro3, cleanTopex, cleanCnt,
      List.foldl]
    split_ifs <;>
      simp only [outLines_append, outLines_sys, outLines_out, outLines_rm, outLines_cd,
        List.append_nil, List.append_assoc] <;>
      first
        | exact says0 _ _
        | (refine says1 _ _ _ ?_
           simp only [List.mem_cons, List.mem_singleton, List.not_mem_nil, or_false, exists_eq_or_imp,
             exists_eq_left, names_base_iff, names_right1, names_right2, names_right3, true_or, or_true])

theorem GetEop_igsFetch_tests (E : Env W) (ar : FtpArchive) (ep : EpochStr) (fopt : ftpopt_t) (ftpName eopFile : String) :
    TestsAndReports E (eopFile) []
      (fun s => s) (GetEop_igsFetch E ar ep fopt ftpName eopFile) := by
  intro s
  constructor
  · intro h
    try dsimp only at h
    try dsimp only
    unfold GetEop_igsFetch at *
    simp only []
    rw [if_neg (by rw [h]; simp)]
    simp [say, chdir, wgetCmds, List.filterMap_append]
  · unfold SaysOnly
    try dsimp only
    unfold GetEop_igsFetch
    simp only []
    simp only [sysCmd, say, removeFile, chdir, fileExists, cleanRepro3, cleanTopex, cleanCnt,
      List.foldl]
    split_ifs <;>
      simp only [outLines_append, outLines_sys, outLines_out, outLines_rm, outLines_cd,
        List.append_nil, List.append_assoc] <;>
      first
        | exact says0 _ _
        | (refine says1 _ _ _ ?_
           simp only [List.mem_cons, List.mem_singleton, List.not_mem_nil, or_false, exists_eq_or_imp,
             exists_eq_left, names_base_iff, names_right1, names_right2, names_right3, true_or, or_true])

theorem GetDcbMgex_tests (E : Env W) (ar : FtpArchive) (ep : EpochStr) (fopt : ftpopt_t) (dir : String) :
    TestsAndReports E ("CAS0MGXRAP_" ++ ep.sYyyy ++ ep.sDoy ++ "0000_01D_01D_DCB.BSX") []
      (chdir E dir) (GetDcbMgex E ar ep dir fopt) := by
  intro s
  constructor
  · intro h
    try dsimp only at h
    try dsimp only
    unfold GetDcbMgex GetDcbMgex_fetch at *
    simp only []
    rw [if_neg (by rw [h]; simp)]
    simp [say, chdir, wgetCmds, List.filterMap_append]
  · unfold SaysOnly
    try dsimp only
    unfold GetDcbMgex GetDcbMgex_fetch
    simp only []
    rw [show outLines s.trace = outLines (chdir E dir s).trace from by
      simp [chdir, outLines_append, outLines_cd]]
    generalize chdir E dir s = s0
    simp only [GetDcbMgex_failed, GetDcbMgex_success, sysCmd, say, removeFile, chdir, fileExists, cleanRepro3, cleanTopex, cleanCnt,
      List.foldl]
    split_ifs <;>
      simp only [outLines_append, outLines_sys, outLines_out, outLines_rm, outLines_cd,
        List.append_nil, List.append_assoc] <;>
      first
        | exact says0 _ _
        | (refine says1 _ _ _ ?_
           simp only [List.mem_cons, List.mem_singleton, List.not_mem_nil, or_false, exists_eq_or_imp,
             exists_eq_left, names_base_iff, names_right1, names_right2, names_right3, true_or, or_true])

theorem GetDcbCode_tests (E : Env W) (ep : EpochStr) (fopt : ftpopt_t) (dir dType : String) :
    TestsAndReports E ((GetDcbCode_names ep (ToUpper dType)).2) [(GetDcbCode_names ep (ToUpper dType)).1]
      (chdir E dir) (GetDcbCode E ep dir dType fopt) := by
  intro s
  constructor
  · intro h
    try dsimp only at h
    try dsimp only
    unfold GetDcbCode GetDcbCode_fetch at *
    simp only []
    rw [if_neg (by rw [h]; simp)]
    simp [say, chdir, wgetCmds, List.filterMap_append]
  · unfold SaysOnly
    try dsimp only
    unfold GetDcbCode GetDcbCode_fetch
    simp only []
    rw [show outLines s.trace = outLines (chdir E dir s).trace from by
      simp [chdir, outLines_append, outLines_cd]]
    generalize chdir E dir s = s0
    simp only [GetDcbCode_failed, GetDcbCode_success, sysCmd, say, removeFile, chdir, fileExists, cleanRepro3, cleanTopex, cleanCnt,
      List.foldl]
    split_ifs <;>
      simp only [outLines_append, outLines_sys, outLines_out, outLines_rm, outLines_cd,
        List.append_nil, List.append_assoc] <;>
      first
        | exact says0 _ _
        | (refine says1 _ _ _ ?_
           simp only [List.mem_cons, List.mem_singleton, List.not_mem_nil, or_false, exists_eq_or_imp,
             exists_eq_left, names_base_iff, names_right1, names_right2, names_right3, true_or, or_true])
        | (refine says2 _ _ _ _ ?_ ?_ <;>
           simp only [List.mem_cons, List.mem_singleton, List.not_mem_nil, or_false, exists_eq_or_imp,
             exists_eq_left, names_base_iff, names_right1, names_right2, names_right3, true_or, or_true])

theorem GetIono_tests (E : Env W) (ar : FtpArchive) (ep : EpochStr) (fopt : ftpopt_t) (dir : String) :
    TestsAndReports E (ToLower fopt.ionOpt ++ "g" ++ ep.sDoy ++ "0." ++ ep.sYy ++ "i") []
      (chdir E dir) (GetIono E ar ep dir fopt) := by
  intro s
  constructor
  · intro h
    try dsimp only at h
    try dsimp only
    unfold GetIono GetIono_fetch at *
    simp only []
    rw [if_neg (by rw [h]; simp)]
    simp [say, chdir, wgetCmds, List.filterMap_append]
  · unfold SaysOnly
    try dsimp only
    unfold GetIono GetIono_fetch
    simp only []
    rw [show outLines s.trace = outLines (chdir E dir s).trace from by
      simp [chdir, outLines_append, outLines_cd]]
    generalize chdir E dir s = s0
    simp only [GetIono_failed, GetIono_success, sysCmd, say, removeFile, chdir, fileExists, cleanRepro3, cleanTopex, cleanCnt,
      List.foldl]
    split_ifs <;>
      simp only [outLines_append, outLines_sys, outLines_out, outLines_rm, outLines_cd,
        List.append_nil, List.append_assoc] <;>
      first
        | exact says0 _ _
        | (refine says1 _ _ _ ?_
           simp only [List.mem_cons, List.mem_singleton, List.not_mem_nil, or_false, exists_eq_or_imp,
             exists_eq_left, names_base_iff, names_right1, names_right2, names_right3, true_or, or_true])

theorem GetRoti_tests (E : Env W) (ar : FtpArchive) (ep : EpochStr) (fopt : ftpopt_t) (dir : String) :
    TestsAndReports E ("roti" ++ ep.sDoy ++ "0." ++ ep.sYy ++ "f") []
      (chdir E dir) (GetRoti E ar ep dir fopt) := by
  intro s
  constructor
  · intro h
    try dsimp only at h
    try dsimp only
    unfold GetRoti GetRoti_fetch at *
    simp only []
    rw [if_neg (by rw [h]; simp)]
    simp [say, chdir, wgetCmds, List.filterMap_append]
  · unfold SaysOnly
    try dsimp only
    unfold GetRoti GetRoti_fetch
    simp only []
    rw [show outLines s.trace = outLines (chdir E dir s).trace from by
      simp [chdir, outLines_append, outLines_cd]]
    generalize chdir E dir s = s0
    simp only [GetRoti_failed, GetRoti_success, sysCmd, say, removeFile, chdir, fileExists, cleanRepro3, cleanTopex, cleanCnt,
      List.foldl]
    split_ifs <;>
      simp only [outLines_append, outLines_sys, outLines_out, outLines_rm, outLines_cd,
        List.append_nil, List.append_assoc] <;>
      first
        | exact says0 _ _
        | (refine says1 _ _ _ ?_
           simp only [List.mem_cons, List.mem_singleton, List.not_mem_nil, or_false, exists_eq_or_imp,
             exists_eq_left, names_base_iff, names_right1, names_right2, names_right3, true_or, or_true])

theorem GetTrop_unit_tests (E : Env W) (ar : FtpArchive) (ep : EpochStr) (fopt : ftpopt_t) (ftpName site : String) :
    TestsAndReports E (ToLower site ++ ep.sDoy ++ "0." ++ ep.sYy ++ "zpd") []
      (fun s => s) (GetTrop_unit E ar ep fopt ftpName site) := by
  intro s
  constructor
  · intro h
    try dsimp only at h
    try dsimp only
    unfold GetTrop_unit at *
    simp only []
    rw [if_neg (by rw [h]; simp)]
    simp [say, chdir, wgetCmds, List.filterMap_append]
  · unfold SaysOnly
    try dsimp only
    unfold GetTrop_unit
    simp only []
    simp only [GetTrop_failed, GetTrop_success, GetTrop_codFailed, GetTrop_codSuccess, sysCmd, say, removeFile, chdir, fileExists, cleanRepro3, cleanTopex, cleanCnt,
      List.foldl]
    split_ifs <;>
      simp only [outLines_append, outLines_sys, outLines_out, outLines_rm, outLines_cd,
        List.append_nil, List.append_assoc] <;>
      first
        | exact says0 _ _
        | (refine says1 _ _ _ ?_
           simp only [List.mem_cons, List.mem_singleton, List.not_mem_nil, or_false, exists_eq_or_imp,
             exists_eq_left, names_base_iff, names_right1, names_right2, names_right3, true_or, or_true])

theorem GetTrop_cod_tests (E : Env W) (ep : EpochStr) (fopt : ftpopt_t) :
    TestsAndReports E ("COD" ++ ep.sWwww ++ ep.sDow ++ ".TRO") []
      (fun s => s) (GetTrop_cod E ep fopt) := by
  intro s
  constructor
  · intro h
    try dsimp only at h
    try dsimp only
    unfold GetTrop_cod at *
    simp only []
    rw [if_neg (by rw [h]; simp)]
    simp [say, chdir, wgetCmds, List.filterMap_append]
  · unfold SaysOnly
    try dsimp only
    unfold GetTrop_cod
    simp only []
    simp only [GetTrop_failed, GetTrop_success, GetTrop_codFailed, GetTrop_codSuccess, sysCmd, say, removeFile, chdir, fileExists, cleanRepro3, cleanTopex, cleanCnt,
      List.foldl]
    split_ifs <;>
      simp only [outLines_append, outLines_sys, outLines_out, outLines_rm, outLines_cd,
        List.append_nil, List.append_assoc] <;>
      first
        | exact says0 _ _
        | (refine says1 _ _ _ ?_
           simp only [List.mem_cons, List.mem_singleton, List.not_mem_nil, or_false, exists_eq_or_imp,
             exists_eq_left, names_base_iff, names_right1, names_right2, names_right3, true_or, or_true])

theorem GetRtOrbClkCNT_fetch_tests (E : Env W) (ep : EpochStr) (fopt : ftpopt_t) (kind ext : String) :
    TestsAndReports E ("cnt" ++ ep.sWwww ++ ep.sDow ++ ext) []
      (fun s => s) (GetRtOrbClkCNT_fetch E ep fopt kind ext) := by
  intro s
  constructor
  · intro h
    try dsimp only at h
    try dsimp only
    unfold GetRtOrbClkCNT_fetch at *
    simp only []
    rw [if_neg (by rw [h]; simp)]
    simp [say, chdir, wgetCmds, List.filterMap_append]
  · unfold SaysOnly
    try dsimp only
    unfold GetRtOrbClkCNT_fetch
    simp only []
    simp only [sysCmd, say, removeFile, chdir, fileExists, cleanRepro3, cleanTopex, cleanCnt,
      List.foldl]
    split_ifs <;>
      simp only [outLines_append, outLines_sys, outLines_out, outLines_rm, outLines_cd,
        List.append_nil, List.append_assoc] <;>
      first
        | exact says0 _ _
        | (refine says1 _ _ _ ?_
           simp only [List.mem_cons, List.mem_singleton, List.not_mem_nil, or_false, exists_eq_or_imp,
             exists_eq_left, names_base_iff, names_right1, names_right2, names_right3, true_or, or_true])

theorem GetRtBiasCNT_tests (E : Env W) (ep : EpochStr) (fopt : ftpopt_t) (dir : String) :
    TestsAndReports E ("cnt" ++ ep.sWwww ++ ep.sDow ++ ".bia") []
      (chdir E dir) (GetRtBiasCNT E ep dir fopt) := by
  intro s
  constructor
  · intro h
    try dsimp only at h
    try dsimp only
    unfold GetRtBiasCNT at *
    simp only []
    rw [if_neg (by rw [h]; simp)]
    simp [say, chdir, wgetCmds, List.filterMap_append]
  · unfold SaysOnly
    try dsimp only
    unfold GetRtBiasCNT
    simp only []
    rw [show outLines s.trace = outLines (chdir E dir s).trace from by
      simp [chdir, outLines_append, outLines_cd]]
    generalize chdir E dir s = s0
    simp only [sysCmd, say, removeFile, chdir, fileExists, cleanRepro3, cleanTopex, cleanCnt,
      List.foldl]
    split_ifs <;>
      simp only [outLines_append, outLines_sys, outLines_out, outLines_rm, outLines_cd,
        List.append_nil, List.append_assoc] <;>
      first
        | exact says0 _ _
        | (refine says1 _ _ _ ?_
           simp only [List.mem_cons, List.mem_singleton, List.not_mem_nil, or_false, exists_eq_or_imp,
             exists_eq_left, names_base_iff, names_right1, names_right2, names_right3, true_or, or_true])

theorem GetAntexIGS_tests (E : Env W) (fopt : ftpopt_t) (dir : String) :
    TestsAndReports E ("igs14.atx") []
      (chdir E dir) (GetAntexIGS E dir fopt) := by
  intro s
  constructor
  · intro h
    try dsimp only at h
    try dsimp only
    unfold GetAntexIGS at *
    simp only []
    rw [if_neg (by rw [h]; simp)]
    simp [say, chdir, wgetCmds, List.filterMap_append]
  · unfold SaysOnly
    try dsimp only
    unfold GetAntexIGS
    simp only []
    rw [show outLines s.trace = outLines (chdir E dir s).trace from by
      simp [chdir, outLines_append, outLines_cd]]
    generalize chdir E dir s = s0
    simp only [sysCmd, say, removeFile, chdir, fileExists, cleanRepro3, cleanTopex, cleanCnt,
      List.foldl]
    split_ifs <;>
      simp only [outLines_append, outLines_sys, outLines_out, outLines_rm, outLines_cd,
        List.append_nil, List.append_assoc] <;>
      first
        | exact says0 _ _
        | (refine says1 _ _ _ ?_
           simp only [List.mem_cons, List.mem_singleton, List.not_mem_nil, or_false, exists_eq_or_imp,
             exists_eq_left, names_base_iff, names_right1, names_right2, names_right3, true_or, or_true])

theorem saysOnly_same (P : String → Prop) (s r : St W)
    (h : outLines r.trace = outLines s.trace) : SaysOnly P s r :=
  ⟨[], by rw [h, List.append_nil], fun _ hc => absurd hc (List.not_mem_nil _)⟩

theorem saysOnly_trans (P : String → Prop) (s r t : St W) (h1 : SaysOnly P s r)
    (h2 : SaysOnly P r t) : SaysOnly P s t := by
  obtain ⟨n1, e1, p1⟩ := h1
  obtain ⟨n2, e2, p2⟩ := h2
  refine ⟨n1 ++ n2, by rw [e2, e1, List.append_assoc], fun c hc => ?_⟩
  rcases List.mem_append.1 hc with h | h
  · exact p1 c h
  · exact p2 c h

theorem GetSnx_weekly_says (E : Env W) (ar : FtpArchive) (ep : EpochStr) (fopt : ftpopt_t)
    (ftpName snx0File : String) (s : St W) :
    SaysOnly (fun l => ∃ n ∈ [snx0File], names n l) s
      (GetSnx_weekly E ar ep fopt ftpName snx0File s) := by
  unfold SaysOnly GetSnx_weekly
  simp only [GetSnx_failed, sysCmd, say, fileExists]
  split_ifs <;>
    (try simp only [outLines_append, outLines_sys, outLines_out, List.append_nil,
      List.append_assoc]) <;>
    first
      | exact says0 _ _
      | (refine says1 _ _ _ ?_
         simp only [List.mem_singleton, exists_eq_left, names_base_iff])

theorem GetSnx_dailyFallback_says (E : Env W) (ar : FtpArchive) (ep : EpochStr)
    (fopt : ftpopt_t) (ftpName snx0File : String) (s : St W) :
    SaysOnly (fun l => ∃ n ∈ [snx0File], names n l) s
      (GetSnx_dailyFallback E ar ep fopt ftpName snx0File s) := by
  unfold SaysOnly GetSnx_dailyFallback
  simp only [GetSnx_failed, sysCmd, say, fileExists]
  split_ifs <;>
    (try simp only [outLines_append, outLines_sys, outLines_out, List.append_nil,
      List.append_assoc]) <;>
    first
      | exact says0 _ _
      | (refine says1 _ _ _ ?_
         simp only [List.mem_singleton, exists_eq_left, names_base_iff])

theorem GetSnx_tail_says (E : Env W) (fopt : ftpopt_t) (snx0File : String) (s : St W) :
    SaysOnly (fun l => ∃ n ∈ [snx0File], names n l) s
      (cleanRepro3 E fopt
        (if fileExists E s snx0File = true then say (GetSnx_success snx0File) s else s)) := by
  unfold SaysOnly
  simp only [GetSnx_success, cleanRepro3, sysCmd, say, fileExists]
  split_ifs <;>
    (try simp only [outLines_append, outLines_sys, outLines_out, List.append_nil,
      List.append_assoc]) <;>
    first
      | exact says0 _ _
      | (refine says1 _ _ _ ?_
         simp only [List.mem_singleton, exists_eq_left, names_base_iff])

theorem GetSnx_tests (E : Env W) (ar : FtpArchive) (ep : EpochStr) (fopt : ftpopt_t)
    (dir : String) :
    TestsAndReports E ("igs" ++ ep.sWwww ++ ".snx") []
      (chdir E dir) (GetSnx E ar ep dir fopt) := by
  intro s
  constructor
  · intro h
    unfold GetSnx
    simp only []
    rw [if_neg (by rw [h]; simp)]
    simp [say, chdir, wgetCmds, List.filterMap_append]
  · refine saysOnly_trans _ _ (chdir E dir s) _
      (saysOnly_same _ _ _ (by simp [chdir, outLines_append, outLines_cd])) ?_
    unfold GetSnx
    simp only []
    by_cases h : fileExists E (chdir E dir s) ("igs" ++ ep.sWwww ++ ".snx") = false
    · rw [if_pos h]
      exact saysOnly_trans _ _ _ _
        (GetSnx_weekly_says E ar ep fopt (ToUpper fopt.ftpFrom) _ (chdir E dir s))
        (saysOnly_trans _ _ _ _
          (GetSnx_dailyFallback_says E ar ep fopt (ToUpper fopt.ftpFrom) _ _)
          (GetSnx_tail_says E fopt _ _))
    · rw [if_neg h]
      unfold SaysOnly
      simp only [GetSnx_existed, say, outLines_append, outLines_out]
      refine says1 _ _ _ ?_
      simp only [List.mem_singleton, exists_eq_left, names_right1]

theorem GetNav_dailyNames_snd (ep : EpochStr) (f1 f2 nOpt : String) :
    (GetNav_dailyNames ep f1 nOpt).2 = (GetNav_dailyNames ep f2 nOpt).2 := by
  unfold GetNav_dailyNames
  split_ifs <;> rfl

theorem GetNav_hourlyUnit_says (E : Env W) (ar : FtpArchive) (ep : EpochStr) (fopt : ftpopt_t)
    (ftpName sHh navFile nav0File : String) (s : St W) :
    SaysOnly (fun l => names navFile l) s
      (GetNav_hourlyUnit E ar ep fopt ftpName sHh navFile nav0File s) := by
  unfold SaysOnly GetNav_hourlyUnit
  simp only []
  generalize (if ftpName = "CDDIS" then _ else _ : String × String) = uc
  simp only [GetNav_hourlyFailed, GetNav_hourlySuccess, sysCmd, say, fileExists]
  split_ifs <;>
    simp only [outLines_append, outLines_sys, outLines_out, List.append_nil,
      List.append_assoc] <;>
    (refine says1 _ _ _ ?_
     simp only [names_base_iff])

theorem GetNav_hourlyUnit_renames (E : Env W) (ar : FtpArchive) (ep : EpochStr)
    (fopt : ftpopt_t) (ftpName sHh navFile nav0File : String) (s : St W) :
    RenamesTo nav0File s (GetNav_hourlyUnit E ar ep fopt ftpName sHh navFile nav0File s) := by
  unfold RenamesTo GetNav_hourlyUnit
  simp only []
  generalize (if ftpName = "CDDIS" then _ else _ : String × String) = uc
  simp only [sysCmd, say, fileExists]
  split_ifs <;>
    simp only [sysCmds_append, List.append_assoc] <;>
    refine ⟨_, rfl, fun src dst h => ?_⟩ <;>
    simp [sysCmds] at h <;>
    exact h.2

/-! ## C21: the canonical local name does not depend on the archive or on the disk -/

/-- C21. For every tool behaviour `E`, registry, epoch, option set and archive name
`ftpName` (and every URL pair `uc`), each retrieval unit tests and reports one file whose
name is built from the category, the epoch strings, the site, the hour and the product
option alone: when that file exists the unit issues no transfer command, and every line
the unit writes to `cout`, in any state, names that file. The name expressions below take
neither the archive name nor the state. For the daily broadcast ephemeris the remote name
depends on the archive (`BRDC00IGN...` against `BRDC00IGS...`) and the canonical name does
not. `GetDcbCode` names the remote file in its failure line and the canonical file in the
other lines. The hourly mode of `GetNav` has no test before the transfer: its lines name
the remote file and every rename it issues has the local name as destination. -/
theorem C21_canonical_name_independent (E : Env W) (ar : FtpArchive) (ep : EpochStr)
    (fopt : ftpopt_t) (ftpName ftpName2 site : String) (hh : Nat)
    (minu nOpt ac dir dType kind ext eopFile sHh navFile nav0File : String)
    (uc : String × String) :
    TestsAndReports E (GetDailyObsIgs_oFile ep site) [] (fun s => s)
      (GetDailyObsIgs_unit E ar ep fopt ftpName site) ∧
    TestsAndReports E (GetHourlyObsIgs_oFile ep hh site) [] (fun s => s)
      (fun s => (GetHourlyObsIgs_unit E ar ep fopt ftpName hh site s).2) ∧
    TestsAndReports E (GetHrObsIgs_oFile ep hh minu site) [] (fun s => s)
      (fun s => (GetHrObsIgs_unit E ar ep fopt ftpName hh minu site s).2) ∧
    TestsAndReports E (ToLower site ++ ep.sDoy ++ "0." ++ ep.sYy ++ "o") [] (fun s => s)
      (fun s => (GetDailyObsMgex_unit E ar ep fopt ftpName site s).2) ∧
    TestsAndReports E (ToLower site ++ ep.sDoy ++ hourLetter hh ++ "." ++ ep.sYy ++ "o") []
      (fun s => s) (fun s => (GetHourlyObsMgex_unit E ar ep fopt ftpName hh site s).2) ∧
    TestsAndReports E (ToLower site ++ ep.sDoy ++ hourLetter hh ++ minu ++ "." ++ ep.sYy ++ "o") []
      (fun s => s) (fun s => (GetHrObsMgex_unit E ar ep fopt ftpName hh minu site s).2) ∧
    (GetNav_dailyNames ep ftpName nOpt).2 = (GetNav_dailyNames ep ftpName2 nOpt).2 ∧
    GetNav_dailyNames ep2021_045 "IGN" "mixed" =
      ("BRDC00IGN_R_20210450000_01D_MN.rnx", "brdm0450.21p") ∧
    GetNav_dailyNames ep2021_045 "CDDIS" "mixed" =
      ("BRDC00IGS_R_20210450000_01D_MN.rnx", "brdm0450.21p") ∧
    TestsAndReports E (GetNav_dailyNames ep ftpName2 nOpt).2 [] (fun s => s)
      (GetNav_dailyFetch E ar ep fopt ftpName nOpt (GetNav_dailyNames ep ftpName nOpt).1
        (GetNav_dailyNames ep ftpName nOpt).2) ∧
    (∀ s : St W,
      SaysOnly (fun l => names navFile l) s
        (GetNav_hourlyUnit E ar ep fopt ftpName sHh navFile nav0File s) ∧
      RenamesTo nav0File s (GetNav_hourlyUnit E ar ep fopt ftpName sHh navFile nav0File s)) ∧
    TestsAndReports E (ac ++ ep.sWwww ++ ep.sDow ++ "_" ++ hh2str hh ++ ".sp3") [] (fun s => s)
      (GetOrbClk_iguUnit E ep fopt ac uc hh) ∧
    TestsAndReports E (ac ++ ep.sWwww ++ ep.sDow ++ "_" ++ hh2str hh ++ ".sp3") [] (fun s => s)
      (GetOrbClk_gfuUnit E ep fopt ac uc hh) ∧
    TestsAndReports E (GetOrbClk_igsNames ep ac).1 [] (fun s => s)
      (GetOrbClk_igsSp3 E fopt uc (GetOrbClk_igsNames ep ac).1) ∧
    TestsAndReports E (GetOrbClk_igsNames ep ac).2 [] (fun s => s)
      (GetOrbClk_igsClk E fopt uc (GetOrbClk_igsNames ep ac).2) ∧
    TestsAndReports E ("WUM0MGXULA_" ++ ep.sYyyy ++ ep.sDoy ++ hh2str hh ++ "00_01D_05M_ORB.SP3") []
      (fun s => s) (GetOrbClk_wuuUnit E ep fopt uc hh) ∧
    TestsAndReports E (GetOrbClk_mgexNames ep ac).sp30File [] (fun s => s)
      (GetOrbClk_mgexSp3 E fopt uc (GetOrbClk_mgexNames ep ac).sp3File
        (GetOrbClk_mgexNames ep ac).sp30File) ∧
    TestsAndReports E (GetOrbClk_mgexNames ep ac).clk0File [] (fun s => s)
      (GetOrbClk_mgexClk E fopt uc (GetOrbClk_mgexNames ep ac).clkFile
        (GetOrbClk_mgexNames ep ac).clk0File) ∧
    TestsAndReports E (ac ++ ep.sWwww ++ ep.sDow ++ "_" ++ hh2str hh ++ ".erp") [] (fun s => s)
      (GetEop_iguUnit E ar ep fopt ftpName ac hh) ∧
    TestsAndReports E (ac ++ ep.sWwww ++ ep.sDow ++ "_" ++ hh2str hh ++ ".erp") [] (fun s => s)
      (GetEop_gfuUnit E ep fopt ac uc hh) ∧
    TestsAndReports E eopFile [] (fun s => s) (GetEop_igsFetch E ar ep fopt ftpName eopFile) ∧
    TestsAndReports E ("igs" ++ ep.sWwww ++ ".snx") [] (chdir E dir) (GetSnx E ar ep dir fopt) ∧
    TestsAndReports E ("CAS0MGXRAP_" ++ ep.sYyyy ++ ep.sDoy ++ "0000_01D_01D_DCB.BSX") []
      (chdir E dir) (GetDcbMgex E ar ep dir fopt) ∧
    TestsAndReports E (GetDcbCode_names ep (ToUpper dType)).2
      [(GetDcbCode_names ep (ToUpper dType)).1] (chdir E dir) (GetDcbCode E ep dir dType fopt) ∧
    TestsAndReports E (ToLower fopt.ionOpt ++ "g" ++ ep.sDoy ++ "0." ++ ep.sYy ++ "i") []
      (chdir E dir) (GetIono E ar ep dir fopt) ∧
    TestsAndReports E ("roti" ++ ep.sDoy ++ "0." ++ ep.sYy ++ "f") [] (chdir E dir)
      (GetRoti E ar ep dir fopt) ∧
    TestsAndReports E (ToLower site ++ ep.sDoy ++ "0." ++ ep.sYy ++ "zpd") [] (fun s => s)
      (GetTrop_unit E ar ep fopt ftpName site) ∧
    TestsAndReports E ("COD" ++ ep.sWwww ++ ep.sDow ++ ".TRO") [] (fun s => s)
      (GetTrop_cod E ep fopt) ∧
    TestsAndReports E ("cnt" ++ ep.sWwww ++ ep.sDow ++ ext) [] (fun s => s)
      (GetRtOrbClkCNT_fetch E ep fopt kind ext) ∧
    TestsAndReports E ("cnt" ++ ep.sWwww ++ ep.sDow ++ ".bia") [] (chdir E dir)
      (GetRtBiasCNT E ep dir fopt) ∧
    TestsAndReports E "igs14.atx" [] (chdir E dir) (GetAntexIGS E dir fopt) := by
  refine ⟨GetDailyObsIgs_unit_tests E ar ep fopt ftpName site,
    GetHourlyObsIgs_unit_tests E ar ep fopt ftpName hh site,
    GetHrObsIgs_unit_tests E ar ep fopt ftpName hh minu site,
    GetDailyObsMgex_unit_tests E ar ep fopt ftpName site,
    GetHourlyObsMgex_unit_tests E ar ep fopt ftpName hh site,
    GetHrObsMgex_unit_tests E ar ep fopt ftpName hh minu site,
    GetNav_dailyNames_snd ep ftpName ftpName2 nOpt, by decide, by decide, ?_,
    fun s => ⟨GetNav_hourlyUnit_says E ar ep fopt ftpName sHh navFile nav0File s,
      GetNav_hourlyUnit_renames E ar ep fopt ftpName sHh navFile nav0File s⟩,
    GetOrbClk_iguUnit_tests E ep fopt ac uc hh, GetOrbClk_gfuUnit_tests E ep fopt ac uc hh,
    GetOrbClk_igsSp3_tests E fopt uc _, GetOrbClk_igsClk_tests E fopt uc _,
    GetOrbClk_wuuUnit_tests E ep fopt uc hh, GetOrbClk_mgexSp3_tests E fopt uc _ _,
    GetOrbClk_mgexClk_tests E fopt uc _ _, GetEop_iguUnit_tests E ar ep fopt ftpName ac hh,
    GetEop_gfuUnit_tests E ep fopt ac uc hh, GetEop_igsFetch_tests E ar ep fopt ftpName eopFile,
    GetSnx_tests E ar ep fopt dir, GetDcbMgex_tests E ar ep fopt dir,
    GetDcbCode_tests E ep fopt dir dType, GetIono_tests E ar ep fopt dir,
    GetRoti_tests E ar ep fopt dir, GetTrop_unit_tests E ar ep fopt ftpName site,
    GetTrop_cod_tests E ep fopt, GetRtOrbClkCNT_fetch_tests E ep fopt kind ext,
    GetRtBiasCNT_tests E ep fopt dir, GetAntexIGS_tests E fopt dir⟩
  rw [← GetNav_dailyNames_snd ep ftpName ftpName2 nOpt]
  exact GetNav_dailyFetch_tests E ar ep fopt ftpName nOpt _ _

end GOOD
